import Mathlib

/-!
State rebuilder of the Vulkan API (`gapis/api/vulkan/state_rebuilder.go`)

A shallow embedding of the parts of the state rebuilder that the verified
properties talk about, followed by the theorems.

Conventions of the embedding

* Go's `uint64` (`VkDeviceSize`, handles) is `Nat`; where the source adds two
  `uint64` values the embedding reduces the sum modulo `2 ^ 64`.
* A generated ordered map (`Keys()` ascending, `Get(k)`) is a list of
  key/value pairs kept in ascending key order.
-/

namespace Vulkan

/-- Number of values of a Go `uint64`. -/
def U64 : Nat := 2 ^ 64

/-! ## Sparse memory bindings and `IsFullyBound` -/

/-- The record `VkSparseMemoryBind`. -/
structure VkSparseMemoryBind where
  ResourceOffset : Nat
  Size : Nat
  Memory : Nat
  MemoryOffset : Nat
  Flags : Nat
deriving DecidableEq, Repr, Inhabited

/-- The ordered map `U64ːVkSparseMemoryBindᵐ` (resource offset to binding),
entries in ascending key order. -/
abbrev SparseBindMap := List (Nat × VkSparseMemoryBind)

namespace SparseBindMap

/-- The method `Keys()`: the keys in ascending order. -/
def Keys (m : SparseBindMap) : List Nat := m.map Prod.fst

/-- The method `Get(k)`: the binding stored under `k` (the zero record when
the key is absent). -/
def Get (m : SparseBindMap) (k : Nat) : VkSparseMemoryBind :=
  match m.find? (fun e => e.1 == k) with
  | some e => e.2
  | none => default

/-- Well-formed map: keys strictly ascending (hence unique). -/
def WF (m : SparseBindMap) : Prop := (Keys m).Pairwise (· < ·)

instance (m : SparseBindMap) : Decidable (WF m) := by
  unfold WF; infer_instance

end SparseBindMap

open SparseBindMap

/-- First loop of `IsFullyBound`: the index of the first resource offset
that is greater than `limit`, counting from `i`; `none` is the source's
`-1`. -/
def findOneAfterReqRange (limit : Nat) : List Nat → Nat → Option Nat
  | [], _ => none
  | k :: ks, i => if k > limit then some i else findOneAfterReqRange limit ks (i + 1)

/-- Second loop of `IsFullyBound` (`for i > 0 && end > offset`), started at
index `i` with the current `end`. `none` is the `return false` inside the
loop, `some (i, end)` the values on leaving the loop. -/
def coverLoop (bindings : SparseBindMap) (offset : Nat) : Nat → Nat → Option (Nat × Nat)
  | 0, e => some (0, e)
  | i + 1, e =>
    if e > offset then
      let resOffset := (Keys bindings).getD (i + 1) 0
      if (resOffset + (Get bindings resOffset).Size) % U64 ≥ e then
        coverLoop bindings offset i resOffset
      else none
    else some (i + 1, e)

/-- The function `IsFullyBound(offset, size, bindings)`. -/
def IsFullyBound (offset size : Nat) (bindings : SparseBindMap) : Bool :=
  let resourceOffsets := Keys bindings
  match findOneAfterReqRange ((offset + size) % U64) resourceOffsets 0 with
  | none => false
  | some 0 => false
  | some (oneAfter + 1) =>
    match coverLoop bindings offset oneAfter ((offset + size) % U64) with
    | none => false
    | some (i, e) =>
      if e ≤ offset then true
      else if i = 0 then
        let resOffset := resourceOffsets.getD 0 0
        decide (resOffset ≤ offset ∧
          (resOffset + (Get bindings resOffset).Size) % U64 ≥ e)
      else false

/-- Address `a` lies in the range `[k, k + size)` of some binding of the map. -/
def InSomeBinding (bindings : SparseBindMap) (a : Nat) : Prop :=
  ∃ e ∈ bindings, e.1 ≤ a ∧ a < e.1 + e.2.Size

/-- The half-open range `[offset, offset + size)` is covered by the union of
the binding ranges. -/
def Covered (offset size : Nat) (bindings : SparseBindMap) : Prop :=
  ∀ a, offset ≤ a → a < offset + size → InSomeBinding bindings a

/-- No end of a binding range exceeds the 64-bit range. -/
def NoOverflow (bindings : SparseBindMap) : Prop :=
  ∀ e ∈ bindings, e.1 + e.2.Size < U64

/-- Every binding has a positive size. -/
def PositiveSizes (bindings : SparseBindMap) : Prop :=
  ∀ e ∈ bindings, 0 < e.2.Size

instance (bindings : SparseBindMap) : Decidable (NoOverflow bindings) := by
  unfold NoOverflow; infer_instance

instance (bindings : SparseBindMap) : Decidable (PositiveSizes bindings) := by
  unfold PositiveSizes; infer_instance

/-- The binding ranges are pairwise disjoint: an address that lies in the
ranges of two entries lies in one and the same entry. -/
def DisjointRanges (bindings : SparseBindMap) : Prop :=
  ∀ e₁ ∈ bindings, ∀ e₂ ∈ bindings, ∀ a,
    e₁.1 ≤ a → a < e₁.1 + e₁.2.Size → e₂.1 ≤ a → a < e₂.1 + e₂.2.Size → e₁.1 = e₂.1

/-- A binding of `size` bytes at resource offset `k`. -/
def bind (k size : Nat) : Nat × VkSparseMemoryBind :=
  (k, { ResourceOffset := k, Size := size, Memory := 1, MemoryOffset := 0, Flags := 0 })

/-! ## Snapshot objects

The records of the snapshot (`*State`) that the embedded builders read. A
generated map from handles to objects is the list of its objects in key
order, the key of an object being its `VulkanHandle`; a generated map from
indices to values is the list of its values in key order. -/

/-- The record `ShaderModuleObject`. -/
structure ShaderModuleObject where
  VulkanHandle : Nat
  Device : Nat
  Words : List Nat
deriving DecidableEq, Repr, Inhabited

/-- One entry of `DescriptorSetLayoutObject.Bindings()`. -/
structure DescriptorSetLayoutBinding where
  Typ : Nat
  Count : Nat
  Stages : Nat
  /-- Handles of the immutable samplers, in key order. -/
  ImmutableSamplers : List Nat
deriving DecidableEq, Repr, Inhabited

/-- The record `DescriptorSetLayoutObject`; `Bindings` pairs each binding
number with its binding, in key order. -/
structure DescriptorSetLayoutObject where
  VulkanHandle : Nat
  Device : Nat
  Bindings : List (Nat × DescriptorSetLayoutBinding)
deriving DecidableEq, Repr, Inhabited

/-- The record `PipelineLayoutObject`; `SetLayouts` holds the handles of the
descriptor-set layouts in key order, `PushConstantRanges` the rows of the
push-constant ranges. -/
structure PipelineLayoutObject where
  VulkanHandle : Nat
  Device : Nat
  SetLayouts : List Nat
  PushConstantRanges : List (List Nat)
deriving DecidableEq, Repr, Inhabited

/-- One entry of `RenderPassObject.SubpassDescriptions()`. -/
structure SubpassDescription where
  Flags : Nat
  PipelineBindPoint : Nat
  InputAttachments : List (List Nat)
  ColorAttachments : List (List Nat)
  ResolveAttachments : List (List Nat)
  DepthStencilAttachment : Option (List Nat)
  PreserveAttachments : List Nat
deriving DecidableEq, Repr, Inhabited

/-- The record `RenderPassObject`. -/
structure RenderPassObject where
  VulkanHandle : Nat
  Device : Nat
  AttachmentDescriptions : List (List Nat)
  SubpassDescriptions : List SubpassDescription
  SubpassDependencies : List (List Nat)
deriving DecidableEq, Repr, Inhabited

/-- The record `SpecializationInfo` of a shader stage. -/
structure SpecializationInfo where
  Specializations : List (List Nat)
  Data : List Nat
deriving DecidableEq, Repr, Inhabited

/-- The record `StageData`: one shader stage of a pipeline. -/
structure StageData where
  Stage : Nat
  Module : ShaderModuleObject
  EntryPoint : String
  Specialization : Option SpecializationInfo
deriving DecidableEq, Repr, Inhabited

/-- The record `ComputePipelineObject`. `PipelineCache` is `none` for a nil
cache reference and the handle of the cache otherwise. -/
structure ComputePipelineObject where
  VulkanHandle : Nat
  Device : Nat
  Flags : Nat
  PipelineCache : Option Nat
  BasePipeline : Nat
  Stage : StageData
  PipelineLayout : PipelineLayoutObject
deriving DecidableEq, Repr, Inhabited

/-- Viewport state of a graphics pipeline. -/
structure ViewportStateData where
  ViewportCount : Nat
  Viewports : List (List Nat)
  ScissorCount : Nat
  Scissors : List (List Nat)
deriving DecidableEq, Repr, Inhabited

/-- Multisample state of a graphics pipeline; `Fields` are the scalar fields
in declaration order. -/
structure MultisampleStateData where
  RasterizationSamples : Nat
  SampleShadingEnable : Nat
  MinSampleShading : Nat
  SampleMask : List Nat
  AlphaToCoverageEnable : Nat
  AlphaToOneEnable : Nat
deriving DecidableEq, Repr, Inhabited

/-- Colour-blend state of a graphics pipeline. -/
structure ColorBlendStateData where
  LogicOpEnable : Nat
  LogicOp : Nat
  Attachments : List (List Nat)
  BlendConstants : List Nat
deriving DecidableEq, Repr, Inhabited

/-- Vertex-input state of a graphics pipeline. -/
structure VertexInputStateData where
  BindingDescriptions : List (List Nat)
  AttributeDescriptions : List (List Nat)
deriving DecidableEq, Repr, Inhabited

/-- The record `GraphicsPipelineObject`. State blocks without sub-arrays
(`InputAssemblyState`, `RasterizationState`, `DepthState`) are the lists of
their scalar fields in declaration order; an optional block is `none` when
its reference is nil. -/
structure GraphicsPipelineObject where
  VulkanHandle : Nat
  Device : Nat
  Flags : Nat
  PipelineCache : Option Nat
  BasePipeline : Nat
  Stages : List StageData
  Layout : PipelineLayoutObject
  RenderPass : RenderPassObject
  Subpass : Nat
  VertexInputState : VertexInputStateData
  InputAssemblyState : List Nat
  TessellationState : Option Nat
  ViewportState : Option ViewportStateData
  RasterizationState : List Nat
  MultisampleState : Option MultisampleStateData
  DepthState : Option (List Nat)
  ColorBlendState : Option ColorBlendStateData
  DynamicState : Option (List Nat)
deriving DecidableEq, Repr, Inhabited

/-- The record `InstanceObject`; layer and extension names in key order. -/
structure InstanceObject where
  VulkanHandle : Nat
  EnabledLayers : List String := []
  EnabledExtensions : List String := []
deriving DecidableEq, Repr, Inhabited

/-- The record `VkMemoryType`. -/
structure VkMemoryType where
  PropertyFlags : Nat
  HeapIndex : Nat
deriving DecidableEq, Repr, Inhabited

/-- The record `VkPhysicalDeviceMemoryProperties`. `MemoryTypes` is the
array of memory types; `Get(i)` of that array is the entry at index `i` (the
zero record past the end of the list). `MemoryHeaps` holds the rows of the
heaps. -/
structure VkPhysicalDeviceMemoryProperties where
  MemoryTypeCount : Nat
  MemoryTypes : List VkMemoryType
  MemoryHeapCount : Nat := 0
  MemoryHeaps : List (List Nat) := []
deriving DecidableEq, Repr, Inhabited

/-- The record `VkQueueFamilyProperties`. -/
structure VkQueueFamilyProperties where
  QueueFlags : Nat
  QueueCount : Nat := 1
  TimestampValidBits : Nat := 0
  MinImageTransferGranularity : List Nat := [1, 1, 1]
deriving DecidableEq, Repr, Inhabited

/-- The record `PhysicalDeviceObject`; `QueueFamilyProperties` pairs each
queue family index with its properties, in key order. -/
structure PhysicalDeviceObject where
  VulkanHandle : Nat
  Instance : Nat
  PhysicalDeviceProperties : List Nat := []
  MemoryProperties : VkPhysicalDeviceMemoryProperties := { MemoryTypeCount := 0, MemoryTypes := [] }
  QueueFamilyProperties : List (Nat × VkQueueFamilyProperties) := []
deriving DecidableEq, Repr, Inhabited

/-- The enumeration `SurfaceType`. -/
inductive SurfaceType
  | SURFACE_TYPE_UNKNOWN | SURFACE_TYPE_XCB | SURFACE_TYPE_ANDROID | SURFACE_TYPE_WIN32
  | SURFACE_TYPE_WAYLAND | SURFACE_TYPE_XLIB | SURFACE_TYPE_MIR
deriving DecidableEq, Repr, Inhabited

/-- The record `SurfaceObject`. -/
structure SurfaceObject where
  VulkanHandle : Nat
  Instance : Nat
  Typ : SurfaceType
deriving DecidableEq, Repr, Inhabited

/-- The record `QueueInfo`: one queue requested at the creation of a device.
`Priority` is the bit pattern of the `float32` priority. -/
structure QueueInfo where
  QueueFamilyIndex : Nat
  QueueIndex : Nat
  Priority : Nat
deriving DecidableEq, Repr, Inhabited

/-- The record `DeviceObject`; `Queues` holds the values of the map of queue
infos in key order. -/
structure DeviceObject where
  VulkanHandle : Nat
  PhysicalDevice : Nat
  EnabledLayers : List String := []
  EnabledExtensions : List String := []
  EnabledFeatures : List Nat := []
  Queues : List QueueInfo := []
deriving DecidableEq, Repr, Inhabited

/-- The record `QueueObject`. -/
structure QueueObject where
  VulkanHandle : Nat
  Device : Nat
  Family : Nat
  Index : Nat
deriving DecidableEq, Repr, Inhabited

/-- The record `VkMemoryRequirements`. -/
structure VkMemoryRequirements where
  Size : Nat := 0
  Alignment : Nat := 0
  MemoryTypeBits : Nat := 0
deriving DecidableEq, Repr, Inhabited

/-- The record `DeviceMemoryObject`. `DedicatedAllocationNV` is `none` for a
nil reference and the pair `(Image, Buffer)` otherwise; `MappedLocation` is
the address of the mapping (`0`: not mapped); `Data` holds the bytes of the
memory. -/
structure DeviceMemoryObject where
  VulkanHandle : Nat
  Device : Nat
  AllocationSize : Nat := 0
  MemoryTypeIndex : Nat := 0
  DedicatedAllocationNV : Option (Nat × Nat) := none
  MappedLocation : Nat := 0
  MappedOffset : Nat := 0
  MappedSize : Nat := 0
  Data : List Nat := []
deriving DecidableEq, Repr, Inhabited

/-- The record `BufferInfo`; `QueueFamilyIndices` holds the values of the
map in key order, `DedicatedAllocationNV` is `none` for a nil reference and
the flag `DedicatedAllocation` otherwise. -/
structure BufferInfo where
  CreateFlags : Nat := 0
  Size : Nat := 0
  Usage : Nat := 0
  SharingMode : Nat := 0
  QueueFamilyIndices : List Nat := []
  DedicatedAllocationNV : Option Nat := none
deriving DecidableEq, Repr, Inhabited

/-- The record `BufferObject`. -/
structure BufferObject where
  VulkanHandle : Nat
  Device : Nat
  Info : BufferInfo := {}
  MemoryRequirements : VkMemoryRequirements := {}
  Memory : Option DeviceMemoryObject := none
  MemoryOffset : Nat := 0
  SparseMemoryBindings : SparseBindMap := []
  LastBoundQueue : Option QueueObject := none
deriving DecidableEq, Repr, Inhabited

/-- The record `ImageInfo`; `Extent` is the list of width, height and depth,
`DedicatedAllocationNV` as in `BufferInfo`. -/
structure ImageInfo where
  Flags : Nat := 0
  ImageType : Nat := 1
  Fmt : Nat := 37
  Extent : List Nat := [1, 1, 1]
  MipLevels : Nat := 1
  ArrayLayers : Nat := 1
  Samples : Nat := 1
  Tiling : Nat := 0
  Usage : Nat := 0
  SharingMode : Nat := 0
  QueueFamilyIndices : List Nat := []
  Layout : Nat := 0
  DedicatedAllocationNV : Option Nat := none
deriving DecidableEq, Repr, Inhabited

/-- The record `SparseBoundImageBlockInfo`: one block of the sparse image
bindings. -/
structure SparseBoundImageBlockInfo where
  Offset : List Nat
  Extent : List Nat
  Memory : Nat
  MemoryOffset : Nat
  Flags : Nat
deriving DecidableEq, Repr, Inhabited

/-- The record `SparseBoundImageLevelInfo`: the blocks bound in one mip
level, in key order. -/
structure SparseBoundImageLevelInfo where
  Blocks : List SparseBoundImageBlockInfo
deriving DecidableEq, Repr, Inhabited

/-- The record `SparseBoundImageLayerInfo`: the levels of one array layer,
each paired with its level number, in key order. -/
structure SparseBoundImageLayerInfo where
  Levels : List (Nat × SparseBoundImageLevelInfo)
deriving DecidableEq, Repr, Inhabited

/-- The record `SparseBoundImageAspectInfo`: the layers of one aspect, each
paired with its layer number, in key order. -/
structure SparseBoundImageAspectInfo where
  Layers : List (Nat × SparseBoundImageLayerInfo)
deriving DecidableEq, Repr, Inhabited

/-- The record `VkSparseImageMemoryRequirements`; `AspectMask` and `Flags`
are the fields of its `FormatProperties`. -/
structure VkSparseImageMemoryRequirements where
  AspectMask : Nat
  Flags : Nat
  ImageMipTailFirstLod : Nat
  ImageMipTailSize : Nat
  ImageMipTailOffset : Nat
  ImageMipTailStride : Nat
deriving DecidableEq, Repr, Inhabited

/-- The record `ImageObject`. `SparseImageMemoryBindings` pairs each aspect
with the bindings of that aspect, in key order; `SparseMemoryRequirements`
holds the values of its map in key order. -/
structure ImageObject where
  VulkanHandle : Nat
  Device : Nat
  IsSwapchainImage : Bool := false
  Info : ImageInfo := {}
  ImageAspect : Nat := 1
  MemoryRequirements : VkMemoryRequirements := {}
  BoundMemory : Option DeviceMemoryObject := none
  BoundMemoryOffset : Nat := 0
  SparseImageMemoryBindings : List (Nat × SparseBoundImageAspectInfo) := []
  OpaqueSparseMemoryBindings : SparseBindMap := []
  SparseMemoryRequirements : List VkSparseImageMemoryRequirements := []
  LastBoundQueue : Option QueueObject := none
deriving DecidableEq, Repr, Inhabited

/-- The record `SwapchainObject`; `Info` is the image info of the swapchain
images, `SwapchainImages` holds the images in key order. -/
structure SwapchainObject where
  VulkanHandle : Nat
  Device : Nat
  Surface : Nat
  Info : ImageInfo := {}
  ColorSpace : Nat := 0
  PreTransform : Nat := 1
  CompositeAlpha : Nat := 1
  PresentMode : Nat := 2
  Clipped : Nat := 0
  SwapchainImages : List ImageObject := []
deriving DecidableEq, Repr, Inhabited

/-- The record `SamplerObject`; `Fields` are the fields from `MagFilter` to
`UnnormalizedCoordinates` in declaration order. -/
structure SamplerObject where
  VulkanHandle : Nat
  Device : Nat
  Fields : List Nat := []
deriving DecidableEq, Repr, Inhabited

/-- The record `FenceObject`. -/
structure FenceObject where
  VulkanHandle : Nat
  Device : Nat
  Signaled : Bool := false
deriving DecidableEq, Repr, Inhabited

/-- The record `SemaphoreObject`. -/
structure SemaphoreObject where
  VulkanHandle : Nat
  Device : Nat
  Signaled : Bool := false
  LastQueue : Nat := 0
deriving DecidableEq, Repr, Inhabited

/-- The record `EventObject`. -/
structure EventObject where
  VulkanHandle : Nat
  Device : Nat
  Signaled : Bool := false
deriving DecidableEq, Repr, Inhabited

/-- The record `CommandPoolObject`. -/
structure CommandPoolObject where
  VulkanHandle : Nat
  Device : Nat
  Flags : Nat := 0
  QueueFamilyIndex : Nat := 0
deriving DecidableEq, Repr, Inhabited

/-- The record `PipelineCacheObject`. -/
structure PipelineCacheObject where
  VulkanHandle : Nat
  Device : Nat
deriving DecidableEq, Repr, Inhabited

/-- The record `ImageViewObject`. -/
structure ImageViewObject where
  VulkanHandle : Nat
  Device : Nat
  Image : ImageObject
  Typ : Nat
  Fmt : Nat
  Components : List Nat
  SubresourceRange : List Nat
deriving DecidableEq, Repr, Inhabited

/-- The record `FramebufferObject`; `ImageAttachments` holds the attached
image views in key order. -/
structure FramebufferObject where
  VulkanHandle : Nat
  Device : Nat
  RenderPass : RenderPassObject
  ImageAttachments : List ImageViewObject
  Width : Nat
  Height : Nat
  Layers : Nat
deriving DecidableEq, Repr, Inhabited

/-- The record `BufferViewObject`. -/
structure BufferViewObject where
  VulkanHandle : Nat
  Device : Nat
  Buffer : BufferObject
  Fmt : Nat := 0
  Offset : Nat := 0
  Range : Nat := 0
deriving DecidableEq, Repr, Inhabited

/-- The record `DescriptorPoolObject`; `Sizes` holds the rows of the pool
sizes in key order. -/
structure DescriptorPoolObject where
  VulkanHandle : Nat
  Device : Nat
  Flags : Nat := 0
  MaxSets : Nat := 0
  Sizes : List (List Nat) := []
deriving DecidableEq, Repr, Inhabited

/-- The record `VkDescriptorImageInfo`. -/
structure VkDescriptorImageInfo where
  Sampler : Nat
  ImageView : Nat
  ImageLayout : Nat := 0
deriving DecidableEq, Repr, Inhabited

/-- The record `VkDescriptorBufferInfo`. -/
structure VkDescriptorBufferInfo where
  Buffer : Nat
  Offset : Nat := 0
  Range : Nat := 0
deriving DecidableEq, Repr, Inhabited

/-- The record `DescriptorBinding`: one binding of a descriptor set. The
three maps are keyed by the array elements `0, 1, ...` and held as the lists
of their values. -/
structure DescriptorBinding where
  BindingType : Nat
  ImageBinding : List VkDescriptorImageInfo := []
  BufferBinding : List VkDescriptorBufferInfo := []
  BufferViewBindings : List Nat := []
deriving DecidableEq, Repr, Inhabited

/-- The record `DescriptorSetObject`; `Layout` is the handle of its layout,
`Bindings` pairs each binding number with its binding, in key order. -/
structure DescriptorSetObject where
  VulkanHandle : Nat
  Device : Nat
  DescriptorPool : Nat
  Layout : Nat
  Bindings : List (Nat × DescriptorBinding) := []
deriving DecidableEq, Repr, Inhabited

/-- The record `QueryPoolObject`; `Status` holds the status of the queries
`0, 1, ...` (`0` is `QUERY_STATUS_INACTIVE`, `1` is `QUERY_STATUS_ACTIVE`, `2`
is `QUERY_STATUS_COMPLETE`). -/
structure QueryPoolObject where
  VulkanHandle : Nat
  Device : Nat
  QueryType : Nat := 0
  QueryCount : Nat := 0
  PipelineStatistics : Nat := 0
  Status : List Nat := []
deriving DecidableEq, Repr, Inhabited

/-- The enumeration `RecordingState`. -/
inductive RecordingState
  | NOT_STARTED | RECORDING | COMPLETED | TO_BE_RESET
deriving DecidableEq, Repr, Inhabited

/-- The record `CommandBufferBeginInfo` of a command buffer. -/
structure CommandBufferBeginInfo where
  Flags : Nat := 0
  Inherited : Bool := false
  InheritedRenderPass : Nat := 0
  InheritedSubpass : Nat := 0
  InheritedFramebuffer : Nat := 0
  InheritedOcclusionQuery : Nat := 0
  InheritedQueryFlags : Nat := 0
  InheritedPipelineStatsFlags : Nat := 0
deriving DecidableEq, Repr, Inhabited

/-- The record `CommandReference`: a command recorded in a command buffer. -/
structure CommandReference where
  Buffer : Nat
  MapIndex : Nat
  Typ : Nat
deriving DecidableEq, Repr, Inhabited

/-- The record `CommandBufferObject`; `Level` is `0` for a primary and `1`
for a secondary command buffer, `CommandReferences` holds the recorded
commands `0, 1, ...`. -/
structure CommandBufferObject where
  VulkanHandle : Nat
  Device : Nat
  Pool : Nat
  Level : Nat := 0
  Recording : RecordingState := .NOT_STARTED
  BeginInfo : CommandBufferBeginInfo := {}
  CommandReferences : List CommandReference := []
deriving DecidableEq, Repr, Inhabited

/-- The snapshot `*State`. Each field is the generated map of that kind,
objects in key order; `TransferBufferMemoryRequirements` pairs a device
handle with the memory requirements recorded for it. -/
structure State where
  Instances : List InstanceObject := []
  PhysicalDevices : List PhysicalDeviceObject := []
  Surfaces : List SurfaceObject := []
  Devices : List DeviceObject := []
  Queues : List QueueObject := []
  Swapchains : List SwapchainObject := []
  DeviceMemories : List DeviceMemoryObject := []
  Buffers : List BufferObject := []
  Images : List ImageObject := []
  Samplers : List SamplerObject := []
  Fences : List FenceObject := []
  Semaphores : List SemaphoreObject := []
  Events : List EventObject := []
  CommandPools : List CommandPoolObject := []
  PipelineCaches : List PipelineCacheObject := []
  DescriptorSetLayouts : List DescriptorSetLayoutObject := []
  PipelineLayouts : List PipelineLayoutObject := []
  RenderPasses : List RenderPassObject := []
  ShaderModules : List ShaderModuleObject := []
  ComputePipelines : List ComputePipelineObject := []
  GraphicsPipelines : List GraphicsPipelineObject := []
  ImageViews : List ImageViewObject := []
  BufferViews : List BufferViewObject := []
  DescriptorPools : List DescriptorPoolObject := []
  Framebuffers : List FramebufferObject := []
  DescriptorSets : List DescriptorSetObject := []
  QueryPools : List QueryPoolObject := []
  CommandBuffers : List CommandBufferObject := []
  TransferBufferMemoryRequirements : List (Nat × VkMemoryRequirements) := []
deriving Repr, Inhabited

/-! ## `getPipelinesInOrder` -/

/-- Iteration order of Go's `range` over a map: the entries of the map as the
`n`-th executed `range` statement visits them. Go leaves this order
unspecified; a valid order is a permutation of the entries. -/
abbrev MapOrder := Nat → List (Nat × Nat) → List (Nat × Nat)

/-- Every `range` visits each entry of the map exactly once. -/
def MapOrder.Valid (order : MapOrder) : Prop := ∀ n l, (order n l).Perm l

/-- The order that visits the entries as they are stored. -/
def storedOrder : MapOrder := fun _ l => l

/-- The order that visits the entries in reverse. -/
def reversedOrder : MapOrder := fun _ l => l.reverse

/-- Go's `m[k] = v` on a `map[VkPipeline]VkPipeline` held as a list of
entries with distinct keys. -/
def goMapSet (m : List (Nat × Nat)) (k v : Nat) : List (Nat × Nat) :=
  if m.any (fun e => e.1 == k) then m.map (fun e => if e.1 == k then (k, v) else e)
  else m ++ [(k, v)]

/-- Local variables of `getPipelinesInOrder`. -/
structure PipelineOrder where
  pipelines : List Nat
  unhandledPipelines : List (Nat × Nat)
  handledPipelines : List Nat
  numHandled : Nat
deriving DecidableEq, Repr

/-- Body of the inner loop `for k, v := range unhandledPipelines`. -/
def handlePipeline (st : PipelineOrder) (kv : Nat × Nat) : PipelineOrder :=
  let k := kv.1
  let v := kv.2
  let r : List Nat × Bool :=
    if v = 0 then (st.pipelines ++ [k], true)
    else if st.handledPipelines.contains v then (st.pipelines ++ [k], true)
    else (st.pipelines, false)
  if r.2 then
    { pipelines := r.1
      unhandledPipelines := st.unhandledPipelines.filter (fun e => e.1 != k)
      handledPipelines := k :: st.handledPipelines
      numHandled := st.numHandled + 1 }
  else { st with pipelines := r.1 }

/-- The outer loop `for len(unhandledPipelines) != 0`, with `fuel` bounding
the number of iterations (`none`: the bound was reached), `n` counting the
`range` statements executed so far. -/
def orderLoop (order : MapOrder) : Nat → Nat → PipelineOrder → Option (List Nat)
  | 0, _, _ => none
  | fuel + 1, n, st =>
    if st.unhandledPipelines.length ≠ 0 then
      let st1 := (order n st.unhandledPipelines).foldl handlePipeline st
      if st1.numHandled = 0 then
        some (st1.pipelines ++ (order (n + 1) st1.unhandledPipelines).map Prod.fst)
      else orderLoop order fuel (n + 1) st1
    else some st.pipelines

/-- The map `unhandledPipelines` as filled from the pairs
`(VulkanHandle, BasePipeline)` of the pipelines of one kind, in key order. -/
def initialUnhandled (ps : List (Nat × Nat)) : List (Nat × Nat) :=
  ps.foldl (fun m p => goMapSet m p.1 p.2) []

/-- The pairs `(VulkanHandle, BasePipeline)` of the pipelines of one kind. -/
def pipelineBases (s : State) (compute : Bool) : List (Nat × Nat) :=
  if compute then s.ComputePipelines.map (fun pp => (pp.VulkanHandle, pp.BasePipeline))
  else s.GraphicsPipelines.map (fun pp => (pp.VulkanHandle, pp.BasePipeline))

/-- The function `getPipelinesInOrder(s, compute)` on the pairs of one kind. -/
def pipelinesInOrder (order : MapOrder) (fuel : Nat) (ps : List (Nat × Nat)) :
    Option (List Nat) :=
  orderLoop order fuel 0
    { pipelines := [], unhandledPipelines := initialUnhandled ps,
      handledPipelines := [], numHandled := 0 }

/-- The function `getPipelinesInOrder(s, compute)`. -/
def getPipelinesInOrder (order : MapOrder) (fuel : Nat) (s : State) (compute : Bool) :
    Option (List Nat) :=
  pipelinesInOrder order fuel (pipelineBases s compute)

/-! ## Memory types, scratch sizes and queues

The functions of this section look objects up in the snapshot. Where the
source calls an accessor of the reference that a lookup returned, without a
test for the nil reference, the embedding returns `none` when the lookup
fails: the outcome of the accessor call is not determined by the sources. -/

/-- Number of values of a Go `uint32`. -/
def U32 : Nat := 2 ^ 32

/-- The bit `VK_MEMORY_PROPERTY_HOST_VISIBLE_BIT`. -/
def VK_MEMORY_PROPERTY_HOST_VISIBLE_BIT : Nat := 2

/-- The bit `VK_QUEUE_SPARSE_BINDING_BIT`. -/
def VK_QUEUE_SPARSE_BINDING_BIT : Nat := 8

/-- The call `props.MemoryTypes().Get(i)`. -/
def VkPhysicalDeviceMemoryProperties.MemoryType (props : VkPhysicalDeviceMemoryProperties)
    (i : Nat) : VkMemoryType :=
  props.MemoryTypes.getD i default

/-- The loop of `memoryTypeIndexFor` at index `i`, with `n` indices left to
visit. The operand `1 << uint(i)` has the type `uint32` of `memTypeBits`. -/
def memoryTypeIndexLoop (memTypeBits : Nat) (props : VkPhysicalDeviceMemoryProperties)
    (flags : Nat) : Nat → Nat → Int
  | 0, _ => -1
  | n + 1, i =>
    if memTypeBits &&& ((1 <<< i) % U32) = 0 then
      memoryTypeIndexLoop memTypeBits props flags n (i + 1)
    else if flags = (props.MemoryType i).PropertyFlags &&& flags then (i : Int)
    else memoryTypeIndexLoop memTypeBits props flags n (i + 1)

/-- The function `memoryTypeIndexFor`. -/
def memoryTypeIndexFor (memTypeBits : Nat) (props : VkPhysicalDeviceMemoryProperties)
    (flags : Nat) : Int :=
  memoryTypeIndexLoop memTypeBits props flags props.MemoryTypeCount 0

/-- The initial value of `typeBits` in `GetScratchBufferMemoryIndex`:
`uint32((uint64(1) << uint64(MemoryTypeCount)) - 1)`. -/
def defaultTypeBits (memoryTypeCount : Nat) : Nat :=
  (((1 <<< memoryTypeCount) % U64 + (U64 - 1)) % U64) % U32

/-- The value of `typeBits` that `GetScratchBufferMemoryIndex` hands to
`memoryTypeIndexFor`. -/
def scratchTypeBits (s : State) (device : DeviceObject) (pd : PhysicalDeviceObject) : Nat :=
  match s.TransferBufferMemoryRequirements.find? (fun e => e.1 == device.VulkanHandle) with
  | some e => e.2.MemoryTypeBits
  | none => defaultTypeBits pd.MemoryProperties.MemoryTypeCount

/-- The method `GetScratchBufferMemoryIndex`. -/
def GetScratchBufferMemoryIndex (s : State) (device : DeviceObject) : Option Nat :=
  match s.PhysicalDevices.find? (fun o => o.VulkanHandle == device.PhysicalDevice) with
  | none => none
  | some physicalDeviceObject =>
    let typeBits := scratchTypeBits s device physicalDeviceObject
    let index := memoryTypeIndexFor typeBits physicalDeviceObject.MemoryProperties
      VK_MEMORY_PROPERTY_HOST_VISIBLE_BIT
    if index ≥ 0 then some (index.toNat % U32) else some 0

/-- The allocation size of the scratch memory for `size` bytes of data:
`(uint64(size*2) + uint64(255)) & ^uint64(255)`. -/
def scratchAllocSize (size : Nat) : Nat :=
  (((size * 2) % U64 + 255) % U64) &&& (U64 - 1 - 255)

/-- The function `nextMultipleOf8`, also written out in `createBuffer`:
`(v + 7) & ^uint64(7)`. -/
def nextMultipleOf8 (v : Nat) : Nat := ((v + 7) % U64) &&& (U64 - 1 - 7)

/-- Modelled from the spec: the bytes `[a, b)` of a memory of the snapshot
(`Data().Slice(a, b).MustRead(...)` of package `gapis/memory`, absent from
the sources); a byte that was never written reads as zero. -/
def Slice (data : List Nat) (a b : Nat) : List Nat :=
  (List.range (b - a)).map (fun i => data.getD (a + i) 0)

/-- Go's `range` over a map held as a list of entries, as the execution `n`
of a `range` statement visits it: the iteration order is asked for the order
of the pairs of a key and the position of its entry. -/
def goMapRange {β : Type} (order : MapOrder) (n : Nat) (m : List (Nat × β)) :
    List (Nat × β) :=
  (order n (m.enum.map (fun e => (e.2.1, e.1)))).filterMap (fun kp => m.get? kp.2)

/-- Go's `range` over a generated map whose values are held as a list in key
order (`m.Range()` is a Go map): the values in the order in which the
execution `n` of the `range` statement visits them. -/
def goRange {α : Type} (order : MapOrder) (n : Nat) (m : List α) : List α :=
  (goMapRange order n m.enum).map Prod.snd

/-- The number of one execution of a `range` statement: the source line of
the statement, or of the call that leads to it, paired with the number that
identifies the execution among those of that line (the handle of the object
that is being built). -/
def rangeId (line n : Nat) : Nat := Nat.pair line n

/-- The method `getQueueFor`, in the execution `n`. `queueFamilyIndices` is
`none` for the nil map and the values of the map otherwise; each of the two
loops visits the queues of the snapshot in the iteration order of its `range`
over the Go map `sb.s.Queues().Range()` and returns at the first queue that
qualifies. -/
def getQueueFor (order : MapOrder) (n : Nat) (s : State)
    (lastBoundQueue : Option QueueObject) (device : Nat)
    (queueFamilyIndices : Option (List Nat)) : Option QueueObject :=
  match lastBoundQueue with
  | some q => some q
  | none =>
    let hinted : Option QueueObject :=
      match queueFamilyIndices with
      | some indices =>
        (goRange order (rangeId 927 n) s.Queues).find?
          (fun v => v.Device == device && indices.any (fun i => i == v.Family))
      | none => none
    match hinted with
    | some v => some v
    | none => (goRange order (rangeId 939 n) s.Queues).find? (fun v => v.Device == device)

/-- The call `queueProperties.Get(family).QueueFlags()` on the map of queue
family properties (the zero record for a family that is not in the map). -/
def queueFlags (queueProperties : List (Nat × VkQueueFamilyProperties)) (family : Nat) : Nat :=
  match queueProperties.find? (fun e => e.1 == family) with
  | some e => e.2.QueueFlags
  | none => 0

/-- The test `0 != (uint32(flags) & uint32(VK_QUEUE_SPARSE_BINDING_BIT))` on
the flags of a queue family. -/
def hasSparseBinding (queueProperties : List (Nat × VkQueueFamilyProperties))
    (family : Nat) : Bool :=
  (queueFlags queueProperties family % U32) &&& VK_QUEUE_SPARSE_BINDING_BIT != 0

/-- The queue family properties of the physical device of a device, as
`sb.s.PhysicalDevices().Get(sb.s.Devices().Get(device).PhysicalDevice())
.QueueFamilyProperties()` reads them. -/
def deviceQueueProperties (s : State) (device : Nat) :
    Option (List (Nat × VkQueueFamilyProperties)) :=
  match s.Devices.find? (fun d => d.VulkanHandle == device) with
  | none => none
  | some dev =>
    match s.PhysicalDevices.find? (fun o => o.VulkanHandle == dev.PhysicalDevice) with
    | none => none
    | some phyDev => some phyDev.QueueFamilyProperties

/-- The method `getSparseQueueFor`, in the execution `n`. The result `none`
stands for an accessor call on a nil reference (the device of
`lastBoundQueue` or its physical device is not in the snapshot); `some none`
is the nil queue. The loop visits the queues of the snapshot in the iteration
order of its `range` over the Go map `sb.s.Queues().Range()`. -/
def getSparseQueueFor (order : MapOrder) (n : Nat) (s : State)
    (lastBoundQueue : Option QueueObject) (device : Nat)
    (queueFamilyIndices : Option (List Nat)) : Option (Option QueueObject) :=
  let lastIsSparse : Option Bool :=
    match lastBoundQueue with
    | some q =>
      match deviceQueueProperties s q.Device with
      | some queueProperties => some (hasSparseBinding queueProperties q.Family)
      | none => none
    | none => some false
  match lastIsSparse with
  | none => none
  | some true => some lastBoundQueue
  | some false =>
    match deviceQueueProperties s device with
    | none => some lastBoundQueue
    | some queueProperties =>
      match queueFamilyIndices with
      | some indices =>
        match (goRange order (rangeId 904 n) s.Queues).find? (fun v => v.Device == device &&
            hasSparseBinding queueProperties v.Family &&
            indices.any (fun i => i == v.Family)) with
        | some v => some (some v)
        | none => some lastBoundQueue
      | none => some lastBoundQueue

/-- Contents of `VkDeviceQueueCreateInfo`; `pQueuePriorities` holds the bit
patterns of the priorities. -/
structure VkDeviceQueueCreateInfo where
  queueFamilyIndex : Nat
  queueCount : Nat
  pQueuePriorities : List Nat
deriving DecidableEq, Repr, Inhabited

/-- Go's `m[k] = v` on a map held as a list of entries with distinct keys. -/
def goMapPut {β : Type} (m : List (Nat × β)) (k : Nat) (v : β) : List (Nat × β) :=
  match m with
  | [] => [(k, v)]
  | e :: rest => if e.1 == k then (k, v) :: rest else e :: goMapPut rest k v

/-- Go's `m[k]` on a map held as a list of entries; `d` is the zero value. -/
def goMapGet {β : Type} (m : List (Nat × β)) (k : Nat) (d : β) : β :=
  match m.find? (fun e => e.1 == k) with
  | some e => e.2
  | none => d

/-- The maps `queueCreate` (family to queue count) and `queuePriorities` of
`createDevice`. -/
structure DeviceQueues where
  queueCreate : List (Nat × Nat)
  queuePriorities : List (Nat × List Nat)
deriving DecidableEq, Repr, Inhabited

/-- Body of the loop `for _, q := range d.Queues().Range()` of
`createDevice`. The priorities of a family grow to `QueueIndex + 1` entries,
new entries being zero (should `QueueIndex + 1` wrap around, the source
indexes past the end of the slice; `List.set` leaves the list as it is). -/
def deviceQueueStep (acc : DeviceQueues) (q : QueueInfo) : DeviceQueues :=
  let family := q.QueueFamilyIndex
  let acc : DeviceQueues :=
    if acc.queueCreate.any (fun e => e.1 == family) then acc
    else { queueCreate := goMapPut acc.queueCreate family 0,
           queuePriorities := goMapPut acc.queuePriorities family [] }
  let x := goMapGet acc.queueCreate family 0
  let queueCreate := goMapPut acc.queueCreate family ((x + 1) % U32)
  let p := goMapGet acc.queuePriorities family []
  let t := if p.length % U32 < (q.QueueIndex + 1) % U32 then
      p ++ List.replicate ((q.QueueIndex + 1) % U32 - p.length) 0
    else p
  { queueCreate := queueCreate,
    queuePriorities := goMapPut acc.queuePriorities family (t.set q.QueueIndex q.Priority) }

/-- The maps `queueCreate` and `queuePriorities` after the first loop of
`createDevice`. -/
def deviceQueues (d : DeviceObject) : DeviceQueues :=
  d.Queues.foldl deviceQueueStep { queueCreate := [], queuePriorities := [] }

/-- The queue create infos of `createDevice` in the order of the map
`reorderedQueueCreates`, which is the order in which `range queueCreate`
visits the families. -/
def deviceQueueCreateInfos (order : MapOrder) (n : Nat) (d : DeviceObject) :
    List VkDeviceQueueCreateInfo :=
  let dq := deviceQueues d
  (goMapRange order n dq.queueCreate).map (fun kv =>
    { queueFamilyIndex := kv.1, queueCount := kv.2,
      pQueuePriorities := goMapGet dq.queuePriorities kv.1 [] })

/-! ## Commands, observations and the builder state

A command of the stream is the call with its typed arguments and the lists of
read and write observations attached to it. A pointer argument of a call is
represented by the record it points to; the scratch range that holds the
record is an observation of the command. The arguments `pAllocator` (always
null) and `result` (always `VK_SUCCESS`) are not represented. -/

/-- A typed value handed to the scratch allocator. A pointer field of a
record is the address of the allocation it points to (`0` is the null
pointer). -/
inductive Value
  | handle (h : Nat)
  | handles (hs : List Nat)
  | bytes (bs : List Nat)
  | words (ws : List Nat)
  | text (s : String)
  | record (name : String) (fields : List Nat)
  | records (name : String) (rows : List (List Nat))
deriving DecidableEq, Repr, Inhabited

/-- The record `api.AllocResult`: the range of a scratch allocation and the
value serialised into it. -/
structure AllocResult where
  Base : Nat
  Size : Nat
  Data : Value
deriving DecidableEq, Repr, Inhabited

/-- The method `Ptr()`: the address of the allocation. -/
def AllocResult.Ptr (r : AllocResult) : Nat := r.Base

/-- A read or write observation of a command: a scratch range and its
contents. -/
structure Observation where
  Base : Nat
  Size : Nat
  Data : Value
deriving DecidableEq, Repr, Inhabited

/-- The method `Data()` of an allocation: the observation of its range. -/
def AllocResult.toObservation (r : AllocResult) : Observation :=
  { Base := r.Base, Size := r.Size, Data := r.Data }

/-- Contents of `VkShaderModuleCreateInfo`. -/
structure VkShaderModuleCreateInfo where
  codeSize : Nat
  pCode : List Nat
deriving DecidableEq, Repr, Inhabited

/-- Contents of `VkDescriptorSetLayoutCreateInfo`: the bindings, each with
its immutable sampler handles. -/
structure VkDescriptorSetLayoutCreateInfo where
  bindingCount : Nat
  pBindings : List (Nat × DescriptorSetLayoutBinding)
deriving DecidableEq, Repr, Inhabited

/-- Contents of `VkPipelineLayoutCreateInfo`. -/
structure VkPipelineLayoutCreateInfo where
  setLayoutCount : Nat
  pSetLayouts : List Nat
  pushConstantRangeCount : Nat
  pPushConstantRanges : List (List Nat)
deriving DecidableEq, Repr, Inhabited

/-- Contents of `VkRenderPassCreateInfo`. -/
structure VkRenderPassCreateInfo where
  pAttachments : List (List Nat)
  pSubpasses : List SubpassDescription
  pDependencies : List (List Nat)
deriving DecidableEq, Repr, Inhabited

/-- Contents of `VkPipelineShaderStageCreateInfo`. -/
structure VkPipelineShaderStageCreateInfo where
  stage : Nat
  module : Nat
  pName : String
  pSpecializationInfo : Option SpecializationInfo
deriving DecidableEq, Repr, Inhabited

/-- Contents of `VkComputePipelineCreateInfo`. -/
structure VkComputePipelineCreateInfo where
  flags : Nat
  stage : VkPipelineShaderStageCreateInfo
  layout : Nat
  basePipelineHandle : Nat
  basePipelineIndex : Int
deriving DecidableEq, Repr, Inhabited

/-- Contents of `VkGraphicsPipelineCreateInfo`, without the fixed-function
state blocks (these reach the command only as observations). -/
structure VkGraphicsPipelineCreateInfo where
  flags : Nat
  stageCount : Nat
  pStages : List VkPipelineShaderStageCreateInfo
  layout : Nat
  renderPass : Nat
  subpass : Nat
  basePipelineHandle : Nat
  basePipelineIndex : Int
deriving DecidableEq, Repr, Inhabited

/-- Contents of `VkImageViewCreateInfo`. -/
structure VkImageViewCreateInfo where
  image : Nat
  viewType : Nat
  format : Nat
  components : List Nat
  subresourceRange : List Nat
deriving DecidableEq, Repr, Inhabited

/-- Contents of `VkFramebufferCreateInfo`. -/
structure VkFramebufferCreateInfo where
  renderPass : Nat
  attachmentCount : Nat
  pAttachments : List Nat
  width : Nat
  height : Nat
  layers : Nat
deriving DecidableEq, Repr, Inhabited

/-- Contents of `VkInstanceCreateInfo`. -/
structure VkInstanceCreateInfo where
  enabledLayerCount : Nat
  ppEnabledLayerNames : List String
  enabledExtensionCount : Nat
  ppEnabledExtensionNames : List String
deriving DecidableEq, Repr, Inhabited

/-- Contents of `VkDeviceCreateInfo`. -/
structure VkDeviceCreateInfo where
  queueCreateInfoCount : Nat
  pQueueCreateInfos : List VkDeviceQueueCreateInfo
  enabledLayerCount : Nat
  ppEnabledLayerNames : List String
  enabledExtensionCount : Nat
  ppEnabledExtensionNames : List String
  pEnabledFeatures : List Nat
deriving DecidableEq, Repr, Inhabited

/-- Contents of `VkSwapchainCreateInfoKHR`; `imageInfo` holds the fields
that echo the image info of the swapchain. -/
structure VkSwapchainCreateInfoKHR where
  surface : Nat
  minImageCount : Nat
  imageInfo : ImageInfo
  imageColorSpace : Nat
  preTransform : Nat
  compositeAlpha : Nat
  presentMode : Nat
  clipped : Nat
deriving DecidableEq, Repr, Inhabited

/-- Contents of `VkMemoryAllocateInfo`; `pNext` is `none` for the null
pointer and the pair `(image, buffer)` of the
`VkDedicatedAllocationMemoryAllocateInfoNV` otherwise. -/
structure VkMemoryAllocateInfo where
  pNext : Option (Nat × Nat)
  allocationSize : Nat
  memoryTypeIndex : Nat
deriving DecidableEq, Repr, Inhabited

/-- Contents of `VkMappedMemoryRange`. -/
structure VkMappedMemoryRange where
  memory : Nat
  offset : Nat
  size : Nat
deriving DecidableEq, Repr, Inhabited

/-- Contents of `VkBufferCreateInfo`; `pNext` is `none` for the null pointer
and the flag of the `VkDedicatedAllocationBufferCreateInfoNV` otherwise. -/
structure VkBufferCreateInfo where
  pNext : Option Nat
  flags : Nat
  size : Nat
  usage : Nat
  sharingMode : Nat
  queueFamilyIndexCount : Nat
  pQueueFamilyIndices : List Nat
deriving DecidableEq, Repr, Inhabited

/-- Contents of `VkSparseImageMemoryBind`. -/
structure VkSparseImageMemoryBind where
  aspectMask : Nat
  mipLevel : Nat
  arrayLayer : Nat
  offset : List Nat
  extent : List Nat
  memory : Nat
  memoryOffset : Nat
  flags : Nat
deriving DecidableEq, Repr, Inhabited

/-- Contents of `VkSparseBufferMemoryBindInfo` and of
`VkSparseImageOpaqueMemoryBindInfo`: the resource and its bindings. -/
structure VkSparseMemoryBindInfo where
  resource : Nat
  bindCount : Nat
  pBinds : List VkSparseMemoryBind
deriving DecidableEq, Repr, Inhabited

/-- Contents of `VkSparseImageMemoryBindInfo`. -/
structure VkSparseImageMemoryBindInfo where
  image : Nat
  bindCount : Nat
  pBinds : List VkSparseImageMemoryBind
deriving DecidableEq, Repr, Inhabited

/-- Contents of `VkBindSparseInfo`; a pointer to a bind info is `none` when
it is null. -/
structure VkBindSparseInfo where
  bufferBindCount : Nat
  pBufferBinds : Option VkSparseMemoryBindInfo
  imageOpaqueBindCount : Nat
  pImageOpaqueBinds : Option VkSparseMemoryBindInfo
  imageBindCount : Nat
  pImageBinds : Option VkSparseImageMemoryBindInfo
deriving DecidableEq, Repr, Inhabited

/-- Contents of `VkSubmitInfo` (no wait semaphores). -/
structure VkSubmitInfo where
  commandBufferCount : Nat
  pCommandBuffers : List Nat
  signalSemaphoreCount : Nat
  pSignalSemaphores : List Nat
deriving DecidableEq, Repr, Inhabited

/-- Contents of `VkBufferMemoryBarrier`. -/
structure VkBufferMemoryBarrier where
  srcAccessMask : Nat
  dstAccessMask : Nat
  srcQueueFamilyIndex : Nat
  dstQueueFamilyIndex : Nat
  buffer : Nat
  offset : Nat
  size : Nat
deriving DecidableEq, Repr, Inhabited

/-- Contents of `VkImageMemoryBarrier`; `subresourceRange` lists aspect
mask, base mip level, level count, base array layer and layer count. -/
structure VkImageMemoryBarrier where
  srcAccessMask : Nat
  dstAccessMask : Nat
  oldLayout : Nat
  newLayout : Nat
  srcQueueFamilyIndex : Nat
  dstQueueFamilyIndex : Nat
  image : Nat
  subresourceRange : List Nat
deriving DecidableEq, Repr, Inhabited

/-- Contents of `VkBufferCopy`. -/
structure VkBufferCopy where
  srcOffset : Nat
  dstOffset : Nat
  size : Nat
deriving DecidableEq, Repr, Inhabited

/-- Contents of `VkWriteDescriptorSet`; of the three pointers the ones that
are null are `none`. -/
structure VkWriteDescriptorSet where
  dstSet : Nat
  dstBinding : Nat
  dstArrayElement : Nat
  descriptorCount : Nat
  descriptorType : Nat
  pImageInfo : Option VkDescriptorImageInfo
  pBufferInfo : Option VkDescriptorBufferInfo
  pTexelBufferView : Option Nat
deriving DecidableEq, Repr, Inhabited

/-- A command that the external helper `AddCommand` built for a command
reference: its name and its arguments after the command buffer. -/
structure RecordedCommand where
  name : String
  args : List Nat
deriving DecidableEq, Repr, Inhabited

/-- The calls that the embedded builders emit (the methods of the command
builder `sb.cb`). The last argument of a create call is the handle written
through its output pointer; an optional output array is `none` when the
pointer is null. -/
inductive VkCall
  | VkCreateInstance (pCreateInfo : VkInstanceCreateInfo) (pInstance : Nat)
  | VkEnumeratePhysicalDevices (inst pPhysicalDeviceCount : Nat)
      (pPhysicalDevices : Option (List Nat))
  | VkGetPhysicalDeviceProperties (physicalDevice : Nat) (pProperties : List Nat)
  | VkGetPhysicalDeviceMemoryProperties (physicalDevice : Nat)
      (pMemoryProperties : VkPhysicalDeviceMemoryProperties)
  | VkGetPhysicalDeviceQueueFamilyProperties (physicalDevice pQueueFamilyPropertyCount : Nat)
      (pQueueFamilyProperties : Option (List (Nat × VkQueueFamilyProperties)))
  | VkCreateXcbSurfaceKHR (inst pSurface : Nat)
  | VkCreateAndroidSurfaceKHR (inst pSurface : Nat)
  | VkCreateWin32SurfaceKHR (inst pSurface : Nat)
  | VkCreateWaylandSurfaceKHR (inst pSurface : Nat)
  | VkCreateXlibSurfaceKHR (inst pSurface : Nat)
  | VkCreateMirSurfaceKHR (inst pSurface : Nat)
  | VkCreateDevice (physicalDevice : Nat) (pCreateInfo : VkDeviceCreateInfo) (pDevice : Nat)
  | VkGetDeviceQueue (device queueFamilyIndex queueIndex pQueue : Nat)
  | VkCreateSwapchainKHR (device : Nat) (pCreateInfo : VkSwapchainCreateInfoKHR)
      (pSwapchain : Nat)
  | VkGetSwapchainImagesKHR (device swapchain pSwapchainImageCount : Nat)
      (pSwapchainImages : Option (List Nat))
  | VkAllocateMemory (device : Nat) (pAllocateInfo : VkMemoryAllocateInfo) (pMemory : Nat)
  | VkMapMemory (device memory offset size flags ppData : Nat)
  | VkFlushMappedMemoryRanges (device memoryRangeCount : Nat)
      (pMemoryRanges : VkMappedMemoryRange)
  | VkUnmapMemory (device memory : Nat)
  | VkFreeMemory (device memory : Nat)
  | VkCreateBuffer (device : Nat) (pCreateInfo : VkBufferCreateInfo) (pBuffer : Nat)
  | VkGetBufferMemoryRequirements (device buffer : Nat)
      (pMemoryRequirements : VkMemoryRequirements)
  | VkBindBufferMemory (device buffer memory memoryOffset : Nat)
  | VkDestroyBuffer (device buffer : Nat)
  | VkQueueBindSparse (queue bindInfoCount : Nat) (pBindInfo : VkBindSparseInfo) (fence : Nat)
  | VkCreateCommandPool (device flags queueFamilyIndex pCommandPool : Nat)
  | VkDestroyCommandPool (device commandPool : Nat)
  | VkAllocateCommandBuffers (device commandPool level commandBufferCount
      pCommandBuffers : Nat)
  | VkBeginCommandBuffer (commandBuffer flags : Nat) (pInheritanceInfo : Option (List Nat))
  | VkEndCommandBuffer (commandBuffer : Nat)
  | VkQueueSubmit (queue submitCount : Nat) (pSubmits : VkSubmitInfo) (fence : Nat)
  | VkQueueWaitIdle (queue : Nat)
  | VkCmdPipelineBarrier (commandBuffer srcStageMask dstStageMask dependencyFlags : Nat)
      (pBufferMemoryBarriers : List VkBufferMemoryBarrier)
      (pImageMemoryBarriers : List VkImageMemoryBarrier)
  | VkCmdCopyBuffer (commandBuffer srcBuffer dstBuffer regionCount : Nat)
      (pRegions : List VkBufferCopy)
  | VkCreateImage (device : Nat) (pCreateInfo : ImageInfo) (pImage : Nat)
  | VkGetImageMemoryRequirements (device image : Nat)
      (pMemoryRequirements : VkMemoryRequirements)
  | VkBindImageMemory (device image memory memoryOffset : Nat)
  | VkCreateSampler (device : Nat) (pCreateInfo : List Nat) (pSampler : Nat)
  | VkCreateFence (device flags pFence : Nat)
  | VkCreateSemaphore (device pSemaphore : Nat)
  | VkCreateEvent (device pEvent : Nat)
  | VkSetEvent (device event : Nat)
  | VkCreatePipelineCache (device pPipelineCache : Nat)
  | VkCreateBufferView (device buffer format offset range pView : Nat)
  | VkCreateDescriptorPool (device flags maxSets : Nat) (pPoolSizes : List (List Nat))
      (pDescriptorPool : Nat)
  | VkAllocateDescriptorSets (device descriptorPool pSetLayouts pDescriptorSets : Nat)
  | VkUpdateDescriptorSets (device descriptorWriteCount : Nat)
      (pDescriptorWrites : List VkWriteDescriptorSet)
  | VkCreateQueryPool (device queryType queryCount pipelineStatistics pQueryPool : Nat)
  | VkCmdBeginQuery (commandBuffer queryPool query flags : Nat)
  | VkCmdEndQuery (commandBuffer queryPool query : Nat)
  | Recorded (commandBuffer : Nat) (cmd : RecordedCommand)
  | VkCreateDescriptorSetLayout (device : Nat)
      (pCreateInfo : VkDescriptorSetLayoutCreateInfo) (pSetLayout : Nat)
  | VkCreatePipelineLayout (device : Nat) (pCreateInfo : VkPipelineLayoutCreateInfo)
      (pPipelineLayout : Nat)
  | VkDestroyPipelineLayout (device pipelineLayout : Nat)
  | VkCreateRenderPass (device : Nat) (pCreateInfo : VkRenderPassCreateInfo)
      (pRenderPass : Nat)
  | VkDestroyRenderPass (device renderPass : Nat)
  | VkCreateShaderModule (device : Nat) (pCreateInfo : VkShaderModuleCreateInfo)
      (pShaderModule : Nat)
  | VkDestroyShaderModule (device shaderModule : Nat)
  | VkCreateComputePipelines (device pipelineCache createInfoCount : Nat)
      (pCreateInfos : VkComputePipelineCreateInfo) (pPipelines : Nat)
  | VkCreateGraphicsPipelines (device pipelineCache createInfoCount : Nat)
      (pCreateInfos : VkGraphicsPipelineCreateInfo) (pPipelines : Nat)
  | VkCreateImageView (device : Nat) (pCreateInfo : VkImageViewCreateInfo) (pView : Nat)
  | VkCreateFramebuffer (device : Nat) (pCreateInfo : VkFramebufferCreateInfo)
      (pFramebuffer : Nat)
deriving Repr, Inhabited

/-- The equality test of two calls: the same command with equal arguments. -/
def VkCall.beq (a b : VkCall) : Bool :=
  match a with
  | .VkCreateInstance a1 a2 =>
    match b with
    | .VkCreateInstance b1 b2 => decide (a1 = b1) && decide (a2 = b2)
    | _ => false
  | .VkEnumeratePhysicalDevices a1 a2 a3 =>
    match b with
    | .VkEnumeratePhysicalDevices b1 b2 b3 =>
      decide (a1 = b1) && decide (a2 = b2) && decide (a3 = b3)
    | _ => false
  | .VkGetPhysicalDeviceProperties a1 a2 =>
    match b with
    | .VkGetPhysicalDeviceProperties b1 b2 => decide (a1 = b1) && decide (a2 = b2)
    | _ => false
  | .VkGetPhysicalDeviceMemoryProperties a1 a2 =>
    match b with
    | .VkGetPhysicalDeviceMemoryProperties b1 b2 => decide (a1 = b1) && decide (a2 = b2)
    | _ => false
  | .VkGetPhysicalDeviceQueueFamilyProperties a1 a2 a3 =>
    match b with
    | .VkGetPhysicalDeviceQueueFamilyProperties b1 b2 b3 =>
      decide (a1 = b1) && decide (a2 = b2) && decide (a3 = b3)
    | _ => false
  | .VkCreateXcbSurfaceKHR a1 a2 =>
    match b with
    | .VkCreateXcbSurfaceKHR b1 b2 => decide (a1 = b1) && decide (a2 = b2)
    | _ => false
  | .VkCreateAndroidSurfaceKHR a1 a2 =>
    match b with
    | .VkCreateAndroidSurfaceKHR b1 b2 => decide (a1 = b1) && decide (a2 = b2)
    | _ => false
  | .VkCreateWin32SurfaceKHR a1 a2 =>
    match b with
    | .VkCreateWin32SurfaceKHR b1 b2 => decide (a1 = b1) && decide (a2 = b2)
    | _ => false
  | .VkCreateWaylandSurfaceKHR a1 a2 =>
    match b with
    | .VkCreateWaylandSurfaceKHR b1 b2 => decide (a1 = b1) && decide (a2 = b2)
    | _ => false
  | .VkCreateXlibSurfaceKHR a1 a2 =>
    match b with
    | .VkCreateXlibSurfaceKHR b1 b2 => decide (a1 = b1) && decide (a2 = b2)
    | _ => false
  | .VkCreateMirSurfaceKHR a1 a2 =>
    match b with
    | .VkCreateMirSurfaceKHR b1 b2 => decide (a1 = b1) && decide (a2 = b2)
    | _ => false
  | .VkCreateDevice a1 a2 a3 =>
    match b with
    | .VkCreateDevice b1 b2 b3 => decide (a1 = b1) && decide (a2 = b2) && decide (a3 = b3)
    | _ => false
  | .VkGetDeviceQueue a1 a2 a3 a4 =>
    match b with
    | .VkGetDeviceQueue b1 b2 b3 b4 =>
      decide (a1 = b1) && decide (a2 = b2) && decide (a3 = b3) && decide (a4 = b4)
    | _ => false
  | .VkCreateSwapchainKHR a1 a2 a3 =>
    match b with
    | .VkCreateSwapchainKHR b1 b2 b3 => decide (a1 = b1) && decide (a2 = b2) && decide (a3 = b3)
    | _ => false
  | .VkGetSwapchainImagesKHR a1 a2 a3 a4 =>
    match b with
    | .VkGetSwapchainImagesKHR b1 b2 b3 b4 =>
      decide (a1 = b1) && decide (a2 = b2) && decide (a3 = b3) && decide (a4 = b4)
    | _ => false
  | .VkAllocateMemory a1 a2 a3 =>
    match b with
    | .VkAllocateMemory b1 b2 b3 => decide (a1 = b1) && decide (a2 = b2) && decide (a3 = b3)
    | _ => false
  | .VkMapMemory a1 a2 a3 a4 a5 a6 =>
    match b with
    | .VkMapMemory b1 b2 b3 b4 b5 b6 =>
      decide (a1 = b1) && decide (a2 = b2) && decide (a3 = b3) && decide (a4 = b4) &&
        decide (a5 = b5) && decide (a6 = b6)
    | _ => false
  | .VkFlushMappedMemoryRanges a1 a2 a3 =>
    match b with
    | .VkFlushMappedMemoryRanges b1 b2 b3 =>
      decide (a1 = b1) && decide (a2 = b2) && decide (a3 = b3)
    | _ => false
  | .VkUnmapMemory a1 a2 =>
    match b with
    | .VkUnmapMemory b1 b2 => decide (a1 = b1) && decide (a2 = b2)
    | _ => false
  | .VkFreeMemory a1 a2 =>
    match b with
    | .VkFreeMemory b1 b2 => decide (a1 = b1) && decide (a2 = b2)
    | _ => false
  | .VkCreateBuffer a1 a2 a3 =>
    match b with
    | .VkCreateBuffer b1 b2 b3 => decide (a1 = b1) && decide (a2 = b2) && decide (a3 = b3)
    | _ => false
  | .VkGetBufferMemoryRequirements a1 a2 a3 =>
    match b with
    | .VkGetBufferMemoryRequirements b1 b2 b3 =>
      decide (a1 = b1) && decide (a2 = b2) && decide (a3 = b3)
    | _ => false
  | .VkBindBufferMemory a1 a2 a3 a4 =>
    match b with
    | .VkBindBufferMemory b1 b2 b3 b4 =>
      decide (a1 = b1) && decide (a2 = b2) && decide (a3 = b3) && decide (a4 = b4)
    | _ => false
  | .VkDestroyBuffer a1 a2 =>
    match b with
    | .VkDestroyBuffer b1 b2 => decide (a1 = b1) && decide (a2 = b2)
    | _ => false
  | .VkQueueBindSparse a1 a2 a3 a4 =>
    match b with
    | .VkQueueBindSparse b1 b2 b3 b4 =>
      decide (a1 = b1) && decide (a2 = b2) && decide (a3 = b3) && decide (a4 = b4)
    | _ => false
  | .VkCreateCommandPool a1 a2 a3 a4 =>
    match b with
    | .VkCreateCommandPool b1 b2 b3 b4 =>
      decide (a1 = b1) && decide (a2 = b2) && decide (a3 = b3) && decide (a4 = b4)
    | _ => false
  | .VkDestroyCommandPool a1 a2 =>
    match b with
    | .VkDestroyCommandPool b1 b2 => decide (a1 = b1) && decide (a2 = b2)
    | _ => false
  | .VkAllocateCommandBuffers a1 a2 a3 a4 a5 =>
    match b with
    | .VkAllocateCommandBuffers b1 b2 b3 b4 b5 =>
      decide (a1 = b1) && decide (a2 = b2) && decide (a3 = b3) && decide (a4 = b4) &&
        decide (a5 = b5)
    | _ => false
  | .VkBeginCommandBuffer a1 a2 a3 =>
    match b with
    | .VkBeginCommandBuffer b1 b2 b3 => decide (a1 = b1) && decide (a2 = b2) && decide (a3 = b3)
    | _ => false
  | .VkEndCommandBuffer a1 =>
    match b with
    | .VkEndCommandBuffer b1 => decide (a1 = b1)
    | _ => false
  | .VkQueueSubmit a1 a2 a3 a4 =>
    match b with
    | .VkQueueSubmit b1 b2 b3 b4 =>
      decide (a1 = b1) && decide (a2 = b2) && decide (a3 = b3) && decide (a4 = b4)
    | _ => false
  | .VkQueueWaitIdle a1 =>
    match b with
    | .VkQueueWaitIdle b1 => decide (a1 = b1)
    | _ => false
  | .VkCmdPipelineBarrier a1 a2 a3 a4 a5 a6 =>
    match b with
    | .VkCmdPipelineBarrier b1 b2 b3 b4 b5 b6 =>
      decide (a1 = b1) && decide (a2 = b2) && decide (a3 = b3) && decide (a4 = b4) &&
        decide (a5 = b5) && decide (a6 = b6)
    | _ => false
  | .VkCmdCopyBuffer a1 a2 a3 a4 a5 =>
    match b with
    | .VkCmdCopyBuffer b1 b2 b3 b4 b5 =>
      decide (a1 = b1) && decide (a2 = b2) && decide (a3 = b3) && decide (a4 = b4) &&
        decide (a5 = b5)
    | _ => false
  | .VkCreateImage a1 a2 a3 =>
    match b with
    | .VkCreateImage b1 b2 b3 => decide (a1 = b1) && decide (a2 = b2) && decide (a3 = b3)
    | _ => false
  | .VkGetImageMemoryRequirements a1 a2 a3 =>
    match b with
    | .VkGetImageMemoryRequirements b1 b2 b3 =>
      decide (a1 = b1) && decide (a2 = b2) && decide (a3 = b3)
    | _ => false
  | .VkBindImageMemory a1 a2 a3 a4 =>
    match b with
    | .VkBindImageMemory b1 b2 b3 b4 =>
      decide (a1 = b1) && decide (a2 = b2) && decide (a3 = b3) && decide (a4 = b4)
    | _ => false
  | .VkCreateSampler a1 a2 a3 =>
    match b with
    | .VkCreateSampler b1 b2 b3 => decide (a1 = b1) && decide (a2 = b2) && decide (a3 = b3)
    | _ => false
  | .VkCreateFence a1 a2 a3 =>
    match b with
    | .VkCreateFence b1 b2 b3 => decide (a1 = b1) && decide (a2 = b2) && decide (a3 = b3)
    | _ => false
  | .VkCreateSemaphore a1 a2 =>
    match b with
    | .VkCreateSemaphore b1 b2 => decide (a1 = b1) && decide (a2 = b2)
    | _ => false
  | .VkCreateEvent a1 a2 =>
    match b with
    | .VkCreateEvent b1 b2 => decide (a1 = b1) && decide (a2 = b2)
    | _ => false
  | .VkSetEvent a1 a2 =>
    match b with
    | .VkSetEvent b1 b2 => decide (a1 = b1) && decide (a2 = b2)
    | _ => false
  | .VkCreatePipelineCache a1 a2 =>
    match b with
    | .VkCreatePipelineCache b1 b2 => decide (a1 = b1) && decide (a2 = b2)
    | _ => false
  | .VkCreateBufferView a1 a2 a3 a4 a5 a6 =>
    match b with
    | .VkCreateBufferView b1 b2 b3 b4 b5 b6 =>
      decide (a1 = b1) && decide (a2 = b2) && decide (a3 = b3) && decide (a4 = b4) &&
        decide (a5 = b5) && decide (a6 = b6)
    | _ => false
  | .VkCreateDescriptorPool a1 a2 a3 a4 a5 =>
    match b with
    | .VkCreateDescriptorPool b1 b2 b3 b4 b5 =>
      decide (a1 = b1) && decide (a2 = b2) && decide (a3 = b3) && decide (a4 = b4) &&
        decide (a5 = b5)
    | _ => false
  | .VkAllocateDescriptorSets a1 a2 a3 a4 =>
    match b with
    | .VkAllocateDescriptorSets b1 b2 b3 b4 =>
      decide (a1 = b1) && decide (a2 = b2) && decide (a3 = b3) && decide (a4 = b4)
    | _ => false
  | .VkUpdateDescriptorSets a1 a2 a3 =>
    match b with
    | .VkUpdateDescriptorSets b1 b2 b3 => decide (a1 = b1) && decide (a2 = b2) && decide (a3 = b3)
    | _ => false
  | .VkCreateQueryPool a1 a2 a3 a4 a5 =>
    match b with
    | .VkCreateQueryPool b1 b2 b3 b4 b5 =>
      decide (a1 = b1) && decide (a2 = b2) && decide (a3 = b3) && decide (a4 = b4) &&
        decide (a5 = b5)
    | _ => false
  | .VkCmdBeginQuery a1 a2 a3 a4 =>
    match b with
    | .VkCmdBeginQuery b1 b2 b3 b4 =>
      decide (a1 = b1) && decide (a2 = b2) && decide (a3 = b3) && decide (a4 = b4)
    | _ => false
  | .VkCmdEndQuery a1 a2 a3 =>
    match b with
    | .VkCmdEndQuery b1 b2 b3 => decide (a1 = b1) && decide (a2 = b2) && decide (a3 = b3)
    | _ => false
  | .Recorded a1 a2 =>
    match b with
    | .Recorded b1 b2 => decide (a1 = b1) && decide (a2 = b2)
    | _ => false
  | .VkCreateDescriptorSetLayout a1 a2 a3 =>
    match b with
    | .VkCreateDescriptorSetLayout b1 b2 b3 =>
      decide (a1 = b1) && decide (a2 = b2) && decide (a3 = b3)
    | _ => false
  | .VkCreatePipelineLayout a1 a2 a3 =>
    match b with
    | .VkCreatePipelineLayout b1 b2 b3 => decide (a1 = b1) && decide (a2 = b2) && decide (a3 = b3)
    | _ => false
  | .VkDestroyPipelineLayout a1 a2 =>
    match b with
    | .VkDestroyPipelineLayout b1 b2 => decide (a1 = b1) && decide (a2 = b2)
    | _ => false
  | .VkCreateRenderPass a1 a2 a3 =>
    match b with
    | .VkCreateRenderPass b1 b2 b3 => decide (a1 = b1) && decide (a2 = b2) && decide (a3 = b3)
    | _ => false
  | .VkDestroyRenderPass a1 a2 =>
    match b with
    | .VkDestroyRenderPass b1 b2 => decide (a1 = b1) && decide (a2 = b2)
    | _ => false
  | .VkCreateShaderModule a1 a2 a3 =>
    match b with
    | .VkCreateShaderModule b1 b2 b3 => decide (a1 = b1) && decide (a2 = b2) && decide (a3 = b3)
    | _ => false
  | .VkDestroyShaderModule a1 a2 =>
    match b with
    | .VkDestroyShaderModule b1 b2 => decide (a1 = b1) && decide (a2 = b2)
    | _ => false
  | .VkCreateComputePipelines a1 a2 a3 a4 a5 =>
    match b with
    | .VkCreateComputePipelines b1 b2 b3 b4 b5 =>
      decide (a1 = b1) && decide (a2 = b2) && decide (a3 = b3) && decide (a4 = b4) &&
        decide (a5 = b5)
    | _ => false
  | .VkCreateGraphicsPipelines a1 a2 a3 a4 a5 =>
    match b with
    | .VkCreateGraphicsPipelines b1 b2 b3 b4 b5 =>
      decide (a1 = b1) && decide (a2 = b2) && decide (a3 = b3) && decide (a4 = b4) &&
        decide (a5 = b5)
    | _ => false
  | .VkCreateImageView a1 a2 a3 =>
    match b with
    | .VkCreateImageView b1 b2 b3 => decide (a1 = b1) && decide (a2 = b2) && decide (a3 = b3)
    | _ => false
  | .VkCreateFramebuffer a1 a2 a3 =>
    match b with
    | .VkCreateFramebuffer b1 b2 b3 => decide (a1 = b1) && decide (a2 = b2) && decide (a3 = b3)
    | _ => false

set_option maxHeartbeats 2000000 in
instance : DecidableEq VkCall := fun a b =>
  if h : a.beq b = true then
    isTrue (by
      cases a <;>
        (simp only [VkCall.beq] at h
         split at h <;> simp_all))
  else
    isFalse (by
      intro e
      subst e
      apply h
      cases a <;> simp [VkCall.beq])

/-- A command of the stream (`api.Cmd`): the call and the observations in its
extras. -/
structure Cmd where
  call : VkCall
  Reads : List Observation
  Writes : List Observation
deriving DecidableEq, Repr, Inhabited

/-- A command fresh from the command builder: no observations yet. -/
def cb (call : VkCall) : Cmd := { call := call, Reads := [], Writes := [] }

/-- The method `AddRead`. -/
def Cmd.AddRead (c : Cmd) (o : Observation) : Cmd := { c with Reads := c.Reads ++ [o] }

/-- The method `AddWrite`. -/
def Cmd.AddWrite (c : Cmd) (o : Observation) : Cmd := { c with Writes := c.Writes ++ [o] }

/-- An object of the new state, as far as the builders read it. -/
structure MirrorObject where
  VulkanHandle : Nat
  Device : Nat
deriving DecidableEq, Repr, Inhabited

/-- The new state `GetState(sb.newState)`, restricted to the maps that the
builders query. -/
structure Mirror where
  Buffers : List MirrorObject := []
  Images : List MirrorObject := []
  Samplers : List MirrorObject := []
  PipelineLayouts : List MirrorObject := []
  RenderPasses : List MirrorObject := []
  ShaderModules : List MirrorObject := []
  ComputePipelines : List MirrorObject := []
  GraphicsPipelines : List MirrorObject := []
  ImageViews : List MirrorObject := []
  BufferViews : List MirrorObject := []
  DescriptorPools : List MirrorObject := []
deriving DecidableEq, Repr, Inhabited

/-- The method `Contains(h)` of a map of the new state. -/
def Contains (m : List MirrorObject) (h : Nat) : Bool := m.any (fun o => o.VulkanHandle == h)

/-- The method `Get(h)` of a map of the new state; `none` is the nil
reference. -/
def MirrorGet (m : List MirrorObject) (h : Nat) : Option MirrorObject :=
  m.find? (fun o => o.VulkanHandle == h)

/-- The free list of the scratch allocator: free spans `(start, end)`. -/
abbrev FreeList := List (Nat × Nat)

/-- The record `interval.U64Range`. -/
structure U64Range where
  First : Nat
  Count : Nat
deriving DecidableEq, Repr, Inhabited

/-- Modelled from the spec: `interval.Merge(&list, U64Span{start, end}, true)`
of package `core/math/interval`, absent from the sources. The list holds
half-open ranges in ascending order; the span is inserted and every range
that overlaps or touches it is coalesced with it. -/
def intervalMerge : List U64Range → Nat → Nat → List U64Range
  | [], s, e => [{ First := s, Count := e - s }]
  | r :: rest, s, e =>
    if e < r.First then { First := s, Count := e - s } :: r :: rest
    else if r.First + r.Count < s then r :: intervalMerge rest s e
    else intervalMerge rest (min r.First s) (max (r.First + r.Count) e)

/-- The record `stateBuilder`. `newState` is the mirror `GetState(sb.newState)`
and `allocator` the free list of the allocator of `sb.newState`; the snapshot
`sb.s` is passed to the functions that read it. -/
structure stateBuilder where
  newState : Mirror
  allocator : FreeList
  cmds : List Cmd
  readMemories : List AllocResult
  writeMemories : List AllocResult
  memoryIntervals : List U64Range
deriving Repr

/-- The priming modes of the image primer. -/
inductive PrimingMode
  | primeByBufferCopy | primeByRendering | primeByImageStore
deriving DecidableEq, Repr, Inhabited

/-- The external collaborators of the builder: the `Mutate` method of the
commands (new mirror and whether an error was returned), the size of the
serialisation of a value under the memory layout, the scratch allocator
(`alloc` returns the base of a free range of the requested size, `free`
returns a range given by base and size), the iteration order of `range` over
the Go maps that `createPhysicalDevices` and `createDevice` build, the
function `newUnusedID` (an identifier for which the given test fails), the
image primer (`prime mode sb img opaqueRanges queue sparseQueue` is the
builder after the method of that mode ran, `primerFree` the builder after
`imgPrimer.free()`), and the helper `AddCommand` applied to the arguments of
a command reference (`none`: it returns an error). -/
structure Env where
  mutate : Cmd → Mirror → Mirror × Bool
  sizeOf : Value → Nat
  alloc : FreeList → Nat → Nat × FreeList
  free : FreeList → Nat → Nat → FreeList
  mapOrder : MapOrder
  newUnusedID : Bool → (Nat → Bool) → Nat
  prime : PrimingMode → stateBuilder → ImageObject → List (List Nat) → Option QueueObject →
    Option QueueObject → stateBuilder
  primerFree : stateBuilder → stateBuilder
  addCommand : Mirror → Nat → CommandReference → Option RecordedCommand

/-- The call `sb.newState.AllocDataOrPanic(ctx, v)`. -/
def AllocDataOrPanic (env : Env) (sb : stateBuilder) (v : Value) :
    AllocResult × stateBuilder :=
  let a := env.alloc sb.allocator (env.sizeOf v)
  ({ Base := a.1, Size := env.sizeOf v, Data := v }, { sb with allocator := a.2 })

/-- The method `MustAllocReadData` (and `MustUnpackReadMap`, which differs
only in how the value is serialised). -/
def MustAllocReadData (env : Env) (sb : stateBuilder) (v : Value) :
    AllocResult × stateBuilder :=
  let a := AllocDataOrPanic env sb v
  (a.1, { a.2 with
    readMemories := a.2.readMemories ++ [a.1]
    memoryIntervals := intervalMerge a.2.memoryIntervals a.1.Base (a.1.Base + a.1.Size) })

/-- The method `MustAllocWriteData` (and `MustUnpackWriteMap`). -/
def MustAllocWriteData (env : Env) (sb : stateBuilder) (v : Value) :
    AllocResult × stateBuilder :=
  let a := AllocDataOrPanic env sb v
  (a.1, { a.2 with
    writeMemories := a.2.writeMemories ++ [a.1]
    memoryIntervals := intervalMerge a.2.memoryIntervals a.1.Base (a.1.Base + a.1.Size) })

/-- The command as `write` appends it: the pending read and write
observations added to those it already carries. -/
def attachPending (sb : stateBuilder) (cmd : Cmd) : Cmd :=
  let c := sb.readMemories.foldl (fun c r => c.AddRead r.toObservation) cmd
  sb.writeMemories.foldl (fun c w => c.AddWrite w.toObservation) c

/-- The method `write`: attach the pending observations, mutate the new
state (an error is only logged), append the command, free and clear the
pending allocations. -/
def write (env : Env) (sb : stateBuilder) (cmd : Cmd) : stateBuilder :=
  let cmd := attachPending sb cmd
  let m := env.mutate cmd sb.newState
  let a := sb.readMemories.foldl (fun fl r => env.free fl r.Base r.Size) sb.allocator
  let a := sb.writeMemories.foldl (fun fl w => env.free fl w.Base w.Size) a
  { newState := m.1
    allocator := a
    cmds := sb.cmds ++ [cmd]
    readMemories := []
    writeMemories := []
    memoryIntervals := sb.memoryIntervals }

/-! ## Object builders

A builder is a function from the builder state to the builder state. The
allocations that a builder stages between two `write` calls are grouped in
functions of their own, which return the pointers they produced and the
builder state. -/

/-- Loop body of `createDescriptorSetLayout`: the immutable samplers of one
binding and its `VkDescriptorSetLayoutBinding` row. The array of immutable
samplers is allocated with `AllocDataOrPanic` and appended to the pending
reads directly. -/
def descriptorSetLayoutBindingStep (env : Env) (acc : List (List Nat) × stateBuilder)
    (kb : Nat × DescriptorSetLayoutBinding) : List (List Nat) × stateBuilder :=
  let k := kb.1
  let b := kb.2
  let r : Nat × stateBuilder :=
    if b.ImmutableSamplers.length > 0 then
      let allocateResult := AllocDataOrPanic env acc.2 (.handles b.ImmutableSamplers)
      (allocateResult.1.Ptr,
        { allocateResult.2 with
          readMemories := allocateResult.2.readMemories ++ [allocateResult.1] })
    else (0, acc.2)
  (acc.1 ++ [[k, b.Typ, b.Count, b.Stages, r.1]], r.2)

/-- The allocations of `createDescriptorSetLayout`. -/
def allocDescriptorSetLayout (env : Env) (sb : stateBuilder)
    (dsl : DescriptorSetLayoutObject) : stateBuilder :=
  let bs := dsl.Bindings.foldl (descriptorSetLayoutBindingStep env) ([], sb)
  let bindings := bs.1
  let a1 := MustAllocReadData env bs.2 (.records "VkDescriptorSetLayoutBinding" bindings)
  let a2 := MustAllocReadData env a1.2
    (.record "VkDescriptorSetLayoutCreateInfo" [32, 0, 0, bindings.length, a1.1.Ptr])
  (MustAllocWriteData env a2.2 (.handle dsl.VulkanHandle)).2

/-- The method `createDescriptorSetLayout`. -/
def createDescriptorSetLayout (env : Env) (sb : stateBuilder)
    (dsl : DescriptorSetLayoutObject) : stateBuilder :=
  write env (allocDescriptorSetLayout env sb dsl)
    (cb (.VkCreateDescriptorSetLayout dsl.Device
      { bindingCount := dsl.Bindings.length, pBindings := dsl.Bindings } dsl.VulkanHandle))

/-- The allocations of `createPipelineLayout`. -/
def allocPipelineLayout (env : Env) (sb : stateBuilder) (pl : PipelineLayoutObject) :
    stateBuilder :=
  let descriptorSets := pl.SetLayouts
  let a1 := MustAllocReadData env sb (.handles descriptorSets)
  let a2 := MustAllocReadData env a1.2 (.records "VkPushConstantRange" pl.PushConstantRanges)
  let a3 := MustAllocReadData env a2.2
    (.record "VkPipelineLayoutCreateInfo"
      [30, 0, 0, descriptorSets.length, a1.1.Ptr, pl.PushConstantRanges.length, a2.1.Ptr])
  (MustAllocWriteData env a3.2 (.handle pl.VulkanHandle)).2

/-- The method `createPipelineLayout`. -/
def createPipelineLayout (env : Env) (sb : stateBuilder) (pl : PipelineLayoutObject) :
    stateBuilder :=
  write env (allocPipelineLayout env sb pl)
    (cb (.VkCreatePipelineLayout pl.Device
      { setLayoutCount := pl.SetLayouts.length, pSetLayouts := pl.SetLayouts,
        pushConstantRangeCount := pl.PushConstantRanges.length,
        pPushConstantRanges := pl.PushConstantRanges } pl.VulkanHandle))

/-- Pointer to an optional array: null when the map is empty, else the
address of its `MustUnpackReadMap` allocation. -/
def allocOptionalRows (env : Env) (sb : stateBuilder) (name : String)
    (rows : List (List Nat)) : Nat × stateBuilder :=
  if rows.length > 0 then
    let a := MustAllocReadData env sb (.records name rows)
    (a.1.Ptr, a.2)
  else (0, sb)

/-- Pointer to an optional record: null when the reference is nil, else the
address of its `MustAllocReadData` allocation. -/
def allocOptionalRecord (env : Env) (sb : stateBuilder) (name : String)
    (fields : Option (List Nat)) : Nat × stateBuilder :=
  match fields with
  | some d =>
    let a := MustAllocReadData env sb (.record name d)
    (a.1.Ptr, a.2)
  | none => (0, sb)

/-- Pointer to an optional array of 32-bit values: null when it is empty. -/
def allocOptionalWords (env : Env) (sb : stateBuilder) (ws : List Nat) :
    Nat × stateBuilder :=
  if ws.length > 0 then
    let a := MustAllocReadData env sb (.words ws)
    (a.1.Ptr, a.2)
  else (0, sb)

/-- Loop body of `createRenderPass`: the allocations of one subpass and its
`VkSubpassDescription` row. -/
def subpassDescriptionStep (env : Env) (acc : List (List Nat) × stateBuilder)
    (sd : SubpassDescription) : List (List Nat) × stateBuilder :=
  let depthStencil := allocOptionalRecord env acc.2 "VkAttachmentReference"
    sd.DepthStencilAttachment
  let resolveAttachments := allocOptionalRows env depthStencil.2 "VkAttachmentReference"
    sd.ResolveAttachments
  let i := MustAllocReadData env resolveAttachments.2
    (.records "VkAttachmentReference" sd.InputAttachments)
  let c := MustAllocReadData env i.2 (.records "VkAttachmentReference" sd.ColorAttachments)
  let p := MustAllocReadData env c.2 (.words sd.PreserveAttachments)
  (acc.1 ++ [[sd.Flags, sd.PipelineBindPoint, sd.InputAttachments.length, i.1.Ptr,
      sd.ColorAttachments.length, c.1.Ptr, resolveAttachments.1, depthStencil.1,
      sd.PreserveAttachments.length, p.1.Ptr]], p.2)

/-- The allocations of `createRenderPass`. -/
def allocRenderPass (env : Env) (sb : stateBuilder) (rp : RenderPassObject) : stateBuilder :=
  let sds := rp.SubpassDescriptions.foldl (subpassDescriptionStep env) ([], sb)
  let subpassDescriptions := sds.1
  let a1 := MustAllocReadData env sds.2
    (.records "VkAttachmentDescription" rp.AttachmentDescriptions)
  let a2 := MustAllocReadData env a1.2 (.records "VkSubpassDescription" subpassDescriptions)
  let a3 := MustAllocReadData env a2.2
    (.records "VkSubpassDependency" rp.SubpassDependencies)
  let a4 := MustAllocReadData env a3.2
    (.record "VkRenderPassCreateInfo"
      [38, 0, 0, rp.AttachmentDescriptions.length, a1.1.Ptr, subpassDescriptions.length,
        a2.1.Ptr, rp.SubpassDependencies.length, a3.1.Ptr])
  (MustAllocWriteData env a4.2 (.handle rp.VulkanHandle)).2

/-- The method `createRenderPass`. -/
def createRenderPass (env : Env) (sb : stateBuilder) (rp : RenderPassObject) :
    stateBuilder :=
  write env (allocRenderPass env sb rp)
    (cb (.VkCreateRenderPass rp.Device
      { pAttachments := rp.AttachmentDescriptions, pSubpasses := rp.SubpassDescriptions,
        pDependencies := rp.SubpassDependencies } rp.VulkanHandle))

/-- The allocations of `createShaderModule`. -/
def allocShaderModule (env : Env) (sb : stateBuilder) (sm : ShaderModuleObject) :
    stateBuilder :=
  let words := sm.Words
  let a1 := MustAllocReadData env sb (.words words)
  let a2 := MustAllocReadData env a1.2
    (.record "VkShaderModuleCreateInfo" [16, 0, 0, words.length * 4, a1.1.Ptr])
  (MustAllocWriteData env a2.2 (.handle sm.VulkanHandle)).2

/-- The method `createShaderModule`. -/
def createShaderModule (env : Env) (sb : stateBuilder) (sm : ShaderModuleObject) :
    stateBuilder :=
  write env (allocShaderModule env sb sm)
    (cb (.VkCreateShaderModule sm.Device
      { codeSize := sm.Words.length * 4, pCode := sm.Words } sm.VulkanHandle))

/-- Allocation of the `VkSpecializationInfo` of a stage: the pointer to it
(null when the stage has none) and the builder after the allocations. -/
def allocSpecializationInfo (env : Env) (sb : stateBuilder) (s : StageData) :
    Nat × stateBuilder :=
  match s.Specialization with
  | some sp =>
    let data := sp.Data
    let a1 := MustAllocReadData env sb (.records "VkSpecializationMapEntry" sp.Specializations)
    let a2 := MustAllocReadData env a1.2 (.bytes data)
    let a3 := MustAllocReadData env a2.2
      (.record "VkSpecializationInfo" [sp.Specializations.length, a1.1.Ptr, data.length,
        a2.1.Ptr])
    (a3.1.Ptr, a3.2)
  | none => (0, sb)

/-- The base pipeline of a create info: the base pipeline of the object when
it is not zero and the map of pipelines of the new state contains it, else
zero. -/
def resolveBasePipeline (pipelines : List MirrorObject) (base : Nat) : Nat :=
  if base ≠ 0 then
    if Contains pipelines base then base else 0
  else 0

/-- The cache handle of a create call: zero for a nil reference. -/
def cacheHandle (c : Option Nat) : Nat :=
  match c with
  | some h => h
  | none => 0

/-- The allocations of `createComputePipeline` for its create call. -/
def allocComputePipeline (env : Env) (sb : stateBuilder) (cp : ComputePipelineObject)
    (basePipeline : Nat) : stateBuilder :=
  let specializationInfo := allocSpecializationInfo env sb cp.Stage
  let a1 := MustAllocReadData env specializationInfo.2 (.text cp.Stage.EntryPoint)
  let a2 := MustAllocReadData env a1.2
    (.record "VkComputePipelineCreateInfo"
      [29, 0, cp.Flags, 18, 0, 0, cp.Stage.Stage, cp.Stage.Module.VulkanHandle, a1.1.Ptr,
        specializationInfo.1, cp.PipelineLayout.VulkanHandle, basePipeline, 4294967295])
  (MustAllocWriteData env a2.2 (.handle cp.VulkanHandle)).2

/-- The create call of `createComputePipeline`. -/
def computePipelineCall (cp : ComputePipelineObject) (basePipeline : Nat) : VkCall :=
  .VkCreateComputePipelines cp.Device (cacheHandle cp.PipelineCache) 1
    { flags := cp.Flags
      stage := { stage := cp.Stage.Stage, module := cp.Stage.Module.VulkanHandle,
                 pName := cp.Stage.EntryPoint,
                 pSpecializationInfo := cp.Stage.Specialization }
      layout := cp.PipelineLayout.VulkanHandle
      basePipelineHandle := basePipeline
      basePipelineIndex := -1 } cp.VulkanHandle

/-- The method `createComputePipeline`. -/
def createComputePipeline (env : Env) (sb : stateBuilder) (cp : ComputePipelineObject) :
    stateBuilder :=
  let basePipeline := resolveBasePipeline sb.newState.ComputePipelines cp.BasePipeline
  let t : Option ShaderModuleObject × stateBuilder :=
    if !Contains sb.newState.ShaderModules cp.Stage.Module.VulkanHandle then
      (some cp.Stage.Module, createShaderModule env sb cp.Stage.Module)
    else (none, sb)
  let temporaryShaderModule := t.1
  let sb1 := write env (allocComputePipeline env t.2 cp basePipeline)
    (cb (computePipelineCall cp basePipeline))
  match temporaryShaderModule with
  | some m => write env sb1 (cb (.VkDestroyShaderModule m.Device m.VulkanHandle))
  | none => sb1

/-- First loop of `createGraphicsPipeline`: a shader module that the new
state does not contain is created and recorded as temporary. -/
def temporaryShaderModuleStep (env : Env) (acc : List ShaderModuleObject × stateBuilder)
    (s : StageData) : List ShaderModuleObject × stateBuilder :=
  if !Contains acc.2.newState.ShaderModules s.Module.VulkanHandle then
    (acc.1 ++ [s.Module], createShaderModule env acc.2 s.Module)
  else acc

/-- The temporary pipeline layout of `createGraphicsPipeline`: created when
the new state does not contain the layout, then read back from the new
state. -/
def temporaryPipelineLayout (env : Env) (sb : stateBuilder) (pl : PipelineLayoutObject) :
    Option MirrorObject × stateBuilder :=
  if !Contains sb.newState.PipelineLayouts pl.VulkanHandle then
    let sb1 := createPipelineLayout env sb pl
    (MirrorGet sb1.newState.PipelineLayouts pl.VulkanHandle, sb1)
  else (none, sb)

/-- The temporary render pass of `createGraphicsPipeline` and
`createFramebuffer`: created when the new state does not contain the render
pass, then read back from the new state. -/
def temporaryRenderPass (env : Env) (sb : stateBuilder) (rp : RenderPassObject) :
    Option MirrorObject × stateBuilder :=
  if !Contains sb.newState.RenderPasses rp.VulkanHandle then
    let sb1 := createRenderPass env sb rp
    (MirrorGet sb1.newState.RenderPasses rp.VulkanHandle, sb1)
  else (none, sb)

/-- Second loop of `createGraphicsPipeline`: the allocations of one shader
stage and its `VkPipelineShaderStageCreateInfo` row. -/
def shaderStageStep (env : Env) (acc : List (List Nat) × stateBuilder) (s : StageData) :
    List (List Nat) × stateBuilder :=
  let specializationInfo := allocSpecializationInfo env acc.2 s
  let n := MustAllocReadData env specializationInfo.2 (.text s.EntryPoint)
  (acc.1 ++ [[18, 0, 0, s.Stage, s.Module.VulkanHandle, n.1.Ptr, specializationInfo.1]], n.2)

/-- The tessellation state of `createGraphicsPipeline`. -/
def allocTessellationState (env : Env) (sb : stateBuilder) (t : Option Nat) :
    Nat × stateBuilder :=
  match t with
  | some patchControlPoints =>
    let a := MustAllocReadData env sb
      (.record "VkPipelineTessellationStateCreateInfo" [21, 0, 0, patchControlPoints])
    (a.1.Ptr, a.2)
  | none => (0, sb)

/-- The viewport state of `createGraphicsPipeline`. -/
def allocViewportState (env : Env) (sb : stateBuilder) (v : Option ViewportStateData) :
    Nat × stateBuilder :=
  match v with
  | some vs =>
    let viewports := allocOptionalRows env sb "VkViewport" vs.Viewports
    let scissors := allocOptionalRows env viewports.2 "VkRect2D" vs.Scissors
    let a := MustAllocReadData env scissors.2
      (.record "VkPipelineViewportStateCreateInfo"
        [22, 0, 0, vs.ViewportCount, viewports.1, vs.ScissorCount, scissors.1])
    (a.1.Ptr, a.2)
  | none => (0, sb)

/-- The multisample state of `createGraphicsPipeline`. -/
def allocMultisampleState (env : Env) (sb : stateBuilder)
    (m : Option MultisampleStateData) : Nat × stateBuilder :=
  match m with
  | some ms =>
    let sampleMask := allocOptionalWords env sb ms.SampleMask
    let a := MustAllocReadData env sampleMask.2
      (.record "VkPipelineMultisampleStateCreateInfo"
        [24, 0, 0, ms.RasterizationSamples, ms.SampleShadingEnable, ms.MinSampleShading,
          sampleMask.1, ms.AlphaToCoverageEnable, ms.AlphaToOneEnable])
    (a.1.Ptr, a.2)
  | none => (0, sb)

/-- The depth-stencil state of `createGraphicsPipeline`. -/
def allocDepthState (env : Env) (sb : stateBuilder) (d : Option (List Nat)) :
    Nat × stateBuilder :=
  match d with
  | some ds =>
    let a := MustAllocReadData env sb
      (.record "VkPipelineDepthStencilStateCreateInfo" ([25, 0, 0] ++ ds))
    (a.1.Ptr, a.2)
  | none => (0, sb)

/-- The colour-blend state of `createGraphicsPipeline`. -/
def allocColorBlendState (env : Env) (sb : stateBuilder) (c : Option ColorBlendStateData) :
    Nat × stateBuilder :=
  match c with
  | some cbs =>
    let colorblendAttachments := allocOptionalRows env sb
      "VkPipelineColorBlendAttachmentState" cbs.Attachments
    let a := MustAllocReadData env colorblendAttachments.2
      (.record "VkPipelineColorBlendStateCreateInfo"
        ([26, 0, 0, cbs.LogicOpEnable, cbs.LogicOp, cbs.Attachments.length,
          colorblendAttachments.1] ++ cbs.BlendConstants))
    (a.1.Ptr, a.2)
  | none => (0, sb)

/-- The dynamic state of `createGraphicsPipeline`. -/
def allocDynamicState (env : Env) (sb : stateBuilder) (d : Option (List Nat)) :
    Nat × stateBuilder :=
  match d with
  | some dyn =>
    let dynamicStates := allocOptionalWords env sb dyn
    let a := MustAllocReadData env dynamicStates.2
      (.record "VkPipelineDynamicStateCreateInfo" [27, 0, 0, dyn.length, dynamicStates.1])
    (a.1.Ptr, a.2)
  | none => (0, sb)

/-- The allocations of `createGraphicsPipeline` for its create call, from the
loop over the stages to the output handle, in evaluation order. -/
def allocGraphicsPipeline (env : Env) (sb : stateBuilder) (gp : GraphicsPipelineObject)
    (basePipeline : Nat) : stateBuilder :=
  let st := gp.Stages.foldl (shaderStageStep env) ([], sb)
  let stages := st.1
  let tessellationState := allocTessellationState env st.2 gp.TessellationState
  let viewportState := allocViewportState env tessellationState.2 gp.ViewportState
  let multisampleState := allocMultisampleState env viewportState.2 gp.MultisampleState
  let depthState := allocDepthState env multisampleState.2 gp.DepthState
  let colorBlendState := allocColorBlendState env depthState.2 gp.ColorBlendState
  let dynamicState := allocDynamicState env colorBlendState.2 gp.DynamicState
  let pStages := MustAllocReadData env dynamicState.2
    (.records "VkPipelineShaderStageCreateInfo" stages)
  let vb := MustAllocReadData env pStages.2
    (.records "VkVertexInputBindingDescription" gp.VertexInputState.BindingDescriptions)
  let va := MustAllocReadData env vb.2
    (.records "VkVertexInputAttributeDescription" gp.VertexInputState.AttributeDescriptions)
  let vertexInput := MustAllocReadData env va.2
    (.record "VkPipelineVertexInputStateCreateInfo"
      [19, 0, 0, gp.VertexInputState.BindingDescriptions.length, vb.1.Ptr,
        gp.VertexInputState.AttributeDescriptions.length, va.1.Ptr])
  let inputAssembly := MustAllocReadData env vertexInput.2
    (.record "VkPipelineInputAssemblyStateCreateInfo" ([20, 0, 0] ++ gp.InputAssemblyState))
  let rasterization := MustAllocReadData env inputAssembly.2
    (.record "VkPipelineRasterizationStateCreateInfo" ([23, 0, 0] ++ gp.RasterizationState))
  let info := MustAllocReadData env rasterization.2
    (.record "VkGraphicsPipelineCreateInfo"
      [28, 0, gp.Flags, stages.length, pStages.1.Ptr, vertexInput.1.Ptr, inputAssembly.1.Ptr,
        tessellationState.1, viewportState.1, rasterization.1.Ptr, multisampleState.1,
        depthState.1, colorBlendState.1, dynamicState.1, gp.Layout.VulkanHandle,
        gp.RenderPass.VulkanHandle, gp.Subpass, basePipeline, 4294967295])
  (MustAllocWriteData env info.2 (.handle gp.VulkanHandle)).2

/-- The create call of `createGraphicsPipeline`. -/
def graphicsPipelineCall (gp : GraphicsPipelineObject) (basePipeline : Nat) : VkCall :=
  .VkCreateGraphicsPipelines gp.Device (cacheHandle gp.PipelineCache) 1
    { flags := gp.Flags
      stageCount := gp.Stages.length
      pStages := gp.Stages.map (fun s =>
        { stage := s.Stage, module := s.Module.VulkanHandle, pName := s.EntryPoint,
          pSpecializationInfo := s.Specialization })
      layout := gp.Layout.VulkanHandle
      renderPass := gp.RenderPass.VulkanHandle
      subpass := gp.Subpass
      basePipelineHandle := basePipeline
      basePipelineIndex := -1 } gp.VulkanHandle

/-- The destroy command of a temporary render pass, if there is one. -/
def destroyTemporaryRenderPass (env : Env) (sb : stateBuilder) (t : Option MirrorObject) :
    stateBuilder :=
  match t with
  | some r => write env sb (cb (.VkDestroyRenderPass r.Device r.VulkanHandle))
  | none => sb

/-- The destroy command of a temporary pipeline layout, if there is one. -/
def destroyTemporaryPipelineLayout (env : Env) (sb : stateBuilder)
    (t : Option MirrorObject) : stateBuilder :=
  match t with
  | some l => write env sb (cb (.VkDestroyPipelineLayout l.Device l.VulkanHandle))
  | none => sb

/-- The method `createGraphicsPipeline`. -/
def createGraphicsPipeline (env : Env) (sb : stateBuilder) (gp : GraphicsPipelineObject) :
    stateBuilder :=
  let basePipeline := resolveBasePipeline sb.newState.GraphicsPipelines gp.BasePipeline
  let tm := gp.Stages.foldl (temporaryShaderModuleStep env) ([], sb)
  let temporaryShaderModules := tm.1
  let tl := temporaryPipelineLayout env tm.2 gp.Layout
  let tr := temporaryRenderPass env tl.2 gp.RenderPass
  let sb1 := write env (allocGraphicsPipeline env tr.2 gp basePipeline)
    (cb (graphicsPipelineCall gp basePipeline))
  let sb2 := temporaryShaderModules.foldl
    (fun acc m => write env acc (cb (.VkDestroyShaderModule m.Device m.VulkanHandle))) sb1
  let sb3 := destroyTemporaryRenderPass env sb2 tr.1
  destroyTemporaryPipelineLayout env sb3 tl.1

/-- The method `createImageView`. -/
def createImageView (env : Env) (sb : stateBuilder) (iv : ImageViewObject) : stateBuilder :=
  if !Contains sb.newState.Images iv.Image.VulkanHandle then sb
  else
    let a1 := MustAllocReadData env sb
      (.record "VkImageViewCreateInfo"
        ([15, 0, 0, iv.Image.VulkanHandle, iv.Typ, iv.Fmt] ++ iv.Components ++
          iv.SubresourceRange))
    let a2 := MustAllocWriteData env a1.2 (.handle iv.VulkanHandle)
    write env a2.2 (cb (.VkCreateImageView iv.Device
      { image := iv.Image.VulkanHandle, viewType := iv.Typ, format := iv.Fmt,
        components := iv.Components, subresourceRange := iv.SubresourceRange }
      iv.VulkanHandle))

/-- The allocations of `createFramebuffer` for its create call. -/
def allocFramebuffer (env : Env) (sb : stateBuilder) (fb : FramebufferObject) :
    stateBuilder :=
  let imageViews := fb.ImageAttachments.map (fun v => v.VulkanHandle)
  let a1 := MustAllocReadData env sb (.handles imageViews)
  let a2 := MustAllocReadData env a1.2
    (.record "VkFramebufferCreateInfo"
      [37, 0, 0, fb.RenderPass.VulkanHandle, imageViews.length, a1.1.Ptr, fb.Width,
        fb.Height, fb.Layers])
  (MustAllocWriteData env a2.2 (.handle fb.VulkanHandle)).2

/-- The method `createFramebuffer`. -/
def createFramebuffer (env : Env) (sb : stateBuilder) (fb : FramebufferObject) :
    stateBuilder :=
  let tr := temporaryRenderPass env sb fb.RenderPass
  let imageViews := fb.ImageAttachments.map (fun v => v.VulkanHandle)
  let sb1 := write env (allocFramebuffer env tr.2 fb)
    (cb (.VkCreateFramebuffer fb.Device
      { renderPass := fb.RenderPass.VulkanHandle, attachmentCount := imageViews.length,
        pAttachments := imageViews, width := fb.Width, height := fb.Height,
        layers := fb.Layers } fb.VulkanHandle))
  destroyTemporaryRenderPass env sb1 tr.1

/-- The loops of `createInstance` and `createDevice` over the names of the
enabled layers or extensions: each name is allocated and its address
appended to the list of pointers. -/
def allocNames (env : Env) (sb : stateBuilder) (names : List String) :
    List Nat × stateBuilder :=
  names.foldl (fun acc name =>
    let a := MustAllocReadData env acc.2 (.text name)
    (acc.1 ++ [a.1.Ptr], a.2)) ([], sb)

/-- The names of the enabled layers of an instance in the order in which the
loop `for _, layer := range inst.EnabledLayers().Range()` of `createInstance`
visits them. -/
def instanceLayers (env : Env) (inst : InstanceObject) : List String :=
  goRange env.mapOrder (rangeId 360 inst.VulkanHandle) inst.EnabledLayers

/-- The names of the enabled extensions of an instance in the order in which
the loop `for _, ext := range inst.EnabledExtensions().Range()` of
`createInstance` visits them. -/
def instanceExtensions (env : Env) (inst : InstanceObject) : List String :=
  goRange env.mapOrder (rangeId 364 inst.VulkanHandle) inst.EnabledExtensions

/-- The allocations of `createInstance`. -/
def allocInstance (env : Env) (sb : stateBuilder) (inst : InstanceObject) : stateBuilder :=
  let enabledLayers := allocNames env sb (instanceLayers env inst)
  let enabledExtensions := allocNames env enabledLayers.2 (instanceExtensions env inst)
  let a1 := MustAllocReadData env enabledExtensions.2 (.handles enabledLayers.1)
  let a2 := MustAllocReadData env a1.2 (.handles enabledExtensions.1)
  let a3 := MustAllocReadData env a2.2
    (.record "VkInstanceCreateInfo"
      [1, 0, 0, 0, inst.EnabledLayers.length, a1.1.Ptr, inst.EnabledExtensions.length,
        a2.1.Ptr])
  (MustAllocWriteData env a3.2 (.handle inst.VulkanHandle)).2

/-- The method `createInstance`. The arrays of names hold the names in the
order in which the two loops visited them. -/
def createInstance (env : Env) (sb : stateBuilder) (inst : InstanceObject) : stateBuilder :=
  write env (allocInstance env sb inst)
    (cb (.VkCreateInstance
      { enabledLayerCount := inst.EnabledLayers.length,
        ppEnabledLayerNames := instanceLayers env inst,
        enabledExtensionCount := inst.EnabledExtensions.length,
        ppEnabledExtensionNames := instanceExtensions env inst } inst.VulkanHandle))

/-- The map `devices` of `createPhysicalDevices` after its first loop: an
entry for each instance with the handles of its physical devices in key
order. -/
def physicalDeviceGroups (m : List PhysicalDeviceObject) : List (Nat × List Nat) :=
  m.foldl (fun devices v =>
    goMapPut devices v.Instance (goMapGet devices v.Instance [] ++ [v.VulkanHandle])) []

/-- The serialised fields of `VkPhysicalDeviceMemoryProperties`. -/
def memoryPropertiesFields (p : VkPhysicalDeviceMemoryProperties) : List Nat :=
  [p.MemoryTypeCount] ++ (p.MemoryTypes.map (fun x => [x.PropertyFlags, x.HeapIndex])).flatten ++
    [p.MemoryHeapCount] ++ p.MemoryHeaps.flatten

/-- The serialised rows of a map of `VkQueueFamilyProperties`. -/
def queueFamilyRows (m : List (Nat × VkQueueFamilyProperties)) : List (List Nat) :=
  m.map (fun e =>
    [e.2.QueueFlags, e.2.QueueCount, e.2.TimestampValidBits] ++ e.2.MinImageTransferGranularity)

/-- Body of the loop `for _, device := range devs` of
`createPhysicalDevices`. -/
def physicalDeviceStep (env : Env) (m : List PhysicalDeviceObject) (sb : stateBuilder)
    (device : Nat) : stateBuilder :=
  match m.find? (fun o => o.VulkanHandle == device) with
  | none => sb
  | some pd =>
    let a := MustAllocWriteData env sb
      (.record "VkPhysicalDeviceProperties" pd.PhysicalDeviceProperties)
    let sb := write env a.2
      (cb (.VkGetPhysicalDeviceProperties device pd.PhysicalDeviceProperties))
    let a := MustAllocWriteData env sb
      (.record "VkPhysicalDeviceMemoryProperties" (memoryPropertiesFields pd.MemoryProperties))
    let sb := write env a.2
      (cb (.VkGetPhysicalDeviceMemoryProperties device pd.MemoryProperties))
    let a := MustAllocWriteData env sb (.record "int" [pd.QueueFamilyProperties.length])
    let sb := write env a.2
      (cb (.VkGetPhysicalDeviceQueueFamilyProperties device pd.QueueFamilyProperties.length
        none))
    let a1 := MustAllocReadData env sb (.record "int" [pd.QueueFamilyProperties.length])
    let a2 := MustAllocWriteData env a1.2
      (.records "VkQueueFamilyProperties" (queueFamilyRows pd.QueueFamilyProperties))
    write env a2.2
      (cb (.VkGetPhysicalDeviceQueueFamilyProperties device pd.QueueFamilyProperties.length
        (some pd.QueueFamilyProperties)))

/-- Body of the loop `for i, devs := range devices` of
`createPhysicalDevices`. -/
def physicalDeviceGroupStep (env : Env) (m : List PhysicalDeviceObject) (sb : stateBuilder)
    (group : Nat × List Nat) : stateBuilder :=
  let i := group.1
  let devs := group.2
  let a := MustAllocWriteData env sb (.record "int" [devs.length])
  let sb := write env a.2 (cb (.VkEnumeratePhysicalDevices i devs.length none))
  let a1 := MustAllocReadData env sb (.record "int" [devs.length])
  let a2 := MustAllocReadData env a1.2 (.handles devs)
  let sb := write env a2.2 (cb (.VkEnumeratePhysicalDevices i devs.length (some devs)))
  devs.foldl (physicalDeviceStep env m) sb

/-- The method `createPhysicalDevices`. The map `devices` is visited in the
iteration order of the `range` statement, which is identified by the number
of commands emitted before it. -/
def createPhysicalDevices (env : Env) (sb : stateBuilder) (m : List PhysicalDeviceObject) :
    stateBuilder :=
  (goMapRange env.mapOrder sb.cmds.length (physicalDeviceGroups m)).foldl
    (physicalDeviceGroupStep env m) sb

/-- The create call of a surface: the call of its type with the address of
a create info whose fields are all zero, `none` for a type that the `switch`
of `createSurface` does not list. -/
def surfaceCall (su : SurfaceObject) : Option (Value × VkCall) :=
  match su.Typ with
  | .SURFACE_TYPE_XCB =>
    some (.record "VkXcbSurfaceCreateInfoKHR" [1000005000, 0, 0, 0, 0],
      .VkCreateXcbSurfaceKHR su.Instance su.VulkanHandle)
  | .SURFACE_TYPE_ANDROID =>
    some (.record "VkAndroidSurfaceCreateInfoKHR" [1000008000, 0, 0, 0],
      .VkCreateAndroidSurfaceKHR su.Instance su.VulkanHandle)
  | .SURFACE_TYPE_WIN32 =>
    some (.record "VkWin32SurfaceCreateInfoKHR" [1000009000, 0, 0, 0, 0],
      .VkCreateWin32SurfaceKHR su.Instance su.VulkanHandle)
  | .SURFACE_TYPE_WAYLAND =>
    some (.record "VkWaylandSurfaceCreateInfoKHR" [1000006000, 0, 0, 0, 0],
      .VkCreateWaylandSurfaceKHR su.Instance su.VulkanHandle)
  | .SURFACE_TYPE_XLIB =>
    some (.record "VkXlibSurfaceCreateInfoKHR" [1000004000, 0, 0, 0, 0],
      .VkCreateXlibSurfaceKHR su.Instance su.VulkanHandle)
  | .SURFACE_TYPE_MIR =>
    some (.record "VkMirSurfaceCreateInfoKHR" [1000007000, 0, 0, 0, 0],
      .VkCreateMirSurfaceKHR su.Instance su.VulkanHandle)
  | .SURFACE_TYPE_UNKNOWN => none

/-- The method `createSurface`. -/
def createSurface (env : Env) (sb : stateBuilder) (su : SurfaceObject) : stateBuilder :=
  match surfaceCall su with
  | none => sb
  | some (info, call) =>
    let a1 := MustAllocReadData env sb info
    let a2 := MustAllocWriteData env a1.2 (.handle su.VulkanHandle)
    write env a2.2 (cb call)

/-- Body of the loop `for k, v := range queueCreate` of `createDevice`: the
priorities of the family are allocated and the row of its
`VkDeviceQueueCreateInfo` appended. -/
def deviceQueueCreateStep (env : Env) (dq : DeviceQueues)
    (acc : List (List Nat) × stateBuilder) (kv : Nat × Nat) : List (List Nat) × stateBuilder :=
  let a := MustAllocReadData env acc.2 (.words (goMapGet dq.queuePriorities kv.1 []))
  (acc.1 ++ [[2, 0, 0, kv.1, kv.2, a.1.Ptr]], a.2)

/-- The names of the enabled layers of a device in the order in which the
loop `for _, layer := range d.EnabledLayers().Range()` of `createDevice`
visits them. -/
def deviceLayers (env : Env) (d : DeviceObject) : List String :=
  goRange env.mapOrder (rangeId 525 d.VulkanHandle) d.EnabledLayers

/-- The names of the enabled extensions of a device in the order in which the
loop `for _, ext := range d.EnabledExtensions().Range()` of `createDevice`
visits them. -/
def deviceExtensions (env : Env) (d : DeviceObject) : List String :=
  goRange env.mapOrder (rangeId 529 d.VulkanHandle) d.EnabledExtensions

/-- The allocations of `createDevice`. -/
def allocDevice (env : Env) (sb : stateBuilder) (d : DeviceObject) : stateBuilder :=
  let enabledLayers := allocNames env sb (deviceLayers env d)
  let enabledExtensions := allocNames env enabledLayers.2 (deviceExtensions env d)
  let dq := deviceQueues d
  let reorderedQueueCreates := (goMapRange env.mapOrder sb.cmds.length dq.queueCreate).foldl
    (deviceQueueCreateStep env dq) ([], enabledExtensions.2)
  let a1 := MustAllocReadData env reorderedQueueCreates.2
    (.records "VkDeviceQueueCreateInfo" reorderedQueueCreates.1)
  let a2 := MustAllocReadData env a1.2 (.handles enabledLayers.1)
  let a3 := MustAllocReadData env a2.2 (.handles enabledExtensions.1)
  let a4 := MustAllocReadData env a3.2 (.record "VkPhysicalDeviceFeatures" d.EnabledFeatures)
  let a5 := MustAllocReadData env a4.2
    (.record "VkDeviceCreateInfo"
      [3, 0, 0, reorderedQueueCreates.1.length, a1.1.Ptr, enabledLayers.1.length, a2.1.Ptr,
        enabledExtensions.1.length, a3.1.Ptr, a4.1.Ptr])
  (MustAllocWriteData env a5.2 (.handle d.VulkanHandle)).2

/-- The method `createDevice`. The map `queueCreate` is visited in the
iteration order of the `range` statement, which is identified by the number
of commands emitted before it; the arrays of names hold the names in the
order in which the loops over the layers and the extensions visited them. -/
def createDevice (env : Env) (sb : stateBuilder) (d : DeviceObject) : stateBuilder :=
  let infos := deviceQueueCreateInfos env.mapOrder sb.cmds.length d
  write env (allocDevice env sb d)
    (cb (.VkCreateDevice d.PhysicalDevice
      { queueCreateInfoCount := infos.length,
        pQueueCreateInfos := infos,
        enabledLayerCount := (deviceLayers env d).length,
        ppEnabledLayerNames := deviceLayers env d,
        enabledExtensionCount := (deviceExtensions env d).length,
        ppEnabledExtensionNames := deviceExtensions env d,
        pEnabledFeatures := d.EnabledFeatures } d.VulkanHandle))

/-- The method `createQueue`. -/
def createQueue (env : Env) (sb : stateBuilder) (q : QueueObject) : stateBuilder :=
  let a := MustAllocWriteData env sb (.handle q.VulkanHandle)
  write env a.2 (cb (.VkGetDeviceQueue q.Device q.Family q.Index q.VulkanHandle))

/-- The method `getCommandBuffer`: the identifiers of the command buffer and
of the command pool, and the builder. -/
def getCommandBuffer (env : Env) (s : State) (sb : stateBuilder) (queue : QueueObject) :
    (Nat × Nat) × stateBuilder :=
  let commandBufferID := env.newUnusedID true
    (fun x => s.CommandBuffers.any (fun o => o.VulkanHandle == x))
  let commandPoolID := env.newUnusedID true
    (fun x => s.CommandPools.any (fun o => o.VulkanHandle == x))
  let a1 := MustAllocReadData env sb (.record "VkCommandPoolCreateInfo" [39, 0, 0, queue.Family])
  let a2 := MustAllocWriteData env a1.2 (.handle commandPoolID)
  let sb := write env a2.2 (cb (.VkCreateCommandPool queue.Device 0 queue.Family commandPoolID))
  let a1 := MustAllocReadData env sb
    (.record "VkCommandBufferAllocateInfo" [40, 0, commandPoolID, 0, 1])
  let a2 := MustAllocWriteData env a1.2 (.handle commandBufferID)
  let sb := write env a2.2
    (cb (.VkAllocateCommandBuffers queue.Device commandPoolID 0 1 commandBufferID))
  let a1 := MustAllocReadData env sb (.record "VkCommandBufferBeginInfo" [42, 0, 0, 0])
  let sb := write env a1.2 (cb (.VkBeginCommandBuffer commandBufferID 0 none))
  ((commandBufferID, commandPoolID), sb)

/-- The method `endSubmitAndDestroyCommandBuffer`. -/
def endSubmitAndDestroyCommandBuffer (env : Env) (sb : stateBuilder) (queue : QueueObject)
    (commandBuffer commandPool : Nat) : stateBuilder :=
  let sb := write env sb (cb (.VkEndCommandBuffer commandBuffer))
  let a1 := MustAllocReadData env sb (.handle commandBuffer)
  let a2 := MustAllocReadData env a1.2
    (.record "VkSubmitInfo" [4, 0, 0, 0, 0, 1, a1.1.Ptr, 0, 0])
  let sb := write env a2.2
    (cb (.VkQueueSubmit queue.VulkanHandle 1
      { commandBufferCount := 1, pCommandBuffers := [commandBuffer],
        signalSemaphoreCount := 0, pSignalSemaphores := [] } 0))
  let sb := write env sb (cb (.VkQueueWaitIdle queue.VulkanHandle))
  write env sb (cb (.VkDestroyCommandPool queue.Device commandPool))

/-- The access mask `(VK_ACCESS_MEMORY_WRITE_BIT - 1) | VK_ACCESS_MEMORY_WRITE_BIT`
of the barriers. -/
def allAccessMask : Nat := (65536 - 1) ||| 65536

/-- The flag `VK_PIPELINE_STAGE_ALL_COMMANDS_BIT`. -/
def VK_PIPELINE_STAGE_ALL_COMMANDS_BIT : Nat := 65536

/-- The method `transitionImage`; `none` when the source calls an accessor of
the nil queue `newQueue`. -/
def transitionImage (env : Env) (s : State) (sb : stateBuilder) (image : ImageObject)
    (oldLayout newLayout : Nat) (oldQueue newQueue : Option QueueObject) :
    Option stateBuilder :=
  match image.LastBoundQueue with
  | none => some sb
  | some lastBoundQueue =>
    let cbp := getCommandBuffer env s sb lastBoundQueue
    match newQueue with
    | none => none
    | some newQueue =>
      let newFamily := newQueue.Family
      let oldFamily := match oldQueue with
        | some q => q.Family
        | none => newQueue.Family
      let subresourceRange :=
        [image.ImageAspect, 0, image.Info.MipLevels, 0, image.Info.ArrayLayers]
      let a := MustAllocReadData env cbp.2
        (.record "VkImageMemoryBarrier"
          ([45, 0, allAccessMask, allAccessMask, oldLayout, newLayout, oldFamily, newFamily,
            image.VulkanHandle] ++ subresourceRange))
      let sb := write env a.2
        (cb (.VkCmdPipelineBarrier cbp.1.1 VK_PIPELINE_STAGE_ALL_COMMANDS_BIT
          VK_PIPELINE_STAGE_ALL_COMMANDS_BIT 0 []
          [{ srcAccessMask := allAccessMask, dstAccessMask := allAccessMask,
             oldLayout := oldLayout, newLayout := newLayout,
             srcQueueFamilyIndex := oldFamily, dstQueueFamilyIndex := newFamily,
             image := image.VulkanHandle, subresourceRange := subresourceRange }]))
      some (endSubmitAndDestroyCommandBuffer env sb newQueue cbp.1.1 cbp.1.2)

/-- A fold with a step that may fail. -/
def foldlOption {α β : Type} (f : α → β → Option α) : α → List β → Option α
  | a, [] => some a
  | a, x :: xs =>
    match f a x with
    | none => none
    | some a' => foldlOption f a' xs

/-- The method `createSwapchain`. The last loop visits the images of the
swapchain in the iteration order of its `range` over the Go map
`swp.SwapchainImages().Range()`. -/
def createSwapchain (env : Env) (s : State) (sb : stateBuilder) (swp : SwapchainObject) :
    Option stateBuilder :=
  let a1 := MustAllocReadData env sb (.words swp.Info.QueueFamilyIndices)
  let a2 := MustAllocReadData env a1.2
    (.record "VkSwapchainCreateInfoKHR"
      ([1000001000, 0, 0, swp.Surface, swp.SwapchainImages.length, swp.Info.Fmt, swp.ColorSpace]
        ++ swp.Info.Extent.take 2 ++
        [swp.Info.ArrayLayers, swp.Info.Usage, swp.Info.SharingMode,
          swp.Info.QueueFamilyIndices.length, a1.1.Ptr, swp.PreTransform, swp.CompositeAlpha,
          swp.PresentMode, swp.Clipped, 0]))
  let a3 := MustAllocWriteData env a2.2 (.handle swp.VulkanHandle)
  let sb := write env a3.2
    (cb (.VkCreateSwapchainKHR swp.Device
      { surface := swp.Surface, minImageCount := swp.SwapchainImages.length,
        imageInfo := swp.Info, imageColorSpace := swp.ColorSpace,
        preTransform := swp.PreTransform, compositeAlpha := swp.CompositeAlpha,
        presentMode := swp.PresentMode, clipped := swp.Clipped } swp.VulkanHandle))
  let a := MustAllocWriteData env sb (.words [swp.SwapchainImages.length])
  let sb := write env a.2
    (cb (.VkGetSwapchainImagesKHR swp.Device swp.VulkanHandle swp.SwapchainImages.length none))
  let images := swp.SwapchainImages.map (fun v => v.VulkanHandle)
  let a1 := MustAllocReadData env sb (.words [swp.SwapchainImages.length])
  let a2 := MustAllocWriteData env a1.2 (.handles images)
  let sb := write env a2.2
    (cb (.VkGetSwapchainImagesKHR swp.Device swp.VulkanHandle swp.SwapchainImages.length
      (some images)))
  foldlOption (fun sb v =>
    let q := getQueueFor env.mapOrder (rangeId 698 v.VulkanHandle) s v.LastBoundQueue v.Device
      (some v.Info.QueueFamilyIndices)
    transitionImage env s sb v 0 v.Info.Layout none q) sb
    (goRange env.mapOrder (rangeId 697 swp.VulkanHandle) swp.SwapchainImages)

/-- The method `createDeviceMemory`. -/
def createDeviceMemory (env : Env) (sb : stateBuilder) (mem : DeviceMemoryObject)
    (allowDedicatedNV : Bool) : stateBuilder :=
  if !allowDedicatedNV && mem.DedicatedAllocationNV.isSome then sb
  else
    let pNext : Nat × stateBuilder :=
      match mem.DedicatedAllocationNV with
      | some d =>
        let a := MustAllocReadData env sb
          (.record "VkDedicatedAllocationMemoryAllocateInfoNV" [1000026002, 0, d.1, d.2])
        (a.1.Ptr, a.2)
      | none => (0, sb)
    let a1 := MustAllocReadData env pNext.2
      (.record "VkMemoryAllocateInfo" [5, pNext.1, mem.AllocationSize, mem.MemoryTypeIndex])
    let a2 := MustAllocWriteData env a1.2 (.handle mem.VulkanHandle)
    let sb := write env a2.2
      (cb (.VkAllocateMemory mem.Device
        { pNext := mem.DedicatedAllocationNV, allocationSize := mem.AllocationSize,
          memoryTypeIndex := mem.MemoryTypeIndex } mem.VulkanHandle))
    if mem.MappedLocation ≠ 0 then
      let a := MustAllocWriteData env sb (.record "Voidᵖ" [mem.MappedLocation])
      write env a.2
        (cb (.VkMapMemory mem.Device mem.VulkanHandle mem.MappedOffset mem.MappedSize 0
          mem.MappedLocation))
    else sb

/-- The flag `VK_BUFFER_USAGE_TRANSFER_SRC_BIT`. -/
def VK_BUFFER_USAGE_TRANSFER_SRC_BIT : Nat := 1

/-- The flag `VK_BUFFER_USAGE_TRANSFER_DST_BIT`. -/
def VK_BUFFER_USAGE_TRANSFER_DST_BIT : Nat := 2

/-- The release `Free()` of an allocation made with `AllocDataOrPanic`. -/
def freeAlloc (env : Env) (sb : stateBuilder) (a : AllocResult) : stateBuilder :=
  { sb with allocator := env.free sb.allocator a.Base a.Size }

/-- The method `allocAndFillScratchBuffer`: the identifiers of the scratch
buffer and of its memory, and the builder; `none` when the physical device
of `device` is not in the snapshot (`GetScratchBufferMemoryIndex`). -/
def allocAndFillScratchBuffer (env : Env) (s : State) (sb : stateBuilder)
    (device : DeviceObject) (data : List Nat) (usages : List Nat) :
    Option ((Nat × Nat) × stateBuilder) :=
  let buffer := env.newUnusedID true (fun x => s.Buffers.any (fun o => o.VulkanHandle == x))
  let deviceMemory := env.newUnusedID true
    (fun x => s.DeviceMemories.any (fun o => o.VulkanHandle == x))
  let size := data.length
  let usageFlags := usages.foldl (fun f u => f ||| u) VK_BUFFER_USAGE_TRANSFER_SRC_BIT
  let a1 := MustAllocReadData env sb
    (.record "VkBufferCreateInfo" [12, 0, 0, size, usageFlags, 0, 0, 0])
  let a2 := MustAllocWriteData env a1.2 (.handle buffer)
  let sb := write env a2.2
    (cb (.VkCreateBuffer device.VulkanHandle
      { pNext := none, flags := 0, size := size, usage := usageFlags, sharingMode := 0,
        queueFamilyIndexCount := 0, pQueueFamilyIndices := [] } buffer))
  match GetScratchBufferMemoryIndex s device with
  | none => none
  | some memoryTypeIndex =>
    let allocSize := scratchAllocSize size
    let a1 := MustAllocReadData env sb
      (.record "VkMemoryAllocateInfo" [5, 0, allocSize, memoryTypeIndex])
    let a2 := MustAllocWriteData env a1.2 (.handle deviceMemory)
    let sb := write env a2.2
      (cb (.VkAllocateMemory device.VulkanHandle
        { pNext := none, allocationSize := allocSize, memoryTypeIndex := memoryTypeIndex }
        deviceMemory))
    let sb := write env sb (cb (.VkBindBufferMemory device.VulkanHandle buffer deviceMemory 0))
    let dat := AllocDataOrPanic env sb (.bytes data)
    let atdata := AllocDataOrPanic env dat.2 (.record "Voidᵖ" [dat.1.Ptr])
    let sb := write env atdata.2
      (((cb (.VkMapMemory device.VulkanHandle deviceMemory 0 size 0 dat.1.Ptr)).AddRead
        atdata.1.toObservation).AddWrite atdata.1.toObservation)
    let a := MustAllocReadData env sb (.record "VkMappedMemoryRange" [6, 0, deviceMemory, 0, size])
    let sb := write env a.2
      ((cb (.VkFlushMappedMemoryRanges device.VulkanHandle 1
        { memory := deviceMemory, offset := 0, size := size })).AddRead dat.1.toObservation)
    let sb := write env sb (cb (.VkUnmapMemory device.VulkanHandle deviceMemory))
    let sb := freeAlloc env sb dat.1
    let sb := freeAlloc env sb atdata.1
    some ((buffer, deviceMemory), sb)

/-- The method `freeScratchBuffer`. -/
def freeScratchBuffer (env : Env) (sb : stateBuilder) (device : DeviceObject)
    (buffer mem : Nat) : stateBuilder :=
  let sb := write env sb (cb (.VkDestroyBuffer device.VulkanHandle buffer))
  write env sb (cb (.VkFreeMemory device.VulkanHandle mem))

/-- The call `sb.s.DeviceMemories().Get(h)`; `none` is the nil reference. -/
def State.DeviceMemory (s : State) (h : Nat) : Option DeviceMemoryObject :=
  s.DeviceMemories.find? (fun o => o.VulkanHandle == h)

/-- The call `sb.s.Devices().Get(h)`; `none` is the nil reference. -/
def State.Device (s : State) (h : Nat) : Option DeviceObject :=
  s.Devices.find? (fun o => o.VulkanHandle == h)

/-- The loop of the sparse path that creates the memories of the bindings
of a resource with dedicated allocation info: each memory once, in the order
of the bindings. `memories` is the set of the memories met so far; `none`
when a memory is not in the snapshot. -/
def createBoundMemories (env : Env) (s : State) :
    List Nat → List Nat → stateBuilder → Option stateBuilder
  | [], _, sb => some sb
  | m :: rest, memories, sb =>
    if memories.contains m then createBoundMemories env s rest memories sb
    else
      match s.DeviceMemory m with
      | none => none
      | some mem =>
        createBoundMemories env s rest (m :: memories) (createDeviceMemory env sb mem true)

/-- Local variables of `createBuffer` that its loop over the sparse bindings
updates. -/
structure BufferContents where
  contents : List Nat
  copies : List VkBufferCopy
  offset : Nat
deriving DecidableEq, Repr, Inhabited

/-- Body of the loop of `createBuffer` that reads the data of the sparse
bindings; `none` when the memory of the binding is not in the snapshot. -/
def sparseBindingStep (s : State) (acc : BufferContents) (bind : VkSparseMemoryBind) :
    Option BufferContents :=
  let size := bind.Size
  match s.DeviceMemory bind.Memory with
  | none => none
  | some mem =>
    let data := Slice mem.Data bind.MemoryOffset ((bind.MemoryOffset + size) % U64)
    some
      { contents := acc.contents ++ data
        copies := acc.copies ++
          [{ srcOffset := acc.offset, dstOffset := bind.ResourceOffset, size := size }]
        offset := nextMultipleOf8 ((acc.offset + size) % U64) }

/-- The state of `createBuffer` where its two paths meet: either the method
has returned, or the buffer is to be filled with `contents` by the copies
`copies`; `oldFamilyIndex` is `none` for the value `-1`. -/
inductive BufferPath
  | returned (sb : stateBuilder)
  | fill (sb : stateBuilder) (contents : List Nat) (copies : List VkBufferCopy)
      (oldFamilyIndex : Option Nat)

/-- The allocations of the `VkQueueBindSparse` call of `createBuffer`. -/
def allocBufferBindSparse (env : Env) (sb : stateBuilder) (buffer : BufferObject) :
    stateBuilder :=
  let binds := buffer.SparseMemoryBindings.map (fun e => e.2)
  let a1 := MustAllocReadData env sb
    (.records "VkSparseMemoryBind"
      (binds.map (fun b => [b.ResourceOffset, b.Size, b.Memory, b.MemoryOffset, b.Flags])))
  let a2 := MustAllocReadData env a1.2
    (.record "VkSparseBufferMemoryBindInfo" [buffer.VulkanHandle, binds.length, a1.1.Ptr])
  (MustAllocReadData env a2.2
    (.record "VkBindSparseInfo" [7, 0, 0, 0, 1, a2.1.Ptr, 0, 0, 0, 0, 0, 0])).2

/-- The branch of `createBuffer` for a buffer with sparse memory bindings;
`none` when the sparse queue is nil or a lookup in the snapshot fails where
the source calls an accessor of the result. The two loops over the bindings
visit them in the iteration order of their `range` over the Go map
`buffer.SparseMemoryBindings().Range()`; the array of the bind info holds
them in key order. -/
def bufferSparsePath (env : Env) (s : State) (sb : stateBuilder) (buffer : BufferObject)
    (queue : Option QueueObject) (sparseResidency : Bool) : Option BufferPath :=
  match queue with
  | none => some (.returned sb)
  | some _ =>
    match getSparseQueueFor env.mapOrder (rangeId 1034 buffer.VulkanHandle) s
        buffer.LastBoundQueue buffer.Device (some buffer.Info.QueueFamilyIndices) with
    | none => none
    | some none => none
    | some (some sparseQueue) =>
      let binds := buffer.SparseMemoryBindings.map (fun e => e.2)
      let created : Option stateBuilder :=
        if buffer.Info.DedicatedAllocationNV.isSome then
          createBoundMemories env s
            ((goRange env.mapOrder (rangeId 1037 buffer.VulkanHandle) binds).map
              (fun b => b.Memory)) [] sb
        else some sb
      match created with
      | none => none
      | some sb =>
        let sb := write env (allocBufferBindSparse env sb buffer)
          (cb (.VkQueueBindSparse sparseQueue.VulkanHandle 1
            { bufferBindCount := 1,
              pBufferBinds := some
                { resource := buffer.VulkanHandle, bindCount := binds.length, pBinds := binds },
              imageOpaqueBindCount := 0, pImageOpaqueBinds := none,
              imageBindCount := 0, pImageBinds := none } 0))
        if sparseResidency || IsFullyBound 0 buffer.Info.Size buffer.SparseMemoryBindings then
          match foldlOption (sparseBindingStep s)
              { contents := [], copies := [], offset := 0 }
              (goRange env.mapOrder (rangeId 1074 buffer.VulkanHandle) binds) with
          | none => none
          | some r => some (.fill sb r.contents r.copies (some sparseQueue.Family))
        else some (.fill sb [] [] (some sparseQueue.Family))

/-- The branch of `createBuffer` for a buffer without sparse memory
bindings. -/
def bufferDensePath (env : Env) (sb : stateBuilder) (buffer : BufferObject) : BufferPath :=
  match buffer.Memory with
  | none => .returned sb
  | some memory =>
    let sb := write env sb
      (cb (.VkBindBufferMemory buffer.Device buffer.VulkanHandle memory.VulkanHandle
        buffer.MemoryOffset))
    let size := buffer.Info.Size
    let data := Slice memory.Data buffer.MemoryOffset ((buffer.MemoryOffset + size) % U64)
    .fill sb data [{ srcOffset := 0, dstOffset := 0, size := size }] none

/-- A buffer memory barrier of `createBuffer` over the first `size` bytes of
a buffer. -/
def bufferBarrier (src dst buffer size : Nat) : VkBufferMemoryBarrier :=
  { srcAccessMask := allAccessMask, dstAccessMask := allAccessMask,
    srcQueueFamilyIndex := src, dstQueueFamilyIndex := dst, buffer := buffer, offset := 0,
    size := size }

/-- The write of a `VkCmdPipelineBarrier` call with one buffer memory
barrier. -/
def writeBufferBarrier (env : Env) (sb : stateBuilder) (commandBuffer : Nat)
    (b : VkBufferMemoryBarrier) : stateBuilder :=
  let a := MustAllocReadData env sb
    (.record "VkBufferMemoryBarrier"
      [44, 0, b.srcAccessMask, b.dstAccessMask, b.srcQueueFamilyIndex, b.dstQueueFamilyIndex,
        b.buffer, b.offset, b.size])
  write env a.2
    (cb (.VkCmdPipelineBarrier commandBuffer VK_PIPELINE_STAGE_ALL_COMMANDS_BIT
      VK_PIPELINE_STAGE_ALL_COMMANDS_BIT 0 [b] []))

/-- The part of `createBuffer` from the call of `allocAndFillScratchBuffer`
on: the buffer is filled with `contents`; `none` when the queue is nil or
the device of the buffer or its physical device is not in the snapshot. -/
def fillBuffer (env : Env) (s : State) (sb : stateBuilder) (buffer : BufferObject)
    (queue : Option QueueObject) (contents : List Nat) (copies : List VkBufferCopy)
    (oldFamilyIndex : Option Nat) : Option stateBuilder :=
  match s.Device buffer.Device with
  | none => none
  | some device =>
    match allocAndFillScratchBuffer env s sb device contents
        [VK_BUFFER_USAGE_TRANSFER_SRC_BIT] with
    | none => none
    | some scratch =>
      let scratchBuffer := scratch.1.1
      let scratchMemory := scratch.1.2
      match queue with
      | none => none
      | some queue =>
        let cbp := getCommandBuffer env s scratch.2 queue
        let commandBuffer := cbp.1.1
        let commandPool := cbp.1.2
        let families : Nat × Nat :=
          match oldFamilyIndex with
          | none => (0, 0)
          | some old => (old, queue.Family)
        let sb := writeBufferBarrier env cbp.2 commandBuffer
          (bufferBarrier families.1 families.2 scratchBuffer contents.length)
        let a := MustAllocReadData env sb
          (.records "VkBufferCopy" (copies.map (fun c => [c.srcOffset, c.dstOffset, c.size])))
        let sb := write env a.2
          (cb (.VkCmdCopyBuffer commandBuffer scratchBuffer buffer.VulkanHandle copies.length
            copies))
        let sb := writeBufferBarrier env sb commandBuffer
          (bufferBarrier 0 0 buffer.VulkanHandle contents.length)
        let sb := endSubmitAndDestroyCommandBuffer env sb queue commandBuffer commandPool
        some (freeScratchBuffer env sb device scratchBuffer scratchMemory)

/-- The allocations of the `VkCreateBuffer` call of `createBuffer`. -/
def allocBuffer (env : Env) (sb : stateBuilder) (buffer : BufferObject) : stateBuilder :=
  let pNext : Nat × stateBuilder :=
    match buffer.Info.DedicatedAllocationNV with
    | some d =>
      let a := MustAllocReadData env sb
        (.record "VkDedicatedAllocationBufferCreateInfoNV" [1000026001, 0, d])
      (a.1.Ptr, a.2)
    | none => (0, sb)
  let a1 := MustAllocReadData env pNext.2 (.words buffer.Info.QueueFamilyIndices)
  let a2 := MustAllocReadData env a1.2
    (.record "VkBufferCreateInfo"
      [12, pNext.1, buffer.Info.CreateFlags, buffer.Info.Size,
        (buffer.Info.Usage % U32) ||| VK_BUFFER_USAGE_TRANSFER_DST_BIT, buffer.Info.SharingMode,
        buffer.Info.QueueFamilyIndices.length, a1.1.Ptr])
  (MustAllocWriteData env a2.2 (.handle buffer.VulkanHandle)).2

/-- The first part of `createBuffer`: the calls `VkCreateBuffer` and
`VkGetBufferMemoryRequirements`, and the creation of the memory of the buffer
if the buffer or the memory has dedicated allocation info. -/
def createBufferAndMemory (env : Env) (sb : stateBuilder) (buffer : BufferObject) :
    stateBuilder :=
  let sb := write env (allocBuffer env sb buffer)
    (cb (.VkCreateBuffer buffer.Device
      { pNext := buffer.Info.DedicatedAllocationNV, flags := buffer.Info.CreateFlags,
        size := buffer.Info.Size,
        usage := (buffer.Info.Usage % U32) ||| VK_BUFFER_USAGE_TRANSFER_DST_BIT,
        sharingMode := buffer.Info.SharingMode,
        queueFamilyIndexCount := buffer.Info.QueueFamilyIndices.length,
        pQueueFamilyIndices := buffer.Info.QueueFamilyIndices } buffer.VulkanHandle))
  let a := MustAllocWriteData env sb
    (.record "VkMemoryRequirements"
      [buffer.MemoryRequirements.Size, buffer.MemoryRequirements.Alignment,
        buffer.MemoryRequirements.MemoryTypeBits])
  let sb := write env a.2
    (cb (.VkGetBufferMemoryRequirements buffer.Device buffer.VulkanHandle
      buffer.MemoryRequirements))
  match buffer.Memory with
  | some memory =>
    if buffer.Info.DedicatedAllocationNV.isSome || memory.DedicatedAllocationNV.isSome then
      createDeviceMemory env sb memory true
    else sb
  | none => sb

/-- The second part of `createBuffer`, for a buffer that is bound: the path
of the buffer and the filling of the buffer. -/
def bindAndFillBuffer (env : Env) (s : State) (sb : stateBuilder) (buffer : BufferObject) :
    Option stateBuilder :=
  let sparseBinding := (buffer.Info.CreateFlags % U64) &&& 1 != 0
  let sparseResidency := sparseBinding && ((buffer.Info.CreateFlags % U64) &&& 2 != 0)
  let queue := getQueueFor env.mapOrder (rangeId 1023 buffer.VulkanHandle) s
    buffer.LastBoundQueue buffer.Device (some buffer.Info.QueueFamilyIndices)
  let path : Option BufferPath :=
    if buffer.SparseMemoryBindings.length > 0 then
      bufferSparsePath env s sb buffer queue sparseResidency
    else some (bufferDensePath env sb buffer)
  match path with
  | none => none
  | some (.returned sb) => some sb
  | some (.fill sb contents copies oldFamilyIndex) =>
    fillBuffer env s sb buffer queue contents copies oldFamilyIndex

/-- The method `createBuffer`; `none` when the source calls an accessor of a
nil reference (see `bufferSparsePath` and `fillBuffer`). -/
def createBuffer (env : Env) (s : State) (sb : stateBuilder) (buffer : BufferObject) :
    Option stateBuilder :=
  let denseBound := buffer.Memory.isSome
  let sparseBound := buffer.SparseMemoryBindings.length > 0
  let sb := createBufferAndMemory env sb buffer
  if !denseBound && !sparseBound then some sb
  else bindAndFillBuffer env s sb buffer

/-- The flag `VK_IMAGE_USAGE_TRANSFER_DST_BIT`. -/
def VK_IMAGE_USAGE_TRANSFER_DST_BIT : Nat := 2

/-- The flag `VK_IMAGE_USAGE_STORAGE_BIT`. -/
def VK_IMAGE_USAGE_STORAGE_BIT : Nat := 8

/-- The flag `VK_IMAGE_USAGE_COLOR_ATTACHMENT_BIT`. -/
def VK_IMAGE_USAGE_COLOR_ATTACHMENT_BIT : Nat := 16

/-- The flag `VK_IMAGE_USAGE_DEPTH_STENCIL_ATTACHMENT_BIT`. -/
def VK_IMAGE_USAGE_DEPTH_STENCIL_ATTACHMENT_BIT : Nat := 32

/-- The layout `VK_IMAGE_LAYOUT_UNDEFINED`. -/
def VK_IMAGE_LAYOUT_UNDEFINED : Nat := 0

/-- The sample count `VK_SAMPLE_COUNT_1_BIT`. -/
def VK_SAMPLE_COUNT_1_BIT : Nat := 1

/-- The priming mode that `createImage` selects: the variables
`primeByBufCopy`, `primeByRendering` and `primeByImageStore` computed from
the usage of the image, and the mode that the chain of `if` statements at
the end of the method calls (`none`: no priming method is called). -/
def primingMode (usage : Nat) : Option PrimingMode :=
  let transDstBit := VK_IMAGE_USAGE_TRANSFER_DST_BIT
  let attBits := VK_IMAGE_USAGE_COLOR_ATTACHMENT_BIT ||| VK_IMAGE_USAGE_DEPTH_STENCIL_ATTACHMENT_BIT
  let storageBit := VK_IMAGE_USAGE_STORAGE_BIT
  let primeByBufCopy := (usage &&& transDstBit) != 0
  let primeByRendering := (!primeByBufCopy) && ((usage &&& attBits) != 0)
  let primeByImageStore := (!primeByBufCopy) && (!primeByRendering) &&
    ((usage &&& storageBit) != 0)
  if primeByBufCopy then some .primeByBufferCopy
  else if primeByRendering then some .primeByRendering
  else if primeByImageStore then some .primeByImageStore
  else none

/-- The serialised fields of an image info in the order of
`VkImageCreateInfo`. -/
def imageInfoFields (info : ImageInfo) : List Nat :=
  [info.Flags, info.ImageType, info.Fmt] ++ info.Extent ++
    [info.MipLevels, info.ArrayLayers, info.Samples, info.Tiling, info.Usage, info.SharingMode,
      info.QueueFamilyIndices.length]

/-- Modelled from the spec: the helper `vkCreateImage` (defined with the
image primer, absent from the sources) emits `CreateImage` for the image
info, with a `VkDedicatedAllocationImageCreateInfoNV` in `pNext` when the
info carries one. -/
def vkCreateImage (env : Env) (sb : stateBuilder) (device : Nat) (info : ImageInfo)
    (handle : Nat) : stateBuilder :=
  let pNext : Nat × stateBuilder :=
    match info.DedicatedAllocationNV with
    | some d =>
      let a := MustAllocReadData env sb
        (.record "VkDedicatedAllocationImageCreateInfoNV" [1000026000, 0, d])
      (a.1.Ptr, a.2)
    | none => (0, sb)
  let a1 := MustAllocReadData env pNext.2 (.words info.QueueFamilyIndices)
  let a2 := MustAllocReadData env a1.2
    (.record "VkImageCreateInfo" ([14, pNext.1] ++ imageInfoFields info ++ [a1.1.Ptr, 0]))
  let a3 := MustAllocWriteData env a2.2 (.handle handle)
  write env a3.2 (cb (.VkCreateImage device info handle))

/-- Modelled from the spec: the helper `vkGetImageMemoryRequirements`
(absent from the sources) emits `GetImageMemoryRequirements` with the
requirements as write observation. -/
def vkGetImageMemoryRequirements (env : Env) (sb : stateBuilder) (device handle : Nat)
    (memReq : VkMemoryRequirements) : stateBuilder :=
  let a := MustAllocWriteData env sb
    (.record "VkMemoryRequirements" [memReq.Size, memReq.Alignment, memReq.MemoryTypeBits])
  write env a.2 (cb (.VkGetImageMemoryRequirements device handle memReq))

/-- Modelled from the spec: the helper `vkBindImageMemory` (absent from the
sources) emits `BindImageMemory`. -/
def vkBindImageMemory (env : Env) (sb : stateBuilder) (device image memory offset : Nat) :
    stateBuilder :=
  write env sb (cb (.VkBindImageMemory device image memory offset))

/-- The blocks of the sparse image bindings of an image in the order of the
nested loops of `createImage` (aspect, layer, level, block), each as the
`VkSparseImageMemoryBind` that the loops build for it. Each loop visits its
Go map in the iteration order of its `range`. -/
def sparseImageBinds (order : MapOrder) (img : ImageObject) : List VkSparseImageMemoryBind :=
  let h := img.VulkanHandle
  ((goMapRange order (rangeId 1364 h) img.SparseImageMemoryBindings).map (fun a =>
    ((goMapRange order (rangeId 1365 (Nat.pair h a.1)) a.2.Layers).map (fun l =>
      ((goMapRange order (rangeId 1366 (Nat.pair h (Nat.pair a.1 l.1))) l.2.Levels).map
        (fun v =>
          (goRange order (rangeId 1367 (Nat.pair h (Nat.pair a.1 (Nat.pair l.1 v.1))))
              v.2.Blocks).map (fun block =>
            ({ aspectMask := a.1, mipLevel := v.1, arrayLayer := l.1, offset := block.Offset,
               extent := block.Extent, memory := block.Memory,
               memoryOffset := block.MemoryOffset, flags := block.Flags } :
              VkSparseImageMemoryBind)))).flatten)).flatten)).flatten

/-- The allocations of the `VkQueueBindSparse` call of `createImage`. -/
def allocImageBindSparse (env : Env) (sb : stateBuilder) (img : ImageObject)
    (nonSparseInfos : List VkSparseImageMemoryBind) : stateBuilder :=
  let binds := img.OpaqueSparseMemoryBindings.map (fun e => e.2)
  let a1 := MustAllocReadData env sb
    (.records "VkSparseMemoryBind"
      (binds.map (fun b => [b.ResourceOffset, b.Size, b.Memory, b.MemoryOffset, b.Flags])))
  let a2 := MustAllocReadData env a1.2
    (.record "VkSparseImageOpaqueMemoryBindInfo" [img.VulkanHandle, binds.length, a1.1.Ptr])
  let a3 := MustAllocReadData env a2.2
    (.records "VkSparseImageMemoryBind"
      (nonSparseInfos.map (fun b =>
        [b.aspectMask, b.mipLevel, b.arrayLayer] ++ b.offset ++ b.extent ++
          [b.memory, b.memoryOffset, b.flags])))
  let a4 := MustAllocReadData env a3.2
    (.record "VkSparseImageMemoryBindInfo" [img.VulkanHandle, nonSparseInfos.length, a3.1.Ptr])
  (MustAllocReadData env a4.2
    (.record "VkBindSparseInfo" [7, 0, 0, 0, 0, 0, 1, a2.1.Ptr, 0, a4.1.Ptr, 0, 0])).2

/-- The aspect `VK_IMAGE_ASPECT_METADATA_BIT`. -/
def VK_IMAGE_ASPECT_METADATA_BIT : Nat := 8

/-- The flag `VK_SPARSE_IMAGE_FORMAT_SINGLE_MIPTAIL_BIT`. -/
def VK_SPARSE_IMAGE_FORMAT_SINGLE_MIPTAIL_BIT : Nat := 1

/-- The variable `isMetadataBound` of `createImage` after its loop over the
sparse memory requirements, which visits them in the iteration order of its
`range` over the Go map `img.SparseMemoryRequirements().Range()`. -/
def isMetadataBound (order : MapOrder) (img : ImageObject) : Bool :=
  (goRange order (rangeId 1430 img.VulkanHandle) img.SparseMemoryRequirements).foldl
    (fun bound req =>
      if (req.AspectMask % U64) &&& VK_IMAGE_ASPECT_METADATA_BIT ≠ 0 then
        IsFullyBound req.ImageMipTailOffset req.ImageMipTailSize img.OpaqueSparseMemoryBindings
      else bound) false

/-- The subresource ranges that one sparse memory requirement of a sparse
residency image adds to `opaqueRanges`. -/
def mipTailRanges (img : ImageObject) (req : VkSparseImageMemoryRequirements) :
    List (List Nat) :=
  let levelCount := (img.Info.MipLevels + U32 - req.ImageMipTailFirstLod) % U32
  if (req.Flags % U64) &&& VK_SPARSE_IMAGE_FORMAT_SINGLE_MIPTAIL_BIT ≠ 0 then
    if !IsFullyBound req.ImageMipTailOffset req.ImageMipTailSize
        img.OpaqueSparseMemoryBindings then []
    else [[img.ImageAspect, req.ImageMipTailFirstLod, levelCount, 0, img.Info.ArrayLayers]]
  else
    (List.range img.Info.ArrayLayers).filterMap (fun i =>
      let offset := (req.ImageMipTailOffset + (i * req.ImageMipTailStride) % U64) % U64
      if !IsFullyBound offset req.ImageMipTailSize img.OpaqueSparseMemoryBindings then none
      else some [img.ImageAspect, req.ImageMipTailFirstLod, levelCount, i, 1])

/-- The subresource ranges `opaqueRanges` of an image with sparse bindings;
the loop over the sparse memory requirements visits them in the iteration
order of its `range` over the Go map. -/
def sparseOpaqueRanges (order : MapOrder) (img : ImageObject) (sparseResidency : Bool) :
    List (List Nat) :=
  if sparseResidency then
    if !isMetadataBound order img then []
    else ((goRange order (rangeId 1440 img.VulkanHandle) img.SparseMemoryRequirements).map
      (mipTailRanges img)).flatten
  else if IsFullyBound 0 img.MemoryRequirements.Size img.OpaqueSparseMemoryBindings then
    [[img.ImageAspect, 0, img.Info.MipLevels, 0, img.Info.ArrayLayers]]
  else []

/-- The state of `createImage` where its two paths meet: either the method
has returned, or the image is bound, with the sparse queue and the
subresource ranges to prime. -/
inductive ImagePath
  | returned (sb : stateBuilder)
  | bound (sb : stateBuilder) (sparseQueue : Option QueueObject)
      (opaqueRanges : List (List Nat))

/-- The branch of `createImage` for an image with sparse bindings; `none`
when the sparse queue is nil or a lookup in the snapshot fails where the
source calls an accessor of the result. -/
def imageSparsePath (env : Env) (s : State) (sb : stateBuilder) (img : ImageObject)
    (queue : Option QueueObject) (sparseResidency : Bool) : Option ImagePath :=
  match queue with
  | none => some (.returned sb)
  | some _ =>
    match getSparseQueueFor env.mapOrder (rangeId 1359 img.VulkanHandle) s img.LastBoundQueue
        img.Device (some img.Info.QueueFamilyIndices) with
    | none => none
    | some sparseQueue =>
      let nonSparseInfos : List VkSparseImageMemoryBind :=
        if img.Info.DedicatedAllocationNV.isSome then sparseImageBinds env.mapOrder img
        else []
      match createBoundMemories env s (nonSparseInfos.map (fun b => b.memory)) [] sb with
      | none => none
      | some sb =>
        match sparseQueue with
        | none => none
        | some q =>
          let binds := img.OpaqueSparseMemoryBindings.map (fun e => e.2)
          let sb := write env (allocImageBindSparse env sb img nonSparseInfos)
            (cb (.VkQueueBindSparse q.VulkanHandle 1
              { bufferBindCount := 0, pBufferBinds := none,
                imageOpaqueBindCount := 1,
                pImageOpaqueBinds := some
                  { resource := img.VulkanHandle, bindCount := binds.length, pBinds := binds },
                imageBindCount := 0,
                pImageBinds := some
                  { image := img.VulkanHandle, bindCount := nonSparseInfos.length,
                    pBinds := nonSparseInfos } } 0))
          some (.bound sb sparseQueue (sparseOpaqueRanges env.mapOrder img sparseResidency))

/-- The branch of `createImage` for an image without sparse bindings. -/
def imageDensePath (env : Env) (sb : stateBuilder) (img : ImageObject) : ImagePath :=
  match img.BoundMemory with
  | none => .returned sb
  | some memory =>
    .bound
      (vkBindImageMemory env sb img.Device img.VulkanHandle memory.VulkanHandle
        img.BoundMemoryOffset)
      none [[img.ImageAspect, 0, img.Info.MipLevels, 0, img.Info.ArrayLayers]]

/-- The part of `createImage` after the image was bound: the tests of the
layout and of the sample count, and the call of the priming method. -/
def primeImage (env : Env) (s : State) (sb : stateBuilder) (img : ImageObject)
    (queue sparseQueue : Option QueueObject) (opaqueRanges : List (List Nat)) :
    Option stateBuilder :=
  if img.Info.Layout = VK_IMAGE_LAYOUT_UNDEFINED then some sb
  else if img.Info.Samples ≠ VK_SAMPLE_COUNT_1_BIT then
    transitionImage env s sb img VK_IMAGE_LAYOUT_UNDEFINED img.Info.Layout sparseQueue queue
  else
    match primingMode img.Info.Usage with
    | some mode => some (env.prime mode sb img opaqueRanges queue sparseQueue)
    | none => some sb

/-- The first part of `createImage`: the calls `CreateImage` and
`GetImageMemoryRequirements`, and the creation of the memory of the image if
the image or the memory has dedicated allocation info. -/
def createImageAndMemory (env : Env) (sb : stateBuilder) (img : ImageObject) : stateBuilder :=
  let sb := vkCreateImage env sb img.Device img.Info img.VulkanHandle
  let sb := vkGetImageMemoryRequirements env sb img.Device img.VulkanHandle
    img.MemoryRequirements
  match img.BoundMemory with
  | some memory =>
    if img.Info.DedicatedAllocationNV.isSome || memory.DedicatedAllocationNV.isSome then
      createDeviceMemory env sb memory true
    else sb
  | none => sb

/-- The state of `createImage` after its sparse or its dense branch. -/
def imagePath (env : Env) (s : State) (sb : stateBuilder) (img : ImageObject) :
    Option ImagePath :=
  let sparseBinding := (img.Info.Flags % U64) &&& 1 != 0
  let sparseResidency := sparseBinding && ((img.Info.Flags % U64) &&& 2 != 0)
  let queue := getQueueFor env.mapOrder (rangeId 1349 img.VulkanHandle) s img.LastBoundQueue
    img.Device (some img.Info.QueueFamilyIndices)
  if img.OpaqueSparseMemoryBindings.length > 0 ||
      img.SparseImageMemoryBindings.length > 0 then
    imageSparsePath env s sb img queue sparseResidency
  else some (imageDensePath env sb img)

/-- The second part of `createImage`, for an image that is bound: the path
of the image and its priming. -/
def bindAndPrimeImage (env : Env) (s : State) (sb : stateBuilder) (img : ImageObject) :
    Option stateBuilder :=
  let queue := getQueueFor env.mapOrder (rangeId 1349 img.VulkanHandle) s img.LastBoundQueue
    img.Device (some img.Info.QueueFamilyIndices)
  match imagePath env s sb img with
  | none => none
  | some (.returned sb) => some sb
  | some (.bound sb sparseQueue opaqueRanges) =>
    primeImage env s sb img queue sparseQueue opaqueRanges

/-- The method `createImage`; `none` when the source calls an accessor of a
nil reference (see `imageSparsePath` and `transitionImage`). -/
def createImage (env : Env) (s : State) (sb : stateBuilder) (img : ImageObject) :
    Option stateBuilder :=
  if img.IsSwapchainImage then some sb
  else
    let denseBound := img.BoundMemory.isSome
    let sparseBound := img.SparseImageMemoryBindings.length > 0 ||
      img.OpaqueSparseMemoryBindings.length > 0
    let sb := createImageAndMemory env sb img
    if !denseBound && !sparseBound then some sb
    else bindAndPrimeImage env s sb img

/-- A builder that allocates a create info and the handle and emits one
create call. -/
def createSimple (env : Env) (sb : stateBuilder) (info : Value) (handle : Nat)
    (call : VkCall) : stateBuilder :=
  let a1 := MustAllocReadData env sb info
  let a2 := MustAllocWriteData env a1.2 (.handle handle)
  write env a2.2 (cb call)

/-- The method `createSampler`. -/
def createSampler (env : Env) (sb : stateBuilder) (smp : SamplerObject) : stateBuilder :=
  createSimple env sb (.record "VkSamplerCreateInfo" ([31, 0, 0] ++ smp.Fields))
    smp.VulkanHandle (.VkCreateSampler smp.Device smp.Fields smp.VulkanHandle)

/-- The method `createFence`. -/
def createFence (env : Env) (sb : stateBuilder) (fnc : FenceObject) : stateBuilder :=
  let flags := if fnc.Signaled then 1 else 0
  createSimple env sb (.record "VkFenceCreateInfo" [8, 0, flags]) fnc.VulkanHandle
    (.VkCreateFence fnc.Device flags fnc.VulkanHandle)

/-- The queue on which `createSemaphore` signals a semaphore: its last queue
if that is a queue of the snapshot, else the queue on the device of the
semaphore that the loop `for _, q := range sb.s.Queues().Range()` visits last
in the iteration order of its `range` over the Go map, if there is one. -/
def semaphoreQueue (order : MapOrder) (s : State) (sem : SemaphoreObject) : Nat :=
  if s.Queues.any (fun q => q.VulkanHandle == sem.LastQueue) then sem.LastQueue
  else (goRange order (rangeId 1593 sem.VulkanHandle) s.Queues).foldl
    (fun queue q => if q.Device = sem.Device then q.VulkanHandle else queue) sem.LastQueue

/-- The method `createSemaphore`. -/
def createSemaphore (env : Env) (s : State) (sb : stateBuilder) (sem : SemaphoreObject) :
    stateBuilder :=
  let sb := createSimple env sb (.record "VkSemaphoreCreateInfo" [9, 0, 0]) sem.VulkanHandle
    (.VkCreateSemaphore sem.Device sem.VulkanHandle)
  if !sem.Signaled then sb
  else
    let queue := semaphoreQueue env.mapOrder s sem
    let a1 := MustAllocReadData env sb (.handle sem.VulkanHandle)
    let a2 := MustAllocReadData env a1.2
      (.record "VkSubmitInfo" [4, 0, 0, 0, 0, 0, 0, 1, a1.1.Ptr])
    write env a2.2
      (cb (.VkQueueSubmit queue 1
        { commandBufferCount := 0, pCommandBuffers := [], signalSemaphoreCount := 1,
          pSignalSemaphores := [sem.VulkanHandle] } 0))

/-- The method `createEvent`. -/
def createEvent (env : Env) (sb : stateBuilder) (evt : EventObject) : stateBuilder :=
  let sb := createSimple env sb (.record "VkEventCreateInfo" [10, 0, 0]) evt.VulkanHandle
    (.VkCreateEvent evt.Device evt.VulkanHandle)
  if evt.Signaled then write env sb (cb (.VkSetEvent evt.Device evt.VulkanHandle)) else sb

/-- The method `createCommandPool`. -/
def createCommandPool (env : Env) (sb : stateBuilder) (cp : CommandPoolObject) :
    stateBuilder :=
  createSimple env sb
    (.record "VkCommandPoolCreateInfo" [39, 0, cp.Flags, cp.QueueFamilyIndex]) cp.VulkanHandle
    (.VkCreateCommandPool cp.Device cp.Flags cp.QueueFamilyIndex cp.VulkanHandle)

/-- The method `createPipelineCache`. -/
def createPipelineCache (env : Env) (sb : stateBuilder) (pc : PipelineCacheObject) :
    stateBuilder :=
  createSimple env sb (.record "VkPipelineCacheCreateInfo" [17, 0, 0, 0, 0]) pc.VulkanHandle
    (.VkCreatePipelineCache pc.Device pc.VulkanHandle)

/-- The method `createBufferView`. -/
def createBufferView (env : Env) (sb : stateBuilder) (bv : BufferViewObject) : stateBuilder :=
  if !Contains sb.newState.Buffers bv.Buffer.VulkanHandle then sb
  else
    createSimple env sb
      (.record "VkBufferViewCreateInfo"
        [13, 0, 0, bv.Buffer.VulkanHandle, bv.Fmt, bv.Offset, bv.Range])
      bv.VulkanHandle
      (.VkCreateBufferView bv.Device bv.Buffer.VulkanHandle bv.Fmt bv.Offset bv.Range
        bv.VulkanHandle)

/-- The method `createDescriptorPool`. -/
def createDescriptorPool (env : Env) (sb : stateBuilder) (dp : DescriptorPoolObject) :
    stateBuilder :=
  let a1 := MustAllocReadData env sb (.records "VkDescriptorPoolSize" dp.Sizes)
  let a2 := MustAllocReadData env a1.2
    (.record "VkDescriptorPoolCreateInfo"
      [33, 0, dp.Flags, dp.MaxSets, dp.Sizes.length, a1.1.Ptr])
  let a3 := MustAllocWriteData env a2.2 (.handle dp.VulkanHandle)
  write env a3.2
    (cb (.VkCreateDescriptorPool dp.Device dp.Flags dp.MaxSets dp.Sizes dp.VulkanHandle))

/-- Local variables of `createDescriptorSet` that its loops update: the
serialised rows of `writes`, the writes themselves and the builder. -/
structure DescriptorWrites where
  rows : List (List Nat)
  writes : List VkWriteDescriptorSet
  sb : stateBuilder

/-- The appending of one `VkWriteDescriptorSet` to `writes`: the payload is
allocated and its address stored in the pointer field at position `field`
(`0`: `pImageInfo`, `1`: `pBufferInfo`, `2`: `pTexelBufferView`). -/
def appendDescriptorWrite (env : Env) (acc : DescriptorWrites) (w : VkWriteDescriptorSet)
    (payload : Value) (field : Nat) : DescriptorWrites :=
  let a := MustAllocReadData env acc.sb payload
  { rows := acc.rows ++
      [[35, 0, w.dstSet, w.dstBinding, w.dstArrayElement, w.descriptorCount, w.descriptorType]
        ++ ([0, 0, 0].set field a.1.Ptr)]
    writes := acc.writes ++ [w]
    sb := a.2 }

/-- The test of `createDescriptorSet` on element `im` of an image binding:
no `continue` statement is reached. -/
def imageDescriptorValid (ns : Mirror) (bindingType : Nat) (im : VkDescriptorImageInfo) :
    Bool :=
  if im.Sampler == 0 && im.ImageView == 0 then false
  else if bindingType == 1 && (im.Sampler == 0 || im.ImageView == 0) then false
  else if im.Sampler != 0 && !Contains ns.Samplers im.Sampler then false
  else if im.ImageView != 0 && !Contains ns.ImageViews im.ImageView then false
  else true

/-- The writes of one binding of a descriptor set (the body of the loop
`for _, k := range ds.Bindings().Keys()` of `createDescriptorSet`). The
descriptor types are `0` sampler, `1` combined image sampler, `2` sampled
image, `3` storage image, `4` uniform texel buffer, `5` storage texel buffer,
`6` uniform buffer, `7` storage buffer, `8` and `9` their dynamic variants,
`10` input attachment. -/
def descriptorBindingStep (env : Env) (ns : Mirror) (ds : DescriptorSetObject)
    (acc : DescriptorWrites) (kb : Nat × DescriptorBinding) : DescriptorWrites :=
  let k := kb.1
  let binding := kb.2
  let t := binding.BindingType
  if t = 0 ∨ t = 1 ∨ t = 2 ∨ t = 3 ∨ t = 10 then
    binding.ImageBinding.enum.foldl (fun acc e =>
      if imageDescriptorValid ns t e.2 then
        appendDescriptorWrite env acc
          { dstSet := ds.VulkanHandle, dstBinding := k, dstArrayElement := e.1,
            descriptorCount := 1, descriptorType := t, pImageInfo := some e.2,
            pBufferInfo := none, pTexelBufferView := none }
          (.record "VkDescriptorImageInfo" [e.2.Sampler, e.2.ImageView, e.2.ImageLayout]) 0
      else acc) acc
  else if t = 6 ∨ t = 7 ∨ t = 8 ∨ t = 9 then
    binding.BufferBinding.enum.foldl (fun acc e =>
      if e.2.Buffer = 0 then acc
      else if !Contains ns.Buffers e.2.Buffer then acc
      else
        appendDescriptorWrite env acc
          { dstSet := ds.VulkanHandle, dstBinding := k, dstArrayElement := e.1,
            descriptorCount := 1, descriptorType := t, pImageInfo := none,
            pBufferInfo := some e.2, pTexelBufferView := none }
          (.record "VkDescriptorBufferInfo" [e.2.Buffer, e.2.Offset, e.2.Range]) 1) acc
  else if t = 4 ∨ t = 5 then
    binding.BufferViewBindings.enum.foldl (fun acc e =>
      if e.2 = 0 then acc
      else if !Contains ns.BufferViews e.2 then acc
      else
        appendDescriptorWrite env acc
          { dstSet := ds.VulkanHandle, dstBinding := k, dstArrayElement := e.1,
            descriptorCount := 1, descriptorType := t, pImageInfo := none,
            pBufferInfo := none, pTexelBufferView := some e.2 }
          (.handle e.2) 2) acc
  else acc

/-- The method `createDescriptorSet`. -/
def createDescriptorSet (env : Env) (sb : stateBuilder) (ds : DescriptorSetObject) :
    stateBuilder :=
  if !Contains sb.newState.DescriptorPools ds.DescriptorPool then sb
  else
    let a1 := MustAllocReadData env sb (.handle ds.Layout)
    let a2 := MustAllocReadData env a1.2
      (.record "VkDescriptorSetAllocateInfo" [34, 0, ds.DescriptorPool, 1, a1.1.Ptr])
    let a3 := MustAllocWriteData env a2.2 (.handle ds.VulkanHandle)
    let sb := write env a3.2
      (cb (.VkAllocateDescriptorSets ds.Device ds.DescriptorPool ds.Layout ds.VulkanHandle))
    let w := ds.Bindings.foldl (descriptorBindingStep env sb.newState ds)
      { rows := [], writes := [], sb := sb }
    let a := MustAllocReadData env w.sb (.records "VkWriteDescriptorSet" w.rows)
    write env a.2 (cb (.VkUpdateDescriptorSets ds.Device w.writes.length w.writes))

/-- Body of the loop `for i := uint32(0); i < qp.QueryCount(); i++` of
`createQueryPool`. -/
def queryStep (env : Env) (qp : QueryPoolObject) (commandBuffer : Nat) (sb : stateBuilder)
    (i : Nat) : stateBuilder :=
  let sb := if qp.Status.getD i 0 ≠ 0 then
      write env sb (cb (.VkCmdBeginQuery commandBuffer qp.VulkanHandle i 0))
    else sb
  if qp.Status.getD i 0 = 2 then
    write env sb (cb (.VkCmdEndQuery commandBuffer qp.VulkanHandle i))
  else sb

/-- The method `createQueryPool`; `none` when a query is active and no queue
of the snapshot is on the device of the pool (`getCommandBuffer` is called
with the nil queue). -/
def createQueryPool (env : Env) (s : State) (sb : stateBuilder) (qp : QueryPoolObject) :
    Option stateBuilder :=
  let sb := createSimple env sb
    (.record "VkQueryPoolCreateInfo" [11, 0, 0, qp.QueryType, qp.QueryCount,
      qp.PipelineStatistics])
    qp.VulkanHandle
    (.VkCreateQueryPool qp.Device qp.QueryType qp.QueryCount qp.PipelineStatistics
      qp.VulkanHandle)
  let anyActive := qp.Status.any (fun k => k != 0)
  if !anyActive then some sb
  else
    match getQueueFor env.mapOrder (rangeId 2386 qp.VulkanHandle) s none qp.Device none with
    | none => none
    | some queue =>
      let cbp := getCommandBuffer env s sb queue
      let sb := (List.range qp.QueryCount).foldl (queryStep env qp cbp.1.1) cbp.2
      some (endSubmitAndDestroyCommandBuffer env sb queue cbp.1.1 cbp.1.2)

/-- The loop of `createCommandBuffer` over the command references: the
builder and the variable `hasError`. -/
def recordCommands (env : Env) (commandBuffer : Nat) :
    stateBuilder → List CommandReference → stateBuilder × Bool
  | sb, [] => (sb, false)
  | sb, r :: rest =>
    match env.addCommand sb.newState commandBuffer r with
    | none => (sb, true)
    | some cmd => recordCommands env commandBuffer
        (write env sb (cb (.Recorded commandBuffer cmd))) rest

/-- The level `VK_COMMAND_BUFFER_LEVEL_PRIMARY`. -/
def VK_COMMAND_BUFFER_LEVEL_PRIMARY : Nat := 0

/-- The level `VK_COMMAND_BUFFER_LEVEL_SECONDARY`. -/
def VK_COMMAND_BUFFER_LEVEL_SECONDARY : Nat := 1

/-- The call `VkBeginCommandBuffer` of `createCommandBuffer` with its
allocations. -/
def beginCommandBuffer (env : Env) (sb : stateBuilder) (c : CommandBufferObject) :
    stateBuilder :=
  let inheritance : List Nat :=
    [c.BeginInfo.InheritedRenderPass, c.BeginInfo.InheritedSubpass,
      c.BeginInfo.InheritedFramebuffer, c.BeginInfo.InheritedOcclusionQuery,
      c.BeginInfo.InheritedQueryFlags, c.BeginInfo.InheritedPipelineStatsFlags]
  let inheritanceInfo : Nat × stateBuilder :=
    if c.BeginInfo.Inherited then
      let a := MustAllocReadData env sb
        (.record "VkCommandBufferInheritanceInfo" ([41, 0] ++ inheritance))
      (a.1.Ptr, a.2)
    else (0, sb)
  let a := MustAllocReadData env inheritanceInfo.2
    (.record "VkCommandBufferBeginInfo" [42, 0, c.BeginInfo.Flags, inheritanceInfo.1])
  write env a.2
    (cb (.VkBeginCommandBuffer c.VulkanHandle c.BeginInfo.Flags
      (if c.BeginInfo.Inherited then some inheritance else none)))

/-- The method `createCommandBuffer`. -/
def createCommandBuffer (env : Env) (sb : stateBuilder) (c : CommandBufferObject)
    (level : Nat) : stateBuilder :=
  if c.Level ≠ level then sb
  else
    let a1 := MustAllocReadData env sb
      (.record "VkCommandBufferAllocateInfo" [40, 0, c.Pool, c.Level, 1])
    let a2 := MustAllocWriteData env a1.2 (.handle c.VulkanHandle)
    let sb := write env a2.2
      (cb (.VkAllocateCommandBuffers c.Device c.Pool c.Level 1 c.VulkanHandle))
    if c.Recording = .NOT_STARTED then sb
    else
      let r := recordCommands env c.VulkanHandle (beginCommandBuffer env sb c)
        c.CommandReferences
      if r.2 then r.1
      else if c.Recording = .COMPLETED then
        write env r.1 (cb (.VkEndCommandBuffer c.VulkanHandle))
      else r.1

/-! ## The orchestrator -/

/-- The builder state at the start of `RebuildState`. -/
def initialBuilder (freeList : FreeList) : stateBuilder :=
  { newState := {}, allocator := freeList, cmds := [], readMemories := [],
    writeMemories := [], memoryIntervals := [] }

/-- The loop `for _, cp := range getPipelinesInOrder(s, true)`. -/
def rebuildComputePipelines (env : Env) (s : State) (order : List Nat)
    (sb : stateBuilder) : stateBuilder :=
  order.foldl (fun sb cp =>
    match s.ComputePipelines.find? (fun o => o.VulkanHandle == cp) with
    | some o => createComputePipeline env sb o
    | none => sb) sb

/-- The loop `for _, gp := range getPipelinesInOrder(s, false)`. -/
def rebuildGraphicsPipelines (env : Env) (s : State) (order : List Nat)
    (sb : stateBuilder) : stateBuilder :=
  order.foldl (fun sb gp =>
    match s.GraphicsPipelines.find? (fun o => o.VulkanHandle == gp) with
    | some o => createGraphicsPipeline env sb o
    | none => sb) sb

/-- The kinds of objects in the order of the loops of `RebuildState`; the
command buffers are visited twice, for the secondary and for the primary
level. -/
inductive ObjectKind
  | Instance | PhysicalDevice | Surface | Device | Queue | Swapchain | DeviceMemory | Buffer
  | Image | Sampler | Fence | Semaphore | Event | CommandPool | PipelineCache
  | DescriptorSetLayout | PipelineLayout | RenderPass | ShaderModule | ComputePipeline
  | GraphicsPipeline | ImageView | BufferView | DescriptorPool | Framebuffer | DescriptorSet
  | QueryPool | SecondaryCommandBuffer | PrimaryCommandBuffer
deriving DecidableEq, Repr, Inhabited

/-- The loop of `RebuildState` over the objects of one kind (for images with
the release of the image primer that follows it), given the results `cps` and
`gps` of the two calls of `getPipelinesInOrder`; `none` when a builder call
of the loop has no result. -/
def rebuildKind (env : Env) (s : State) (cps gps : List Nat) :
    ObjectKind → stateBuilder → Option stateBuilder
  | .Instance, sb => some (s.Instances.foldl (createInstance env) sb)
  | .PhysicalDevice, sb => some (createPhysicalDevices env sb s.PhysicalDevices)
  | .Surface, sb => some (s.Surfaces.foldl (createSurface env) sb)
  | .Device, sb => some (s.Devices.foldl (createDevice env) sb)
  | .Queue, sb => some (s.Queues.foldl (createQueue env) sb)
  | .Swapchain, sb => foldlOption (createSwapchain env s) sb s.Swapchains
  | .DeviceMemory, sb =>
    some (s.DeviceMemories.foldl (fun sb mem => createDeviceMemory env sb mem false) sb)
  | .Buffer, sb => foldlOption (createBuffer env s) sb s.Buffers
  | .Image, sb => (foldlOption (createImage env s) sb s.Images).map env.primerFree
  | .Sampler, sb => some (s.Samplers.foldl (createSampler env) sb)
  | .Fence, sb => some (s.Fences.foldl (createFence env) sb)
  | .Semaphore, sb => some (s.Semaphores.foldl (createSemaphore env s) sb)
  | .Event, sb => some (s.Events.foldl (createEvent env) sb)
  | .CommandPool, sb => some (s.CommandPools.foldl (createCommandPool env) sb)
  | .PipelineCache, sb => some (s.PipelineCaches.foldl (createPipelineCache env) sb)
  | .DescriptorSetLayout, sb =>
    some (s.DescriptorSetLayouts.foldl (createDescriptorSetLayout env) sb)
  | .PipelineLayout, sb => some (s.PipelineLayouts.foldl (createPipelineLayout env) sb)
  | .RenderPass, sb => some (s.RenderPasses.foldl (createRenderPass env) sb)
  | .ShaderModule, sb => some (s.ShaderModules.foldl (createShaderModule env) sb)
  | .ComputePipeline, sb => some (rebuildComputePipelines env s cps sb)
  | .GraphicsPipeline, sb => some (rebuildGraphicsPipelines env s gps sb)
  | .ImageView, sb => some (s.ImageViews.foldl (createImageView env) sb)
  | .BufferView, sb => some (s.BufferViews.foldl (createBufferView env) sb)
  | .DescriptorPool, sb => some (s.DescriptorPools.foldl (createDescriptorPool env) sb)
  | .Framebuffer, sb => some (s.Framebuffers.foldl (createFramebuffer env) sb)
  | .DescriptorSet, sb => some (s.DescriptorSets.foldl (createDescriptorSet env) sb)
  | .QueryPool, sb => foldlOption (createQueryPool env s) sb s.QueryPools
  | .SecondaryCommandBuffer, sb =>
    some (s.CommandBuffers.foldl
      (fun sb c => createCommandBuffer env sb c VK_COMMAND_BUFFER_LEVEL_SECONDARY) sb)
  | .PrimaryCommandBuffer, sb =>
    some (s.CommandBuffers.foldl
      (fun sb c => createCommandBuffer env sb c VK_COMMAND_BUFFER_LEVEL_PRIMARY) sb)

/-- The builder after the loops of the kinds `kinds`, in the order of the
list, started from the builder `sb`. -/
def rebuildKinds (env : Env) (s : State) (cps gps : List Nat) (kinds : List ObjectKind)
    (sb : stateBuilder) : Option stateBuilder :=
  foldlOption (fun sb k => rebuildKind env s cps gps k sb) sb kinds

/-- The kinds that `RebuildState` visits before the first call of
`getPipelinesInOrder`, in the order of its loops. -/
def kindsBeforePipelines : List ObjectKind :=
  [.Instance, .PhysicalDevice, .Surface, .Device, .Queue, .Swapchain, .DeviceMemory, .Buffer,
    .Image, .Sampler, .Fence, .Semaphore, .Event, .CommandPool, .PipelineCache,
    .DescriptorSetLayout, .PipelineLayout, .RenderPass, .ShaderModule]

/-- The kinds that `RebuildState` visits after the graphics pipelines, in
the order of its loops. -/
def kindsAfterPipelines : List ObjectKind :=
  [.ImageView, .BufferView, .DescriptorPool, .Framebuffer, .DescriptorSet, .QueryPool,
    .SecondaryCommandBuffer, .PrimaryCommandBuffer]

/-- The method `RebuildState`: the command stream and the memory-interval
list. `orderC` and `orderG` are the map iteration orders met by the two calls
of `getPipelinesInOrder`; the result is `none` when one of these calls does
not return within `fuel` iterations of its outer loop, or when a builder call
has no result. -/
def RebuildState (env : Env) (orderC orderG : MapOrder) (fuel : Nat) (freeList : FreeList)
    (s : State) : Option (List Cmd × List U64Range) := do
  let sb ← rebuildKinds env s [] [] kindsBeforePipelines (initialBuilder freeList)
  let cps ← getPipelinesInOrder orderC fuel s true
  let sb ← rebuildKind env s cps [] .ComputePipeline sb
  let gps ← getPipelinesInOrder orderG fuel s false
  let sb ← rebuildKind env s cps gps .GraphicsPipeline sb
  let sb ← rebuildKinds env s cps gps kindsAfterPipelines sb
  some (sb.cmds, sb.memoryIntervals)

/-- The kinds in the order in which `RebuildState` visits them. -/
def kindOrder : List ObjectKind :=
  kindsBeforePipelines ++ [.ComputePipeline, .GraphicsPipeline] ++ kindsAfterPipelines

/-! ## Reference collaborators

Concrete collaborators on which the builder can be run. -/

/-- Insertion of an object into a map of the new state, replacing an object
stored under the same handle. -/
def mirrorSet (m : List MirrorObject) (o : MirrorObject) : List MirrorObject :=
  m.filter (fun x => x.VulkanHandle != o.VulkanHandle) ++ [o]

/-- Removal of a handle from a map of the new state. -/
def mirrorDelete (m : List MirrorObject) (h : Nat) : List MirrorObject :=
  m.filter (fun x => x.VulkanHandle != h)

/-- Modelled from the spec: the `Mutate` method of the commands, generated
from the API description and absent from the sources. A create call adds the
created object to the map of its kind in the mirror, a destroy call removes
it, and no error is returned. -/
def refMutate (c : Cmd) (m : Mirror) : Mirror × Bool :=
  match c.call with
  | .VkCreatePipelineLayout d _ h =>
    ({ m with PipelineLayouts := mirrorSet m.PipelineLayouts ⟨h, d⟩ }, false)
  | .VkDestroyPipelineLayout _ h =>
    ({ m with PipelineLayouts := mirrorDelete m.PipelineLayouts h }, false)
  | .VkCreateRenderPass d _ h =>
    ({ m with RenderPasses := mirrorSet m.RenderPasses ⟨h, d⟩ }, false)
  | .VkDestroyRenderPass _ h =>
    ({ m with RenderPasses := mirrorDelete m.RenderPasses h }, false)
  | .VkCreateShaderModule d _ h =>
    ({ m with ShaderModules := mirrorSet m.ShaderModules ⟨h, d⟩ }, false)
  | .VkDestroyShaderModule _ h =>
    ({ m with ShaderModules := mirrorDelete m.ShaderModules h }, false)
  | .VkCreateComputePipelines d _ _ _ h =>
    ({ m with ComputePipelines := mirrorSet m.ComputePipelines ⟨h, d⟩ }, false)
  | .VkCreateGraphicsPipelines d _ _ _ h =>
    ({ m with GraphicsPipelines := mirrorSet m.GraphicsPipelines ⟨h, d⟩ }, false)
  | .VkCreateBuffer d _ h => ({ m with Buffers := mirrorSet m.Buffers ⟨h, d⟩ }, false)
  | .VkDestroyBuffer _ h => ({ m with Buffers := mirrorDelete m.Buffers h }, false)
  | .VkCreateImage d _ h => ({ m with Images := mirrorSet m.Images ⟨h, d⟩ }, false)
  | .VkCreateSampler d _ h => ({ m with Samplers := mirrorSet m.Samplers ⟨h, d⟩ }, false)
  | .VkCreateImageView d _ h => ({ m with ImageViews := mirrorSet m.ImageViews ⟨h, d⟩ }, false)
  | .VkCreateBufferView d _ _ _ _ h =>
    ({ m with BufferViews := mirrorSet m.BufferViews ⟨h, d⟩ }, false)
  | .VkCreateDescriptorPool d _ _ _ h =>
    ({ m with DescriptorPools := mirrorSet m.DescriptorPools ⟨h, d⟩ }, false)
  | _ => (m, false)

/-- Modelled from the spec: size in bytes of the serialisation of a value
(the encoder of package `gapis/memory` is absent from the sources): 8 bytes
per handle, pointer or record field, 4 per word, 1 per byte or character. -/
def refSizeOf : Value → Nat
  | .handle _ => 8
  | .handles hs => 8 * hs.length
  | .bytes bs => bs.length
  | .words ws => 4 * ws.length
  | .text s => s.length + 1
  | .record _ fields => 8 * fields.length
  | .records _ rows => 8 * (rows.map List.length).sum

/-- Modelled from the spec: allocation by the basic allocator of package
`gapis/memory` (absent from the sources): the start of the first free span
that can hold `n` bytes, which are taken from that span. -/
def refAlloc : FreeList → Nat → Nat × FreeList
  | [], _ => (0, [])
  | (s, e) :: rest, n =>
    if n ≤ e - s then (s, if s + n < e then (s + n, e) :: rest else rest)
    else ((refAlloc rest n).1, (s, e) :: (refAlloc rest n).2)

/-- Modelled from the spec: release of the range `[b, b + n)` to the free
list of the basic allocator, coalescing it with the spans it touches. -/
def refFree : FreeList → Nat → Nat → FreeList
  | [], b, n => if n = 0 then [] else [(b, b + n)]
  | (s, e) :: rest, b, n =>
    if n = 0 then (s, e) :: rest
    else if b + n < s then (b, b + n) :: (s, e) :: rest
    else if e < b then (s, e) :: refFree rest b n
    else refFree rest (min s b) (max e (b + n) - min s b)

/-- Modelled from the spec: the unused-ID oracle `newUnusedID`, absent from
the sources: the smallest identifier from `1000` on for which the test
fails, searched among the next `1000` identifiers. -/
def refNewUnusedID (_isDispatchable : Bool) (used : Nat → Bool) : Nat :=
  ((List.range 1000).map (fun i => 1000 + i)).find? (fun x => !used x) |>.getD 0

/-- The reference collaborators. The image primer of the reference emits
nothing and `AddCommand` translates every command reference to a command
named after the type of the reference. -/
def refEnv : Env :=
  { mutate := refMutate, sizeOf := refSizeOf, alloc := refAlloc, free := refFree,
    mapOrder := storedOrder, newUnusedID := refNewUnusedID,
    prime := fun _ sb _ _ _ _ => sb, primerFree := fun sb => sb,
    addCommand := fun _ _ r => some { name := "vkCmd", args := [r.Typ, r.MapIndex] } }

/-- A free list with one span. -/
def refFreeList : FreeList := [(4096, 1048576)]

/-! ## Properties of command streams -/

/-- The pipeline a call creates: whether it is a compute pipeline, its
handle, and the `basePipelineHandle` of its create info. -/
def pipelineCreated : VkCall → Option (Bool × Nat × Nat)
  | .VkCreateComputePipelines _ _ _ info h => some (true, h, info.basePipelineHandle)
  | .VkCreateGraphicsPipelines _ _ _ info h => some (false, h, info.basePipelineHandle)
  | _ => none

/-- The map of pipelines of one kind in the mirror. -/
def Mirror.Pipelines (m : Mirror) (compute : Bool) : List MirrorObject :=
  if compute then m.ComputePipelines else m.GraphicsPipelines

/-- Pipeline parentage of a stream: every pipeline-create command with a
non-zero `basePipelineHandle` is preceded by the create command of that
pipeline, of the same kind. -/
def PipelineParentage (cmds : List Cmd) : Prop :=
  ∀ pre c post compute h b, cmds = pre ++ c :: post →
    pipelineCreated c.call = some (compute, h, b) → b ≠ 0 →
    ∃ c' ∈ pre, ∃ b', pipelineCreated c'.call = some (compute, b, b')

/-- Frame condition on `Mutate`: a command adds a pipeline to the mirror only
if it is the create command of that pipeline. -/
def PipelineFrame (mutate : Cmd → Mirror → Mirror × Bool) : Prop :=
  ∀ c m compute h, Contains ((mutate c m).1.Pipelines compute) h = true →
    Contains (m.Pipelines compute) h = true ∨
      ∃ b, pipelineCreated c.call = some (compute, h, b)

/-- Kinds of handles of the embedded builders. -/
inductive HandleKind
  | DescriptorSetLayout | PipelineLayout | RenderPass | ShaderModule
  | ComputePipeline | GraphicsPipeline | Image | ImageView | Framebuffer
deriving DecidableEq, Repr

/-- The handle a call creates. -/
def VkCall.creates : VkCall → Option (HandleKind × Nat)
  | .VkCreateDescriptorSetLayout _ _ h => some (.DescriptorSetLayout, h)
  | .VkCreatePipelineLayout _ _ h => some (.PipelineLayout, h)
  | .VkCreateRenderPass _ _ h => some (.RenderPass, h)
  | .VkCreateShaderModule _ _ h => some (.ShaderModule, h)
  | .VkCreateComputePipelines _ _ _ _ h => some (.ComputePipeline, h)
  | .VkCreateGraphicsPipelines _ _ _ _ h => some (.GraphicsPipeline, h)
  | .VkCreateImageView _ _ h => some (.ImageView, h)
  | .VkCreateFramebuffer _ _ h => some (.Framebuffer, h)
  | _ => none

/-- The handles of embedded kinds that a call takes as arguments (null
handles left out). -/
def VkCall.references : VkCall → List (HandleKind × Nat)
  | .VkCreatePipelineLayout _ info _ =>
    info.pSetLayouts.map (fun h => (HandleKind.DescriptorSetLayout, h))
  | .VkDestroyPipelineLayout _ h => [(.PipelineLayout, h)]
  | .VkDestroyRenderPass _ h => [(.RenderPass, h)]
  | .VkDestroyShaderModule _ h => [(.ShaderModule, h)]
  | .VkCreateComputePipelines _ _ _ info _ =>
    [(HandleKind.ShaderModule, info.stage.module), (HandleKind.PipelineLayout, info.layout)] ++
      (if info.basePipelineHandle ≠ 0 then
        [(HandleKind.ComputePipeline, info.basePipelineHandle)] else [])
  | .VkCreateGraphicsPipelines _ _ _ info _ =>
    info.pStages.map (fun s => (HandleKind.ShaderModule, s.module)) ++
      [(HandleKind.PipelineLayout, info.layout), (HandleKind.RenderPass, info.renderPass)] ++
      (if info.basePipelineHandle ≠ 0 then
        [(HandleKind.GraphicsPipeline, info.basePipelineHandle)] else [])
  | .VkCreateImageView _ info _ => [(.Image, info.image)]
  | .VkCreateFramebuffer _ info _ =>
    (HandleKind.RenderPass, info.renderPass) ::
      info.pAttachments.map (fun h => (HandleKind.ImageView, h))
  | _ => []

/-- Dependency precedence of a stream: every handle a command takes as an
argument is created by an earlier command of the stream. -/
def DependencyPrecedence (cmds : List Cmd) : Prop :=
  ∀ pre c post, cmds = pre ++ c :: post → ∀ h ∈ c.call.references,
    ∃ c' ∈ pre, c'.call.creates = some h

/-- Address `a` lies in a range of the interval list. -/
def inIntervals (l : List U64Range) (a : Nat) : Bool :=
  l.any (fun r => decide (r.First ≤ a ∧ a < r.First + r.Count))

/-- Address `a` lies in the range of an observation attached to a command of
the stream. -/
def inObservations (cmds : List Cmd) (a : Nat) : Bool :=
  cmds.any (fun c => (c.Reads ++ c.Writes).any
    (fun o => decide (o.Base ≤ a ∧ a < o.Base + o.Size)))

/-- Pipeline `a` of the list has the non-zero base pipeline `b`. -/
def Derives (ps : List (Nat × Nat)) (a b : Nat) : Prop := (a, b) ∈ ps ∧ b ≠ 0

/-- The base relation has no cycle. -/
def NoBaseCycle (ps : List (Nat × Nat)) : Prop :=
  ∀ a, ¬ Relation.TransGen (Derives ps) a a

/-- Every non-zero base handle is the handle of a pipeline of the list. -/
def BasesPresent (ps : List (Nat × Nat)) : Prop :=
  ∀ p ∈ ps, p.2 ≠ 0 → p.2 ∈ ps.map Prod.fst

/-- Handle `a` occurs before handle `b` in the list. -/
def OccursBefore (l : List Nat) (a b : Nat) : Prop :=
  ∃ pre post, l = pre ++ b :: post ∧ a ∈ pre

/-! ## Definitions used in the proofs -/

/-- The resource offset at index `j` resource offset of the map, as the loops of `IsFullyBound`
read it. -/
def keyAt (m : SparseBindMap) (j : Nat) : Nat := (Keys m).getD j 0

/-- The second builder state has the stream and the new state of the first. -/
def Silent (sb sb' : stateBuilder) : Prop :=
  sb'.cmds = sb.cmds ∧ sb'.newState = sb.newState

/-- The stream holds a create command of pipeline `h` of the given kind. -/
def PipelineCreatedIn (cmds : List Cmd) (compute : Bool) (h : Nat) : Prop :=
  ∃ c ∈ cmds, ∃ b, pipelineCreated c.call = some (compute, h, b)

/-- Invariant of the builder on pipelines: every pipeline of the mirror has a
create command in the stream, the stream has pipeline parentage, every
pipeline created in the stream is a pipeline of the snapshot or one of the
pipelines `T` of the image primer, and a create command with a non-zero base
creates a pipeline of `T` or a pipeline of the snapshot with the base that
pipeline has in the snapshot. -/
structure PipelineInv (s : State) (T : Bool → Nat → Prop) (sb : stateBuilder) : Prop where
  mirror : ∀ compute h, Contains (sb.newState.Pipelines compute) h = true →
    PipelineCreatedIn sb.cmds compute h
  parentage : PipelineParentage sb.cmds
  snapshot : ∀ c ∈ sb.cmds, ∀ compute h b, pipelineCreated c.call = some (compute, h, b) →
    h ∈ (pipelineBases s compute).map Prod.fst ∨ T compute h
  bases : ∀ c ∈ sb.cmds, ∀ compute h b, pipelineCreated c.call = some (compute, h, b) →
    b ≠ 0 → T compute h ∨ (h, b) ∈ pipelineBases s compute

/-- The builder of the state where the two paths of `createBuffer` meet. -/
def BufferPath.sb : BufferPath → stateBuilder
  | .returned sb => sb
  | .fill sb _ _ _ => sb

/-- The builder of the state where the two paths of `createImage` meet. -/
def ImagePath.sb : ImagePath → stateBuilder
  | .returned sb => sb
  | .bound sb _ _ => sb

/-- The stream of the second builder state extends the stream of the
first. -/
def Extends (sb sb' : stateBuilder) : Prop := ∃ t, sb'.cmds = sb.cmds ++ t

/-- The image primer only appends commands to the stream. -/
def PrimerAppends (env : Env) : Prop :=
  (∀ mode sb img r q sq, Extends sb (env.prime mode sb img r q sq)) ∧
    ∀ sb, Extends sb (env.primerFree sb)

/-- The second builder state extends the stream of the first by commands
among which every pipeline-create command creates a pipeline of `T`, with a
zero `basePipelineHandle` or with a base that a command before it in the
stream creates, of the same kind; and every pipeline of its mirror is a
pipeline of the mirror of the first or is created by one of these
commands. -/
def ExtendsWithPipelines (T : Bool → Nat → Prop) (sb sb' : stateBuilder) : Prop :=
  ∃ t, sb'.cmds = sb.cmds ++ t ∧
    (∀ pre c post compute h b, t = pre ++ c :: post →
      pipelineCreated c.call = some (compute, h, b) →
      T compute h ∧ (b = 0 ∨ PipelineCreatedIn (sb.cmds ++ pre) compute b)) ∧
    ∀ compute h, Contains (sb'.newState.Pipelines compute) h = true →
      Contains (sb.newState.Pipelines compute) h = true ∨ PipelineCreatedIn t compute h

/-- Frame condition on the image primer, whose own pipelines are those of
`T`: it only appends commands; a pipeline-create command it appends creates a
pipeline of `T` whose base is zero or created earlier in the stream; and it
adds a pipeline to the mirror only if it appends a create command of that
pipeline. -/
def PrimerFrame (env : Env) (T : Bool → Nat → Prop) : Prop :=
  (∀ mode sb img r q sq, ExtendsWithPipelines T sb (env.prime mode sb img r q sq)) ∧
    ∀ sb, ExtendsWithPipelines T sb (env.primerFree sb)

/-- The second builder state extends the stream of the first, if the image
primer only appends commands, and keeps the pipeline invariant, if `Mutate`
and the image primer satisfy their frame conditions. -/
def Step (env : Env) (s : State) (sb sb' : stateBuilder) : Prop :=
  (PrimerAppends env → Extends sb sb') ∧
    (PipelineFrame env.mutate → ∀ T, PrimerFrame env T → PipelineInv s T sb →
      PipelineInv s T sb')

/-- Invariant of the loops of `getPipelinesInOrder` on the pairs `ps`. -/
structure OrderInv (ps : List (Nat × Nat)) (st : PipelineOrder) : Prop where
  nodup : st.pipelines.Nodup
  handled : ∀ h, h ∈ st.handledPipelines ↔ h ∈ st.pipelines
  unhandled : st.unhandledPipelines = ps.filter (fun e => decide (e.1 ∉ st.pipelines))
  before : ∀ k v, (k, v) ∈ ps → v ≠ 0 → k ∈ st.pipelines → OccursBefore st.pipelines v k
  count : st.numHandled = st.pipelines.length
  sub : ∀ h ∈ st.pipelines, h ∈ ps.map Prod.fst

/-- Pipeline `k` of the list can be placed by `getPipelinesInOrder` without
the fallback: it has no base, or its base can be placed. -/
inductive Placeable (ps : List (Nat × Nat)) : Nat → Prop
  | root (k : Nat) : (k, 0) ∈ ps → Placeable ps k
  | derived (k v : Nat) : (k, v) ∈ ps → Placeable ps v → Placeable ps k

/-- Invariant of the loops of `getPipelinesInOrder` when some pipeline of the
pairs `ps` cannot be placed. -/
structure StuckInv (ps : List (Nat × Nat)) (st : PipelineOrder) : Prop where
  placed : ∀ h ∈ st.handledPipelines, Placeable ps h
  entries : ∀ e ∈ st.unhandledPipelines, e ∈ ps
  stuck : ∃ e ∈ st.unhandledPipelines, ¬ Placeable ps e.1

/-! ## Example snapshots -/

/-- The pipelines `1` (no base), `2` (base `3`) and `3` (base `2`). -/
def rootAndCycle : List (Nat × Nat) := [(1, 0), (2, 3), (3, 2)]

/-- A render pass with handle `3`, without attachments and subpasses. -/
def exampleRenderPass : RenderPassObject :=
  { VulkanHandle := 3, Device := 1, AttachmentDescriptions := [], SubpassDescriptions := [],
    SubpassDependencies := [] }

/-- A pipeline layout with handle `4`. -/
def examplePipelineLayout : PipelineLayoutObject :=
  { VulkanHandle := 4, Device := 1, SetLayouts := [], PushConstantRanges := [] }

/-- A compute pipeline with handle `h` and base pipeline `b`. -/
def exampleComputePipeline (h b : Nat) : ComputePipelineObject :=
  { VulkanHandle := h, Device := 1, Flags := 0, PipelineCache := none, BasePipeline := b,
    Stage := { Stage := 32, Module := { VulkanHandle := 8, Device := 1, Words := [] },
               EntryPoint := "main", Specialization := none },
    PipelineLayout := examplePipelineLayout }

/-- A snapshot with the compute pipelines `1` (no base), `2` (base `3`) and
`3` (base `2`). -/
def snapshotRootAndCycle : State :=
  { PipelineLayouts := [examplePipelineLayout],
    ComputePipelines := [exampleComputePipeline 1 0, exampleComputePipeline 2 3,
      exampleComputePipeline 3 2] }

/-- An image view with handle `7` of the image with handle `5`. -/
def exampleImageView : ImageViewObject :=
  { VulkanHandle := 7, Device := 1, Image := { VulkanHandle := 5, Device := 1 }, Typ := 1,
    Fmt := 37, Components := [0, 0, 0, 0], SubresourceRange := [1, 0, 1, 0, 1] }

/-- A framebuffer with handle `9` whose single attachment is
`exampleImageView`. -/
def exampleFramebuffer : FramebufferObject :=
  { VulkanHandle := 9, Device := 1, RenderPass := exampleRenderPass,
    ImageAttachments := [exampleImageView], Width := 4, Height := 4, Layers := 1 }

/-- A snapshot in which the image of an image view was destroyed: a render
pass, the image view `7` of the image `5`, which is not in the snapshot, and a
framebuffer that attaches the view. -/
def snapshotDestroyedImage : State :=
  { RenderPasses := [exampleRenderPass], ImageViews := [exampleImageView],
    Framebuffers := [exampleFramebuffer] }

/-- A graphics pipeline without shader stages, with handle `h` and base
pipeline `b`. -/
def exampleGraphicsPipeline (h b : Nat) : GraphicsPipelineObject :=
  { VulkanHandle := h, Device := 1, Flags := 0, PipelineCache := none, BasePipeline := b,
    Stages := [], Layout := examplePipelineLayout, RenderPass := exampleRenderPass,
    Subpass := 0, VertexInputState := { BindingDescriptions := [], AttributeDescriptions := [] },
    InputAssemblyState := [3, 0], TessellationState := none, ViewportState := none,
    RasterizationState := [0, 0, 0, 0, 0, 0, 0, 0, 0, 1], MultisampleState := none,
    DepthState := none, ColorBlendState := none, DynamicState := none }

/-- A snapshot with two graphics pipelines that are each other's base. -/
def snapshotPipelineCycle : State :=
  { PipelineLayouts := [examplePipelineLayout], RenderPasses := [exampleRenderPass],
    GraphicsPipelines := [exampleGraphicsPipeline 1 2, exampleGraphicsPipeline 2 1] }

/-- A snapshot with a graphics pipeline `1` and a pipeline `2` derived from
it. -/
def snapshotDerivedPipeline : State :=
  { PipelineLayouts := [examplePipelineLayout], RenderPasses := [exampleRenderPass],
    GraphicsPipelines := [exampleGraphicsPipeline 1 0, exampleGraphicsPipeline 2 1] }

/-- A snapshot with one descriptor-set layout whose only binding has one
immutable sampler. -/
def snapshotImmutableSampler : State :=
  { DescriptorSetLayouts :=
      [{ VulkanHandle := 2, Device := 1,
         Bindings := [(0, { Typ := 1, Count := 1, Stages := 16, ImmutableSamplers := [6] })] }] }

/-- Index `i` is below `MemoryTypeCount`, its bit is set in `typeBits` and the
property flags of memory type `i` include every bit of `flags`. -/
def SuitableMemoryType (typeBits : Nat) (props : VkPhysicalDeviceMemoryProperties)
    (flags i : Nat) : Prop :=
  i < props.MemoryTypeCount ∧ typeBits.testBit i = true ∧
    ∀ b, flags.testBit b = true → (props.MemoryType i).PropertyFlags.testBit b = true

/-- A physical device with the memory types `0` (device local) and `1` (host
visible and host coherent). -/
def examplePhysicalDevice : PhysicalDeviceObject :=
  { VulkanHandle := 2, Instance := 1,
    MemoryProperties := { MemoryTypeCount := 2, MemoryTypes := [⟨1, 0⟩, ⟨6, 0⟩] },
    QueueFamilyProperties := [(0, { QueueFlags := 7 })] }

/-- A device of `examplePhysicalDevice` with one queue of family `0`, index
`0` and priority `1.0`. -/
def exampleDevice : DeviceObject :=
  { VulkanHandle := 3, PhysicalDevice := 2, Queues := [⟨0, 0, 1065353216⟩] }

/-- A physical device whose memory types `0` and `1` are both host visible
and host coherent. -/
def hostVisiblePhysicalDevice : PhysicalDeviceObject :=
  { VulkanHandle := 2, Instance := 1,
    MemoryProperties := { MemoryTypeCount := 2, MemoryTypes := [⟨6, 0⟩, ⟨6, 0⟩] } }

/-- A snapshot with `hostVisiblePhysicalDevice` in which the transfer-buffer
requirement recorded for the device `3` permits the memory type `1` only. -/
def snapshotTransferRequirement : State :=
  { PhysicalDevices := [hostVisiblePhysicalDevice],
    TransferBufferMemoryRequirements := [(3, { MemoryTypeBits := 2 })] }

/-- A physical device with the queue families `0` (graphics, compute and
transfer) and `1` (sparse binding). -/
def sparsePhysicalDevice : PhysicalDeviceObject :=
  { VulkanHandle := 2, Instance := 1,
    QueueFamilyProperties := [(0, { QueueFlags := 7 }), (1, { QueueFlags := 8 })] }

/-- A snapshot with the device `3` of `sparsePhysicalDevice` and its queues
`10` (family `0`) and `11` (family `1`, sparse binding). -/
def snapshotSparseQueue : State :=
  { PhysicalDevices := [sparsePhysicalDevice],
    Devices := [{ VulkanHandle := 3, PhysicalDevice := 2 }],
    Queues := [⟨10, 3, 0, 0⟩, ⟨11, 3, 1, 0⟩] }

/-- Queue `v` is a queue on `device` whose family is a value of the hint. -/
def HintedQueue (s : State) (device : Nat) (queueFamilyIndices : Option (List Nat))
    (v : QueueObject) : Prop :=
  v ∈ s.Queues ∧ v.Device = device ∧ ∃ indices, queueFamilyIndices = some indices ∧
    v.Family ∈ indices

/-- Invariant of the first loop of `createDevice` after the queues `qs`. -/
structure DeviceQueuesInv (qs : List QueueInfo) (acc : DeviceQueues) : Prop where
  nodup : (acc.queueCreate.map Prod.fst).Nodup
  sync : ∀ k, k ∉ acc.queueCreate.map Prod.fst → goMapGet acc.queuePriorities k [] = []
  mem : ∀ k, k ∈ acc.queueCreate.map Prod.fst ↔ ∃ q ∈ qs, q.QueueFamilyIndex = k
  count : ∀ k, goMapGet acc.queueCreate k 0 =
    (qs.filter (fun q => q.QueueFamilyIndex == k)).length
  bound : ∀ k, ∀ q ∈ qs, q.QueueFamilyIndex = k →
    q.QueueIndex < (goMapGet acc.queuePriorities k []).length
  attained : ∀ k, (goMapGet acc.queuePriorities k []).length = 0 ∨
    ∃ q ∈ qs, q.QueueFamilyIndex = k ∧
      q.QueueIndex + 1 = (goMapGet acc.queuePriorities k []).length
  zero : ∀ k i, (∀ q ∈ qs, q.QueueFamilyIndex = k → q.QueueIndex ≠ i) →
    (goMapGet acc.queuePriorities k []).getD i 0 = 0
  priority : (qs.map (fun q => (q.QueueFamilyIndex, q.QueueIndex))).Nodup →
    ∀ k, ∀ q ∈ qs, q.QueueFamilyIndex = k →
      (goMapGet acc.queuePriorities k []).getD q.QueueIndex 0 = q.Priority

/-- The priorities of a family after a queue with index `j` and priority `p`
was added. -/
def growPriorities (l : List Nat) (j p : Nat) : List Nat :=
  (if l.length % U32 < (j + 1) % U32 then l ++ List.replicate ((j + 1) % U32 - l.length) 0
    else l).set j p

/-- The properties of the queue create infos of a device. -/
structure QueueCreateInfosOK (d : DeviceObject) (infos : List VkDeviceQueueCreateInfo) :
    Prop where
  nodup : (infos.map (fun x => x.queueFamilyIndex)).Nodup
  families : ∀ k, k ∈ infos.map (fun x => x.queueFamilyIndex) ↔
    ∃ q ∈ d.Queues, q.QueueFamilyIndex = k
  count : ∀ x ∈ infos, x.queueCount =
    (d.Queues.filter (fun q => q.QueueFamilyIndex == x.queueFamilyIndex)).length
  bound : ∀ x ∈ infos, ∀ q ∈ d.Queues, q.QueueFamilyIndex = x.queueFamilyIndex →
    q.QueueIndex < x.pQueuePriorities.length
  attained : ∀ x ∈ infos, ∃ q ∈ d.Queues, q.QueueFamilyIndex = x.queueFamilyIndex ∧
    q.QueueIndex + 1 = x.pQueuePriorities.length
  zero : ∀ x ∈ infos, ∀ i, i < x.pQueuePriorities.length →
    (∀ q ∈ d.Queues, q.QueueFamilyIndex = x.queueFamilyIndex → q.QueueIndex ≠ i) →
    x.pQueuePriorities[i]? = some 0
  priority : (d.Queues.map (fun q => (q.QueueFamilyIndex, q.QueueIndex))).Nodup →
    ∀ x ∈ infos, ∀ q ∈ d.Queues, q.QueueFamilyIndex = x.queueFamilyIndex →
      x.pQueuePriorities[q.QueueIndex]? = some q.Priority

/-- Command `c'` of the stream is the command `c` handed to `write`: the same
call, and the read observations of `c` followed by the pending ones. -/
def Emitted (c c' : Cmd) : Prop := c'.call = c.call ∧ ∃ r, c'.Reads = c.Reads ++ r

/-- The stream of the second builder state is the stream of the first
followed by the commands `l`, as `write` appends them. -/
def Emits (sb sb' : stateBuilder) (l : List Cmd) : Prop :=
  ∃ t, sb'.cmds = sb.cmds ++ t ∧ List.Forall₂ Emitted l t

/-- The calls of the stream of a builder state. -/
def stateBuilder.calls (sb : stateBuilder) : List VkCall := sb.cmds.map (fun c => c.call)

/-- The reference collaborators with the reversed map iteration order. -/
def refEnvReversed : Env := { refEnv with mapOrder := reversedOrder }

/-- The instances of the `EnumeratePhysicalDevices` calls of a stream, in the
order of the stream. -/
def enumeratedInstances (cmds : List Cmd) : List Nat :=
  cmds.filterMap (fun c =>
    match c.call with
    | .VkEnumeratePhysicalDevices i _ _ => some i
    | _ => none)

/-- The queue families of the queue create infos of each `CreateDevice` call
of a stream, in the order of the infos. -/
def queueCreateFamilies (cmds : List Cmd) : List (List Nat) :=
  cmds.filterMap (fun c =>
    match c.call with
    | .VkCreateDevice _ info _ => some (info.pQueueCreateInfos.map (fun x => x.queueFamilyIndex))
    | _ => none)

/-- A snapshot with the instances `1` and `2`, one physical device of each,
and a device with one queue in each of the families `0` and `1`. -/
def snapshotTwoInstances : State :=
  { Instances := [{ VulkanHandle := 1 }, { VulkanHandle := 2 }],
    PhysicalDevices := [{ VulkanHandle := 3, Instance := 1 }, { VulkanHandle := 4, Instance := 2 }],
    Devices := [{ VulkanHandle := 5, PhysicalDevice := 3, Queues := [⟨0, 0, 0⟩, ⟨1, 0, 0⟩] }],
    Queues := [⟨6, 5, 0, 0⟩, ⟨7, 5, 1, 0⟩] }

/-- A snapshot with the compute pipelines `1` and `2`, both without base
pipeline. -/
def snapshotTwoRoots : State :=
  { PipelineLayouts := [examplePipelineLayout],
    ComputePipelines := [exampleComputePipeline 1 0, exampleComputePipeline 2 0] }

/-- Invariant of the first loop of `createPhysicalDevices` after the
physical devices `seen`. -/
structure DeviceGroupsInv (seen : List PhysicalDeviceObject) (acc : List (Nat × List Nat)) :
    Prop where
  nodup : (acc.map Prod.fst).Nodup
  mem : ∀ k, k ∈ acc.map Prod.fst ↔ ∃ pd ∈ seen, pd.Instance = k
  devices : ∀ k, goMapGet acc k [] =
    (seen.filter (fun pd => pd.Instance == k)).map (fun pd => pd.VulkanHandle)

/-- Following the spec: a call is the `CreateInstance` of an instance if its
layer names and its extension names are those of the instance, each list in
some order, and the counts are their numbers. -/
def ExpectedInstanceCall (inst : InstanceObject) (c : VkCall) : Prop :=
  ∃ layers extensions : List String,
    layers.Perm inst.EnabledLayers ∧ extensions.Perm inst.EnabledExtensions ∧
    c = .VkCreateInstance
      { enabledLayerCount := layers.length,
        ppEnabledLayerNames := layers,
        enabledExtensionCount := extensions.length,
        ppEnabledExtensionNames := extensions } inst.VulkanHandle

/-- Following the spec: the calls of one physical device,
`GetPhysicalDeviceProperties`, `GetPhysicalDeviceMemoryProperties` and two
`GetPhysicalDeviceQueueFamilyProperties` (count query, then full query). -/
def expectedPhysicalDeviceCalls (pd : PhysicalDeviceObject) : List VkCall :=
  [.VkGetPhysicalDeviceProperties pd.VulkanHandle pd.PhysicalDeviceProperties,
    .VkGetPhysicalDeviceMemoryProperties pd.VulkanHandle pd.MemoryProperties,
    .VkGetPhysicalDeviceQueueFamilyProperties pd.VulkanHandle pd.QueueFamilyProperties.length
      none,
    .VkGetPhysicalDeviceQueueFamilyProperties pd.VulkanHandle pd.QueueFamilyProperties.length
      (some pd.QueueFamilyProperties)]

/-- Following the spec: the calls of an instance with its physical devices,
two `EnumeratePhysicalDevices` (count query, then full query) followed by the
calls of each physical device. -/
def expectedInstanceGroupCalls (g : Nat × List PhysicalDeviceObject) : List VkCall :=
  [.VkEnumeratePhysicalDevices g.1 g.2.length none,
    .VkEnumeratePhysicalDevices g.1 g.2.length (some (g.2.map (fun pd => pd.VulkanHandle)))] ++
    g.2.flatMap expectedPhysicalDeviceCalls

/-- Following the spec: the call `GetDeviceQueue` of a queue. -/
def expectedQueueCall (q : QueueObject) : VkCall :=
  .VkGetDeviceQueue q.Device q.Family q.Index q.VulkanHandle

/-- Following the spec: a call is the `CreateDevice` of a device if its queue
create infos, its layer names and its extension names are those of the device,
each list in some order, the counts are their numbers and the other fields are
those of the device. -/
def ExpectedDeviceCall (d : DeviceObject) (c : VkCall) : Prop :=
  ∃ (infos : List VkDeviceQueueCreateInfo) (layers extensions : List String),
    infos.Perm (deviceQueueCreateInfos storedOrder 0 d) ∧
    layers.Perm d.EnabledLayers ∧ extensions.Perm d.EnabledExtensions ∧
    c = .VkCreateDevice d.PhysicalDevice
      { queueCreateInfoCount := infos.length,
        pQueueCreateInfos := infos,
        enabledLayerCount := layers.length,
        ppEnabledLayerNames := layers,
        enabledExtensionCount := extensions.length,
        ppEnabledExtensionNames := extensions,
        pEnabledFeatures := d.EnabledFeatures } d.VulkanHandle

/-- The groups are the instances that own physical devices, each once, with
the physical devices of the instance in key order. -/
structure InstanceGroupsOK (pds : List PhysicalDeviceObject)
    (groups : List (Nat × List PhysicalDeviceObject)) : Prop where
  nodup : (groups.map Prod.fst).Nodup
  mem : ∀ i, i ∈ groups.map Prod.fst ↔ ∃ pd ∈ pds, pd.Instance = i
  devices : ∀ g ∈ groups, g.2 = pds.filter (fun pd => pd.Instance == g.1)

/-- The snapshot of scenario S2: one instance, one physical device, one
device and one queue of family `0`, index `0` and priority `1.0`. -/
def snapshotOneQueue : State :=
  { Instances := [{ VulkanHandle := 1 }], PhysicalDevices := [examplePhysicalDevice],
    Devices := [exampleDevice], Queues := [⟨4, 3, 0, 0⟩] }

/-- The snapshot that holds only the given instances, physical devices,
devices and queues. -/
def snapshotOfDevices (is : List InstanceObject) (pds : List PhysicalDeviceObject)
    (ds : List DeviceObject) (qs : List QueueObject) : State :=
  { Instances := is, PhysicalDevices := pds, Devices := ds, Queues := qs }

/-- Following the spec: the calls of `createBuffer` for a buffer bound to a
non-dedicated memory, without sparse bindings, primed through a scratch
buffer. -/
def expectedDenseBufferCalls (buffer : BufferObject) (memory : DeviceMemoryObject)
    (device : DeviceObject) (queue : QueueObject)
    (memoryTypeIndex scratchBuffer scratchMemory commandBuffer commandPool ppData : Nat) :
    List VkCall :=
  [.VkCreateBuffer buffer.Device
      { pNext := none, flags := buffer.Info.CreateFlags, size := buffer.Info.Size,
        usage := (buffer.Info.Usage % U32) ||| VK_BUFFER_USAGE_TRANSFER_DST_BIT,
        sharingMode := buffer.Info.SharingMode,
        queueFamilyIndexCount := buffer.Info.QueueFamilyIndices.length,
        pQueueFamilyIndices := buffer.Info.QueueFamilyIndices } buffer.VulkanHandle,
    .VkGetBufferMemoryRequirements buffer.Device buffer.VulkanHandle buffer.MemoryRequirements,
    .VkBindBufferMemory buffer.Device buffer.VulkanHandle memory.VulkanHandle
      buffer.MemoryOffset,
    .VkCreateBuffer device.VulkanHandle
      { pNext := none, flags := 0, size := buffer.Info.Size,
        usage := VK_BUFFER_USAGE_TRANSFER_SRC_BIT, sharingMode := 0,
        queueFamilyIndexCount := 0, pQueueFamilyIndices := [] } scratchBuffer,
    .VkAllocateMemory device.VulkanHandle
      { pNext := none, allocationSize := scratchAllocSize buffer.Info.Size,
        memoryTypeIndex := memoryTypeIndex } scratchMemory,
    .VkBindBufferMemory device.VulkanHandle scratchBuffer scratchMemory 0,
    .VkMapMemory device.VulkanHandle scratchMemory 0 buffer.Info.Size 0 ppData,
    .VkFlushMappedMemoryRanges device.VulkanHandle 1
      { memory := scratchMemory, offset := 0, size := buffer.Info.Size },
    .VkUnmapMemory device.VulkanHandle scratchMemory,
    .VkCreateCommandPool queue.Device 0 queue.Family commandPool,
    .VkAllocateCommandBuffers queue.Device commandPool 0 1 commandBuffer,
    .VkBeginCommandBuffer commandBuffer 0 none,
    .VkCmdPipelineBarrier commandBuffer VK_PIPELINE_STAGE_ALL_COMMANDS_BIT
      VK_PIPELINE_STAGE_ALL_COMMANDS_BIT 0 [bufferBarrier 0 0 scratchBuffer buffer.Info.Size] [],
    .VkCmdCopyBuffer commandBuffer scratchBuffer buffer.VulkanHandle 1
      [{ srcOffset := 0, dstOffset := 0, size := buffer.Info.Size }],
    .VkCmdPipelineBarrier commandBuffer VK_PIPELINE_STAGE_ALL_COMMANDS_BIT
      VK_PIPELINE_STAGE_ALL_COMMANDS_BIT 0
      [bufferBarrier 0 0 buffer.VulkanHandle buffer.Info.Size] [],
    .VkEndCommandBuffer commandBuffer,
    .VkQueueSubmit queue.VulkanHandle 1
      { commandBufferCount := 1, pCommandBuffers := [commandBuffer],
        signalSemaphoreCount := 0, pSignalSemaphores := [] } 0,
    .VkQueueWaitIdle queue.VulkanHandle,
    .VkDestroyCommandPool queue.Device commandPool,
    .VkDestroyBuffer device.VulkanHandle scratchBuffer,
    .VkFreeMemory device.VulkanHandle scratchMemory]

/-- A device memory of 64 bytes that holds the bytes `0x00` to `0x3F`. -/
def exampleMemory : DeviceMemoryObject :=
  { VulkanHandle := 5, Device := 3, AllocationSize := 64, MemoryTypeIndex := 1,
    Data := List.range 64 }

/-- A buffer of 64 bytes bound to `exampleMemory` at offset `0`. -/
def exampleBuffer : BufferObject :=
  { VulkanHandle := 6, Device := 3, Info := { Size := 64, Usage := 128 },
    MemoryRequirements := { Size := 64, Alignment := 1, MemoryTypeBits := 3 },
    Memory := some exampleMemory }

/-- The snapshot of scenario S3: the objects of `snapshotOneQueue`, the
memory `exampleMemory` and the buffer `exampleBuffer`. -/
def snapshotDenseBuffer : State :=
  { Instances := [{ VulkanHandle := 1 }], PhysicalDevices := [examplePhysicalDevice],
    Devices := [exampleDevice], Queues := [⟨4, 3, 0, 0⟩], DeviceMemories := [exampleMemory],
    Buffers := [exampleBuffer] }

/-- The reference collaborators with an image primer whose methods append
the command `QueueWaitIdle(0)` to the stream. -/
def markingEnv : Env :=
  { refEnv with
    prime := fun _ sb _ _ _ _ => { sb with cmds := sb.cmds ++ [cb (.VkQueueWaitIdle 0)] } }

/-- A swapchain image with bound memory, one sample, the layout `GENERAL`
and the usage `TRANSFER_DST`. -/
def exampleSwapchainImage : ImageObject :=
  { VulkanHandle := 7, Device := 3, IsSwapchainImage := true,
    Info := { Usage := 2, Layout := 1 }, BoundMemory := some exampleMemory }

/-- The image `exampleSwapchainImage` as an image that is not a swapchain
image. -/
def exampleDenseImage : ImageObject :=
  { exampleSwapchainImage with IsSwapchainImage := false }

/-- The reference collaborators with an image primer whose priming methods
create the graphics pipeline `900`, without base pipeline, through `write`. -/
def pipelinePrimerEnv : Env :=
  { refEnv with
    prime := fun _ sb _ _ _ _ =>
      write refEnv sb (cb (.VkCreateGraphicsPipelines 3 0 1
        { flags := 0, stageCount := 0, pStages := [], layout := 0, renderPass := 0,
          subpass := 0, basePipelineHandle := 0, basePipelineIndex := 0 } 900)) }

/-- A snapshot with the image `exampleDenseImage`, which `createImage`
primes, and the graphics pipelines `1` and `2`, the second derived from the
first. -/
def snapshotPrimedImageAndPipelines : State :=
  { snapshotOneQueue with
    DeviceMemories := [exampleMemory], Images := [exampleDenseImage],
    PipelineLayouts := [examplePipelineLayout], RenderPasses := [exampleRenderPass],
    GraphicsPipelines := [exampleGraphicsPipeline 1 0, exampleGraphicsPipeline 2 1] }

/-- An image with bound memory, one sample, the layout `SHADER_READ_ONLY_OPTIMAL` and the
usage `SAMPLED`, last bound to the queue `4`. -/
def exampleSampledImage : ImageObject :=
  { VulkanHandle := 7, Device := 3, Info := { Usage := 4, Layout := 5 },
    BoundMemory := some exampleMemory, LastBoundQueue := some ⟨4, 3, 0, 0⟩ }

/-- The reference collaborators with an `AddCommand` that fails on a command reference of
type `0` and translates every other reference as `refEnv` does. -/
def failingEnv : Env :=
  { refEnv with
    addCommand := fun _ _ r =>
      if r.Typ = 0 then none else some { name := "vkCmd", args := [r.Typ, r.MapIndex] } }

/-- A primary command buffer in the recording state `COMPLETED` with three recorded
commands, the third of type `0`. -/
def exampleCommandBuffer : CommandBufferObject :=
  { VulkanHandle := 12, Device := 3, Pool := 11, Recording := .COMPLETED,
    CommandReferences := [⟨12, 0, 7⟩, ⟨12, 0, 9⟩, ⟨12, 0, 0⟩, ⟨12, 1, 7⟩] }

/-- Following the spec: the validity of element `im` of an image binding of type `t`: for
a combined image sampler (type `1`) sampler and image view are both non-zero and both in
the mirror; for the other types at least one of them is non-zero and every non-zero one is
in the mirror. -/
def expectedImageElementValid (ns : Mirror) (t : Nat) (im : VkDescriptorImageInfo) : Bool :=
  if t = 1 then
    im.Sampler != 0 && im.ImageView != 0 && Contains ns.Samplers im.Sampler &&
      Contains ns.ImageViews im.ImageView
  else
    (im.Sampler != 0 || im.ImageView != 0) &&
      (im.Sampler == 0 || Contains ns.Samplers im.Sampler) &&
      (im.ImageView == 0 || Contains ns.ImageViews im.ImageView)

/-- Following the spec: the writes of the image binding `binding` with key `k` of the
descriptor set `ds`: one write per valid array element, in element order, each for that
binding and element with `descriptorCount` 1. -/
def expectedImageWrites (ns : Mirror) (ds : DescriptorSetObject) (k : Nat)
    (binding : DescriptorBinding) : List VkWriteDescriptorSet :=
  binding.ImageBinding.enum.filterMap (fun e =>
    if expectedImageElementValid ns binding.BindingType e.2 then
      some { dstSet := ds.VulkanHandle, dstBinding := k, dstArrayElement := e.1,
             descriptorCount := 1, descriptorType := binding.BindingType,
             pImageInfo := some e.2, pBufferInfo := none, pTexelBufferView := none }
    else none)

/-- The writes that `descriptorBindingStep` appends to `writes` for one binding. -/
def bindingWrites (ns : Mirror) (ds : DescriptorSetObject) (kb : Nat × DescriptorBinding) :
    List VkWriteDescriptorSet :=
  let k := kb.1
  let binding := kb.2
  let t := binding.BindingType
  if t = 0 ∨ t = 1 ∨ t = 2 ∨ t = 3 ∨ t = 10 then
    (binding.ImageBinding.enum.map (fun e =>
      if imageDescriptorValid ns t e.2 then
        [({ dstSet := ds.VulkanHandle, dstBinding := k, dstArrayElement := e.1,
            descriptorCount := 1, descriptorType := t, pImageInfo := some e.2,
            pBufferInfo := none, pTexelBufferView := none } : VkWriteDescriptorSet)]
      else [])).flatten
  else if t = 6 ∨ t = 7 ∨ t = 8 ∨ t = 9 then
    (binding.BufferBinding.enum.map (fun e =>
      if e.2.Buffer = 0 then []
      else if !Contains ns.Buffers e.2.Buffer then []
      else
        [({ dstSet := ds.VulkanHandle, dstBinding := k, dstArrayElement := e.1,
            descriptorCount := 1, descriptorType := t, pImageInfo := none,
            pBufferInfo := some e.2, pTexelBufferView := none } : VkWriteDescriptorSet)])).flatten
  else if t = 4 ∨ t = 5 then
    (binding.BufferViewBindings.enum.map (fun e =>
      if e.2 = 0 then []
      else if !Contains ns.BufferViews e.2 then []
      else
        [({ dstSet := ds.VulkanHandle, dstBinding := k, dstArrayElement := e.1,
            descriptorCount := 1, descriptorType := t, pImageInfo := none,
            pBufferInfo := none, pTexelBufferView := some e.2 } : VkWriteDescriptorSet)])).flatten
  else []

/-- A builder whose new state holds the descriptor pool `30`, the sampler `20` and the
image view `21`. -/
def builderWithPool : stateBuilder :=
  { initialBuilder refFreeList with
    newState := { DescriptorPools := [⟨30, 3⟩], Samplers := [⟨20, 3⟩],
                  ImageViews := [⟨21, 3⟩] } }

/-- A descriptor set of the pool `30` with a combined image sampler binding `0` of four
elements and a sampled image binding `2` of four elements. -/
def exampleDescriptorSet : DescriptorSetObject :=
  { VulkanHandle := 31, Device := 3, DescriptorPool := 30, Layout := 32,
    Bindings :=
      [(0, { BindingType := 1,
             ImageBinding := [⟨20, 21, 5⟩, ⟨20, 0, 5⟩, ⟨0, 0, 0⟩, ⟨20, 99, 5⟩] }),
       (2, { BindingType := 2,
             ImageBinding := [⟨0, 21, 5⟩, ⟨0, 99, 5⟩, ⟨20, 0, 5⟩, ⟨0, 0, 0⟩] })] }

/-- A buffer of 64 bytes with sparse residency and one sparse binding of its 64 bytes to
the memory `5`, on the device `3`, last bound to the given queue. -/
def exampleSparseBuffer (lastBoundQueue : Option QueueObject) : BufferObject :=
  { VulkanHandle := 6, Device := 3, Info := { CreateFlags := 3, Size := 64, Usage := 128 },
    MemoryRequirements := { Size := 64, Alignment := 1, MemoryTypeBits := 3 },
    SparseMemoryBindings :=
      [(0, { ResourceOffset := 0, Size := 64, Memory := 5, MemoryOffset := 0, Flags := 0 })],
    LastBoundQueue := lastBoundQueue }

/-- An image with one opaque sparse binding to the memory `5`, one sample, the layout
`GENERAL` and the usage `TRANSFER_DST`, on the device `3`, last bound to the given queue. -/
def exampleSparseImageOn (lastBoundQueue : Option QueueObject) : ImageObject :=
  { VulkanHandle := 8, Device := 3, Info := { Flags := 1, Usage := 2, Layout := 1 },
    OpaqueSparseMemoryBindings :=
      [(0, { ResourceOffset := 0, Size := 64, Memory := 5, MemoryOffset := 0, Flags := 0 })],
    LastBoundQueue := lastBoundQueue }

/-- The snapshot `snapshotDenseBuffer` with the sparse binding flag added to the queue
family `0`. -/
def snapshotSparseCapable : State :=
  { snapshotDenseBuffer with
    PhysicalDevices :=
      [{ examplePhysicalDevice with QueueFamilyProperties := [(0, { QueueFlags := 15 })] }] }

/-- A buffer of 16 bytes with sparse residency and two sparse bindings to the memory `5`:
3 bytes at the resource offset `0` from the memory offset `0`, and 5 bytes at the resource
offset `8` from the memory offset `32`; last bound to the queue `4`. -/
def exampleTwoBindingsBuffer : BufferObject :=
  { VulkanHandle := 6, Device := 3, Info := { CreateFlags := 3, Size := 16, Usage := 128 },
    MemoryRequirements := { Size := 16, Alignment := 1, MemoryTypeBits := 3 },
    SparseMemoryBindings :=
      [(0, { ResourceOffset := 0, Size := 3, Memory := 5, MemoryOffset := 0, Flags := 0 }),
       (8, { ResourceOffset := 8, Size := 5, Memory := 5, MemoryOffset := 32, Flags := 0 })],
    LastBoundQueue := some ⟨4, 3, 0, 0⟩ }

/-- The handles that the `AllocateMemory` calls of a stream create, in stream order. -/
def allocatedMemories (calls : List VkCall) : List Nat :=
  calls.filterMap (fun c =>
    match c with
    | .VkAllocateMemory _ _ h => some h
    | _ => none)

/-- The snapshot `snapshotDenseBuffer` where the info of the buffer carries dedicated
allocation info and its memory `5` carries none. -/
def snapshotDedicatedBuffer : State :=
  { snapshotDenseBuffer with
    Buffers :=
      [{ exampleBuffer with
         Info := { Size := 64, Usage := 128, DedicatedAllocationNV := some 0 } }] }

/-- The snapshot `snapshotDenseBuffer` with an image bound to the memory `5` in place of
the buffer, where the info of the image carries dedicated allocation info and the memory
carries none. -/
def snapshotDedicatedImage : State :=
  { snapshotDenseBuffer with
    Buffers := []
    Images :=
      [{ VulkanHandle := 7, Device := 3, Info := { Usage := 4, DedicatedAllocationNV := some 0 },
         BoundMemory := some exampleMemory }] }

/-- The snapshot `snapshotSparseCapable` with a buffer with dedicated allocation info and
a sparse binding to the memory `5` in place of the buffer. -/
def snapshotDedicatedSparseBuffer : State :=
  { snapshotSparseCapable with
    Buffers :=
      [{ exampleTwoBindingsBuffer with
         Info :=
           { CreateFlags := 3, Size := 16, Usage := 128, DedicatedAllocationNV := some 0 } }] }

/-! ## Lemmas on `IsFullyBound` -/

theorem SparseBindMap.get_mem_of_pos (m : SparseBindMap) (k : Nat)
    (h : 0 < (Get m k).Size) : (k, Get m k) ∈ m := by
  unfold Get at h ⊢
  cases hf : m.find? (fun e => e.1 == k) with
  | none =>
    rw [hf] at h
    exact absurd h (by decide)
  | some e =>
    have hmem := List.mem_of_find?_eq_some hf
    have hk := List.find?_some hf
    simp only [beq_iff_eq] at hk
    simp only
    rw [← hk]
    exact hmem

theorem SparseBindMap.get_of_mem (m : SparseBindMap) (hwf : WF m)
    (e : Nat × VkSparseMemoryBind) (he : e ∈ m) : Get m e.1 = e.2 := by
  induction m with
  | nil => cases he
  | cons x rest ih =>
    unfold WF Keys at hwf
    simp only [List.map_cons, List.pairwise_cons] at hwf
    rcases List.mem_cons.1 he with rfl | hr
    · simp [Get]
    · have hlt : x.1 < e.1 := hwf.1 e.1 (List.mem_map_of_mem _ hr)
      have hb : (x.1 == e.1) = false := by
        simp only [beq_eq_false_iff_ne, ne_eq]
        exact Nat.ne_of_lt hlt
      have := ih hwf.2 hr
      unfold Get at this ⊢
      simp only [List.find?_cons, hb]
      exact this

theorem coverLoop_sound (m : SparseBindMap) (offset E : Nat) :
    ∀ i e i' e', coverLoop m offset i e = some (i', e') →
      (∀ a, e ≤ a → a < E → InSomeBinding m a) →
      (∀ a, e' ≤ a → a < E → InSomeBinding m a) := by
  intro i
  induction i with
  | zero =>
    intro e i' e' h hc
    simp only [coverLoop, Option.some.injEq, Prod.mk.injEq] at h
    rw [← h.2]; exact hc
  | succ i ih =>
    intro e i' e' h hc
    unfold coverLoop at h
    generalize (Keys m).getD (i + 1) 0 = k at h
    by_cases h1 : e > offset
    · rw [if_pos h1] at h
      by_cases h2 : (k + (Get m k).Size) % U64 ≥ e
      · simp only [ge_iff_le] at h2
        simp only [ge_iff_le, h2, if_true] at h
        refine ih _ _ _ h ?_
        intro a ha1 ha2
        by_cases hae : e ≤ a
        · exact hc a hae ha2
        · have hmod := Nat.mod_le (k + (Get m k).Size) U64
          have hpos : 0 < (Get m k).Size := by omega
          exact ⟨_, get_mem_of_pos m _ hpos, ha1, by simp only; omega⟩
      · simp only [ge_iff_le] at h2
        simp only [ge_iff_le, h2, if_false] at h
        cases h
    · rw [if_neg h1] at h
      simp only [Option.some.injEq, Prod.mk.injEq] at h
      rw [← h.2]; exact hc

theorem IsFullyBound_sound (offset size : Nat) (m : SparseBindMap)
    (hE : offset + size < U64) (h : IsFullyBound offset size m = true) :
    Covered offset size m := by
  unfold IsFullyBound at h
  rw [Nat.mod_eq_of_lt hE] at h
  simp only at h
  split at h
  · cases h
  · cases h
  · rename_i oneAfter _
    split at h
    · cases h
    · rename_i i e hloop
      have hinv := coverLoop_sound m offset (offset + size) _ _ _ _ hloop
        (fun a h1 h2 => absurd h2 (by omega))
      intro a ha1 ha2
      by_cases hle : e ≤ offset
      · exact hinv a (by omega) ha2
      · simp only [hle, if_false] at h
        generalize (Keys m).getD 0 0 = k at h
        by_cases hi : i = 0
        · simp only [hi, if_true, decide_eq_true_eq, ge_iff_le] at h
          by_cases hae : e ≤ a
          · exact hinv a hae ha2
          · have hmod := Nat.mod_le (k + (Get m k).Size) U64
            have hpos : 0 < (Get m k).Size := by omega
            exact ⟨_, get_mem_of_pos m _ hpos, by simp only; omega, by simp only; omega⟩
        · simp only [hi, if_false] at h
          cases h

theorem keyAt_lt (m : SparseBindMap) (hwf : WF m) (i j : Nat) (hij : i < j)
    (hj : j < (Keys m).length) : keyAt m i < keyAt m j := by
  unfold keyAt
  rw [List.getD_eq_getElem _ _ hj, List.getD_eq_getElem _ _ (Nat.lt_trans hij hj)]
  exact List.pairwise_iff_getElem.1 hwf i j (Nat.lt_trans hij hj) hj hij

theorem keyAt_le (m : SparseBindMap) (hwf : WF m) (i j : Nat) (hij : i ≤ j)
    (hj : j < (Keys m).length) : keyAt m i ≤ keyAt m j := by
  rcases Nat.eq_or_lt_of_le hij with h | h
  · rw [h]
  · exact Nat.le_of_lt (keyAt_lt m hwf i j h hj)

theorem exists_keyAt_of_mem (m : SparseBindMap) (x : Nat × VkSparseMemoryBind)
    (hx : x ∈ m) : ∃ j, j < (Keys m).length ∧ keyAt m j = x.1 := by
  have hk : x.1 ∈ Keys m := List.mem_map_of_mem _ hx
  obtain ⟨n, hn, hget⟩ := List.getElem_of_mem hk
  exact ⟨n, hn, by unfold keyAt; rw [List.getD_eq_getElem _ _ hn]; exact hget⟩

theorem keyAt_entry_mem (m : SparseBindMap) (hwf : WF m) (j : Nat)
    (hj : j < (Keys m).length) : (keyAt m j, Get m (keyAt m j)) ∈ m := by
  have hk : keyAt m j ∈ Keys m := by
    unfold keyAt; rw [List.getD_eq_getElem _ _ hj]; exact List.getElem_mem _
  obtain ⟨x, hx, hxk⟩ := List.mem_map.1 hk
  have hg := get_of_mem m hwf x hx
  rw [← hxk, hg]
  exact hx

theorem findOneAfterReqRange_spec (limit : Nat) :
    ∀ ks i j, findOneAfterReqRange limit ks i = some j →
      i ≤ j ∧ j - i < ks.length ∧ limit < ks.getD (j - i) 0 ∧
        ∀ t, t < j - i → ks.getD t 0 ≤ limit := by
  intro ks
  induction ks with
  | nil => intro i j h; simp [findOneAfterReqRange] at h
  | cons k ks ih =>
    intro i j h
    unfold findOneAfterReqRange at h
    by_cases hk : k > limit
    · rw [if_pos hk] at h
      simp only [Option.some.injEq] at h
      subst h
      refine ⟨Nat.le_refl _, by simp, by simpa using hk, ?_⟩
      intro t ht
      omega
    · rw [if_neg hk] at h
      obtain ⟨h1, h2, h3, h4⟩ := ih (i + 1) j h
      have hji : j - i = (j - (i + 1)) + 1 := by omega
      refine ⟨by omega, by simp only [List.length_cons]; omega, ?_, ?_⟩
      · rw [hji, List.getD_cons_succ]; exact h3
      · intro t ht
        cases t with
        | zero => simp only [List.getD_cons_zero]; omega
        | succ t =>
          rw [List.getD_cons_succ]
          exact h4 t (by omega)

theorem findOneAfterReqRange_isSome (limit : Nat) :
    ∀ ks i, (∃ k ∈ ks, limit < k) → ∃ j, findOneAfterReqRange limit ks i = some j := by
  intro ks
  induction ks with
  | nil => intro i h; obtain ⟨k, hk, _⟩ := h; cases hk
  | cons k ks ih =>
    intro i h
    unfold findOneAfterReqRange
    by_cases hk : k > limit
    · exact ⟨i, by rw [if_pos hk]⟩
    · rw [if_neg hk]
      obtain ⟨k', hk', hlt⟩ := h
      rcases List.mem_cons.1 hk' with rfl | hmem
      · exact absurd hlt hk
      · exact ih (i + 1) ⟨k', hmem, hlt⟩

/-- An address below `e` that some binding contains is contained in the
binding at an index not after `i`, when all later keys are at least `e`. -/
theorem covering_index_le (m : SparseBindMap) (hwf : WF m) (i e a : Nat)
    (hafter : ∀ j, i < j → j < (Keys m).length → e ≤ keyAt m j)
    (hae : a < e) (hin : InSomeBinding m a) :
    ∃ j, j ≤ i ∧ j < (Keys m).length ∧ keyAt m j ≤ a ∧
      a < keyAt m j + (Get m (keyAt m j)).Size := by
  obtain ⟨x, hx, hx1, hx2⟩ := hin
  obtain ⟨j, hj, hjk⟩ := exists_keyAt_of_mem m x hx
  have hg := get_of_mem m hwf x hx
  refine ⟨j, ?_, hj, by omega, by rw [hjk, hg]; exact hx2⟩
  by_contra hji
  have := hafter j (by omega) hj
  omega

theorem coverLoop_complete (m : SparseBindMap) (hwf : WF m)
    (hpos : PositiveSizes m) (hdis : DisjointRanges m) (offset E : Nat)
    (hcov : ∀ a, offset ≤ a → a < E → InSomeBinding m a) :
    ∀ i e, i < (Keys m).length → e ≤ E →
      (∀ j, i < j → j < (Keys m).length → e ≤ keyAt m j) →
      (∀ j, j ≤ i → keyAt m j ≤ E) →
      (∀ j, j ≤ i → keyAt m j + (Get m (keyAt m j)).Size < U64) →
      ∃ i' e', coverLoop m offset i e = some (i', e') ∧
        (e' ≤ offset ∨ (i' = 0 ∧ e' ≤ (keyAt m 0 + (Get m (keyAt m 0)).Size) % U64)) := by
  intro i
  induction i with
  | zero =>
    intro e hi heE hafter _ hno
    refine ⟨0, e, by simp [coverLoop], ?_⟩
    by_cases hle : e ≤ offset
    · exact Or.inl hle
    · refine Or.inr ⟨rfl, ?_⟩
      obtain ⟨j, hj0, hj, hj1, hj2⟩ := covering_index_le m hwf 0 e (e - 1) hafter (by omega)
        (hcov (e - 1) (by omega) (by omega))
      have hj00 : j = 0 := by omega
      subst hj00
      have hov := hno 0 (Nat.le_refl _)
      rw [Nat.mod_eq_of_lt hov]
      omega
  | succ i ih =>
    intro e hi heE hafter hbefore hno
    unfold coverLoop
    by_cases h1 : e > offset
    · rw [if_pos h1]
      have hmem := keyAt_entry_mem m hwf (i + 1) hi
      have hov := hno (i + 1) (Nat.le_refl _)
      have hps := hpos _ hmem
      simp only at hps
      change ∃ i' e', (if (keyAt m (i + 1) + (Get m (keyAt m (i + 1))).Size) % U64 ≥ e
        then coverLoop m offset i (keyAt m (i + 1)) else none) = some (i', e') ∧ _
      rw [Nat.mod_eq_of_lt hov]
      have hreach : e ≤ keyAt m (i + 1) + (Get m (keyAt m (i + 1))).Size := by
        by_cases hke : e ≤ keyAt m (i + 1)
        · omega
        · obtain ⟨j, hji, hj, hj1, hj2⟩ := covering_index_le m hwf (i + 1) e (e - 1) hafter
            (by omega) (hcov (e - 1) (by omega) (by omega))
          rcases Nat.eq_or_lt_of_le hji with heq | hlt
          · subst heq; omega
          · have hkk := keyAt_lt m hwf j (i + 1) hlt hi
            have hmemj := keyAt_entry_mem m hwf j hj
            have := hdis _ hmemj _ hmem (keyAt m (i + 1)) (by simp only; omega)
              (by simp only; omega) (by simp only; omega) (by simp only; omega)
            simp only at this
            omega
      rw [if_pos hreach]
      refine ih (keyAt m (i + 1)) (by omega) (hbefore (i + 1) (Nat.le_refl _)) ?_ ?_ ?_
      · intro j hij hj
        exact keyAt_le m hwf (i + 1) j (by omega) hj
      · intro j hji
        exact hbefore j (by omega)
      · intro j hji
        exact hno j (by omega)
    · rw [if_neg h1]
      exact ⟨i + 1, e, rfl, Or.inl (by omega)⟩

theorem IsFullyBound_complete_of_keys (offset size : Nat) (m : SparseBindMap)
    (hwf : WF m) (hE : offset + size < U64) (hsize : 0 < size)
    (hkeys : ∀ k ∈ Keys m, k < U64)
    (hpos : PositiveSizes m) (hdis : DisjointRanges m)
    (hkey : ∃ k ∈ Keys m, offset + size < k)
    (hcov : Covered offset size m) : IsFullyBound offset size m = true := by
  -- the first key is at most `offset`
  obtain ⟨x, hx, hx1, _⟩ := hcov offset (Nat.le_refl _) (by omega)
  obtain ⟨jx, hjx, hjxk⟩ := exists_keyAt_of_mem m x hx
  have hlen : 0 < (Keys m).length := by omega
  have hk0 : keyAt m 0 ≤ offset := by
    have := keyAt_le m hwf 0 jx (Nat.zero_le _) hjx
    omega
  obtain ⟨j, hfind⟩ := findOneAfterReqRange_isSome (offset + size) (Keys m) 0 hkey
  obtain ⟨_, hj2, hj3, hj4⟩ := findOneAfterReqRange_spec _ _ _ _ hfind
  simp only [Nat.sub_zero] at hj2 hj3 hj4
  unfold IsFullyBound
  rw [Nat.mod_eq_of_lt hE]
  simp only
  rw [hfind]
  cases j with
  | zero =>
    exfalso
    have : keyAt m 0 = (Keys m).getD 0 0 := rfl
    omega
  | succ oneAfter =>
    simp only
    have hbeyond : offset + size < keyAt m (oneAfter + 1) := hj3
    have hno : ∀ j, j ≤ oneAfter → keyAt m j + (Get m (keyAt m j)).Size < U64 := by
      intro j hj
      by_contra hov
      have hmemj := keyAt_entry_mem m hwf j (by omega)
      have hmemk := keyAt_entry_mem m hwf (oneAfter + 1) hj2
      have hps := hpos _ hmemk
      have hkU : keyAt m (oneAfter + 1) < U64 :=
        hkeys _ (List.mem_map.2 ⟨_, hmemk, rfl⟩)
      have hjE : keyAt m j ≤ offset + size := hj4 j (by omega)
      have := hdis _ hmemj _ hmemk (keyAt m (oneAfter + 1)) (by simp only; omega)
        (by simp only; omega) (by simp only; omega) (by simp only at hps ⊢; omega)
      simp only at this
      omega
    obtain ⟨i', e', hloop, hres⟩ := coverLoop_complete m hwf hpos hdis offset
      (offset + size) hcov oneAfter (offset + size) (by omega) (Nat.le_refl _)
      (by
        intro j hij hj
        have h1 : keyAt m (oneAfter + 1) ≤ keyAt m j := keyAt_le m hwf _ _ (by omega) hj
        have h2 : keyAt m (oneAfter + 1) = (Keys m).getD (oneAfter + 1) 0 := rfl
        omega)
      (by
        intro j hj
        exact hj4 j (by omega))
      hno
    rw [hloop]
    simp only
    by_cases hle : e' ≤ offset
    · rw [if_pos hle]
    · rw [if_neg hle]
      rcases hres with h | ⟨hi0, hreach⟩
      · exact absurd h hle
      · rw [if_pos hi0]
        change decide (keyAt m 0 ≤ offset ∧
          (keyAt m 0 + (Get m (keyAt m 0)).Size) % U64 ≥ e') = true
        simp only [decide_eq_true_eq]
        exact ⟨hk0, hreach⟩

theorem IsFullyBound_complete (offset size : Nat) (m : SparseBindMap)
    (hwf : WF m) (hE : offset + size < U64) (hsize : 0 < size) (hno : NoOverflow m)
    (hpos : PositiveSizes m) (hdis : DisjointRanges m)
    (hkey : ∃ k ∈ Keys m, offset + size < k)
    (hcov : Covered offset size m) : IsFullyBound offset size m = true := by
  refine IsFullyBound_complete_of_keys offset size m hwf hE hsize ?_ hpos hdis hkey hcov
  intro k hk
  obtain ⟨x, hx, hxk⟩ := List.mem_map.1 hk
  have := hno x hx
  omega

theorem disjoint_example : DisjointRanges [bind 0 50, bind 50 50, bind 200 1] := by
  intro e₁ h₁ e₂ h₂ a
  simp only [List.mem_cons, List.mem_singleton, List.not_mem_nil, or_false] at h₁ h₂
  rcases h₁ with rfl | rfl | rfl <;> rcases h₂ with rfl | rfl | rfl <;>
    simp only [bind] <;> intros <;> first | trivial | omega

/-- C3: for a map with a single binding `IsFullyBound` returns false, whatever
the offset, the size and the binding. -/
theorem IsFullyBound_single_binding (offset size k : Nat) (b : VkSparseMemoryBind) :
    IsFullyBound offset size [(k, b)] = false := by
  unfold IsFullyBound
  simp only [Keys, List.map_cons, List.map_nil, findOneAfterReqRange]
  by_cases h : k > (offset + size) % U64
  · simp [h]
  · simp [h]

/-! ## The command writer (C10) -/

theorem foldl_AddRead (l : List AllocResult) (c : Cmd) :
    l.foldl (fun c r => c.AddRead r.toObservation) c =
      { c with Reads := c.Reads ++ l.map AllocResult.toObservation } := by
  induction l generalizing c with
  | nil => simp
  | cons r l ih =>
    rw [List.foldl_cons, ih]
    simp [Cmd.AddRead]

theorem foldl_AddWrite (l : List AllocResult) (c : Cmd) :
    l.foldl (fun c r => c.AddWrite r.toObservation) c =
      { c with Writes := c.Writes ++ l.map AllocResult.toObservation } := by
  induction l generalizing c with
  | nil => simp
  | cons r l ih =>
    rw [List.foldl_cons, ih]
    simp [Cmd.AddWrite]

theorem attachPending_eq (sb : stateBuilder) (cmd : Cmd) :
    attachPending sb cmd =
      { call := cmd.call
        Reads := cmd.Reads ++ sb.readMemories.map AllocResult.toObservation
        Writes := cmd.Writes ++ sb.writeMemories.map AllocResult.toObservation } := by
  unfold attachPending
  simp only [foldl_AddRead, foldl_AddWrite]

/-- C10: whatever `Mutate` does and returns, `write` appends the command as the last
element of the stream and leaves the earlier commands unchanged; the appended command is
the given call with the pending read and write allocations added to its observations; the
pending lists are empty afterwards, so that a command written next carries none of them. -/
theorem write_appends_and_clears (env : Env) (sb : stateBuilder) (cmd : Cmd) :
    (write env sb cmd).cmds = sb.cmds ++ [attachPending sb cmd] ∧
    (attachPending sb cmd).call = cmd.call ∧
    (attachPending sb cmd).Reads =
      cmd.Reads ++ sb.readMemories.map AllocResult.toObservation ∧
    (attachPending sb cmd).Writes =
      cmd.Writes ++ sb.writeMemories.map AllocResult.toObservation ∧
    (write env sb cmd).readMemories = [] ∧
    (write env sb cmd).writeMemories = [] ∧
    ∀ next : Cmd, (write env (write env sb cmd) next).cmds =
      sb.cmds ++ [attachPending sb cmd, next] := by
  refine ⟨rfl, ?_, ?_, ?_, rfl, rfl, ?_⟩
  · rw [attachPending_eq]
  · rw [attachPending_eq]
  · rw [attachPending_eq]
  · intro next
    simp [write, attachPending]

/-! ## `getPipelinesInOrder` (C5, C6) -/

theorem storedOrder_valid : storedOrder.Valid := fun _ l => List.Perm.refl l

theorem reversedOrder_valid : reversedOrder.Valid := fun _ l => List.reverse_perm l

theorem filterMap_enumFrom_get? {β : Type} (m : List (Nat × β)) :
    ∀ pre : List (Nat × β),
      ((m.enumFrom pre.length).map (fun e => (e.2.1, e.1))).filterMap
        (fun kp => (pre ++ m).get? kp.2) = m := by
  induction m with
  | nil => intro pre; rfl
  | cons x m ih =>
    intro pre
    have := ih (pre ++ [x])
    rw [List.length_append, List.length_singleton, List.append_assoc, List.singleton_append]
      at this
    rw [List.enumFrom_cons, List.map_cons, List.filterMap_cons]
    have hx : (pre ++ x :: m).get? pre.length = some x := by
      rw [List.get?_eq_getElem?, List.getElem?_append_right (le_refl _)]
      simp
    simp only [hx]
    rw [this]

theorem goMapRange_perm {β : Type} (order : MapOrder) (horder : order.Valid) (n : Nat)
    (m : List (Nat × β)) : (goMapRange order n m).Perm m := by
  unfold goMapRange
  have h1 := (horder n (m.enum.map (fun e => (e.2.1, e.1)))).filterMap
    (fun kp => m.get? kp.2)
  have h2 := filterMap_enumFrom_get? m []
  simp only [List.length_nil, List.nil_append] at h2
  rw [List.enum]
  rw [List.enum, h2] at h1
  exact h1

theorem goRange_perm {α : Type} (order : MapOrder) (horder : order.Valid) (n : Nat)
    (m : List α) : (goRange order n m).Perm m := by
  unfold goRange
  have h := (goMapRange_perm order horder n m.enum).map Prod.snd
  rwa [List.enum_map_snd] at h

theorem mem_goRange {α : Type} (order : MapOrder) (horder : order.Valid) (n : Nat)
    (m : List α) (v : α) : v ∈ goRange order n m ↔ v ∈ m :=
  (goRange_perm order horder n m).mem_iff

theorem goRange_find?_some {α : Type} (order : MapOrder) (horder : order.Valid) (n : Nat)
    (m : List α) (p : α → Bool) (v : α) (h : v ∈ m) (hp : p v = true) :
    ∃ w, (goRange order n m).find? p = some w ∧ w ∈ m ∧ p w = true := by
  cases hfind : (goRange order n m).find? p with
  | none =>
    rw [List.find?_eq_none] at hfind
    exact absurd hp (hfind v ((mem_goRange order horder n m v).2 h))
  | some w =>
    exact ⟨w, rfl, (mem_goRange order horder n m w).1 (List.mem_of_find?_eq_some hfind),
      List.find?_some hfind⟩

theorem goRange_find?_none {α : Type} (order : MapOrder) (horder : order.Valid) (n : Nat)
    (m : List α) (p : α → Bool) (h : ∀ v ∈ m, p v = false) :
    (goRange order n m).find? p = none := by
  rw [List.find?_eq_none]
  intro v hv
  rw [h v ((mem_goRange order horder n m v).1 hv)]
  decide

theorem goRange_find?_mem {α : Type} (order : MapOrder) (horder : order.Valid) (n : Nat)
    (m : List α) (p : α → Bool) (w : α) (h : (goRange order n m).find? p = some w) :
    w ∈ m ∧ p w = true :=
  ⟨(mem_goRange order horder n m w).1 (List.mem_of_find?_eq_some h), List.find?_some h⟩

theorem goRange_singleton {α : Type} (order : MapOrder) (horder : order.Valid) (n : Nat)
    (x : α) : goRange order n [x] = [x] :=
  List.perm_singleton.1 (goRange_perm order horder n [x])

theorem goRange_storedOrder {α : Type} (n : Nat) (m : List α) :
    goRange storedOrder n m = m := by
  have h2 := filterMap_enumFrom_get? m.enum []
  simp only [List.length_nil, List.nil_append] at h2
  unfold goRange goMapRange storedOrder
  rw [List.enum] at h2 ⊢
  rw [List.enum, h2]
  exact List.enum_map_snd m

theorem goMapSet_of_not_mem (m : List (Nat × Nat)) (k v : Nat) (h : k ∉ m.map Prod.fst) :
    goMapSet m k v = m ++ [(k, v)] := by
  unfold goMapSet
  have : m.any (fun e => e.1 == k) = false := by
    rw [List.any_eq_false]
    intro e he hek
    simp only [beq_iff_eq] at hek
    exact h (by rw [← hek]; exact List.mem_map_of_mem _ he)
  rw [this]
  simp

theorem initialUnhandled_eq (ps : List (Nat × Nat)) (h : (ps.map Prod.fst).Nodup) :
    initialUnhandled ps = ps := by
  unfold initialUnhandled
  have key : ∀ (l acc : List (Nat × Nat)), ((acc ++ l).map Prod.fst).Nodup →
      l.foldl (fun m p => goMapSet m p.1 p.2) acc = acc ++ l := by
    intro l
    induction l with
    | nil => intro acc _; simp
    | cons p l ih =>
      intro acc hn
      rw [List.foldl_cons, goMapSet_of_not_mem]
      · rw [ih (acc ++ [(p.1, p.2)]) (by simpa using hn)]
        simp
      · simp only [List.map_append, List.map_cons] at hn
        have := (List.nodup_append.1 hn).2.2
        intro hmem
        exact this hmem (List.mem_cons_self _ _) 
  simpa using key ps [] (by simpa using h)

theorem handlePipeline_eq (st : PipelineOrder) (k v : Nat) :
    handlePipeline st (k, v) =
      if v = 0 ∨ v ∈ st.handledPipelines then
        { pipelines := st.pipelines ++ [k]
          unhandledPipelines := st.unhandledPipelines.filter (fun e => e.1 != k)
          handledPipelines := k :: st.handledPipelines
          numHandled := st.numHandled + 1 }
      else st := by
  unfold handlePipeline
  by_cases h0 : v = 0
  · simp [h0]
  · by_cases h1 : v ∈ st.handledPipelines
    · simp [h0, h1]
    · simp [h0, h1]

theorem OccursBefore.append_right {l : List Nat} {a b : Nat} (h : OccursBefore l a b)
    (t : List Nat) : OccursBefore (l ++ t) a b := by
  obtain ⟨pre, post, hl, ha⟩ := h
  exact ⟨pre, post ++ t, by rw [hl]; simp, ha⟩

theorem snd_eq_of_nodup_keys (ps : List (Nat × Nat)) (h : (ps.map Prod.fst).Nodup)
    (k v v' : Nat) (h1 : (k, v) ∈ ps) (h2 : (k, v') ∈ ps) : v = v' := by
  induction ps with
  | nil => cases h1
  | cons p ps ih =>
    simp only [List.map_cons, List.nodup_cons] at h
    rcases List.mem_cons.1 h1 with e1 | m1 <;> rcases List.mem_cons.1 h2 with e2 | m2
    · rw [← e1] at e2; exact (Prod.mk.inj e2).2.symm ▸ rfl
    · have hk : p.1 = k := by rw [← e1]
      have hm : k ∈ ps.map Prod.fst := List.mem_map_of_mem Prod.fst m2
      rw [← hk] at hm
      exact absurd hm h.1
    · have hk : p.1 = k := by rw [← e2]
      have hm : k ∈ ps.map Prod.fst := List.mem_map_of_mem Prod.fst m1
      rw [← hk] at hm
      exact absurd hm h.1
    · exact ih h.2 m1 m2

theorem OrderInv.step {ps : List (Nat × Nat)} (hps : (ps.map Prod.fst).Nodup)
    {st : PipelineOrder} (inv : OrderInv ps st) (k v : Nat) (hkv : (k, v) ∈ ps)
    (hk : k ∉ st.pipelines) :
    OrderInv ps (handlePipeline st (k, v)) ∧
    ((handlePipeline st (k, v)).pipelines = st.pipelines ∨
      (handlePipeline st (k, v)).pipelines = st.pipelines ++ [k]) ∧
    ((v = 0 ∨ v ∈ st.pipelines) → k ∈ (handlePipeline st (k, v)).pipelines) := by
  rw [handlePipeline_eq]
  by_cases hc : v = 0 ∨ v ∈ st.handledPipelines
  · rw [if_pos hc]
    refine ⟨?_, Or.inr rfl, fun _ => by simp⟩
    constructor
    · simp only
      rw [List.nodup_append]
      refine ⟨inv.nodup, by simp, ?_⟩
      intro a ha hb
      simp only [List.mem_singleton] at hb
      rw [hb] at ha
      exact hk ha
    · intro h
      simp only [List.mem_cons, List.mem_append, List.not_mem_nil, or_false]
      rw [inv.handled]
      exact or_comm
    · simp only
      rw [inv.unhandled, List.filter_filter]
      apply List.filter_congr
      intro e _
      simp only [List.mem_append, List.mem_singleton, not_or, bne_iff_ne, ne_eq,
        Bool.and_eq_true, decide_eq_true_eq, Bool.decide_and, Bool.decide_eq_true]
      by_cases h1 : e.1 = k <;> by_cases h2 : e.1 ∈ st.pipelines <;> simp [h1, h2]
    · intro k' v' hkv' hv' hk'
      simp only [List.mem_append, List.mem_singleton] at hk'
      rcases hk' with hin | heq
      · exact (inv.before k' v' hkv' hv' hin).append_right _
      · subst heq
        have hvv : v = v' := snd_eq_of_nodup_keys ps hps k' v v' hkv hkv'
        subst hvv
        refine ⟨st.pipelines, [], rfl, ?_⟩
        rcases hc with h0 | hh
        · exact absurd h0 hv'
        · exact (inv.handled v).1 hh
    · simp only [List.length_append, List.length_singleton]
      rw [inv.count]
    · intro h hh
      simp only [List.mem_append, List.mem_singleton] at hh
      rcases hh with hin | heq
      · exact inv.sub h hin
      · rw [heq]; exact List.mem_map_of_mem Prod.fst hkv
  · rw [if_neg hc]
    refine ⟨inv, Or.inl rfl, ?_⟩
    intro h
    exfalso
    apply hc
    rcases h with h0 | hh
    · exact Or.inl h0
    · exact Or.inr ((inv.handled v).2 hh)

theorem OrderInv.pass {ps : List (Nat × Nat)} (hps : (ps.map Prod.fst).Nodup) :
    ∀ (L : List (Nat × Nat)) (st : PipelineOrder), OrderInv ps st →
      (∀ e ∈ L, e ∈ ps ∧ e.1 ∉ st.pipelines) → (L.map Prod.fst).Nodup →
      OrderInv ps (L.foldl handlePipeline st) ∧
      (∀ h ∈ st.pipelines, h ∈ (L.foldl handlePipeline st).pipelines) ∧
      (∀ e ∈ L, (e.2 = 0 ∨ e.2 ∈ st.pipelines) →
        e.1 ∈ (L.foldl handlePipeline st).pipelines) := by
  intro L
  induction L with
  | nil =>
    intro st inv _ _
    exact ⟨inv, fun h hh => hh, fun e he => absurd he (List.not_mem_nil _)⟩
  | cons e L ih =>
    intro st inv hL hnd
    obtain ⟨k, v⟩ := e
    simp only [List.map_cons, List.nodup_cons] at hnd
    have hhead := hL (k, v) (List.mem_cons_self _ _)
    obtain ⟨inv1, hp, hready⟩ := inv.step hps k v hhead.1 hhead.2
    have hmono : ∀ h ∈ st.pipelines, h ∈ (handlePipeline st (k, v)).pipelines := by
      intro h hh
      rcases hp with e1 | e1 <;> rw [e1]
      · exact hh
      · exact List.mem_append_left _ hh
    have htail : ∀ e ∈ L, e ∈ ps ∧ e.1 ∉ (handlePipeline st (k, v)).pipelines := by
      intro e he
      have h1 := hL e (List.mem_cons_of_mem _ he)
      refine ⟨h1.1, ?_⟩
      rcases hp with e1 | e1 <;> rw [e1]
      · exact h1.2
      · simp only [List.mem_append, List.mem_singleton, not_or]
        refine ⟨h1.2, ?_⟩
        intro hek
        apply hnd.1
        have := List.mem_map_of_mem Prod.fst he
        rw [hek] at this
        exact this
    obtain ⟨inv2, hmono2, hready2⟩ := ih (handlePipeline st (k, v)) inv1 htail hnd.2
    rw [List.foldl_cons]
    refine ⟨inv2, fun h hh => hmono2 h (hmono h hh), ?_⟩
    intro e he hr
    rcases List.mem_cons.1 he with heq | hin
    · subst heq
      exact hmono2 _ (hready hr)
    · refine hready2 e hin ?_
      rcases hr with h0 | h1
      · exact Or.inl h0
      · exact Or.inr (hmono _ h1)

theorem transGen_of_chain {α : Type} (R : α → α → Prop) (s : Nat → α)
    (h : ∀ n, R (s n) (s (n + 1))) : ∀ i j, i < j → Relation.TransGen R (s i) (s j) := by
  intro i j hij
  induction j with
  | zero => omega
  | succ j ih =>
    rcases Nat.eq_or_lt_of_le (Nat.le_of_lt_succ hij) with heq | hlt
    · subst heq
      exact Relation.TransGen.single (h i)
    · exact Relation.TransGen.tail (ih hlt) (h j)

/-- In a finite non-empty set in which every element is related to some element of the
set, some element is related to itself by the transitive closure. -/
theorem exists_cycle_of_closed {R : Nat → Nat → Prop} (S : List Nat) (hne : S ≠ [])
    (hstep : ∀ k ∈ S, ∃ v ∈ S, R k v) : ∃ a, Relation.TransGen R a a := by
  classical
  obtain ⟨k0, hk0⟩ := List.exists_mem_of_ne_nil S hne
  let T := {x : Nat // x ∈ S.toFinset}
  have hstep' : ∀ x : T, ∃ y : T, R x.1 y.1 := by
    intro x
    obtain ⟨v, hv, hr⟩ := hstep x.1 (List.mem_toFinset.1 x.2)
    exact ⟨⟨v, List.mem_toFinset.2 hv⟩, hr⟩
  let g : T → T := fun x => Classical.choose (hstep' x)
  have hg : ∀ x : T, R x.1 (g x).1 := fun x => Classical.choose_spec (hstep' x)
  let s : Nat → T := fun n => g^[n] ⟨k0, List.mem_toFinset.2 hk0⟩
  have hs : ∀ n, R (s n).1 (s (n + 1)).1 := by
    intro n
    have : s (n + 1) = g (s n) := Function.iterate_succ_apply' g n _
    rw [this]
    exact hg (s n)
  obtain ⟨i, j, hij, heq⟩ := Finite.exists_ne_map_eq_of_infinite s
  have hchain := transGen_of_chain R (fun n => (s n).1) hs
  rcases Nat.lt_or_gt_of_ne hij with h | h
  · exact ⟨(s i).1, by have := hchain i j h; simp only at this; rw [← heq] at this; exact this⟩
  · exact ⟨(s j).1, by have := hchain j i h; simp only at this; rw [heq] at this; exact this⟩

theorem OrderInv.exists_ready {ps : List (Nat × Nat)} (hbase : BasesPresent ps)
    (hacyc : NoBaseCycle ps) {st : PipelineOrder} (inv : OrderInv ps st)
    (hne : st.unhandledPipelines ≠ []) :
    ∃ e ∈ st.unhandledPipelines, e.2 = 0 ∨ e.2 ∈ st.pipelines := by
  by_contra hcon
  simp only [not_exists, not_and, not_or] at hcon
  have hmemU : ∀ e, e ∈ st.unhandledPipelines ↔ e ∈ ps ∧ e.1 ∉ st.pipelines := by
    intro e
    rw [inv.unhandled, List.mem_filter]
    simp
  have hclosed : ∀ k ∈ st.unhandledPipelines.map Prod.fst,
      ∃ v ∈ st.unhandledPipelines.map Prod.fst, Derives ps k v := by
    intro k hk
    obtain ⟨e, he, hek⟩ := List.mem_map.1 hk
    obtain ⟨h0, hnp⟩ := hcon e he
    have heps := ((hmemU e).1 he).1
    have hvin := hbase e heps h0
    obtain ⟨e', he', hek'⟩ := List.mem_map.1 hvin
    refine ⟨e.2, ?_, ?_⟩
    · refine List.mem_map.2 ⟨e', (hmemU e').2 ⟨he', ?_⟩, hek'⟩
      rw [hek']; exact hnp
    · refine ⟨?_, h0⟩
      rw [← hek]; exact heps
  obtain ⟨a, ha⟩ := exists_cycle_of_closed (st.unhandledPipelines.map Prod.fst)
    (by simpa using hne) hclosed
  exact hacyc a ha

theorem orderLoop_acyclic {ps : List (Nat × Nat)} (hps : (ps.map Prod.fst).Nodup)
    (hbase : BasesPresent ps) (hacyc : NoBaseCycle ps) (order : MapOrder)
    (horder : order.Valid) :
    ∀ fuel n st, OrderInv ps st → st.unhandledPipelines.length < fuel →
      ∃ res, orderLoop order fuel n st = some res ∧ res.Nodup ∧
        (∀ h, h ∈ res ↔ h ∈ ps.map Prod.fst) ∧
        ∀ p ∈ ps, p.2 ≠ 0 → OccursBefore res p.2 p.1 := by
  intro fuel
  induction fuel with
  | zero => intro n st _ h; omega
  | succ fuel ih =>
    intro n st inv hlen
    have hmemU : ∀ e, e ∈ st.unhandledPipelines ↔ e ∈ ps ∧ e.1 ∉ st.pipelines := by
      intro e
      rw [inv.unhandled, List.mem_filter]
      simp
    unfold orderLoop
    by_cases hz : st.unhandledPipelines.length ≠ 0
    · rw [if_pos hz]
      have hne : st.unhandledPipelines ≠ [] := by
        intro h; rw [h] at hz; exact hz rfl
      have hperm := horder n st.unhandledPipelines
      have hL : ∀ e ∈ order n st.unhandledPipelines, e ∈ ps ∧ e.1 ∉ st.pipelines :=
        fun e he => (hmemU e).1 (hperm.mem_iff.1 he)
      have hnd : ((order n st.unhandledPipelines).map Prod.fst).Nodup := by
        have h1 : (st.unhandledPipelines.map Prod.fst).Nodup := by
          rw [inv.unhandled]
          exact hps.sublist ((List.filter_sublist _).map _)
        exact (hperm.map Prod.fst).nodup_iff.2 h1
      obtain ⟨inv1, hmono, hready⟩ :=
        OrderInv.pass hps (order n st.unhandledPipelines) st inv hL hnd
      obtain ⟨e, he, hr⟩ := inv.exists_ready hbase hacyc hne
      have hin := hready e (hperm.mem_iff.2 he) hr
      simp only
      generalize (order n st.unhandledPipelines).foldl handlePipeline st = st1
        at inv1 hmono hready hin ⊢
      have hcount : st1.numHandled ≠ 0 := by
        rw [inv1.count]
        intro h0
        rw [List.length_eq_zero] at h0
        rw [h0] at hin
        exact List.not_mem_nil _ hin
      rw [if_neg hcount]
      refine ih (n + 1) _ inv1 ?_
      have hsub : st1.unhandledPipelines =
          st.unhandledPipelines.filter (fun e => decide (e.1 ∉ st1.pipelines)) := by
        rw [inv1.unhandled, inv.unhandled, List.filter_filter]
        apply List.filter_congr
        intro x _
        by_cases hx : x.1 ∈ st.pipelines
        · simp [hx, hmono _ hx]
        · simp [hx]
      have hlt : st1.unhandledPipelines.length < st.unhandledPipelines.length := by
        rw [hsub]
        rw [List.length_filter_lt_length_iff_exists]
        exact ⟨e, he, by simpa using hin⟩
      omega
    · rw [if_neg hz]
      have hnil : st.unhandledPipelines = [] := by
        rw [← List.length_eq_zero]
        exact not_not.1 hz
      have hall : ∀ p ∈ ps, p.1 ∈ st.pipelines := by
        intro p hp
        by_contra hnot
        have := (hmemU p).2 ⟨hp, hnot⟩
        rw [hnil] at this
        exact List.not_mem_nil _ this
      refine ⟨st.pipelines, rfl, inv.nodup, ?_, ?_⟩
      · intro h
        constructor
        · exact inv.sub h
        · intro hh
          obtain ⟨p, hp, hpk⟩ := List.mem_map.1 hh
          rw [← hpk]
          exact hall p hp
      · intro p hp hp2
        exact inv.before p.1 p.2 hp hp2 (hall p hp)

theorem OrderInv.start (ps : List (Nat × Nat)) (hps : (ps.map Prod.fst).Nodup) :
    OrderInv ps { pipelines := [], unhandledPipelines := initialUnhandled ps,
                  handledPipelines := [], numHandled := 0 } := by
  constructor
  · exact List.nodup_nil
  · intro h; simp
  · rw [initialUnhandled_eq ps hps]; simp
  · intro k v _ _ hk; cases hk
  · rfl
  · intro h hh; cases hh

/-- C6: if the pipeline handles of one kind are distinct, every non-zero base handle is
the handle of a pipeline of that kind and the base relation has no cycle, then for every
map iteration order `getPipelinesInOrder` returns, once the bound on the iterations of its
outer loop exceeds the number of pipelines, a list in which every pipeline handle occurs
exactly once and every pipeline with a non-zero base occurs after its base. -/
theorem getPipelinesInOrder_acyclic (order : MapOrder) (horder : order.Valid) (s : State)
    (compute : Bool) (hnodup : ((pipelineBases s compute).map Prod.fst).Nodup)
    (hbase : BasesPresent (pipelineBases s compute))
    (hacyc : NoBaseCycle (pipelineBases s compute))
    (fuel : Nat) (hfuel : (pipelineBases s compute).length < fuel) :
    ∃ res, getPipelinesInOrder order fuel s compute = some res ∧ res.Nodup ∧
      (∀ h, h ∈ res ↔ h ∈ (pipelineBases s compute).map Prod.fst) ∧
      ∀ p ∈ pipelineBases s compute, p.2 ≠ 0 → OccursBefore res p.2 p.1 := by
  unfold getPipelinesInOrder pipelinesInOrder
  refine orderLoop_acyclic hnodup hbase hacyc order horder fuel 0 _
    (OrderInv.start _ hnodup) ?_
  simp only
  rw [initialUnhandled_eq _ hnodup]
  exact hfuel

theorem noBaseCycle_of_rank (ps : List (Nat × Nat)) (rank : Nat → Nat)
    (h : ∀ a b, Derives ps a b → rank b < rank a) : NoBaseCycle ps := by
  have key : ∀ a b, Relation.TransGen (Derives ps) a b → rank b < rank a := by
    intro a b hab
    induction hab with
    | single h1 => exact h _ _ h1
    | tail _ h2 ih => exact Nat.lt_trans (h _ _ h2) ih
  intro a ha
  exact Nat.lt_irrefl _ (key a a ha)

theorem getPipelinesInOrder_acyclic_witness :
    ∃ res, getPipelinesInOrder reversedOrder 3 snapshotDerivedPipeline false = some res ∧
      res.Nodup ∧
      (∀ h, h ∈ res ↔ h ∈ (pipelineBases snapshotDerivedPipeline false).map Prod.fst) ∧
      ∀ p ∈ pipelineBases snapshotDerivedPipeline false, p.2 ≠ 0 → OccursBefore res p.2 p.1 :=
  getPipelinesInOrder_acyclic reversedOrder reversedOrder_valid snapshotDerivedPipeline false
    (by decide)
    (by
      intro p hp
      have hps : pipelineBases snapshotDerivedPipeline false = [(1, 0), (2, 1)] := by decide
      rw [hps] at hp ⊢
      simp only [List.mem_cons, List.mem_singleton, List.not_mem_nil, or_false] at hp
      rcases hp with rfl | rfl <;> decide)
    (noBaseCycle_of_rank _ id (by
      intro a b hab
      have hps : pipelineBases snapshotDerivedPipeline false = [(1, 0), (2, 1)] := by decide
      obtain ⟨hm, hb⟩ := hab
      rw [hps] at hm
      simp only [List.mem_cons, List.mem_singleton, List.not_mem_nil, or_false,
        Prod.mk.injEq] at hm
      rcases hm with ⟨rfl, rfl⟩ | ⟨rfl, rfl⟩
      · exact absurd rfl hb
      · decide))
    3 (by decide)

theorem StuckInv.handle_one {ps : List (Nat × Nat)} {st : PipelineOrder} (inv : StuckInv ps st)
    (k v : Nat) (hkv : (k, v) ∈ ps) :
    StuckInv ps (handlePipeline st (k, v)) ∧
    (st.numHandled ≠ 0 → (handlePipeline st (k, v)).numHandled ≠ 0) ∧
    (v = 0 → (handlePipeline st (k, v)).numHandled ≠ 0) := by
  rw [handlePipeline_eq]
  by_cases hc : v = 0 ∨ v ∈ st.handledPipelines
  · rw [if_pos hc]
    have hk : Placeable ps k := by
      rcases hc with h0 | hh
      · rw [h0] at hkv; exact Placeable.root k hkv
      · exact Placeable.derived k v hkv (inv.placed v hh)
    refine ⟨?_, fun _ => Nat.succ_ne_zero _, fun _ => Nat.succ_ne_zero _⟩
    constructor
    · intro h hh
      rcases List.mem_cons.1 hh with rfl | hh
      · exact hk
      · exact inv.placed h hh
    · intro e he
      exact inv.entries e (List.mem_filter.1 he).1
    · obtain ⟨e, he, hne⟩ := inv.stuck
      refine ⟨e, List.mem_filter.2 ⟨he, ?_⟩, hne⟩
      simp only [bne_iff_ne, ne_eq]
      intro hek
      rw [hek] at hne
      exact hne hk
  · rw [if_neg hc]
    refine ⟨inv, fun h => h, ?_⟩
    intro h0
    exact absurd (Or.inl h0) hc

theorem StuckInv.handle_all {ps : List (Nat × Nat)} :
    ∀ (L : List (Nat × Nat)) (st : PipelineOrder), StuckInv ps st → (∀ e ∈ L, e ∈ ps) →
      StuckInv ps (L.foldl handlePipeline st) ∧
      (st.numHandled ≠ 0 → (L.foldl handlePipeline st).numHandled ≠ 0) ∧
      ((∃ e ∈ L, e.2 = 0) → (L.foldl handlePipeline st).numHandled ≠ 0) := by
  intro L
  induction L with
  | nil =>
    intro st inv _
    refine ⟨inv, fun h => h, ?_⟩
    intro h
    obtain ⟨e, he, _⟩ := h
    cases he
  | cons e L ih =>
    intro st inv hL
    obtain ⟨k, v⟩ := e
    obtain ⟨inv1, hmono, hroot⟩ := inv.handle_one k v (hL (k, v) (List.mem_cons_self _ _))
    obtain ⟨inv2, hmono2, hroot2⟩ := ih (handlePipeline st (k, v)) inv1
      (fun e he => hL e (List.mem_cons_of_mem _ he))
    rw [List.foldl_cons]
    refine ⟨inv2, fun h => hmono2 (hmono h), ?_⟩
    intro h
    obtain ⟨e, he, he0⟩ := h
    rcases List.mem_cons.1 he with heq | hin
    · rw [heq] at he0
      exact hmono2 (hroot he0)
    · exact hroot2 ⟨e, hin, he0⟩

theorem orderLoop_stuck (ps : List (Nat × Nat)) (order : MapOrder) (horder : order.Valid) :
    ∀ fuel n st, StuckInv ps st →
      (st.numHandled ≠ 0 ∨ ∃ e ∈ st.unhandledPipelines, e.2 = 0) →
      orderLoop order fuel n st = none := by
  intro fuel
  induction fuel with
  | zero => intro n st _ _; rfl
  | succ fuel ih =>
    intro n st inv hnum
    unfold orderLoop
    have hne : st.unhandledPipelines.length ≠ 0 := by
      obtain ⟨e, he, _⟩ := inv.stuck
      intro h0
      rw [List.length_eq_zero] at h0
      rw [h0] at he
      cases he
    rw [if_pos hne]
    have hperm := horder n st.unhandledPipelines
    obtain ⟨inv1, hmono, hroot⟩ := StuckInv.handle_all (order n st.unhandledPipelines) st inv
      (fun e he => inv.entries e (hperm.mem_iff.1 he))
    have hcount : ((order n st.unhandledPipelines).foldl handlePipeline st).numHandled ≠ 0 := by
      rcases hnum with h | ⟨e, he, he0⟩
      · exact hmono h
      · exact hroot ⟨e, hperm.mem_iff.2 he, he0⟩
    simp only
    rw [if_neg hcount]
    exact ih (n + 1) _ inv1 (Or.inl hcount)

/-- C5: if the pipelines of one kind (distinct handles) hold a pipeline without base and
a pipeline that cannot be placed, because its chain of bases runs into a cycle or into a
handle that is not a pipeline of the kind, then `getPipelinesInOrder` does not return:
for every map iteration order and every bound on the iterations of its outer loop the
bound is reached. -/
theorem getPipelinesInOrder_diverges (order : MapOrder) (horder : order.Valid) (s : State)
    (compute : Bool) (hnodup : ((pipelineBases s compute).map Prod.fst).Nodup)
    (hroot : ∃ p ∈ pipelineBases s compute, p.2 = 0)
    (hstuck : ∃ p ∈ pipelineBases s compute, ¬ Placeable (pipelineBases s compute) p.1)
    (fuel : Nat) : getPipelinesInOrder order fuel s compute = none := by
  unfold getPipelinesInOrder pipelinesInOrder
  refine orderLoop_stuck (pipelineBases s compute) order horder fuel 0 _ ?_ ?_
  · constructor
    · intro h hh; cases hh
    · intro e he
      simp only at he
      rw [initialUnhandled_eq _ hnodup] at he
      exact he
    · simp only
      rw [initialUnhandled_eq _ hnodup]
      exact hstuck
  · right
    simp only
    rw [initialUnhandled_eq _ hnodup]
    exact hroot

theorem placeable_rootAndCycle (k : Nat) (h : Placeable rootAndCycle k) : k = 1 := by
  induction h with
  | root k hk =>
    simp only [rootAndCycle, List.mem_cons, Prod.mk.injEq, List.mem_singleton,
      List.not_mem_nil, or_false] at hk
    omega
  | derived k v hk _ ih =>
    subst ih
    simp only [rootAndCycle, List.mem_cons, Prod.mk.injEq, List.mem_singleton,
      List.not_mem_nil, or_false] at hk
    omega

theorem getPipelinesInOrder_diverges_witness :
    getPipelinesInOrder storedOrder 1000 snapshotRootAndCycle true = none :=
  getPipelinesInOrder_diverges storedOrder storedOrder_valid snapshotRootAndCycle true
    (by decide) ⟨(1, 0), by decide, rfl⟩
    ⟨(2, 3), by decide, fun h => absurd (placeable_rootAndCycle 2 h) (by decide)⟩ 1000

/-! ## Pipeline parentage (C7, C8) -/

theorem Silent.same (sb : stateBuilder) : Silent sb sb := ⟨rfl, rfl⟩

theorem Silent.alloc {env : Env} {sb sb1 : stateBuilder} (h : Silent sb sb1) (v : Value) :
    Silent sb (AllocDataOrPanic env sb1 v).2 := h

theorem Silent.allocRead {env : Env} {sb sb1 : stateBuilder} (h : Silent sb sb1) (v : Value) :
    Silent sb (MustAllocReadData env sb1 v).2 := h

theorem Silent.allocWrite {env : Env} {sb sb1 : stateBuilder} (h : Silent sb sb1)
    (v : Value) : Silent sb (MustAllocWriteData env sb1 v).2 := h

theorem Silent.foldl_pairs {α β : Type} (f : α × stateBuilder → β → α × stateBuilder)
    (hf : ∀ acc x, Silent acc.2 (f acc x).2) (l : List β) (init : α × stateBuilder) :
    Silent init.2 (l.foldl f init).2 := by
  induction l generalizing init with
  | nil => exact ⟨rfl, rfl⟩
  | cons x l ih =>
    rw [List.foldl_cons]
    have h1 := hf init x
    have h2 := ih (f init x)
    exact ⟨h2.1.trans h1.1, h2.2.trans h1.2⟩

theorem Silent.comp {a b c : stateBuilder} (h1 : Silent a b) (h2 : Silent b c) :
    Silent a c := ⟨h2.1.trans h1.1, h2.2.trans h1.2⟩

theorem allocOptionalRows_silent (env : Env) (sb : stateBuilder) (name : String)
    (rows : List (List Nat)) : Silent sb (allocOptionalRows env sb name rows).2 := by
  unfold allocOptionalRows
  split <;> exact ⟨rfl, rfl⟩

theorem allocOptionalRecord_silent (env : Env) (sb : stateBuilder) (name : String)
    (fields : Option (List Nat)) : Silent sb (allocOptionalRecord env sb name fields).2 := by
  unfold allocOptionalRecord
  split <;> exact ⟨rfl, rfl⟩

theorem allocOptionalWords_silent (env : Env) (sb : stateBuilder) (ws : List Nat) :
    Silent sb (allocOptionalWords env sb ws).2 := by
  unfold allocOptionalWords
  split <;> exact ⟨rfl, rfl⟩

theorem allocSpecializationInfo_silent (env : Env) (sb : stateBuilder) (st : StageData) :
    Silent sb (allocSpecializationInfo env sb st).2 := by
  unfold allocSpecializationInfo
  split <;> exact ⟨rfl, rfl⟩

theorem allocTessellationState_silent (env : Env) (sb : stateBuilder) (t : Option Nat) :
    Silent sb (allocTessellationState env sb t).2 := by
  unfold allocTessellationState
  split <;> exact ⟨rfl, rfl⟩

theorem allocViewportState_silent (env : Env) (sb : stateBuilder)
    (v : Option ViewportStateData) : Silent sb (allocViewportState env sb v).2 := by
  unfold allocViewportState
  split
  · exact (allocOptionalRows_silent env sb _ _).comp
      ((allocOptionalRows_silent env _ _ _).comp ⟨rfl, rfl⟩)
  · exact ⟨rfl, rfl⟩

theorem allocMultisampleState_silent (env : Env) (sb : stateBuilder)
    (m : Option MultisampleStateData) : Silent sb (allocMultisampleState env sb m).2 := by
  unfold allocMultisampleState
  split
  · exact (allocOptionalWords_silent env sb _).comp ⟨rfl, rfl⟩
  · exact ⟨rfl, rfl⟩

theorem allocDepthState_silent (env : Env) (sb : stateBuilder) (d : Option (List Nat)) :
    Silent sb (allocDepthState env sb d).2 := by
  unfold allocDepthState
  split <;> exact ⟨rfl, rfl⟩

theorem allocColorBlendState_silent (env : Env) (sb : stateBuilder)
    (c : Option ColorBlendStateData) : Silent sb (allocColorBlendState env sb c).2 := by
  unfold allocColorBlendState
  split
  · exact (allocOptionalRows_silent env sb _ _).comp ⟨rfl, rfl⟩
  · exact ⟨rfl, rfl⟩

theorem allocDynamicState_silent (env : Env) (sb : stateBuilder) (d : Option (List Nat)) :
    Silent sb (allocDynamicState env sb d).2 := by
  unfold allocDynamicState
  split
  · exact (allocOptionalWords_silent env sb _).comp ⟨rfl, rfl⟩
  · exact ⟨rfl, rfl⟩

theorem descriptorSetLayoutBindingStep_silent (env : Env)
    (acc : List (List Nat) × stateBuilder) (kb : Nat × DescriptorSetLayoutBinding) :
    Silent acc.2 (descriptorSetLayoutBindingStep env acc kb).2 := by
  unfold descriptorSetLayoutBindingStep
  simp only
  split <;> exact ⟨rfl, rfl⟩

theorem subpassDescriptionStep_silent (env : Env) (acc : List (List Nat) × stateBuilder)
    (sd : SubpassDescription) : Silent acc.2 (subpassDescriptionStep env acc sd).2 := by
  unfold subpassDescriptionStep
  exact (allocOptionalRecord_silent env acc.2 _ _).comp
    ((allocOptionalRows_silent env _ _ _).comp ⟨rfl, rfl⟩)

theorem shaderStageStep_silent (env : Env) (acc : List (List Nat) × stateBuilder)
    (st : StageData) : Silent acc.2 (shaderStageStep env acc st).2 := by
  unfold shaderStageStep
  exact (allocSpecializationInfo_silent env acc.2 st).comp ⟨rfl, rfl⟩

theorem allocDescriptorSetLayout_silent (env : Env) (sb : stateBuilder)
    (dsl : DescriptorSetLayoutObject) : Silent sb (allocDescriptorSetLayout env sb dsl) := by
  unfold allocDescriptorSetLayout
  exact (Silent.foldl_pairs _ (descriptorSetLayoutBindingStep_silent env) dsl.Bindings ([], sb)).comp
    ⟨rfl, rfl⟩

theorem allocPipelineLayout_silent (env : Env) (sb : stateBuilder)
    (pl : PipelineLayoutObject) : Silent sb (allocPipelineLayout env sb pl) := ⟨rfl, rfl⟩

theorem allocRenderPass_silent (env : Env) (sb : stateBuilder) (rp : RenderPassObject) :
    Silent sb (allocRenderPass env sb rp) := by
  unfold allocRenderPass
  exact (Silent.foldl_pairs _ (subpassDescriptionStep_silent env) rp.SubpassDescriptions
    ([], sb)).comp ⟨rfl, rfl⟩

theorem allocShaderModule_silent (env : Env) (sb : stateBuilder) (sm : ShaderModuleObject) :
    Silent sb (allocShaderModule env sb sm) := ⟨rfl, rfl⟩

theorem allocComputePipeline_silent (env : Env) (sb : stateBuilder)
    (cp : ComputePipelineObject) (b : Nat) : Silent sb (allocComputePipeline env sb cp b) := by
  unfold allocComputePipeline
  exact (allocSpecializationInfo_silent env sb cp.Stage).comp ⟨rfl, rfl⟩

theorem allocGraphicsPipeline_silent (env : Env) (sb : stateBuilder)
    (gp : GraphicsPipelineObject) (b : Nat) :
    Silent sb (allocGraphicsPipeline env sb gp b) := by
  unfold allocGraphicsPipeline
  simp only
  apply Silent.allocWrite
  iterate 7 apply Silent.allocRead
  exact (Silent.foldl_pairs _ (shaderStageStep_silent env) gp.Stages ([], sb)).comp
    ((allocTessellationState_silent env _ _).comp
    ((allocViewportState_silent env _ _).comp
    ((allocMultisampleState_silent env _ _).comp
    ((allocDepthState_silent env _ _).comp
    ((allocColorBlendState_silent env _ _).comp
    (allocDynamicState_silent env _ _))))))

theorem allocFramebuffer_silent (env : Env) (sb : stateBuilder) (fb : FramebufferObject) :
    Silent sb (allocFramebuffer env sb fb) := ⟨rfl, rfl⟩

theorem attachPending_call (sb : stateBuilder) (cmd : Cmd) :
    (attachPending sb cmd).call = cmd.call := by
  unfold attachPending
  have h1 : ∀ (l : List AllocResult) (c : Cmd),
      (l.foldl (fun c r => c.AddRead r.toObservation) c).call = c.call := by
    intro l
    induction l with
    | nil => intro c; rfl
    | cons r l ih => intro c; rw [List.foldl_cons, ih]; rfl
  have h2 : ∀ (l : List AllocResult) (c : Cmd),
      (l.foldl (fun c r => c.AddWrite r.toObservation) c).call = c.call := by
    intro l
    induction l with
    | nil => intro c; rfl
    | cons r l ih => intro c; rw [List.foldl_cons, ih]; rfl
  simp only
  rw [h2, h1]

theorem write_cmds (env : Env) (sb : stateBuilder) (cmd : Cmd) :
    (write env sb cmd).cmds = sb.cmds ++ [attachPending sb cmd] := rfl

theorem write_newState (env : Env) (sb : stateBuilder) (cmd : Cmd) :
    (write env sb cmd).newState = (env.mutate (attachPending sb cmd) sb.newState).1 := rfl

theorem PipelineCreatedIn.mono {cmds : List Cmd} {compute : Bool} {h : Nat}
    (hc : PipelineCreatedIn cmds compute h) (t : List Cmd) :
    PipelineCreatedIn (cmds ++ t) compute h := by
  obtain ⟨c, hc, b, hb⟩ := hc
  exact ⟨c, List.mem_append_left _ hc, b, hb⟩

theorem PipelineInv.write {env : Env} (hframe : PipelineFrame env.mutate) {s : State}
    {T : Bool → Nat → Prop} {sb : stateBuilder} (inv : PipelineInv s T sb) (cmd : Cmd)
    (hcmd : ∀ compute h b, pipelineCreated cmd.call = some (compute, h, b) →
      h ∈ (pipelineBases s compute).map Prod.fst ∧
        (b = 0 ∨ PipelineCreatedIn sb.cmds compute b) ∧
        (b = 0 ∨ (h, b) ∈ pipelineBases s compute)) :
    PipelineInv s T (write env sb cmd) := by
  have hcall := attachPending_call sb cmd
  constructor
  · intro compute h hh
    rw [write_newState] at hh
    rw [write_cmds]
    rcases hframe _ _ compute h hh with h1 | ⟨b, hb⟩
    · exact (inv.mirror compute h h1).mono _
    · exact ⟨_, List.mem_append_right _ (List.mem_singleton.2 rfl), b, hb⟩
  · intro pre c post compute h b hsplit hc hb
    rw [write_cmds] at hsplit
    rcases List.eq_nil_or_concat post with hnil | ⟨post', x, hpost⟩
    · subst hnil
      have := List.append_inj' hsplit rfl
      obtain ⟨hpre, hlast⟩ := this
      simp only [List.cons.injEq, and_true] at hlast
      rw [← hlast, hcall] at hc
      rcases (hcmd compute h b hc).2.1 with h0 | hcr
      · exact absurd h0 hb
      · rw [← hpre]
        obtain ⟨c', hc', b', hb'⟩ := hcr
        exact ⟨c', hc', b', hb'⟩
    · subst hpost
      have hsplit' : sb.cmds ++ [attachPending sb cmd] = (pre ++ c :: post') ++ [x] := by
        rw [hsplit]; simp
      have := List.append_inj' hsplit' rfl
      exact inv.parentage pre c post' compute h b this.1 hc hb
  · intro c hc compute h b hcr
    rw [write_cmds] at hc
    rcases List.mem_append.1 hc with h1 | h1
    · exact inv.snapshot c h1 compute h b hcr
    · rw [List.mem_singleton] at h1
      rw [h1, hcall] at hcr
      exact Or.inl (hcmd compute h b hcr).1
  · intro c hc compute h b hcr hb
    rw [write_cmds] at hc
    rcases List.mem_append.1 hc with h1 | h1
    · exact inv.bases c h1 compute h b hcr hb
    · rw [List.mem_singleton] at h1
      rw [h1, hcall] at hcr
      rcases (hcmd compute h b hcr).2.2 with h0 | hp
      · exact absurd h0 hb
      · exact Or.inr hp

theorem Step.stay {env : Env} (s : State) (sb : stateBuilder) : Step env s sb sb :=
  ⟨fun _ => ⟨[], by simp⟩, fun _ _ _ h => h⟩

theorem Step.andThen {env : Env} {s : State} {a b c : stateBuilder} (h1 : Step env s a b)
    (h2 : Step env s b c) : Step env s a c := by
  refine ⟨fun hp => ?_, fun hf T hp h => h2.2 hf T hp (h1.2 hf T hp h)⟩
  obtain ⟨t1, e1⟩ := h1.1 hp
  obtain ⟨t2, e2⟩ := h2.1 hp
  exact ⟨t1 ++ t2, by rw [e2, e1]; simp⟩

theorem Step.of_silent {env : Env} {s : State} {sb sb' : stateBuilder} (h : Silent sb sb') :
    Step env s sb sb' := by
  refine ⟨fun _ => ⟨[], by rw [h.1]; simp⟩, ?_⟩
  intro _ _ _ inv
  constructor
  · intro compute hh; rw [h.1, h.2]; exact inv.mirror compute hh
  · rw [h.1]; exact inv.parentage
  · rw [h.1]; exact inv.snapshot
  · rw [h.1]; exact inv.bases

theorem Step.write_other (env : Env) (s : State)
    (sb : stateBuilder) (cmd : Cmd) (hcmd : pipelineCreated cmd.call = none) :
    Step env s sb (write env sb cmd) := by
  refine ⟨fun _ => ⟨[attachPending sb cmd], rfl⟩, ?_⟩
  intro hframe _ _ inv
  refine inv.write hframe cmd ?_
  intro compute h b hc
  rw [hcmd] at hc
  cases hc

theorem Step.foldl_builders {env : Env} {s : State} {β : Type}
    (f : stateBuilder → β → stateBuilder)
    (l : List β) (hf : ∀ sb, ∀ x ∈ l, Step env s sb (f sb x)) (sb : stateBuilder) :
    Step env s sb (l.foldl f sb) := by
  induction l generalizing sb with
  | nil => exact Step.stay s sb
  | cons x l ih =>
    rw [List.foldl_cons]
    exact (hf sb x (List.mem_cons_self _ _)).andThen
      (ih (fun sb y hy => hf sb y (List.mem_cons_of_mem _ hy)) (f sb x))

theorem createDescriptorSetLayout_step (env : Env)
    (s : State) (sb : stateBuilder) (dsl : DescriptorSetLayoutObject) :
    Step env s sb (createDescriptorSetLayout env sb dsl) :=
  (Step.of_silent (allocDescriptorSetLayout_silent env sb dsl)).andThen
    (Step.write_other env s _ _ (by rfl))

theorem createPipelineLayout_step (env : Env)
    (s : State) (sb : stateBuilder) (pl : PipelineLayoutObject) :
    Step env s sb (createPipelineLayout env sb pl) :=
  (Step.of_silent (allocPipelineLayout_silent env sb pl)).andThen
    (Step.write_other env s _ _ (by rfl))

theorem createRenderPass_step (env : Env)
    (s : State) (sb : stateBuilder) (rp : RenderPassObject) :
    Step env s sb (createRenderPass env sb rp) :=
  (Step.of_silent (allocRenderPass_silent env sb rp)).andThen
    (Step.write_other env s _ _ (by rfl))

theorem createShaderModule_step (env : Env)
    (s : State) (sb : stateBuilder) (sm : ShaderModuleObject) :
    Step env s sb (createShaderModule env sb sm) :=
  (Step.of_silent (allocShaderModule_silent env sb sm)).andThen
    (Step.write_other env s _ _ (by rfl))

theorem destroyTemporaryRenderPass_step (env : Env)
    (s : State) (sb : stateBuilder) (t : Option MirrorObject) :
    Step env s sb (destroyTemporaryRenderPass env sb t) := by
  unfold destroyTemporaryRenderPass
  split
  · exact Step.write_other env s _ _ (by rfl)
  · exact Step.stay s sb

theorem destroyTemporaryPipelineLayout_step (env : Env)
    (s : State) (sb : stateBuilder) (t : Option MirrorObject) :
    Step env s sb (destroyTemporaryPipelineLayout env sb t) := by
  unfold destroyTemporaryPipelineLayout
  split
  · exact Step.write_other env s _ _ (by rfl)
  · exact Step.stay s sb

theorem temporaryRenderPass_step (env : Env)
    (s : State) (sb : stateBuilder) (rp : RenderPassObject) :
    Step env s sb (temporaryRenderPass env sb rp).2 := by
  unfold temporaryRenderPass
  split
  · exact createRenderPass_step env s sb rp
  · exact Step.stay s sb

theorem temporaryPipelineLayout_step (env : Env)
    (s : State) (sb : stateBuilder) (pl : PipelineLayoutObject) :
    Step env s sb (temporaryPipelineLayout env sb pl).2 := by
  unfold temporaryPipelineLayout
  split
  · exact createPipelineLayout_step env s sb pl
  · exact Step.stay s sb

theorem temporaryShaderModules_step (env : Env)
    (s : State) (l : List StageData) (init : List ShaderModuleObject × stateBuilder) :
    Step env s init.2 (l.foldl (temporaryShaderModuleStep env) init).2 := by
  induction l generalizing init with
  | nil => exact Step.stay s _
  | cons x l ih =>
    rw [List.foldl_cons]
    refine Step.andThen ?_ (ih _)
    unfold temporaryShaderModuleStep
    split
    · exact createShaderModule_step env s _ _
    · exact Step.stay s _

theorem createImageView_step (env : Env)
    (s : State) (sb : stateBuilder) (iv : ImageViewObject) :
    Step env s sb (createImageView env sb iv) := by
  unfold createImageView
  split
  · exact Step.stay s sb
  · simp only
    refine Step.andThen (Step.of_silent ?_) (Step.write_other env s _ _ (by rfl))
    exact ⟨rfl, rfl⟩

theorem createFramebuffer_step (env : Env)
    (s : State) (sb : stateBuilder) (fb : FramebufferObject) :
    Step env s sb (createFramebuffer env sb fb) := by
  unfold createFramebuffer
  exact (temporaryRenderPass_step env s sb fb.RenderPass).andThen
    ((Step.of_silent (allocFramebuffer_silent env _ fb)).andThen
      ((Step.write_other env s _ _ (by rfl)).andThen
        (destroyTemporaryRenderPass_step env s _ _)))

theorem Step.write_pipeline (env : Env) {s : State}
    {sb0 sb : stateBuilder} (h0 : Step env s sb0 sb) (cmd : Cmd) (compute : Bool) (h b : Nat)
    (hc : pipelineCreated cmd.call = some (compute, h, b))
    (hh : h ∈ (pipelineBases s compute).map Prod.fst)
    (hp : b = 0 ∨ (h, b) ∈ pipelineBases s compute)
    (hb : ∀ T, PipelineInv s T sb0 → b = 0 ∨ PipelineCreatedIn sb0.cmds compute b) :
    Step env s sb0 (write env sb cmd) := by
  refine ⟨fun hp => ?_, ?_⟩
  · obtain ⟨t, ht⟩ := h0.1 hp
    exact ⟨t ++ [attachPending sb cmd], by rw [write_cmds, ht]; simp⟩
  intro hframe T hprimer inv
  obtain ⟨t, ht⟩ := h0.1 ⟨fun mode sb img r q sq => (hprimer.1 mode sb img r q sq).imp
    (fun _ h => h.1), fun sb => (hprimer.2 sb).imp (fun _ h => h.1)⟩
  refine (h0.2 hframe T hprimer inv).write hframe cmd ?_
  intro compute' h' b' hc'
  rw [hc] at hc'
  simp only [Option.some.injEq, Prod.mk.injEq] at hc'
  obtain ⟨e1, e2, e3⟩ := hc'
  subst e1 e2 e3
  refine ⟨hh, ?_, hp⟩
  rcases hb T inv with h0 | hcr
  · exact Or.inl h0
  · right
    rw [ht]
    exact hcr.mono t

theorem resolveBasePipeline_cases (pipelines : List MirrorObject) (base : Nat) :
    resolveBasePipeline pipelines base = 0 ∨
      Contains pipelines (resolveBasePipeline pipelines base) = true := by
  unfold resolveBasePipeline
  by_cases h0 : base ≠ 0
  · rw [if_pos h0]
    by_cases h1 : Contains pipelines base = true
    · rw [if_pos h1]; exact Or.inr h1
    · rw [if_neg h1]; exact Or.inl rfl
  · rw [if_neg h0]; exact Or.inl rfl

theorem resolveBasePipeline_eq (pipelines : List MirrorObject) (base : Nat) :
    resolveBasePipeline pipelines base = 0 ∨ resolveBasePipeline pipelines base = base := by
  unfold resolveBasePipeline
  split
  · split
    · exact Or.inr rfl
    · exact Or.inl rfl
  · exact Or.inl rfl

theorem createComputePipeline_step (env : Env)
    (s : State) (sb : stateBuilder) (cp : ComputePipelineObject)
    (hmem : cp ∈ s.ComputePipelines) :
    Step env s sb (createComputePipeline env sb cp) := by
  have hcp : cp.VulkanHandle ∈ (pipelineBases s true).map Prod.fst := by
    unfold pipelineBases
    simp only [if_true, List.map_map]
    exact List.mem_map.2 ⟨cp, hmem, rfl⟩
  have hpair : resolveBasePipeline sb.newState.ComputePipelines cp.BasePipeline = 0 ∨
      (cp.VulkanHandle, resolveBasePipeline sb.newState.ComputePipelines cp.BasePipeline) ∈
        pipelineBases s true := by
    rcases resolveBasePipeline_eq sb.newState.ComputePipelines cp.BasePipeline with h | h
    · exact Or.inl h
    · right
      rw [h]
      unfold pipelineBases
      simp only [if_true]
      exact List.mem_map.2 ⟨cp, hmem, rfl⟩
  unfold createComputePipeline
  simp only
  have hbase : ∀ T, PipelineInv s T sb →
      resolveBasePipeline sb.newState.ComputePipelines cp.BasePipeline = 0 ∨
      PipelineCreatedIn sb.cmds true
        (resolveBasePipeline sb.newState.ComputePipelines cp.BasePipeline) := by
    intro T inv
    rcases resolveBasePipeline_cases sb.newState.ComputePipelines cp.BasePipeline with h | h
    · exact Or.inl h
    · exact Or.inr (inv.mirror true _ h)
  by_cases ht : (!Contains sb.newState.ShaderModules cp.Stage.Module.VulkanHandle) = true
  · simp only [ht, if_true]
    refine Step.andThen (Step.write_pipeline env
      ((createShaderModule_step env s sb cp.Stage.Module).andThen
        (Step.of_silent (allocComputePipeline_silent env _ cp _))) _ true cp.VulkanHandle _
      (by rfl) hcp hpair hbase) (Step.write_other env s _ _ (by rfl))
  · simp only [ht]
    exact Step.write_pipeline env
      (Step.of_silent (allocComputePipeline_silent env _ cp _)) _ true cp.VulkanHandle _
      (by rfl) hcp hpair hbase

theorem destroyShaderModules_step (env : Env)
    (s : State) (l : List ShaderModuleObject) (sb : stateBuilder) :
    Step env s sb (l.foldl
      (fun acc m => write env acc (cb (.VkDestroyShaderModule m.Device m.VulkanHandle))) sb) :=
  Step.foldl_builders _ l (fun sb _ _ => Step.write_other env s sb _ (by rfl)) sb

theorem createGraphicsPipeline_step (env : Env)
    (s : State) (sb : stateBuilder) (gp : GraphicsPipelineObject)
    (hmem : gp ∈ s.GraphicsPipelines) :
    Step env s sb (createGraphicsPipeline env sb gp) := by
  have hgp : gp.VulkanHandle ∈ (pipelineBases s false).map Prod.fst := by
    unfold pipelineBases
    simp only [Bool.false_eq_true, if_false, List.map_map]
    exact List.mem_map.2 ⟨gp, hmem, rfl⟩
  have hpair : resolveBasePipeline sb.newState.GraphicsPipelines gp.BasePipeline = 0 ∨
      (gp.VulkanHandle, resolveBasePipeline sb.newState.GraphicsPipelines gp.BasePipeline) ∈
        pipelineBases s false := by
    rcases resolveBasePipeline_eq sb.newState.GraphicsPipelines gp.BasePipeline with h | h
    · exact Or.inl h
    · right
      rw [h]
      unfold pipelineBases
      simp only [Bool.false_eq_true, if_false]
      exact List.mem_map.2 ⟨gp, hmem, rfl⟩
  unfold createGraphicsPipeline
  simp only
  have hbase : ∀ T, PipelineInv s T sb →
      resolveBasePipeline sb.newState.GraphicsPipelines gp.BasePipeline = 0 ∨
      PipelineCreatedIn sb.cmds false
        (resolveBasePipeline sb.newState.GraphicsPipelines gp.BasePipeline) := by
    intro T inv
    rcases resolveBasePipeline_cases sb.newState.GraphicsPipelines gp.BasePipeline with h | h
    · exact Or.inl h
    · exact Or.inr (inv.mirror false _ h)
  refine Step.andThen (Step.andThen (Step.andThen (Step.write_pipeline env
      ((temporaryShaderModules_step env s gp.Stages ([], sb)).andThen
        ((temporaryPipelineLayout_step env s _ gp.Layout).andThen
          ((temporaryRenderPass_step env s _ gp.RenderPass).andThen
            (Step.of_silent (allocGraphicsPipeline_silent env _ gp _)))))
      _ false gp.VulkanHandle _ (by rfl) hgp hpair hbase)
    (destroyShaderModules_step env s _ _))
    (destroyTemporaryRenderPass_step env s _ _))
    (destroyTemporaryPipelineLayout_step env s _ _)

theorem rebuildComputePipelines_step (env : Env)
    (s : State) (order : List Nat) (sb : stateBuilder) :
    Step env s sb (rebuildComputePipelines env s order sb) := by
  unfold rebuildComputePipelines
  refine Step.foldl_builders _ _ ?_ sb
  intro sb cp _
  split
  · rename_i o ho
    exact createComputePipeline_step env s sb o (List.mem_of_find?_eq_some ho)
  · exact Step.stay s sb

theorem rebuildGraphicsPipelines_step (env : Env)
    (s : State) (order : List Nat) (sb : stateBuilder) :
    Step env s sb (rebuildGraphicsPipelines env s order sb) := by
  unfold rebuildGraphicsPipelines
  refine Step.foldl_builders _ _ ?_ sb
  intro sb gp _
  split
  · rename_i o ho
    exact createGraphicsPipeline_step env s sb o (List.mem_of_find?_eq_some ho)
  · exact Step.stay s sb

theorem Step.thenWrite (env : Env) {s : State}
    {sb0 sb1 : stateBuilder} (cmd : Cmd) (hcmd : pipelineCreated cmd.call = none)
    (h : Step env s sb0 sb1) : Step env s sb0 (write env sb1 cmd) :=
  h.andThen (Step.write_other env s sb1 cmd hcmd)

theorem Step.thenAllocRead {env : Env} {s : State} {sb0 sb1 : stateBuilder} (v : Value)
    (h : Step env s sb0 sb1) : Step env s sb0 (MustAllocReadData env sb1 v).2 :=
  h.andThen (Step.of_silent ⟨rfl, rfl⟩)

theorem Step.thenAllocWrite {env : Env} {s : State} {sb0 sb1 : stateBuilder} (v : Value)
    (h : Step env s sb0 sb1) : Step env s sb0 (MustAllocWriteData env sb1 v).2 :=
  h.andThen (Step.of_silent ⟨rfl, rfl⟩)

theorem Step.thenAllocData {env : Env} {s : State} {sb0 sb1 : stateBuilder} (v : Value)
    (h : Step env s sb0 sb1) : Step env s sb0 (AllocDataOrPanic env sb1 v).2 :=
  h.andThen (Step.of_silent ⟨rfl, rfl⟩)

theorem Step.thenFreeAlloc {env : Env} {s : State} {sb0 sb1 : stateBuilder} (a : AllocResult)
    (h : Step env s sb0 sb1) : Step env s sb0 (freeAlloc env sb1 a) :=
  h.andThen (Step.of_silent ⟨rfl, rfl⟩)

theorem Step.thenFoldlPairs {env : Env} {s : State} {α β : Type}
    (f : α × stateBuilder → β → α × stateBuilder)
    (hf : ∀ acc x, Silent acc.2 (f acc x).2) (l : List β) (init : α × stateBuilder)
    {sb0 : stateBuilder} (h : Step env s sb0 init.2) : Step env s sb0 (l.foldl f init).2 :=
  h.andThen (Step.of_silent (Silent.foldl_pairs f hf l init))

theorem Step.foldl_after {env : Env} {s : State} {β : Type}
    (f : stateBuilder → β → stateBuilder) (l : List β)
    (hf : ∀ sb x, Step env s sb (f sb x)) {sb0 sb1 : stateBuilder} (h : Step env s sb0 sb1) :
    Step env s sb0 (l.foldl f sb1) :=
  h.andThen (Step.foldl_builders f l (fun sb x _ => hf sb x) sb1)

theorem Step.of_foldlOption {env : Env} {s : State} {β : Type}
    (f : stateBuilder → β → Option stateBuilder)
    (hf : ∀ sb x sb', f sb x = some sb' → Step env s sb sb') :
    ∀ (l : List β) (sb sb' : stateBuilder), foldlOption f sb l = some sb' →
      Step env s sb sb' := by
  intro l
  induction l with
  | nil =>
    intro sb sb' h
    simp only [Vulkan.foldlOption, Option.some.injEq] at h
    subst h
    exact Step.stay s sb
  | cons x l ih =>
    intro sb sb' h
    unfold Vulkan.foldlOption at h
    split at h
    · cases h
    · rename_i a ha
      exact (hf sb x a ha).andThen (ih a sb' h)

theorem PipelineInv.extend {s : State} {T : Bool → Nat → Prop} {sb sb' : stateBuilder}
    (h : ExtendsWithPipelines T sb sb') (inv : PipelineInv s T sb) : PipelineInv s T sb' := by
  obtain ⟨t, ht, hcreate, hmirror⟩ := h
  have hnew : ∀ a' c post compute hh b, t = a' ++ c :: post →
      pipelineCreated c.call = some (compute, hh, b) → b ≠ 0 →
      ∃ c' ∈ sb.cmds ++ a', ∃ b', pipelineCreated c'.call = some (compute, b, b') := by
    intro a' c post compute hh b hsplit hc hb
    rcases (hcreate a' c post compute hh b hsplit hc).2 with h0 | hcr
    · exact absurd h0 hb
    · exact hcr
  constructor
  · intro compute hh hc
    rw [ht]
    rcases hmirror compute hh hc with h1 | ⟨c, hc', b, hb⟩
    · exact (inv.mirror compute hh h1).mono t
    · exact ⟨c, List.mem_append_right _ hc', b, hb⟩
  · intro pre c post compute hh b hsplit hc hb
    rw [ht] at hsplit
    rcases List.append_eq_append_iff.1 hsplit with ⟨a', h1, h2⟩ | ⟨c', h1, h2⟩
    · rw [h1]
      exact hnew a' c post compute hh b h2 hc hb
    · cases c' with
      | nil =>
        simp only [List.nil_append] at h2
        simp only [List.append_nil] at h1
        have := hnew [] c post compute hh b (by rw [← h2]; rfl) hc hb
        rw [List.append_nil, h1] at this
        exact this
      | cons x c' =>
        simp only [List.cons_append, List.cons.injEq] at h2
        obtain ⟨hx, _⟩ := h2
        subst hx
        exact inv.parentage pre c c' compute hh b h1 hc hb
  · intro c hc compute hh b hcr
    rw [ht] at hc
    rcases List.mem_append.1 hc with h1 | h1
    · exact inv.snapshot c h1 compute hh b hcr
    · obtain ⟨a', post, hsplit⟩ := List.append_of_mem h1
      exact Or.inr (hcreate a' c post compute hh b hsplit hcr).1
  · intro c hc compute hh b hcr hb
    rw [ht] at hc
    rcases List.mem_append.1 hc with h1 | h1
    · exact inv.bases c h1 compute hh b hcr hb
    · obtain ⟨a', post, hsplit⟩ := List.append_of_mem h1
      exact Or.inl (hcreate a' c post compute hh b hsplit hcr).1

theorem Step.of_extends {env : Env} {s : State} {sb sb' : stateBuilder}
    (h1 : PrimerAppends env → Extends sb sb')
    (h2 : ∀ T, PrimerFrame env T → ExtendsWithPipelines T sb sb') : Step env s sb sb' :=
  ⟨h1, fun _ T hp inv => PipelineInv.extend (h2 T hp) inv⟩

theorem Step.prime (env : Env) {s : State} {sb0 sb1 : stateBuilder} (mode : PrimingMode)
    (img : ImageObject) (r : List (List Nat)) (q sq : Option QueueObject)
    (h : Step env s sb0 sb1) : Step env s sb0 (env.prime mode sb1 img r q sq) :=
  h.andThen (Step.of_extends (fun hp => hp.1 mode sb1 img r q sq)
    (fun _ hp => hp.1 mode sb1 img r q sq))

theorem Step.primerFree (env : Env) {s : State} {sb0 sb1 : stateBuilder}
    (h : Step env s sb0 sb1) : Step env s sb0 (env.primerFree sb1) :=
  h.andThen (Step.of_extends (fun hp => hp.2 sb1) (fun _ hp => hp.2 sb1))

theorem allocNames_step {env : Env} {s : State} {sb0 sb1 : stateBuilder} (names : List String)
    (h : Step env s sb0 sb1) : Step env s sb0 (allocNames env sb1 names).2 := by
  unfold allocNames
  apply Step.thenFoldlPairs
  · intro _ _; exact ⟨rfl, rfl⟩
  · exact h

theorem createInstance_step (env : Env) {s : State} {sb0 sb1 : stateBuilder}
    (inst : InstanceObject) (h : Step env s sb0 sb1) :
    Step env s sb0 (createInstance env sb1 inst) := by
  unfold createInstance allocInstance
  dsimp only
  repeat' first
    | exact h
    | rfl
    | apply Step.thenWrite env
    | apply Step.thenAllocRead
    | apply Step.thenAllocWrite
    | apply allocNames_step

theorem physicalDeviceStep_step (env : Env) {s : State} {sb0 sb1 : stateBuilder}
    (m : List PhysicalDeviceObject) (device : Nat) (h : Step env s sb0 sb1) :
    Step env s sb0 (physicalDeviceStep env m sb1 device) := by
  unfold physicalDeviceStep
  split
  · exact h
  · try dsimp only
    repeat' first
      | exact h
      | rfl
      | apply Step.thenWrite env
      | apply Step.thenAllocRead
      | apply Step.thenAllocWrite

theorem physicalDeviceGroupStep_step (env : Env) {s : State} {sb0 sb1 : stateBuilder}
    (m : List PhysicalDeviceObject) (group : Nat × List Nat) (h : Step env s sb0 sb1) :
    Step env s sb0 (physicalDeviceGroupStep env m sb1 group) := by
  unfold physicalDeviceGroupStep
  dsimp only
  apply Step.foldl_after _ _
    (fun sb x => physicalDeviceStep_step env m x (Step.stay s sb))
  repeat' first
    | exact h
    | rfl
    | apply Step.thenWrite env
    | apply Step.thenAllocRead
    | apply Step.thenAllocWrite

theorem createPhysicalDevices_step (env : Env) {s : State} {sb0 sb1 : stateBuilder}
    (m : List PhysicalDeviceObject) (h : Step env s sb0 sb1) :
    Step env s sb0 (createPhysicalDevices env sb1 m) := by
  unfold createPhysicalDevices
  exact Step.foldl_after _ _
    (fun sb x => physicalDeviceGroupStep_step env m x (Step.stay s sb)) h

theorem createSurface_step (env : Env) {s : State} {sb0 sb1 : stateBuilder}
    (su : SurfaceObject) (h : Step env s sb0 sb1) :
    Step env s sb0 (createSurface env sb1 su) := by
  unfold createSurface
  split
  · exact h
  · rename_i info call hcall
    dsimp only
    have hc : pipelineCreated call = none := by
      unfold surfaceCall at hcall
      split at hcall <;> first | (cases hcall; rfl) | cases hcall
    repeat' first
      | exact h
      | exact hc
      | rfl
      | apply Step.thenWrite env
      | apply Step.thenAllocRead
      | apply Step.thenAllocWrite

theorem createDevice_step (env : Env) {s : State} {sb0 sb1 : stateBuilder}
    (d : DeviceObject) (h : Step env s sb0 sb1) :
    Step env s sb0 (createDevice env sb1 d) := by
  unfold createDevice allocDevice
  dsimp only
  repeat' first
    | exact h
    | rfl
    | apply Step.thenWrite env
    | apply Step.thenAllocRead
    | apply Step.thenAllocWrite
    | apply allocNames_step
    | apply Step.thenFoldlPairs
    | (intro _ _; exact ⟨rfl, rfl⟩)

theorem createQueue_step (env : Env) {s : State} {sb0 sb1 : stateBuilder}
    (q : QueueObject) (h : Step env s sb0 sb1) :
    Step env s sb0 (createQueue env sb1 q) := by
  unfold createQueue
  dsimp only
  repeat' first
    | exact h
    | rfl
    | apply Step.thenWrite env
    | apply Step.thenAllocRead
    | apply Step.thenAllocWrite

theorem getCommandBuffer_step (env : Env) (st : State) {s : State} {sb0 sb1 : stateBuilder}
    (queue : QueueObject) (h : Step env s sb0 sb1) :
    Step env s sb0 (getCommandBuffer env st sb1 queue).2 := by
  unfold getCommandBuffer
  dsimp only
  repeat' first
    | exact h
    | rfl
    | apply Step.thenWrite env
    | apply Step.thenAllocRead
    | apply Step.thenAllocWrite

theorem endSubmitAndDestroyCommandBuffer_step (env : Env) {s : State}
    {sb0 sb1 : stateBuilder} (queue : QueueObject) (commandBuffer commandPool : Nat)
    (h : Step env s sb0 sb1) :
    Step env s sb0 (endSubmitAndDestroyCommandBuffer env sb1 queue commandBuffer commandPool) := by
  unfold endSubmitAndDestroyCommandBuffer
  dsimp only
  repeat' first
    | exact h
    | rfl
    | apply Step.thenWrite env
    | apply Step.thenAllocRead
    | apply Step.thenAllocWrite

theorem transitionImage_step (env : Env) (st : State) {s : State}
    {sb0 sb1 sb' : stateBuilder} (image : ImageObject) (oldLayout newLayout : Nat)
    (oldQueue newQueue : Option QueueObject) (h : Step env s sb0 sb1)
    (hr : transitionImage env st sb1 image oldLayout newLayout oldQueue newQueue = some sb') :
    Step env s sb0 sb' := by
  unfold transitionImage at hr
  split at hr
  · cases hr; exact h
  · dsimp only at hr
    split at hr
    · cases hr
    · cases hr
      repeat' first
        | exact h
        | rfl
        | apply Step.thenWrite env
        | apply Step.thenAllocRead
        | apply Step.thenAllocWrite

theorem createSwapchain_step (env : Env) (st : State) {s : State}
    {sb0 sb1 sb' : stateBuilder} (swp : SwapchainObject) (h : Step env s sb0 sb1)
    (hr : createSwapchain env st sb1 swp = some sb') : Step env s sb0 sb' := by
  unfold createSwapchain at hr
  dsimp only at hr
  refine Step.andThen ?_ (Step.of_foldlOption _ ?_ _ _ _ hr)
  · try dsimp only
    repeat' first
      | exact h
      | rfl
      | apply Step.thenWrite env
      | apply Step.thenAllocRead
      | apply Step.thenAllocWrite
  · intro sb x sb2 hx
    exact transitionImage_step env st x _ _ _ _ (Step.stay s sb) hx

theorem createDeviceMemory_step (env : Env) {s : State} {sb0 sb1 : stateBuilder}
    (mem : DeviceMemoryObject) (allowDedicatedNV : Bool) (h : Step env s sb0 sb1) :
    Step env s sb0 (createDeviceMemory env sb1 mem allowDedicatedNV) := by
  unfold createDeviceMemory
  split
  · exact h
  · try dsimp only
    split <;> split <;> (repeat' first | exact h | rfl | apply Step.thenWrite env | apply Step.thenAllocRead | apply Step.thenAllocWrite)

theorem allocAndFillScratchBuffer_step (env : Env) (st : State) {s : State}
    {sb0 sb1 : stateBuilder} (device : DeviceObject) (data usages : List Nat)
    (r : (Nat × Nat) × stateBuilder) (h : Step env s sb0 sb1)
    (hr : allocAndFillScratchBuffer env st sb1 device data usages = some r) :
    Step env s sb0 r.2 := by
  unfold allocAndFillScratchBuffer at hr
  dsimp only at hr
  split at hr
  · cases hr
  · cases hr
    dsimp only
    repeat' first
      | exact h
      | rfl
      | apply Step.thenWrite env
      | apply Step.thenAllocRead
      | apply Step.thenAllocWrite
      | apply Step.thenFreeAlloc
      | apply Step.thenAllocData

theorem freeScratchBuffer_step (env : Env) {s : State} {sb0 sb1 : stateBuilder}
    (device : DeviceObject) (buffer mem : Nat) (h : Step env s sb0 sb1) :
    Step env s sb0 (freeScratchBuffer env sb1 device buffer mem) := by
  unfold freeScratchBuffer
  dsimp only
  repeat' first
    | exact h
    | rfl
    | apply Step.thenWrite env
    | apply Step.thenAllocRead
    | apply Step.thenAllocWrite

theorem createBoundMemories_step (env : Env) (st : State) {s : State} :
    ∀ (l memories : List Nat) (sb0 sb1 sb' : stateBuilder), Step env s sb0 sb1 →
      createBoundMemories env st l memories sb1 = some sb' → Step env s sb0 sb' := by
  intro l
  induction l with
  | nil =>
    intro memories sb0 sb1 sb' h hr
    simp only [createBoundMemories, Option.some.injEq] at hr
    subst hr
    exact h
  | cons m rest ih =>
    intro memories sb0 sb1 sb' h hr
    unfold createBoundMemories at hr
    split at hr
    · exact ih _ _ _ _ h hr
    · split at hr
      · cases hr
      · exact ih _ _ _ _ (createDeviceMemory_step env _ true h) hr

theorem writeBufferBarrier_step (env : Env) {s : State} {sb0 sb1 : stateBuilder}
    (commandBuffer : Nat) (b : VkBufferMemoryBarrier) (h : Step env s sb0 sb1) :
    Step env s sb0 (writeBufferBarrier env sb1 commandBuffer b) := by
  unfold writeBufferBarrier
  dsimp only
  repeat' first
    | exact h
    | rfl
    | apply Step.thenWrite env
    | apply Step.thenAllocRead
    | apply Step.thenAllocWrite

theorem bufferSparsePath_step (env : Env) (st : State) {s : State}
    {sb0 sb1 : stateBuilder} (buffer : BufferObject) (queue : Option QueueObject)
    (sparseResidency : Bool) (r : BufferPath) (h : Step env s sb0 sb1)
    (hr : bufferSparsePath env st sb1 buffer queue sparseResidency = some r) :
    Step env s sb0 r.sb := by
  unfold bufferSparsePath at hr
  split at hr
  · cases hr; exact h
  · split at hr
    · cases hr
    · cases hr
    · dsimp only at hr
      split at hr
      · cases hr
      · rename_i sb2 hsb2
        have h2 : Step env s sb0 sb2 := by
          split at hsb2
          · exact createBoundMemories_step env st _ _ _ _ _ h hsb2
          · cases hsb2; exact h
        split at hr
        · split at hr
          · cases hr
          · cases hr
            unfold BufferPath.sb allocBufferBindSparse
            dsimp only
            repeat' first
              | exact h2
              | rfl
              | apply Step.thenWrite env
              | apply Step.thenAllocRead
              | apply Step.thenAllocWrite
        · cases hr
          unfold BufferPath.sb allocBufferBindSparse
          dsimp only
          repeat' first
            | exact h2
            | rfl
            | apply Step.thenWrite env
            | apply Step.thenAllocRead
            | apply Step.thenAllocWrite

theorem bufferDensePath_step (env : Env) {s : State} {sb0 sb1 : stateBuilder}
    (buffer : BufferObject) (h : Step env s sb0 sb1) :
    Step env s sb0 (bufferDensePath env sb1 buffer).sb := by
  unfold bufferDensePath
  split
  · exact h
  · unfold BufferPath.sb
    dsimp only
    repeat' first
      | exact h
      | rfl
      | apply Step.thenWrite env
      | apply Step.thenAllocRead
      | apply Step.thenAllocWrite

theorem fillBuffer_step (env : Env) (st : State) {s : State} {sb0 sb1 sb' : stateBuilder}
    (buffer : BufferObject) (queue : Option QueueObject) (contents : List Nat)
    (copies : List VkBufferCopy) (oldFamilyIndex : Option Nat) (h : Step env s sb0 sb1)
    (hr : fillBuffer env st sb1 buffer queue contents copies oldFamilyIndex = some sb') :
    Step env s sb0 sb' := by
  unfold fillBuffer at hr
  split at hr
  · cases hr
  · split at hr
    · cases hr
    · rename_i scratch hscratch
      have h2 := allocAndFillScratchBuffer_step env st _ _ _ _ h hscratch
      dsimp only at hr
      split at hr
      · cases hr
      · cases hr
        repeat' first
          | exact h2
          | rfl
          | apply Step.thenWrite env
          | apply Step.thenAllocRead
          | apply Step.thenAllocWrite
          | apply freeScratchBuffer_step env
          | apply endSubmitAndDestroyCommandBuffer_step env
          | apply writeBufferBarrier_step env
          | apply getCommandBuffer_step env

theorem allocBuffer_step (env : Env) {s : State} {sb0 sb1 : stateBuilder}
    (buffer : BufferObject) (h : Step env s sb0 sb1) :
    Step env s sb0 (allocBuffer env sb1 buffer) := by
  unfold allocBuffer
  dsimp only
  split
  · try dsimp only
    repeat' first
      | exact h
      | rfl
      | apply Step.thenWrite env
      | apply Step.thenAllocRead
      | apply Step.thenAllocWrite
  · try dsimp only
    repeat' first
      | exact h
      | rfl
      | apply Step.thenWrite env
      | apply Step.thenAllocRead
      | apply Step.thenAllocWrite

theorem createBufferAndMemory_step (env : Env) {s : State} {sb0 sb1 : stateBuilder}
    (buffer : BufferObject) (h : Step env s sb0 sb1) :
    Step env s sb0 (createBufferAndMemory env sb1 buffer) := by
  unfold createBufferAndMemory
  dsimp only
  have h1 := allocBuffer_step env buffer h
  split
  · split
    · apply createDeviceMemory_step env
      repeat' first
        | exact h1
        | rfl
        | apply Step.thenWrite env
        | apply Step.thenAllocRead
        | apply Step.thenAllocWrite
    · try dsimp only
      repeat' first
        | exact h1
        | rfl
        | apply Step.thenWrite env
        | apply Step.thenAllocRead
        | apply Step.thenAllocWrite
  · try dsimp only
    repeat' first
      | exact h1
      | rfl
      | apply Step.thenWrite env
      | apply Step.thenAllocRead
      | apply Step.thenAllocWrite

theorem bindAndFillBuffer_step (env : Env) (st : State) {s : State}
    {sb0 sb1 sb' : stateBuilder} (buffer : BufferObject) (h : Step env s sb0 sb1)
    (hr : bindAndFillBuffer env st sb1 buffer = some sb') : Step env s sb0 sb' := by
  unfold bindAndFillBuffer at hr
  dsimp only at hr
  split at hr
  · cases hr
  · rename_i sb2 hpath
    cases hr
    split at hpath
    · exact bufferSparsePath_step env st buffer _ _ _ h hpath
    · have h3 := bufferDensePath_step env buffer h
      simp only [Option.some.injEq] at hpath
      rw [hpath] at h3
      exact h3
  · rename_i sb2 contents copies old hpath
    have h2 : Step env s sb0 sb2 := by
      split at hpath
      · exact bufferSparsePath_step env st buffer _ _ _ h hpath
      · have h3 := bufferDensePath_step env buffer h
        simp only [Option.some.injEq] at hpath
        rw [hpath] at h3
        exact h3
    exact fillBuffer_step env st buffer _ _ _ _ h2 hr

theorem createBuffer_step (env : Env) (st : State) {s : State} {sb0 sb1 sb' : stateBuilder}
    (buffer : BufferObject) (h : Step env s sb0 sb1)
    (hr : createBuffer env st sb1 buffer = some sb') : Step env s sb0 sb' := by
  unfold createBuffer at hr
  dsimp only at hr
  have h1 := createBufferAndMemory_step env buffer h
  split at hr
  · cases hr; exact h1
  · exact bindAndFillBuffer_step env st buffer h1 hr

theorem vkCreateImage_step (env : Env) {s : State} {sb0 sb1 : stateBuilder}
    (device : Nat) (info : ImageInfo) (handle : Nat) (h : Step env s sb0 sb1) :
    Step env s sb0 (vkCreateImage env sb1 device info handle) := by
  unfold vkCreateImage
  dsimp only
  split
  · try dsimp only
    repeat' first
      | exact h
      | rfl
      | apply Step.thenWrite env
      | apply Step.thenAllocRead
      | apply Step.thenAllocWrite
  · try dsimp only
    repeat' first
      | exact h
      | rfl
      | apply Step.thenWrite env
      | apply Step.thenAllocRead
      | apply Step.thenAllocWrite

theorem vkGetImageMemoryRequirements_step (env : Env) {s : State} {sb0 sb1 : stateBuilder}
    (device handle : Nat) (memReq : VkMemoryRequirements) (h : Step env s sb0 sb1) :
    Step env s sb0 (vkGetImageMemoryRequirements env sb1 device handle memReq) := by
  unfold vkGetImageMemoryRequirements
  dsimp only
  repeat' first
    | exact h
    | rfl
    | apply Step.thenWrite env
    | apply Step.thenAllocRead
    | apply Step.thenAllocWrite

theorem vkBindImageMemory_step (env : Env) {s : State} {sb0 sb1 : stateBuilder}
    (device image memory offset : Nat) (h : Step env s sb0 sb1) :
    Step env s sb0 (vkBindImageMemory env sb1 device image memory offset) := by
  unfold vkBindImageMemory
  repeat' first
    | exact h
    | rfl
    | apply Step.thenWrite env
    | apply Step.thenAllocRead
    | apply Step.thenAllocWrite

theorem imageSparsePath_step (env : Env) (st : State) {s : State}
    {sb0 sb1 : stateBuilder} (img : ImageObject) (queue : Option QueueObject)
    (sparseResidency : Bool) (r : ImagePath) (h : Step env s sb0 sb1)
    (hr : imageSparsePath env st sb1 img queue sparseResidency = some r) :
    Step env s sb0 r.sb := by
  unfold imageSparsePath at hr
  split at hr
  · cases hr; exact h
  · split at hr
    · cases hr
    · dsimp only at hr
      split at hr
      · cases hr
      · rename_i sb2 hsb2
        have h2 : Step env s sb0 sb2 := createBoundMemories_step env st _ _ _ _ _ h hsb2
        split at hr
        · cases hr
        · cases hr
          unfold ImagePath.sb allocImageBindSparse
          dsimp only
          repeat' first
            | exact h2
            | rfl
            | apply Step.thenWrite env
            | apply Step.thenAllocRead
            | apply Step.thenAllocWrite

theorem imageDensePath_step (env : Env) {s : State} {sb0 sb1 : stateBuilder}
    (img : ImageObject) (h : Step env s sb0 sb1) :
    Step env s sb0 (imageDensePath env sb1 img).sb := by
  unfold imageDensePath
  split
  · exact h
  · exact vkBindImageMemory_step env _ _ _ _ h

theorem primeImage_step (env : Env) (st : State) {s : State} {sb0 sb1 sb' : stateBuilder}
    (img : ImageObject) (queue sparseQueue : Option QueueObject)
    (opaqueRanges : List (List Nat)) (h : Step env s sb0 sb1)
    (hr : primeImage env st sb1 img queue sparseQueue opaqueRanges = some sb') :
    Step env s sb0 sb' := by
  unfold primeImage at hr
  split at hr
  · cases hr; exact h
  · split at hr
    · exact transitionImage_step env st _ _ _ _ _ h hr
    · split at hr
      · cases hr
        exact Step.prime env _ _ _ _ _ h
      · cases hr; exact h

theorem createImageAndMemory_step (env : Env) {s : State} {sb0 sb1 : stateBuilder}
    (img : ImageObject) (h : Step env s sb0 sb1) :
    Step env s sb0 (createImageAndMemory env sb1 img) := by
  unfold createImageAndMemory
  dsimp only
  have h1 := vkGetImageMemoryRequirements_step env img.Device img.VulkanHandle
    img.MemoryRequirements (vkCreateImage_step env img.Device img.Info img.VulkanHandle h)
  split
  · split
    · exact createDeviceMemory_step env _ _ h1
    · exact h1
  · exact h1

theorem imagePath_step (env : Env) (st : State) {s : State}
    {sb0 sb1 : stateBuilder} (img : ImageObject) (r : ImagePath) (h : Step env s sb0 sb1)
    (hr : imagePath env st sb1 img = some r) : Step env s sb0 r.sb := by
  unfold imagePath at hr
  dsimp only at hr
  split at hr
  · exact imageSparsePath_step env st img _ _ _ h hr
  · have h3 := imageDensePath_step env img h
    simp only [Option.some.injEq] at hr
    rw [hr] at h3
    exact h3

theorem bindAndPrimeImage_step (env : Env) (st : State) {s : State}
    {sb0 sb1 sb' : stateBuilder} (img : ImageObject) (h : Step env s sb0 sb1)
    (hr : bindAndPrimeImage env st sb1 img = some sb') : Step env s sb0 sb' := by
  unfold bindAndPrimeImage at hr
  dsimp only at hr
  split at hr
  · cases hr
  · rename_i sb2 hpath
    cases hr
    exact imagePath_step env st img _ h hpath
  · rename_i sb2 sparseQueue opaqueRanges hpath
    exact primeImage_step env st img _ _ _ (imagePath_step env st img _ h hpath) hr

theorem createImage_step (env : Env) (st : State) {s : State} {sb0 sb1 sb' : stateBuilder}
    (img : ImageObject) (h : Step env s sb0 sb1)
    (hr : createImage env st sb1 img = some sb') : Step env s sb0 sb' := by
  unfold createImage at hr
  split at hr
  · cases hr; exact h
  · dsimp only at hr
    have h1 := createImageAndMemory_step env img h
    split at hr
    · cases hr; exact h1
    · exact bindAndPrimeImage_step env st img h1 hr

theorem createSimple_step (env : Env) {s : State} {sb0 sb1 : stateBuilder} (info : Value)
    (handle : Nat) (call : VkCall) (hcall : pipelineCreated call = none)
    (h : Step env s sb0 sb1) : Step env s sb0 (createSimple env sb1 info handle call) := by
  unfold createSimple
  dsimp only
  apply Step.thenWrite env _ hcall
  repeat' first
    | exact h
    | rfl
    | apply Step.thenWrite env
    | apply Step.thenAllocRead
    | apply Step.thenAllocWrite

theorem createSampler_step (env : Env) {s : State} {sb0 sb1 : stateBuilder}
    (smp : SamplerObject) (h : Step env s sb0 sb1) :
    Step env s sb0 (createSampler env sb1 smp) :=
  createSimple_step env _ _ _ rfl h

theorem createFence_step (env : Env) {s : State} {sb0 sb1 : stateBuilder}
    (fnc : FenceObject) (h : Step env s sb0 sb1) :
    Step env s sb0 (createFence env sb1 fnc) :=
  createSimple_step env _ _ _ rfl h

theorem createSemaphore_step (env : Env) (st : State) {s : State} {sb0 sb1 : stateBuilder}
    (sem : SemaphoreObject) (h : Step env s sb0 sb1) :
    Step env s sb0 (createSemaphore env st sb1 sem) := by
  unfold createSemaphore
  dsimp only
  have h1 : Step env s sb0 (createSimple env sb1 (.record "VkSemaphoreCreateInfo" [9, 0, 0])
      sem.VulkanHandle (.VkCreateSemaphore sem.Device sem.VulkanHandle)) :=
    createSimple_step env _ _ _ rfl h
  split
  · exact h1
  · try dsimp only
    repeat' first
      | exact h1
      | rfl
      | apply Step.thenWrite env
      | apply Step.thenAllocRead
      | apply Step.thenAllocWrite

theorem createEvent_step (env : Env) {s : State} {sb0 sb1 : stateBuilder}
    (evt : EventObject) (h : Step env s sb0 sb1) :
    Step env s sb0 (createEvent env sb1 evt) := by
  unfold createEvent
  dsimp only
  have h1 : Step env s sb0 (createSimple env sb1 (.record "VkEventCreateInfo" [10, 0, 0])
      evt.VulkanHandle (.VkCreateEvent evt.Device evt.VulkanHandle)) :=
    createSimple_step env _ _ _ rfl h
  split
  · try dsimp only
    repeat' first
      | exact h1
      | rfl
      | apply Step.thenWrite env
      | apply Step.thenAllocRead
      | apply Step.thenAllocWrite
  · exact h1

theorem createCommandPool_step (env : Env) {s : State} {sb0 sb1 : stateBuilder}
    (cp : CommandPoolObject) (h : Step env s sb0 sb1) :
    Step env s sb0 (createCommandPool env sb1 cp) :=
  createSimple_step env _ _ _ rfl h

theorem createPipelineCache_step (env : Env) {s : State} {sb0 sb1 : stateBuilder}
    (pc : PipelineCacheObject) (h : Step env s sb0 sb1) :
    Step env s sb0 (createPipelineCache env sb1 pc) :=
  createSimple_step env _ _ _ rfl h

theorem createBufferView_step (env : Env) {s : State} {sb0 sb1 : stateBuilder}
    (bv : BufferViewObject) (h : Step env s sb0 sb1) :
    Step env s sb0 (createBufferView env sb1 bv) := by
  unfold createBufferView
  split
  · exact h
  · exact createSimple_step env _ _ _ rfl h

theorem createDescriptorPool_step (env : Env) {s : State} {sb0 sb1 : stateBuilder}
    (dp : DescriptorPoolObject) (h : Step env s sb0 sb1) :
    Step env s sb0 (createDescriptorPool env sb1 dp) := by
  unfold createDescriptorPool
  dsimp only
  repeat' first
    | exact h
    | rfl
    | apply Step.thenWrite env
    | apply Step.thenAllocRead
    | apply Step.thenAllocWrite

theorem appendDescriptorWrite_silent (env : Env) (acc : DescriptorWrites)
    (w : VkWriteDescriptorSet) (payload : Value) (field : Nat) :
    Silent acc.sb (appendDescriptorWrite env acc w payload field).sb :=
  ⟨rfl, rfl⟩

theorem foldl_descriptorWrites_silent {β : Type} (f : DescriptorWrites → β → DescriptorWrites)
    (hf : ∀ acc x, Silent acc.sb (f acc x).sb) (l : List β) :
    ∀ acc, Silent acc.sb (l.foldl f acc).sb := by
  induction l with
  | nil => intro acc; exact Silent.same _
  | cons x l ih =>
    intro acc
    exact (hf acc x).comp (ih (f acc x))

theorem descriptorBindingStep_silent (env : Env) (ns : Mirror) (ds : DescriptorSetObject)
    (acc : DescriptorWrites) (kb : Nat × DescriptorBinding) :
    Silent acc.sb (descriptorBindingStep env ns ds acc kb).sb := by
  unfold descriptorBindingStep
  dsimp only
  split
  · apply foldl_descriptorWrites_silent
    intro acc e
    split
    · exact appendDescriptorWrite_silent env _ _ _ _
    · exact Silent.same _
  · split
    · apply foldl_descriptorWrites_silent
      intro acc e
      split
      · exact Silent.same _
      · split
        · exact Silent.same _
        · exact appendDescriptorWrite_silent env _ _ _ _
    · split
      · apply foldl_descriptorWrites_silent
        intro acc e
        split
        · exact Silent.same _
        · split
          · exact Silent.same _
          · exact appendDescriptorWrite_silent env _ _ _ _
      · exact Silent.same _

theorem createDescriptorSet_step (env : Env) {s : State} {sb0 sb1 : stateBuilder}
    (ds : DescriptorSetObject) (h : Step env s sb0 sb1) :
    Step env s sb0 (createDescriptorSet env sb1 ds) := by
  unfold createDescriptorSet
  split
  · exact h
  · try dsimp only
    apply Step.thenWrite env _ (by rfl)
    apply Step.thenAllocRead
    refine Step.andThen ?_ (Step.of_silent (foldl_descriptorWrites_silent _
      (descriptorBindingStep_silent env _ ds) ds.Bindings _))
    dsimp only
    repeat' first
      | exact h
      | rfl
      | apply Step.thenWrite env
      | apply Step.thenAllocRead
      | apply Step.thenAllocWrite

theorem queryStep_step (env : Env) {s : State} {sb0 sb1 : stateBuilder}
    (qp : QueryPoolObject) (commandBuffer : Nat) (i : Nat) (h : Step env s sb0 sb1) :
    Step env s sb0 (queryStep env qp commandBuffer sb1 i) := by
  unfold queryStep
  dsimp only
  split
  · split
    · try dsimp only
      repeat' first
        | exact h
        | rfl
        | apply Step.thenWrite env
        | apply Step.thenAllocRead
        | apply Step.thenAllocWrite
    · try dsimp only
      repeat' first
        | exact h
        | rfl
        | apply Step.thenWrite env
        | apply Step.thenAllocRead
        | apply Step.thenAllocWrite
  · split
    · try dsimp only
      repeat' first
        | exact h
        | rfl
        | apply Step.thenWrite env
        | apply Step.thenAllocRead
        | apply Step.thenAllocWrite
    · try dsimp only
      repeat' first
        | exact h
        | rfl
        | apply Step.thenWrite env
        | apply Step.thenAllocRead
        | apply Step.thenAllocWrite

theorem createQueryPool_step (env : Env) (st : State) {s : State}
    {sb0 sb1 sb' : stateBuilder} (qp : QueryPoolObject) (h : Step env s sb0 sb1)
    (hr : createQueryPool env st sb1 qp = some sb') : Step env s sb0 sb' := by
  unfold createQueryPool at hr
  dsimp only at hr
  have h1 : Step env s sb0 (createSimple env sb1
      (.record "VkQueryPoolCreateInfo" [11, 0, 0, qp.QueryType, qp.QueryCount,
        qp.PipelineStatistics])
      qp.VulkanHandle
      (.VkCreateQueryPool qp.Device qp.QueryType qp.QueryCount qp.PipelineStatistics
        qp.VulkanHandle)) :=
    createSimple_step env _ _ _ rfl h
  split at hr
  · cases hr; exact h1
  · split at hr
    · cases hr
    · cases hr
      apply endSubmitAndDestroyCommandBuffer_step env
      apply Step.foldl_after
      · intro sb x
        exact queryStep_step env qp _ x (Step.stay s sb)
      · exact getCommandBuffer_step env st _ h1

theorem recordCommands_step (env : Env) {s : State} {sb0 : stateBuilder}
    (commandBuffer : Nat) (l : List CommandReference) :
    ∀ sb1, Step env s sb0 sb1 → Step env s sb0 (recordCommands env commandBuffer sb1 l).1 := by
  induction l with
  | nil => intro sb1 h; exact h
  | cons r rest ih =>
    intro sb1 h
    unfold recordCommands
    split
    · exact h
    · apply ih
      repeat' first
        | exact h
        | rfl
        | apply Step.thenWrite env
        | apply Step.thenAllocRead
        | apply Step.thenAllocWrite

theorem beginCommandBuffer_step (env : Env) {s : State} {sb0 sb1 : stateBuilder}
    (c : CommandBufferObject) (h : Step env s sb0 sb1) :
    Step env s sb0 (beginCommandBuffer env sb1 c) := by
  unfold beginCommandBuffer
  dsimp only
  apply Step.thenWrite env _ (by rfl)
  apply Step.thenAllocRead
  split
  · try dsimp only
    repeat' first
      | exact h
      | rfl
      | apply Step.thenWrite env
      | apply Step.thenAllocRead
      | apply Step.thenAllocWrite
  · exact h

theorem createCommandBuffer_step (env : Env) {s : State} {sb0 sb1 : stateBuilder}
    (c : CommandBufferObject) (level : Nat) (h : Step env s sb0 sb1) :
    Step env s sb0 (createCommandBuffer env sb1 c level) := by
  unfold createCommandBuffer
  split
  · exact h
  · dsimp only
    have h1 : Step env s sb0 (write env
        (MustAllocWriteData env
          (MustAllocReadData env sb1
            (.record "VkCommandBufferAllocateInfo" [40, 0, c.Pool, c.Level, 1])).2
          (.handle c.VulkanHandle)).2
        (cb (.VkAllocateCommandBuffers c.Device c.Pool c.Level 1 c.VulkanHandle))) := by
      repeat' first
        | exact h
        | rfl
        | apply Step.thenWrite env
        | apply Step.thenAllocRead
        | apply Step.thenAllocWrite
    split
    · exact h1
    · have h2 := recordCommands_step env c.VulkanHandle c.CommandReferences _
        (beginCommandBuffer_step env c h1)
      split
      · exact h2
      · split
        · exact Step.thenWrite env _ (by rfl) h2
        · exact h2

theorem rebuildKind_step (env : Env) (s : State) (cps gps : List Nat) (k : ObjectKind)
    (sb sb' : stateBuilder) (hr : rebuildKind env s cps gps k sb = some sb') :
    Step env s sb sb' := by
  cases k
  case Swapchain =>
    exact Step.of_foldlOption _
      (fun sb x sb' h => createSwapchain_step env s x (Step.stay s sb) h) _ _ _ hr
  case Buffer =>
    exact Step.of_foldlOption _
      (fun sb x sb' h => createBuffer_step env s x (Step.stay s sb) h) _ _ _ hr
  case QueryPool =>
    exact Step.of_foldlOption _
      (fun sb x sb' h => createQueryPool_step env s x (Step.stay s sb) h) _ _ _ hr
  case Image =>
    simp only [rebuildKind, Option.map_eq_some'] at hr
    obtain ⟨sb1, h1, h2⟩ := hr
    subst h2
    exact Step.primerFree env (Step.of_foldlOption _
      (fun sb x sb' h => createImage_step env s x (Step.stay s sb) h) _ _ _ h1)
  case ComputePipeline =>
    simp only [rebuildKind, Option.some.injEq] at hr
    subst hr
    exact rebuildComputePipelines_step env s cps sb
  case GraphicsPipeline =>
    simp only [rebuildKind, Option.some.injEq] at hr
    subst hr
    exact rebuildGraphicsPipelines_step env s gps sb
  case PhysicalDevice =>
    simp only [rebuildKind, Option.some.injEq] at hr
    subst hr
    exact createPhysicalDevices_step env _ (Step.stay s sb)
  all_goals
    simp only [rebuildKind, Option.some.injEq] at hr
    subst hr
    apply Step.foldl_after _ _ _ (Step.stay s sb)
    intro sb x
    first
      | exact createInstance_step env x (Step.stay s sb)
      | exact createSurface_step env x (Step.stay s sb)
      | exact createDevice_step env x (Step.stay s sb)
      | exact createQueue_step env x (Step.stay s sb)
      | exact createDeviceMemory_step env x false (Step.stay s sb)
      | exact createSampler_step env x (Step.stay s sb)
      | exact createFence_step env x (Step.stay s sb)
      | exact createSemaphore_step env s x (Step.stay s sb)
      | exact createEvent_step env x (Step.stay s sb)
      | exact createCommandPool_step env x (Step.stay s sb)
      | exact createPipelineCache_step env x (Step.stay s sb)
      | exact createDescriptorSetLayout_step env s sb x
      | exact createPipelineLayout_step env s sb x
      | exact createRenderPass_step env s sb x
      | exact createShaderModule_step env s sb x
      | exact createImageView_step env s sb x
      | exact createBufferView_step env x (Step.stay s sb)
      | exact createDescriptorPool_step env x (Step.stay s sb)
      | exact createFramebuffer_step env s sb x
      | exact createDescriptorSet_step env x (Step.stay s sb)
      | exact createCommandBuffer_step env x _ (Step.stay s sb)

theorem rebuildKinds_step (env : Env) (s : State) (cps gps : List Nat)
    (kinds : List ObjectKind) (sb sb' : stateBuilder)
    (hr : rebuildKinds env s cps gps kinds sb = some sb') : Step env s sb sb' :=
  Step.of_foldlOption _ (fun sb k sb' h => rebuildKind_step env s cps gps k sb sb' h) _ _ _ hr

theorem PipelineInv.empty (s : State) (T : Bool → Nat → Prop) (freeList : FreeList) :
    PipelineInv s T (initialBuilder freeList) := by
  constructor
  · intro compute h hh
    cases compute <;> simp [initialBuilder, Mirror.Pipelines, Contains] at hh
  · intro pre c post compute h b hsplit
    simp [initialBuilder] at hsplit
  · intro c hc
    simp [initialBuilder] at hc
  · intro c hc
    simp [initialBuilder] at hc

theorem contains_mirrorSet (m : List MirrorObject) (o : MirrorObject) (h : Nat)
    (hc : Contains (mirrorSet m o) h = true) : Contains m h = true ∨ h = o.VulkanHandle := by
  unfold Contains mirrorSet at hc
  rw [List.any_eq_true] at hc
  obtain ⟨x, hx, hxh⟩ := hc
  simp only [beq_iff_eq] at hxh
  rcases List.mem_append.1 hx with h1 | h1
  · left
    unfold Contains
    rw [List.any_eq_true]
    exact ⟨x, (List.mem_filter.1 h1).1, by simpa using hxh⟩
  · right
    rw [List.mem_singleton] at h1
    rw [← hxh, h1]

theorem refMutate_frame : PipelineFrame refMutate := by
  intro c m compute h hh
  unfold refMutate at hh
  cases hc : c.call <;> rw [hc] at hh <;> simp only at hh
  case VkCreateComputePipelines d cache n info p =>
    cases compute
    · exact Or.inl hh
    · simp only [Mirror.Pipelines, if_true] at hh ⊢
      rcases contains_mirrorSet _ _ _ hh with h1 | h1
      · exact Or.inl h1
      · exact Or.inr ⟨info.basePipelineHandle, by simp [pipelineCreated, h1]⟩
  case VkCreateGraphicsPipelines d cache n info p =>
    cases compute
    · simp only [Mirror.Pipelines, Bool.false_eq_true, if_false] at hh ⊢
      rcases contains_mirrorSet _ _ _ hh with h1 | h1
      · exact Or.inl h1
      · exact Or.inr ⟨info.basePipelineHandle, by simp [pipelineCreated, h1]⟩
    · exact Or.inl hh
  all_goals exact Or.inl hh

theorem RebuildState_phases {env : Env} {orderC orderG : MapOrder} {fuel : Nat}
    {freeList : FreeList} {s : State} {cmds : List Cmd} {ivs : List U64Range}
    (hres : RebuildState env orderC orderG fuel freeList s = some (cmds, ivs)) :
    ∃ cps gps sb1 sb2 sb3 sb4,
      rebuildKinds env s [] [] kindsBeforePipelines (initialBuilder freeList) = some sb1 ∧
      getPipelinesInOrder orderC fuel s true = some cps ∧
      rebuildKind env s cps [] .ComputePipeline sb1 = some sb2 ∧
      getPipelinesInOrder orderG fuel s false = some gps ∧
      rebuildKind env s cps gps .GraphicsPipeline sb2 = some sb3 ∧
      rebuildKinds env s cps gps kindsAfterPipelines sb3 = some sb4 ∧
      cmds = sb4.cmds ∧ ivs = sb4.memoryIntervals := by
  unfold RebuildState at hres
  cases h1 : rebuildKinds env s [] [] kindsBeforePipelines (initialBuilder freeList) with
  | none => rw [h1] at hres; cases hres
  | some sb1 =>
    rw [h1] at hres
    cases h2 : getPipelinesInOrder orderC fuel s true with
    | none => simp only [h2, Option.bind_eq_bind, Option.some_bind, Option.none_bind] at hres; cases hres
    | some cps =>
      simp only [h2, Option.bind_eq_bind, Option.some_bind] at hres
      cases h3 : rebuildKind env s cps [] .ComputePipeline sb1 with
      | none => simp only [h3, Option.none_bind] at hres; cases hres
      | some sb2 =>
        simp only [h3, Option.some_bind] at hres
        cases h4 : getPipelinesInOrder orderG fuel s false with
        | none => simp only [h4, Option.none_bind] at hres; cases hres
        | some gps =>
          simp only [h4, Option.some_bind] at hres
          cases h5 : rebuildKind env s cps gps .GraphicsPipeline sb2 with
          | none => simp only [h5, Option.none_bind] at hres; cases hres
          | some sb3 =>
            simp only [h5, Option.some_bind] at hres
            cases h6 : rebuildKinds env s cps gps kindsAfterPipelines sb3 with
            | none => simp only [h6, Option.none_bind] at hres; cases hres
            | some sb4 =>
              simp only [h6, Option.some_bind, Option.some.injEq, Prod.mk.injEq] at hres
              exact ⟨cps, gps, sb1, sb2, sb3, sb4, rfl, rfl, h3, rfl, h5, h6, hres.1.symm,
                hres.2.symm⟩

theorem RebuildState_step {env : Env} {orderC orderG : MapOrder} {fuel : Nat}
    {freeList : FreeList} {s : State} {cmds : List Cmd} {ivs : List U64Range}
    (hres : RebuildState env orderC orderG fuel freeList s = some (cmds, ivs)) :
    ∃ sb, Step env s (initialBuilder freeList) sb ∧ cmds = sb.cmds := by
  obtain ⟨cps, gps, sb1, sb2, sb3, sb4, h1, _, h3, _, h5, h6, h7, _⟩ := RebuildState_phases hres
  exact ⟨sb4, (rebuildKinds_step env s _ _ _ _ _ h1).andThen
    ((rebuildKind_step env s _ _ _ _ _ h3).andThen
      ((rebuildKind_step env s _ _ _ _ _ h5).andThen (rebuildKinds_step env s _ _ _ _ _ h6))),
    h7⟩

theorem pipelinePrimerEnv_primerFrame :
    PrimerFrame pipelinePrimerEnv (fun compute h => compute = false ∧ h = 900) := by
  constructor
  · intro _ sb _ _ _ _
    refine ⟨_, write_cmds refEnv sb _, ?_, ?_⟩
    · intro pre c post compute h b hsplit hc
      have hcall := attachPending_call sb (cb (.VkCreateGraphicsPipelines 3 0 1
        { flags := 0, stageCount := 0, pStages := [], layout := 0, renderPass := 0,
          subpass := 0, basePipelineHandle := 0, basePipelineIndex := 0 } 900))
      cases pre with
      | nil =>
        simp only [List.nil_append, List.cons.injEq] at hsplit
        rw [← hsplit.1, hcall] at hc
        simp only [cb, pipelineCreated, Option.some.injEq, Prod.mk.injEq] at hc
        obtain ⟨e1, e2, e3⟩ := hc
        exact ⟨⟨e1.symm, e2.symm⟩, Or.inl e3.symm⟩
      | cons x pre =>
        simp only [List.cons_append, List.cons.injEq] at hsplit
        exact absurd hsplit.2 (by simp)
    · intro compute h hh
      rcases refMutate_frame _ _ compute h hh with h1 | ⟨b, hb⟩
      · exact Or.inl h1
      · exact Or.inr ⟨_, List.mem_singleton.2 rfl, b, hb⟩
  · intro sb
    exact ⟨[], (List.append_nil _).symm, (fun pre c post _ _ _ h => by simp at h),
      fun _ _ h => Or.inl h⟩

set_option maxRecDepth 20000 in
theorem RebuildState_primer_pipeline_example :
    (RebuildState pipelinePrimerEnv storedOrder storedOrder 3 refFreeList
        snapshotPrimedImageAndPipelines).map
        (fun r => (r.1.map (fun c => c.call)).filterMap pipelineCreated) =
      some [(false, 900, 0), (false, 1, 0), (false, 2, 1)] := by
  decide

/-- C8: if `Mutate` adds a pipeline to the mirror only for the create command of that
pipeline, and the image primer, which emits through the same writer, only appends
commands, gives each pipeline it creates (a pipeline of `T`) a zero base or a base created
earlier in the stream, and adds a pipeline to the mirror only by a create command, then in
every stream returned by `RebuildState` each pipeline-create command with a non-zero
`basePipelineHandle`, whether a builder or the image primer emitted it, is preceded by the
create command of that base pipeline, of the same kind, and the base is a pipeline of that
kind of the snapshot or one of the pipelines of the image primer. If moreover no pipeline
of the image primer has the handle of the base of a snapshot pipeline (the primer takes
unused handles), then the base of every such command that creates a pipeline other than
those of the image primer is a pipeline of that kind of the snapshot. -/
theorem RebuildState_pipeline_parentage (env : Env) (hframe : PipelineFrame env.mutate)
    (T : Bool → Nat → Prop) (hprimer : PrimerFrame env T)
    (orderC orderG : MapOrder) (fuel : Nat) (freeList : FreeList) (s : State)
    (cmds : List Cmd) (ivs : List U64Range)
    (hres : RebuildState env orderC orderG fuel freeList s = some (cmds, ivs)) :
    PipelineParentage cmds ∧
    (∀ c ∈ cmds, ∀ compute h b, pipelineCreated c.call = some (compute, h, b) → b ≠ 0 →
      b ∈ (pipelineBases s compute).map Prod.fst ∨ T compute b) ∧
    ((∀ compute, ∀ p ∈ pipelineBases s compute, ¬ T compute p.2) →
      ∀ c ∈ cmds, ∀ compute h b, pipelineCreated c.call = some (compute, h, b) → b ≠ 0 →
        ¬ T compute h → b ∈ (pipelineBases s compute).map Prod.fst) := by
  obtain ⟨sb, hstep, hcmds⟩ := RebuildState_step hres
  have inv := hstep.2 hframe T hprimer (PipelineInv.empty s T freeList)
  have hp := inv.parentage
  have hs := inv.snapshot
  have hb := inv.bases
  rw [← hcmds] at hp hs hb
  have h2 : ∀ c ∈ cmds, ∀ compute h b, pipelineCreated c.call = some (compute, h, b) →
      b ≠ 0 → b ∈ (pipelineBases s compute).map Prod.fst ∨ T compute b := by
    intro c hc compute h b hcr hb
    obtain ⟨pre, post, hsplit⟩ := List.append_of_mem hc
    obtain ⟨c', hc', b', hb'⟩ := hp pre c post compute h b hsplit hcr hb
    exact hs c' (by rw [hsplit]; exact List.mem_append_left _ hc') compute b b' hb'
  refine ⟨hp, h2, ?_⟩
  intro hfresh c hc compute h b hcr hb0 hT
  rcases hb c hc compute h b hcr hb0 with h1 | h1
  · exact absurd h1 hT
  · rcases h2 c hc compute h b hcr hb0 with h3 | h3
    · exact h3
    · exact absurd h3 (hfresh compute (h, b) h1)

theorem RebuildState_pipeline_parentage_witness :
    PipelineFrame pipelinePrimerEnv.mutate ∧
    PrimerFrame pipelinePrimerEnv (fun compute h => compute = false ∧ h = 900) ∧
    ∃ cmds ivs,
      RebuildState pipelinePrimerEnv storedOrder storedOrder 3 refFreeList
          snapshotPrimedImageAndPipelines = some (cmds, ivs) ∧
      (cmds.map (fun c => c.call)).filterMap pipelineCreated =
        [(false, 900, 0), (false, 1, 0), (false, 2, 1)] ∧
      PipelineParentage cmds ∧
      (∀ c ∈ cmds, ∀ compute h b, pipelineCreated c.call = some (compute, h, b) → b ≠ 0 →
        b ∈ (pipelineBases snapshotPrimedImageAndPipelines compute).map Prod.fst ∨
          (compute = false ∧ b = 900)) ∧
      ∀ c ∈ cmds, ∀ compute h b, pipelineCreated c.call = some (compute, h, b) → b ≠ 0 →
        ¬ (compute = false ∧ h = 900) →
        b ∈ (pipelineBases snapshotPrimedImageAndPipelines compute).map Prod.fst := by
  refine ⟨refMutate_frame, pipelinePrimerEnv_primerFrame, ?_⟩
  have hex := RebuildState_primer_pipeline_example
  cases hres : RebuildState pipelinePrimerEnv storedOrder storedOrder 3 refFreeList
      snapshotPrimedImageAndPipelines with
  | none =>
    rw [hres] at hex
    cases hex
  | some r =>
    rw [hres] at hex
    simp only [Option.map_some', Option.some.injEq] at hex
    have h := RebuildState_pipeline_parentage pipelinePrimerEnv refMutate_frame _
      pipelinePrimerEnv_primerFrame storedOrder storedOrder 3 refFreeList
      snapshotPrimedImageAndPipelines r.1 r.2 hres
    exact ⟨r.1, r.2, rfl, hex, h.1, h.2.1, h.2.2 (by decide)⟩

/-- C7: on the snapshot with two graphics pipelines `1` (base `2`) and `2` (base `1`),
both pipelines are emitted, the first with `basePipelineHandle` zero and the second with
the handle of the first as `basePipelineHandle`, in either order of emission. -/
theorem pipeline_cycle_second_keeps_base :
    (RebuildState refEnv storedOrder storedOrder 1 refFreeList snapshotPipelineCycle).map
        (fun r => (r.1.map (fun c => c.call)).filterMap pipelineCreated) =
      some [(false, 1, 0), (false, 2, 1)] ∧
    (RebuildState refEnv storedOrder reversedOrder 1 refFreeList snapshotPipelineCycle).map
        (fun r => (r.1.map (fun c => c.call)).filterMap pipelineCreated) =
      some [(false, 2, 0), (false, 1, 2)] := by
  constructor <;> decide

/-! ## Dependency precedence and observations (C1, C9) -/

theorem not_dependencyPrecedence (cmds : List Cmd) (h : HandleKind × Nat)
    (h1 : ∃ c ∈ cmds, h ∈ c.call.references)
    (h2 : ∀ c ∈ cmds, c.call.creates ≠ some h) : ¬ DependencyPrecedence cmds := by
  intro hdp
  obtain ⟨c, hc, hr⟩ := h1
  obtain ⟨pre, post, hsplit⟩ := List.append_of_mem hc
  obtain ⟨c', hc', hcr⟩ := hdp pre c post hsplit h hr
  exact h2 c' (by rw [hsplit]; exact List.mem_append_left _ hc') hcr

/-- C1: on the snapshot whose framebuffer attaches an image view of a destroyed image,
`RebuildState` emits the create command of the render pass and the create command of the
framebuffer, which takes the image view `7` as attachment, while no command of the stream
creates that image view: the stream does not have dependency precedence. -/
theorem framebuffer_references_skipped_image_view :
    ∃ cmds ivs,
      RebuildState refEnv storedOrder storedOrder 1 refFreeList snapshotDestroyedImage =
        some (cmds, ivs) ∧
      cmds.map (fun c => c.call) =
        [VkCall.VkCreateRenderPass 1 ⟨[], [], []⟩ 3,
         VkCall.VkCreateFramebuffer 1 ⟨3, 1, [7], 4, 4, 1⟩ 9] ∧
      (∀ c ∈ cmds, c.call.creates ≠ some (HandleKind.ImageView, 7)) ∧
      ¬ DependencyPrecedence cmds :=
  ⟨_, _, rfl, by decide, by decide,
    not_dependencyPrecedence _ (HandleKind.ImageView, 7) (by decide) (by decide)⟩

/-- C9: on the snapshot with one descriptor-set layout whose binding has an immutable
sampler, the address `4096` lies in the range of a read observation of the emitted
command (the array of immutable samplers) and in no range of the memory-interval list
that `RebuildState` returns. -/
theorem immutable_samplers_not_in_intervals :
    ∃ cmds ivs,
      RebuildState refEnv storedOrder storedOrder 1 refFreeList snapshotImmutableSampler =
        some (cmds, ivs) ∧
      (cmds.map (fun c => c.Reads.map (fun o => (o.Base, o.Size, o.Data)))) =
        [[(4096, 8, Value.handles [6]),
          (4104, 40, Value.records "VkDescriptorSetLayoutBinding" [[0, 1, 1, 16, 4096]]),
          (4144, 40, Value.record "VkDescriptorSetLayoutCreateInfo" [32, 0, 0, 1, 4104])]] ∧
      ivs = [{ First := 4104, Count := 88 }] ∧
      inObservations cmds 4096 = true ∧ inIntervals ivs 4096 = false :=
  ⟨_, _, rfl, by decide, by decide, by decide, by decide⟩

/-! ## Memory types and queues (C13, C15, C16) -/

theorem and_one_shiftLeft_eq_zero (tb i : Nat) (h : tb < U32) :
    tb &&& ((1 <<< i) % U32) = 0 ↔ tb.testBit i = false := by
  rw [Nat.one_shiftLeft]
  unfold U32 at *
  by_cases hi : i < 32
  · rw [Nat.mod_eq_of_lt (Nat.pow_lt_pow_right (by decide) hi)]
    constructor
    · intro h0
      have := congrArg (fun x => x.testBit i) h0
      simpa [Nat.testBit_and, Nat.testBit_two_pow_self] using this
    · intro hb
      apply Nat.eq_of_testBit_eq
      intro j
      rw [Nat.testBit_and, Nat.testBit_two_pow, Nat.zero_testBit]
      by_cases hj : i = j
      · subst hj; simp [hb]
      · simp [hj]
  · have hdvd : 2 ^ 32 ∣ 2 ^ i := Nat.pow_dvd_pow 2 (by omega)
    rw [Nat.mod_eq_zero_of_dvd hdvd, Nat.and_zero]
    simp only [true_iff]
    exact Nat.testBit_lt_two_pow (lt_of_lt_of_le h (Nat.pow_le_pow_right (by decide) (by omega)))

theorem flags_subset_iff (flags pf : Nat) :
    flags = pf &&& flags ↔ ∀ b, flags.testBit b = true → pf.testBit b = true := by
  constructor
  · intro h b hb
    rw [h, Nat.testBit_and] at hb
    simp only [Bool.and_eq_true] at hb
    exact hb.1
  · intro h
    apply Nat.eq_of_testBit_eq
    intro b
    rw [Nat.testBit_and]
    cases hb : flags.testBit b
    · simp
    · simp [h b hb]

theorem memoryTypeIndexLoop_spec (tb : Nat) (props : VkPhysicalDeviceMemoryProperties)
    (flags : Nat) (htb : tb < U32) : ∀ n i,
    (∃ k : Nat, memoryTypeIndexLoop tb props flags n i = (k : Int) ∧ i ≤ k ∧ k < i + n ∧
      (tb.testBit k = true ∧
        ∀ b, flags.testBit b = true → (props.MemoryType k).PropertyFlags.testBit b = true) ∧
      ∀ j, i ≤ j → j < k → ¬ (tb.testBit j = true ∧
        ∀ b, flags.testBit b = true → (props.MemoryType j).PropertyFlags.testBit b = true)) ∨
    (memoryTypeIndexLoop tb props flags n i = -1 ∧
      ∀ j, i ≤ j → j < i + n → ¬ (tb.testBit j = true ∧
        ∀ b, flags.testBit b = true → (props.MemoryType j).PropertyFlags.testBit b = true)) := by
  intro n
  induction n with
  | zero =>
    intro i
    right
    refine ⟨rfl, ?_⟩
    intro j h1 h2
    omega
  | succ n ih =>
    intro i
    unfold memoryTypeIndexLoop
    have hskip : ∀ (hbad : ¬ (tb.testBit i = true ∧
        ∀ b, flags.testBit b = true → (props.MemoryType i).PropertyFlags.testBit b = true)),
        (∃ k : Nat, memoryTypeIndexLoop tb props flags n (i + 1) = (k : Int) ∧ i ≤ k ∧
          k < i + (n + 1) ∧
          (tb.testBit k = true ∧
            ∀ b, flags.testBit b = true → (props.MemoryType k).PropertyFlags.testBit b = true) ∧
          ∀ j, i ≤ j → j < k → ¬ (tb.testBit j = true ∧
            ∀ b, flags.testBit b = true →
              (props.MemoryType j).PropertyFlags.testBit b = true)) ∨
        (memoryTypeIndexLoop tb props flags n (i + 1) = -1 ∧
          ∀ j, i ≤ j → j < i + (n + 1) → ¬ (tb.testBit j = true ∧
            ∀ b, flags.testBit b = true →
              (props.MemoryType j).PropertyFlags.testBit b = true)) := by
      intro hbad
      rcases ih (i + 1) with ⟨k, hk, h1, h2, h3, h4⟩ | ⟨hk, h1⟩
      · left
        refine ⟨k, hk, by omega, by omega, h3, ?_⟩
        intro j hj1 hj2
        by_cases hji : j = i
        · subst hji; exact hbad
        · exact h4 j (by omega) hj2
      · right
        refine ⟨hk, ?_⟩
        intro j hj1 hj2
        by_cases hji : j = i
        · subst hji; exact hbad
        · exact h1 j (by omega) (by omega)
    by_cases hbit : tb &&& ((1 <<< i) % U32) = 0
    · rw [if_pos hbit]
      apply hskip
      intro hh
      rw [(and_one_shiftLeft_eq_zero tb i htb).1 hbit] at hh
      exact Bool.noConfusion hh.1
    · rw [if_neg hbit]
      have hset : tb.testBit i = true := by
        cases hb : tb.testBit i
        · exact absurd ((and_one_shiftLeft_eq_zero tb i htb).2 hb) hbit
        · rfl
      by_cases hfl : flags = (props.MemoryType i).PropertyFlags &&& flags
      · rw [if_pos hfl]
        left
        refine ⟨i, rfl, le_refl _, by omega, ⟨hset, (flags_subset_iff _ _).1 hfl⟩, ?_⟩
        intro j h1 h2
        omega
      · rw [if_neg hfl]
        apply hskip
        intro hh
        exact hfl ((flags_subset_iff _ _).2 hh.2)

theorem memoryTypeIndexFor_cases (tb : Nat) (props : VkPhysicalDeviceMemoryProperties)
    (flags : Nat) (htb : tb < U32) :
    (∃ k : Nat, memoryTypeIndexFor tb props flags = (k : Int) ∧
      SuitableMemoryType tb props flags k ∧
      ∀ j, j < k → ¬ SuitableMemoryType tb props flags j) ∨
    (memoryTypeIndexFor tb props flags = -1 ∧ ∀ j, ¬ SuitableMemoryType tb props flags j) := by
  unfold memoryTypeIndexFor
  rcases memoryTypeIndexLoop_spec tb props flags htb props.MemoryTypeCount 0 with
    ⟨k, hk, _, h2, h3, h4⟩ | ⟨hk, h1⟩
  · left
    refine ⟨k, hk, ⟨by omega, h3.1, h3.2⟩, ?_⟩
    intro j hj hs
    exact h4 j (Nat.zero_le _) hj ⟨hs.2.1, hs.2.2⟩
  · right
    refine ⟨hk, ?_⟩
    intro j hs
    exact h1 j (Nat.zero_le _) (by have := hs.1; omega) ⟨hs.2.1, hs.2.2⟩

theorem defaultTypeBits_eq (c : Nat) (hc : c ≤ 32) : defaultTypeBits c = 2 ^ c - 1 := by
  unfold defaultTypeBits U64 U32
  rw [Nat.one_shiftLeft]
  have h1 : 2 ^ c ≤ 2 ^ 32 := Nat.pow_le_pow_right (by decide) hc
  have h0 : 0 < 2 ^ c := Nat.two_pow_pos c
  generalize 2 ^ c = x at *
  omega

theorem GetScratchBufferMemoryIndex_eq (s : State) (device : DeviceObject)
    (pd : PhysicalDeviceObject)
    (hpd : s.PhysicalDevices.find? (fun o => o.VulkanHandle == device.PhysicalDevice) = some pd)
    (hcount : pd.MemoryProperties.MemoryTypeCount ≤ 32)
    (hbits : scratchTypeBits s device pd < U32) :
    (∀ i, SuitableMemoryType (scratchTypeBits s device pd) pd.MemoryProperties
          VK_MEMORY_PROPERTY_HOST_VISIBLE_BIT i →
        (∀ j, j < i → ¬ SuitableMemoryType (scratchTypeBits s device pd) pd.MemoryProperties
          VK_MEMORY_PROPERTY_HOST_VISIBLE_BIT j) →
        GetScratchBufferMemoryIndex s device = some i) ∧
    ((∀ i, ¬ SuitableMemoryType (scratchTypeBits s device pd) pd.MemoryProperties
          VK_MEMORY_PROPERTY_HOST_VISIBLE_BIT i) →
        GetScratchBufferMemoryIndex s device = some 0) := by
  unfold GetScratchBufferMemoryIndex
  rw [hpd]
  simp only
  rcases memoryTypeIndexFor_cases (scratchTypeBits s device pd) pd.MemoryProperties
      VK_MEMORY_PROPERTY_HOST_VISIBLE_BIT hbits with ⟨k, hk, hs, hmin⟩ | ⟨hk, hnone⟩
  · have hklt : k < U32 := by
      have := hs.1
      unfold U32
      omega
    constructor
    · intro i hi hmini
      have hik : i = k := by
        rcases Nat.lt_trichotomy i k with h | h | h
        · exact absurd hi (hmin i h)
        · exact h
        · exact absurd hs (hmini k h)
      subst hik
      rw [hk, if_pos (Int.natCast_nonneg _), Int.toNat_ofNat, Nat.mod_eq_of_lt hklt]
    · intro hno
      exact absurd hs (hno k)
  · constructor
    · intro i hi _
      exact absurd hi (hnone i)
    · intro _
      rw [hk, if_neg (by decide)]

/-- C13: `memoryTypeIndexFor(typeBits, props, flags)` returns `i` exactly when `i` is the
smallest index below `MemoryTypeCount` whose bit is set in `typeBits` and whose property
flags include all bits of `flags`, and `-1` exactly when there is no such index. With at
most 32 memory types, let `typeBits` be the `MemoryTypeBits` of the transfer-buffer
requirement recorded for the device, or `(1 << MemoryTypeCount) - 1` when none is recorded:
`GetScratchBufferMemoryIndex` returns the smallest index suitable for `typeBits` and the
flag `HOST_VISIBLE`, and `0` when there is no such index. -/
theorem memoryTypeIndexFor_smallest_suitable :
    (∀ typeBits props flags, typeBits < U32 →
      (∀ i : Nat, memoryTypeIndexFor typeBits props flags = (i : Int) ↔
        (SuitableMemoryType typeBits props flags i ∧
          ∀ j, j < i → ¬ SuitableMemoryType typeBits props flags j)) ∧
      (memoryTypeIndexFor typeBits props flags = -1 ↔
        ∀ i, ¬ SuitableMemoryType typeBits props flags i)) ∧
    (∀ s device pd typeBits,
      s.PhysicalDevices.find? (fun o => o.VulkanHandle == device.PhysicalDevice) = some pd →
      pd.MemoryProperties.MemoryTypeCount ≤ 32 →
      typeBits < U32 →
      (∀ e, s.TransferBufferMemoryRequirements.find? (fun e => e.1 == device.VulkanHandle) =
        some e → typeBits = e.2.MemoryTypeBits) →
      (s.TransferBufferMemoryRequirements.find? (fun e => e.1 == device.VulkanHandle) = none →
        typeBits = 2 ^ pd.MemoryProperties.MemoryTypeCount - 1) →
      (∀ i, SuitableMemoryType typeBits pd.MemoryProperties
            VK_MEMORY_PROPERTY_HOST_VISIBLE_BIT i →
          (∀ j, j < i → ¬ SuitableMemoryType typeBits pd.MemoryProperties
            VK_MEMORY_PROPERTY_HOST_VISIBLE_BIT j) →
          GetScratchBufferMemoryIndex s device = some i) ∧
      ((∀ i, ¬ SuitableMemoryType typeBits pd.MemoryProperties
            VK_MEMORY_PROPERTY_HOST_VISIBLE_BIT i) →
          GetScratchBufferMemoryIndex s device = some 0)) := by
  constructor
  · intro typeBits props flags htb
    rcases memoryTypeIndexFor_cases typeBits props flags htb with
      ⟨k, hk, hs, hmin⟩ | ⟨hk, hnone⟩
    · constructor
      · intro i
        rw [hk]
        constructor
        · intro h
          have : k = i := by exact_mod_cast h
          subst this
          exact ⟨hs, hmin⟩
        · intro h
          rcases Nat.lt_trichotomy i k with h1 | h1 | h1
          · exact absurd h.1 (hmin i h1)
          · rw [h1]
          · exact absurd hs (h.2 k h1)
      · rw [hk]
        constructor
        · intro h
          have : (0 : Int) ≤ -1 := h ▸ Int.natCast_nonneg k
          exact absurd this (by decide)
        · intro h
          exact absurd hs (h k)
    · constructor
      · intro i
        rw [hk]
        constructor
        · intro h
          have : (0 : Int) ≤ -1 := h ▸ Int.natCast_nonneg i
          exact absurd this (by decide)
        · intro h
          exact absurd h.1 (hnone i)
      · rw [hk]
        exact ⟨fun _ => hnone, fun _ => rfl⟩
  · intro s device pd typeBits hpd hcount hbits hsome hnone
    have hbits_eq : typeBits = scratchTypeBits s device pd := by
      unfold scratchTypeBits
      cases hfind : s.TransferBufferMemoryRequirements.find?
          (fun e => e.1 == device.VulkanHandle) with
      | none => rw [hnone hfind, defaultTypeBits_eq _ hcount]
      | some e => exact hsome e hfind
    rw [hbits_eq] at hbits ⊢
    exact GetScratchBufferMemoryIndex_eq s device pd hpd hcount hbits

theorem testBit_two (b : Nat) (hb : (2 : Nat).testBit b = true) : b = 1 := by
  by_contra hne
  rw [show (2 : Nat) = 2 ^ 1 from rfl, Nat.testBit_two_pow] at hb
  simp at hb
  exact hne hb.symm

theorem memoryTypeIndexFor_smallest_suitable_witness :
    memoryTypeIndexFor 3 examplePhysicalDevice.MemoryProperties 2 = 1 ∧
    GetScratchBufferMemoryIndex { PhysicalDevices := [examplePhysicalDevice] } exampleDevice =
      some 1 ∧
    GetScratchBufferMemoryIndex snapshotTransferRequirement exampleDevice = some 1 := by
  have hs : SuitableMemoryType 3 examplePhysicalDevice.MemoryProperties 2 1 := by
    refine ⟨by decide, by decide, ?_⟩
    intro b hb
    have hb1 := testBit_two b hb
    subst hb1
    decide
  have hmin : ∀ j, j < 1 → ¬ SuitableMemoryType 3 examplePhysicalDevice.MemoryProperties 2 j := by
    intro j hj hsj
    have hj0 : j = 0 := by omega
    subst hj0
    have := hsj.2.2 1 (by decide)
    revert this
    decide
  have hs2 : SuitableMemoryType 2 hostVisiblePhysicalDevice.MemoryProperties 2 1 := by
    refine ⟨by decide, by decide, ?_⟩
    intro b hb
    have hb1 := testBit_two b hb
    subst hb1
    decide
  have hmin2 : ∀ j, j < 1 →
      ¬ SuitableMemoryType 2 hostVisiblePhysicalDevice.MemoryProperties 2 j := by
    intro j hj hsj
    have hj0 : j = 0 := by omega
    subst hj0
    have := hsj.2.1
    revert this
    decide
  refine ⟨((memoryTypeIndexFor_smallest_suitable.1 3 _ 2 (by decide)).1 1).2 ⟨hs, hmin⟩, ?_, ?_⟩
  · exact (memoryTypeIndexFor_smallest_suitable.2 { PhysicalDevices := [examplePhysicalDevice] }
      exampleDevice examplePhysicalDevice 3 rfl (by decide) (by decide)
      (fun e he => by cases he) (fun _ => by decide)).1 1 hs hmin
  · exact (memoryTypeIndexFor_smallest_suitable.2 snapshotTransferRequirement
      exampleDevice hostVisiblePhysicalDevice 2 rfl (by decide) (by decide)
      (fun e he => by cases he; rfl) (fun he => by cases he)).1 1 hs2 hmin2

/-- C16: on the snapshot with the device `3` and its queues `10` (family `0`, not sparse)
and `11` (family `1`, sparse binding), whatever the iteration order of the Go map of
queues, `getSparseQueueFor` returns the nil queue for the nil hint and for the hint `[0]`,
and the queue `10`, which is not sparse capable, when that is the last bound queue: the
sparse-capable queue `11` on the device is not returned. -/
theorem getSparseQueueFor_ignores_sparse_queue (order : MapOrder) (horder : order.Valid)
    (n : Nat) :
    (⟨11, 3, 1, 0⟩ : QueueObject) ∈ snapshotSparseQueue.Queues ∧
    hasSparseBinding sparsePhysicalDevice.QueueFamilyProperties 1 = true ∧
    hasSparseBinding sparsePhysicalDevice.QueueFamilyProperties 0 = false ∧
    getSparseQueueFor order n snapshotSparseQueue none 3 none = some none ∧
    getSparseQueueFor order n snapshotSparseQueue none 3 (some [0]) = some none ∧
    getSparseQueueFor order n snapshotSparseQueue (some ⟨10, 3, 0, 0⟩) 3 none =
      some (some ⟨10, 3, 0, 0⟩) ∧
    getSparseQueueFor order n snapshotSparseQueue (some ⟨10, 3, 0, 0⟩) 3 (some [0]) =
      some (some ⟨10, 3, 0, 0⟩) := by
  have hnone : (goRange order (rangeId 904 n) snapshotSparseQueue.Queues).find?
      (fun v => v.Device == 3 &&
        hasSparseBinding sparsePhysicalDevice.QueueFamilyProperties v.Family &&
        [0].any (fun i => i == v.Family)) = none :=
    goRange_find?_none order horder _ _ _ (by decide)
  have hprops : deviceQueueProperties snapshotSparseQueue 3 =
      some sparsePhysicalDevice.QueueFamilyProperties := by decide
  refine ⟨by decide, by decide, by decide, rfl, ?_, rfl, ?_⟩
  · unfold getSparseQueueFor
    simp only [hprops, hnone]
  · unfold getSparseQueueFor
    have h0 : hasSparseBinding sparsePhysicalDevice.QueueFamilyProperties
        (⟨10, 3, 0, 0⟩ : QueueObject).Family = false := by decide
    simp only [hprops, hnone, h0]

theorem getSparseQueueFor_ignores_sparse_queue_witness :
    storedOrder.Valid ∧
    (⟨11, 3, 1, 0⟩ : QueueObject) ∈ snapshotSparseQueue.Queues ∧
    hasSparseBinding sparsePhysicalDevice.QueueFamilyProperties 1 = true ∧
    hasSparseBinding sparsePhysicalDevice.QueueFamilyProperties 0 = false ∧
    getSparseQueueFor storedOrder 0 snapshotSparseQueue none 3 none = some none ∧
    getSparseQueueFor storedOrder 0 snapshotSparseQueue none 3 (some [0]) = some none ∧
    getSparseQueueFor storedOrder 0 snapshotSparseQueue (some ⟨10, 3, 0, 0⟩) 3 none =
      some (some ⟨10, 3, 0, 0⟩) ∧
    getSparseQueueFor storedOrder 0 snapshotSparseQueue (some ⟨10, 3, 0, 0⟩) 3 (some [0]) =
      some (some ⟨10, 3, 0, 0⟩) :=
  ⟨storedOrder_valid,
    getSparseQueueFor_ignores_sparse_queue storedOrder storedOrder_valid 0⟩

theorem HintedQueue.of_find {order : MapOrder} (horder : order.Valid) {n : Nat} {s : State}
    {device : Nat} {indices : List Nat} {w : QueueObject}
    (hfind : (goRange order n s.Queues).find?
      (fun v => v.Device == device && indices.any (fun i => i == v.Family)) = some w) :
    HintedQueue s device (some indices) w := by
  obtain ⟨hm, hp⟩ := goRange_find?_mem order horder n _ _ w hfind
  simp only [Bool.and_eq_true, beq_iff_eq, List.any_eq_true] at hp
  obtain ⟨hd, i, hi, hif⟩ := hp
  exact ⟨hm, hd, indices, rfl, hif ▸ hi⟩

theorem getQueueFor_hinted (order : MapOrder) (horder : order.Valid) (n : Nat) (s : State)
    (device : Nat) (hints : Option (List Nat)) (h : ∃ v, HintedQueue s device hints v) :
    ∃ v, getQueueFor order n s none device hints = some v ∧ HintedQueue s device hints v := by
  obtain ⟨v, hv, hd, indices, hi, hf⟩ := h
  subst hi
  unfold getQueueFor
  simp only
  obtain ⟨w, hw, -, -⟩ := goRange_find?_some order horder (rangeId 927 n) s.Queues
    (fun v => v.Device == device && indices.any (fun i => i == v.Family)) v hv
    (by simp only [Bool.and_eq_true, beq_iff_eq, List.any_eq_true]; exact ⟨hd, _, hf, rfl⟩)
  rw [hw]
  exact ⟨w, rfl, HintedQueue.of_find horder hw⟩

theorem getQueueFor_unhinted (order : MapOrder) (horder : order.Valid) (n : Nat) (s : State)
    (device : Nat) (hints : Option (List Nat)) (h : ¬ ∃ v, HintedQueue s device hints v) :
    getQueueFor order n s none device hints =
      (goRange order (rangeId 939 n) s.Queues).find? (fun v => v.Device == device) := by
  unfold getQueueFor
  simp only
  cases hints with
  | none => rfl
  | some indices =>
    simp only
    cases hfind : (goRange order (rangeId 927 n) s.Queues).find?
        (fun v => v.Device == device && indices.any (fun i => i == v.Family)) with
    | none => rfl
    | some w => exact absurd ⟨w, HintedQueue.of_find horder hfind⟩ h

/-- C15: whatever the iteration order of the Go map of queues, `getQueueFor` returns
`lastBound` whenever it is not nil; otherwise, if some queue on `device` has a family among
the values of the hint, it returns a queue on `device` whose family is among them;
otherwise it returns a queue on `device` if there is one; the result is nil only when
`lastBound` is nil and no queue of the snapshot is on `device`. -/
theorem getQueueFor_preference (order : MapOrder) (horder : order.Valid) (n : Nat)
    (s : State) (lastBound : Option QueueObject) (device : Nat)
    (hints : Option (List Nat)) :
    (∀ q, lastBound = some q → getQueueFor order n s lastBound device hints = some q) ∧
    (lastBound = none → (∃ v, HintedQueue s device hints v) →
      ∃ v, getQueueFor order n s lastBound device hints = some v ∧
        HintedQueue s device hints v) ∧
    (lastBound = none → (¬ ∃ v, HintedQueue s device hints v) →
      (∃ v ∈ s.Queues, v.Device = device) →
      ∃ v, getQueueFor order n s lastBound device hints = some v ∧ v ∈ s.Queues ∧
        v.Device = device) ∧
    (getQueueFor order n s lastBound device hints = none ↔
      lastBound = none ∧ ∀ v ∈ s.Queues, v.Device ≠ device) := by
  refine ⟨?_, ?_, ?_, ?_⟩
  · intro q hq
    subst hq
    rfl
  · intro hl hh
    subst hl
    exact getQueueFor_hinted order horder n s device hints hh
  · intro hl hh hq
    subst hl
    rw [getQueueFor_unhinted order horder n s device hints hh]
    obtain ⟨v, hv, hd⟩ := hq
    obtain ⟨w, hw, hm, hp⟩ := goRange_find?_some order horder (rangeId 939 n) s.Queues
      (fun v => v.Device == device) v hv (by simpa using hd)
    exact ⟨w, hw, hm, by simpa using hp⟩
  · cases lastBound with
    | some q => simp [getQueueFor]
    | none =>
      by_cases hh : ∃ v, HintedQueue s device hints v
      · obtain ⟨v, hv, hhv⟩ := getQueueFor_hinted order horder n s device hints hh
        rw [hv]
        simp only [reduceCtorEq, true_and, false_iff]
        intro hall
        exact hall v hhv.1 hhv.2.1
      · rw [getQueueFor_unhinted order horder n s device hints hh, List.find?_eq_none]
        simp only [true_and]
        constructor
        · intro hall v hv
          have := hall v ((mem_goRange order horder _ _ v).2 hv)
          simpa using this
        · intro hall v hv
          have := hall v ((mem_goRange order horder _ _ v).1 hv)
          simpa using this

theorem getQueueFor_preference_witness :
    reversedOrder.Valid ∧
    (∃ v, getQueueFor reversedOrder 0 snapshotSparseQueue none 3 (some [1]) = some v ∧
      HintedQueue snapshotSparseQueue 3 (some [1]) v) ∧
    getQueueFor storedOrder 0 snapshotSparseQueue none 3 none = some ⟨10, 3, 0, 0⟩ ∧
    getQueueFor reversedOrder 0 snapshotSparseQueue none 3 none = some ⟨11, 3, 1, 0⟩ :=
  ⟨reversedOrder_valid,
    (getQueueFor_preference reversedOrder reversedOrder_valid 0 snapshotSparseQueue none 3
      (some [1])).2.1 rfl ⟨⟨11, 3, 1, 0⟩, by decide, rfl, [1], rfl, by decide⟩,
    by decide, by decide⟩

/-! ## The queue create infos of `createDevice` (C17) -/

theorem goMapGet_put {β : Type} (m : List (Nat × β)) (k k' : Nat) (v d : β) :
    goMapGet (goMapPut m k v) k' d = if k' = k then v else goMapGet m k' d := by
  induction m with
  | nil =>
    by_cases h : k' = k
    · simp [goMapPut, goMapGet, h]
    · have : ¬ k = k' := fun e => h e.symm
      simp [goMapPut, goMapGet, h, this]
  | cons e m ih =>
    unfold goMapPut
    by_cases hek : e.1 = k
    · simp only [hek, beq_self_eq_true, if_true]
      by_cases h : k' = k
      · simp [goMapGet, h]
      · have : ¬ k = k' := fun e => h e.symm
        simp [goMapGet, h, this, hek]
    · have hek' : (e.1 == k) = false := by simpa using hek
      simp only [hek', Bool.false_eq_true, if_false]
      by_cases hk' : e.1 = k'
      · have : ¬ k' = k := fun e' => hek (hk'.trans e')
        simp [goMapGet, hk', this]
      · have hh : (e.1 == k') = false := by simpa using hk'
        have := ih
        unfold goMapGet at this ⊢
        simp only [List.find?_cons, hh]
        exact this

theorem goMapPut_keys {β : Type} (m : List (Nat × β)) (k : Nat) (v : β) :
    (goMapPut m k v).map Prod.fst =
      if k ∈ m.map Prod.fst then m.map Prod.fst else m.map Prod.fst ++ [k] := by
  induction m with
  | nil => simp [goMapPut]
  | cons e m ih =>
    unfold goMapPut
    by_cases hek : e.1 = k
    · simp [hek]
    · have hek' : (e.1 == k) = false := by simpa using hek
      have hne : ¬ k = e.1 := fun h => hek h.symm
      simp only [hek', Bool.false_eq_true, if_false, List.map_cons, ih, List.mem_cons, hne,
        false_or]
      split <;> simp

theorem any_key_iff {β : Type} (m : List (Nat × β)) (k : Nat) :
    m.any (fun e => e.1 == k) = true ↔ k ∈ m.map Prod.fst := by
  simp only [List.any_eq_true, beq_iff_eq, List.mem_map]

theorem goMapGet_of_not_mem {β : Type} (m : List (Nat × β)) (k : Nat) (d : β)
    (h : k ∉ m.map Prod.fst) : goMapGet m k d = d := by
  unfold goMapGet
  have : m.find? (fun e => e.1 == k) = none := by
    rw [List.find?_eq_none]
    intro e he hk
    exact h (List.mem_map.2 ⟨e, he, by simpa using hk⟩)
  rw [this]

theorem deviceQueueStep_keys (acc : DeviceQueues) (q : QueueInfo) :
    (deviceQueueStep acc q).queueCreate.map Prod.fst =
      if q.QueueFamilyIndex ∈ acc.queueCreate.map Prod.fst then acc.queueCreate.map Prod.fst
      else acc.queueCreate.map Prod.fst ++ [q.QueueFamilyIndex] := by
  unfold deviceQueueStep
  simp only
  by_cases h : q.QueueFamilyIndex ∈ acc.queueCreate.map Prod.fst
  · rw [if_pos ((any_key_iff _ _).2 h), goMapPut_keys, if_pos h]
  · have h' : ¬ (acc.queueCreate.any (fun e => e.1 == q.QueueFamilyIndex) = true) :=
      fun hh => h ((any_key_iff _ _).1 hh)
    rw [if_neg h', goMapPut_keys, goMapPut_keys, if_neg h, if_pos (by simp)]

theorem deviceQueueStep_count (acc : DeviceQueues) (q : QueueInfo) (k : Nat) :
    goMapGet (deviceQueueStep acc q).queueCreate k 0 =
      if k = q.QueueFamilyIndex then (goMapGet acc.queueCreate q.QueueFamilyIndex 0 + 1) % U32
      else goMapGet acc.queueCreate k 0 := by
  unfold deviceQueueStep
  simp only
  by_cases h : q.QueueFamilyIndex ∈ acc.queueCreate.map Prod.fst
  · rw [if_pos ((any_key_iff _ _).2 h), goMapGet_put]
  · have h' : ¬ (acc.queueCreate.any (fun e => e.1 == q.QueueFamilyIndex) = true) :=
      fun hh => h ((any_key_iff _ _).1 hh)
    rw [if_neg h', goMapGet_put, goMapGet_put, goMapGet_put, goMapGet_of_not_mem _ _ _ h]
    by_cases hk : k = q.QueueFamilyIndex
    · simp [hk]
    · simp [hk]

theorem deviceQueueStep_priorities (acc : DeviceQueues) (q : QueueInfo) (k : Nat)
    (hsync : ∀ k, k ∉ acc.queueCreate.map Prod.fst → goMapGet acc.queuePriorities k [] = []) :
    goMapGet (deviceQueueStep acc q).queuePriorities k [] =
      if k = q.QueueFamilyIndex then
        growPriorities (goMapGet acc.queuePriorities q.QueueFamilyIndex []) q.QueueIndex
          q.Priority
      else goMapGet acc.queuePriorities k [] := by
  unfold deviceQueueStep growPriorities
  simp only
  by_cases h : acc.queueCreate.any (fun e => e.1 == q.QueueFamilyIndex) = true
  · rw [if_pos h, goMapGet_put]
  · rw [if_neg h, goMapGet_put, goMapGet_put, goMapGet_put]
    have h0 := hsync q.QueueFamilyIndex (fun hh => h ((any_key_iff _ _).2 hh))
    by_cases hk : k = q.QueueFamilyIndex
    · simp [hk, h0]
    · simp [hk]

theorem growPriorities_length (l : List Nat) (j p : Nat) (hl : l.length < U32)
    (hj : j + 1 < U32) : (growPriorities l j p).length = max l.length (j + 1) := by
  unfold growPriorities
  rw [Nat.mod_eq_of_lt hl, Nat.mod_eq_of_lt hj, List.length_set]
  split
  · rw [List.length_append, List.length_replicate]; omega
  · omega

theorem getD_append_replicate_zero (l : List Nat) (n i : Nat) :
    (l ++ List.replicate n 0).getD i 0 = l.getD i 0 := by
  rw [List.getD_eq_getElem?_getD, List.getD_eq_getElem?_getD]
  by_cases h : i < l.length
  · rw [List.getElem?_append_left h]
  · rw [List.getElem?_append_right (by omega), List.getElem?_eq_none (l := l) (by omega)]
    by_cases h2 : i - l.length < n
    · rw [List.getElem?_replicate_of_lt h2]; rfl
    · rw [List.getElem?_eq_none (by rw [List.length_replicate]; omega)]

theorem growPriorities_getD (l : List Nat) (j p i : Nat) (hl : l.length < U32)
    (hj : j + 1 < U32) :
    (growPriorities l j p).getD i 0 = if i = j then p else l.getD i 0 := by
  have hlen := growPriorities_length l j p hl hj
  unfold growPriorities at hlen ⊢
  rw [List.length_set] at hlen
  have hg : (if l.length % U32 < (j + 1) % U32 then
      l ++ List.replicate ((j + 1) % U32 - l.length) 0 else l).getD i 0 = l.getD i 0 := by
    split
    · exact getD_append_replicate_zero _ _ _
    · rfl
  generalize (if l.length % U32 < (j + 1) % U32 then
      l ++ List.replicate ((j + 1) % U32 - l.length) 0 else l) = g at hlen hg ⊢
  rw [List.getD_eq_getElem?_getD, List.getElem?_set]
  by_cases hij : j = i
  · subst hij
    rw [if_pos rfl, if_pos (by omega), if_pos rfl]
    rfl
  · rw [if_neg hij, if_neg (fun h => hij h.symm), ← List.getD_eq_getElem?_getD, hg]

theorem DeviceQueuesInv.init :
    DeviceQueuesInv [] { queueCreate := [], queuePriorities := [] } := by
  constructor <;> simp [goMapGet]

theorem DeviceQueuesInv.length_lt {qs : List QueueInfo} {acc : DeviceQueues}
    (inv : DeviceQueuesInv qs acc) (hidx : ∀ q ∈ qs, q.QueueIndex + 1 < U32) (k : Nat) :
    (goMapGet acc.queuePriorities k []).length < U32 := by
  rcases inv.attained k with h | ⟨q, hq, _, h⟩
  · rw [h]; unfold U32; decide
  · rw [← h]; exact hidx q hq

theorem DeviceQueuesInv.next {qs : List QueueInfo} {acc : DeviceQueues}
    (inv : DeviceQueuesInv qs acc) (q : QueueInfo)
    (hidx : ∀ q' ∈ qs ++ [q], q'.QueueIndex + 1 < U32) (hlen : (qs ++ [q]).length < U32) :
    DeviceQueuesInv (qs ++ [q]) (deviceQueueStep acc q) := by
  have hidx' : ∀ q' ∈ qs, q'.QueueIndex + 1 < U32 :=
    fun q' h => hidx q' (List.mem_append_left _ h)
  have hj : q.QueueIndex + 1 < U32 := hidx q (by simp)
  have hl := inv.length_lt hidx' q.QueueFamilyIndex
  have hkeys := deviceQueueStep_keys acc q
  have hprio := fun k => deviceQueueStep_priorities acc q k inv.sync
  have hfmem : q.QueueFamilyIndex ∈ (deviceQueueStep acc q).queueCreate.map Prod.fst := by
    rw [hkeys]; split
    · assumption
    · simp
  have hsub : ∀ k, k ∈ (deviceQueueStep acc q).queueCreate.map Prod.fst ↔
      k ∈ acc.queueCreate.map Prod.fst ∨ k = q.QueueFamilyIndex := by
    intro k
    rw [hkeys]
    split
    · constructor
      · exact Or.inl
      · rintro (h | h)
        · exact h
        · rw [h]; assumption
    · simp
  constructor
  · rw [hkeys]
    split
    · exact inv.nodup
    · rename_i h
      rw [List.nodup_append]
      refine ⟨inv.nodup, List.nodup_singleton _, ?_⟩
      intro a ha hb
      rw [List.mem_singleton] at hb
      exact h (hb ▸ ha)
  · intro k hk
    have hk1 : k ∉ acc.queueCreate.map Prod.fst := fun h => hk ((hsub k).2 (Or.inl h))
    have hk2 : k ≠ q.QueueFamilyIndex := fun h => hk ((hsub k).2 (Or.inr h))
    rw [hprio k, if_neg hk2]
    exact inv.sync k hk1
  · intro k
    rw [hsub k, inv.mem k]
    constructor
    · rintro (⟨q', hq', hf⟩ | h)
      · exact ⟨q', List.mem_append_left _ hq', hf⟩
      · exact ⟨q, by simp, h.symm⟩
    · rintro ⟨q', hq', hf⟩
      rcases List.mem_append.1 hq' with h | h
      · exact Or.inl ⟨q', h, hf⟩
      · rw [List.mem_singleton] at h
        exact Or.inr (by rw [← hf, h])
  · intro k
    rw [deviceQueueStep_count, List.filter_append, List.length_append, inv.count]
    by_cases hk : k = q.QueueFamilyIndex
    · subst hk
      have h1 : (qs.filter (fun q' => q'.QueueFamilyIndex == q.QueueFamilyIndex)).length ≤
          qs.length := List.length_filter_le _ _
      rw [List.length_append, List.length_singleton] at hlen
      rw [if_pos rfl, Nat.mod_eq_of_lt (by omega)]
      simp
    · rw [if_neg hk]
      have : (q.QueueFamilyIndex == k) = false := by
        simpa using fun h => hk h.symm
      simp [List.filter_cons, this, inv.count k]
  · intro k q' hq' hf
    rw [hprio k]
    by_cases hk : k = q.QueueFamilyIndex
    · rw [if_pos hk, growPriorities_length _ _ _ hl hj]
      rcases List.mem_append.1 hq' with h | h
      · have := inv.bound k q' h hf
        rw [hk] at this
        omega
      · rw [List.mem_singleton] at h
        rw [h]
        omega
    · rw [if_neg hk]
      rcases List.mem_append.1 hq' with h | h
      · exact inv.bound k q' h hf
      · rw [List.mem_singleton] at h
        exact absurd (by rw [← hf, h]) hk
  · intro k
    rw [hprio k]
    by_cases hk : k = q.QueueFamilyIndex
    · rw [if_pos hk, growPriorities_length _ _ _ hl hj]
      right
      by_cases hcmp : q.QueueIndex + 1 ≤
          (goMapGet acc.queuePriorities q.QueueFamilyIndex []).length
      · rcases inv.attained q.QueueFamilyIndex with h | ⟨q', hq', hf, h⟩
        · omega
        · exact ⟨q', List.mem_append_left _ hq', by rw [hf, hk], by omega⟩
      · exact ⟨q, by simp, hk.symm, by omega⟩
    · rw [if_neg hk]
      rcases inv.attained k with h | ⟨q', hq', hf, h⟩
      · exact Or.inl h
      · exact Or.inr ⟨q', List.mem_append_left _ hq', hf, h⟩
  · intro k i hno
    rw [hprio k]
    have hno' : ∀ q' ∈ qs, q'.QueueFamilyIndex = k → q'.QueueIndex ≠ i :=
      fun q' h => hno q' (List.mem_append_left _ h)
    by_cases hk : k = q.QueueFamilyIndex
    · have hij : i ≠ q.QueueIndex := fun h => hno q (by simp) hk.symm h.symm
      rw [if_pos hk, growPriorities_getD _ _ _ _ hl hj, if_neg hij, ← hk]
      exact inv.zero k i hno'
    · rw [if_neg hk]
      exact inv.zero k i hno'
  · intro hnd k q' hq' hf
    rw [List.map_append, List.nodup_append] at hnd
    obtain ⟨hnd1, _, hdisj⟩ := hnd
    rw [hprio k]
    by_cases hk : k = q.QueueFamilyIndex
    · rw [if_pos hk, growPriorities_getD _ _ _ _ hl hj]
      rcases List.mem_append.1 hq' with h | h
      · have hne : q'.QueueIndex ≠ q.QueueIndex := by
          intro he
          refine hdisj (List.mem_map.2 ⟨q', h, rfl⟩) ?_
          simp only [List.map_cons, List.map_nil, List.mem_singleton, Prod.mk.injEq]
          exact ⟨by rw [hf, hk], he⟩
        rw [if_neg hne, ← hk]
        exact inv.priority hnd1 k q' h hf
      · rw [List.mem_singleton] at h
        rw [h, if_pos rfl]
    · rw [if_neg hk]
      rcases List.mem_append.1 hq' with h | h
      · exact inv.priority hnd1 k q' h hf
      · rw [List.mem_singleton] at h
        exact absurd (by rw [← hf, h]) hk

theorem DeviceQueuesInv.after_queues (l : List QueueInfo) :
    ∀ (qs : List QueueInfo) (acc : DeviceQueues), DeviceQueuesInv qs acc →
      (∀ q ∈ qs ++ l, q.QueueIndex + 1 < U32) → (qs ++ l).length < U32 →
      DeviceQueuesInv (qs ++ l) (l.foldl deviceQueueStep acc) := by
  induction l with
  | nil => intro qs acc inv _ _; simpa using inv
  | cons q l ih =>
    intro qs acc inv hidx hlen
    rw [List.foldl_cons]
    have e : qs ++ q :: l = (qs ++ [q]) ++ l := by simp
    rw [e] at hidx hlen ⊢
    refine ih (qs ++ [q]) _ (inv.next q ?_ ?_) hidx hlen
    · intro q' hq'
      exact hidx q' (List.mem_append_left _ hq')
    · rw [List.length_append] at hlen
      omega

theorem deviceQueues_inv (d : DeviceObject) (hidx : ∀ q ∈ d.Queues, q.QueueIndex + 1 < U32)
    (hlen : d.Queues.length < U32) : DeviceQueuesInv d.Queues (deviceQueues d) := by
  have := DeviceQueuesInv.after_queues d.Queues [] _ DeviceQueuesInv.init
    (by simpa using hidx) (by simpa using hlen)
  simpa [deviceQueues] using this

theorem goMapGet_of_mem {β : Type} (m : List (Nat × β)) (hnd : (m.map Prod.fst).Nodup)
    (k : Nat) (v d : β) (h : (k, v) ∈ m) : goMapGet m k d = v := by
  induction m with
  | nil => simp at h
  | cons e m ih =>
    rw [List.map_cons, List.nodup_cons] at hnd
    unfold goMapGet
    rcases List.mem_cons.1 h with h1 | h1
    · subst h1
      simp
    · have hne : e.1 ≠ k := by
        intro he
        exact hnd.1 (List.mem_map.2 ⟨(k, v), h1, he.symm⟩)
      have : (e.1 == k) = false := by simpa using hne
      simp only [List.find?_cons, this]
      exact ih hnd.2 h1

theorem getElem?_of_getD {l : List Nat} {i v : Nat} (hi : i < l.length)
    (h : l.getD i 0 = v) : l[i]? = some v := by
  rw [List.getD_eq_getElem?_getD, List.getElem?_eq_getElem hi] at h
  rw [List.getElem?_eq_getElem hi]
  simpa using h

theorem deviceQueueCreateInfos_ok (order : MapOrder) (horder : order.Valid) (n : Nat)
    (d : DeviceObject) (hidx : ∀ q ∈ d.Queues, q.QueueIndex + 1 < U32)
    (hlen : d.Queues.length < U32) :
    QueueCreateInfosOK d (deviceQueueCreateInfos order n d) := by
  have inv := deviceQueues_inv d hidx hlen
  have hperm := goMapRange_perm order horder n (deviceQueues d).queueCreate
  have hfam : (deviceQueueCreateInfos order n d).map (fun x => x.queueFamilyIndex) =
      (goMapRange order n (deviceQueues d).queueCreate).map Prod.fst := by
    unfold deviceQueueCreateInfos
    simp only [List.map_map]
    rfl
  have hx : ∀ x ∈ deviceQueueCreateInfos order n d,
      x.queueFamilyIndex ∈ (deviceQueues d).queueCreate.map Prod.fst ∧
      x.queueCount = goMapGet (deviceQueues d).queueCreate x.queueFamilyIndex 0 ∧
      x.pQueuePriorities = goMapGet (deviceQueues d).queuePriorities x.queueFamilyIndex [] := by
    intro x hx
    unfold deviceQueueCreateInfos at hx
    simp only [List.mem_map] at hx
    obtain ⟨kv, hkv, rfl⟩ := hx
    have hmem : kv ∈ (deviceQueues d).queueCreate := hperm.mem_iff.1 hkv
    refine ⟨List.mem_map.2 ⟨kv, hmem, rfl⟩, ?_, rfl⟩
    exact (goMapGet_of_mem _ inv.nodup kv.1 kv.2 0 hmem).symm
  constructor
  · rw [hfam]
    exact (hperm.map Prod.fst).nodup_iff.2 inv.nodup
  · intro k
    rw [hfam, (hperm.map Prod.fst).mem_iff]
    exact inv.mem k
  · intro x hxm
    rw [(hx x hxm).2.1]
    exact inv.count _
  · intro x hxm q hq hf
    rw [(hx x hxm).2.2]
    exact inv.bound _ q hq hf
  · intro x hxm
    obtain ⟨hk, _, hp⟩ := hx x hxm
    rw [hp]
    rcases inv.attained x.queueFamilyIndex with h | h
    · obtain ⟨q, hq, hf⟩ := (inv.mem _).1 hk
      have := inv.bound _ q hq hf
      omega
    · exact h
  · intro x hxm i hi hno
    rw [(hx x hxm).2.2] at hi ⊢
    exact getElem?_of_getD hi (inv.zero _ i hno)
  · intro hnd x hxm q hq hf
    have hb := inv.bound _ q hq hf
    rw [(hx x hxm).2.2]
    exact getElem?_of_getD hb (inv.priority hnd _ q hq hf)

/-! ## The commands that the builders emit (C14, C17, C18, C19) -/

theorem Emits.none (sb : stateBuilder) : Emits sb sb [] :=
  ⟨[], (List.append_nil _).symm, List.Forall₂.nil⟩

theorem Emits.seq {a b c : stateBuilder} {l1 l2 : List Cmd} (h1 : Emits a b l1)
    (h2 : Emits b c l2) : Emits a c (l1 ++ l2) := by
  obtain ⟨t1, e1, f1⟩ := h1
  obtain ⟨t2, e2, f2⟩ := h2
  exact ⟨t1 ++ t2, by rw [e2, e1, List.append_assoc], List.rel_append f1 f2⟩

theorem Emits.quiet {sb sb' : stateBuilder} (h : Silent sb sb') : Emits sb sb' [] :=
  ⟨[], by rw [h.1, List.append_nil], List.Forall₂.nil⟩

theorem Emits.afterSilent {sb0 sb1 sb2 : stateBuilder} {l : List Cmd} (h : Emits sb0 sb1 l)
    (hs : Silent sb1 sb2) : Emits sb0 sb2 l := by
  have := h.seq (Emits.quiet hs)
  rwa [List.append_nil] at this

theorem Emits.write_one (env : Env) (sb : stateBuilder) (cmd : Cmd) :
    Emits sb (write env sb cmd) [cmd] := by
  refine ⟨[attachPending sb cmd], rfl, List.Forall₂.cons ?_ List.Forall₂.nil⟩
  rw [attachPending_eq]
  exact ⟨rfl, _, rfl⟩

theorem Emits.afterWrite (env : Env) {sb0 sb1 : stateBuilder} {l : List Cmd} (cmd : Cmd)
    (h : Emits sb0 sb1 l) : Emits sb0 (write env sb1 cmd) (l ++ [cmd]) :=
  h.seq (Emits.write_one env sb1 cmd)

theorem Emits.afterAllocRead (env : Env) {sb0 sb1 : stateBuilder} {l : List Cmd} (v : Value)
    (h : Emits sb0 sb1 l) : Emits sb0 (MustAllocReadData env sb1 v).2 l :=
  h.afterSilent ⟨rfl, rfl⟩

theorem Emits.afterAllocWrite (env : Env) {sb0 sb1 : stateBuilder} {l : List Cmd} (v : Value)
    (h : Emits sb0 sb1 l) : Emits sb0 (MustAllocWriteData env sb1 v).2 l :=
  h.afterSilent ⟨rfl, rfl⟩

theorem Emits.afterAllocData (env : Env) {sb0 sb1 : stateBuilder} {l : List Cmd} (v : Value)
    (h : Emits sb0 sb1 l) : Emits sb0 (AllocDataOrPanic env sb1 v).2 l :=
  h.afterSilent ⟨rfl, rfl⟩

theorem Emits.afterFreeAlloc (env : Env) {sb0 sb1 : stateBuilder} {l : List Cmd}
    (a : AllocResult) (h : Emits sb0 sb1 l) : Emits sb0 (freeAlloc env sb1 a) l :=
  h.afterSilent ⟨rfl, rfl⟩

theorem Emits.afterAllocNames (env : Env) {sb0 sb1 : stateBuilder} {l : List Cmd}
    (names : List String) (h : Emits sb0 sb1 l) : Emits sb0 (allocNames env sb1 names).2 l := by
  refine h.afterSilent ?_
  unfold allocNames
  apply Silent.foldl_pairs
  intro _ _
  exact ⟨rfl, rfl⟩

theorem Emits.afterFoldlPairs (env : Env) {sb0 : stateBuilder} {l : List Cmd} {α β : Type}
    (f : α × stateBuilder → β → α × stateBuilder)
    (hf : ∀ acc x, Silent acc.2 (f acc x).2) (xs : List β) (init : α × stateBuilder)
    (h : Emits sb0 init.2 l) : Emits sb0 (xs.foldl f init).2 l :=
  h.afterSilent (Silent.foldl_pairs f hf xs init)

theorem Emits.cast {sb sb' : stateBuilder} {l l' : List Cmd}
    (h : Emits sb sb' l) (e : l = l') : Emits sb sb' l' := e ▸ h

theorem forall₂_emitted_calls {l t : List Cmd} (h : List.Forall₂ Emitted l t) :
    t.map (fun c => c.call) = l.map (fun c => c.call) := by
  induction h with
  | nil => rfl
  | cons hc _ ih => simp only [List.map_cons, ih, hc.1]

theorem Emits.calls_eq {sb sb' : stateBuilder} {l : List Cmd} (h : Emits sb sb' l) :
    sb'.calls = sb.calls ++ l.map (fun c => c.call) := by
  obtain ⟨t, e, f⟩ := h
  unfold stateBuilder.calls
  rw [e, List.map_append, forall₂_emitted_calls f]

theorem Emits.extends {sb sb' : stateBuilder} {l : List Cmd} (h : Emits sb sb' l) :
    ∃ t, sb'.cmds = sb.cmds ++ t ∧ t.map (fun c => c.call) = l.map (fun c => c.call) ∧
      ∀ c' ∈ t, ∃ c ∈ l, Emitted c c' := by
  obtain ⟨t, e, f⟩ := h
  refine ⟨t, e, forall₂_emitted_calls f, ?_⟩
  intro c' hc'
  clear e
  induction f with
  | nil => cases hc'
  | cons hc _ ih =>
    rcases List.mem_cons.1 hc' with h1 | h1
    · subst h1
      exact ⟨_, List.mem_cons_self _ _, hc⟩
    · obtain ⟨c, hcl, hce⟩ := ih h1
      exact ⟨c, List.mem_cons_of_mem _ hcl, hce⟩

/-! ## Scratch buffers (C14) -/

theorem and_clear_low_bits (x k : Nat) (hx : x < 2 ^ 64) (hk : k ≤ 64) :
    x &&& (2 ^ 64 - 2 ^ k) = x / 2 ^ k * 2 ^ k := by
  have hm : 2 ^ 64 - 2 ^ k = 2 ^ k * (2 ^ (64 - k) - 1) := by
    rw [Nat.mul_sub, ← Nat.pow_add, Nat.mul_one]
    congr 2
    omega
  rw [hm, Nat.mul_comm (x / 2 ^ k)]
  apply Nat.eq_of_testBit_eq
  intro i
  rw [Nat.testBit_and, Nat.testBit_mul_pow_two, Nat.testBit_mul_pow_two,
    Nat.testBit_two_pow_sub_one, ← Nat.shiftRight_eq_div_pow, Nat.testBit_shiftRight]
  by_cases h1 : i ≥ k
  · have e : k + (i - k) = i := by omega
    rw [e]
    by_cases h2 : i - k < 64 - k
    · simp [h1, h2]
    · have hi : 64 ≤ i := by omega
      have : x.testBit i = false :=
        Nat.testBit_lt_two_pow (lt_of_lt_of_le hx (Nat.pow_le_pow_right (by decide) hi))
      simp [this]
  · simp [h1]

theorem scratchAllocSize_eq (n : Nat) (h : 2 * n + 255 < U64) :
    scratchAllocSize n = (2 * n + 255) / 256 * 256 := by
  unfold scratchAllocSize
  unfold U64 at *
  rw [Nat.mod_eq_of_lt (by omega), Nat.mod_eq_of_lt (by omega)]
  have := and_clear_low_bits (n * 2 + 255) 8 (by omega) (by decide)
  rw [show (2:Nat) ^ 64 - 1 - 255 = 2 ^ 64 - 2 ^ 8 from by decide, this,
    show (2:Nat) ^ 8 = 256 from by decide, Nat.mul_comm n 2]

theorem scratchAllocSize_round_up (n : Nat) (h : 2 * n + 255 < U64) :
    scratchAllocSize n % 256 = 0 ∧ 2 * n ≤ scratchAllocSize n ∧
      scratchAllocSize n < 2 * n + 256 := by
  rw [scratchAllocSize_eq n h]
  omega

theorem allocAndFillScratchBuffer_emits (env : Env) (s : State) {sb0 sb1 : stateBuilder}
    {l : List Cmd} (device : DeviceObject) (data usages : List Nat) (memoryTypeIndex : Nat)
    (hidx : GetScratchBufferMemoryIndex s device = some memoryTypeIndex)
    (h : Emits sb0 sb1 l) :
    ∃ r, allocAndFillScratchBuffer env s sb1 device data usages = some r ∧
      ∃ ppData obs obs', obs.Data = .bytes data ∧
      Emits sb0 r.2 (l ++
        [cb (.VkCreateBuffer device.VulkanHandle
            { pNext := none, flags := 0, size := data.length,
              usage := usages.foldl (fun f u => f ||| u) VK_BUFFER_USAGE_TRANSFER_SRC_BIT,
              sharingMode := 0, queueFamilyIndexCount := 0, pQueueFamilyIndices := [] } r.1.1),
          cb (.VkAllocateMemory device.VulkanHandle
            { pNext := none, allocationSize := scratchAllocSize data.length,
              memoryTypeIndex := memoryTypeIndex } r.1.2),
          cb (.VkBindBufferMemory device.VulkanHandle r.1.1 r.1.2 0),
          { call := .VkMapMemory device.VulkanHandle r.1.2 0 data.length 0 ppData,
            Reads := [obs'], Writes := [obs'] },
          { call := .VkFlushMappedMemoryRanges device.VulkanHandle 1
              { memory := r.1.2, offset := 0, size := data.length },
            Reads := [obs], Writes := [] },
          cb (.VkUnmapMemory device.VulkanHandle r.1.2)]) := by
  unfold allocAndFillScratchBuffer
  rw [hidx]
  dsimp only
  refine ⟨_, rfl, ?_⟩
  dsimp only
  refine ⟨?_, ?_, ?_, ?_, ?_⟩
  case refine_5 =>
    apply Emits.cast
    · repeat' first
        | exact h
        | with_reducible apply Emits.afterFreeAlloc env
        | with_reducible apply Emits.afterWrite env
        | with_reducible apply Emits.afterAllocRead env
        | with_reducible apply Emits.afterAllocWrite env
        | with_reducible apply Emits.afterAllocData env
    · simp only [List.append_assoc, List.singleton_append, List.cons_append, List.nil_append]
      exact rfl
  rfl

/-- C14: for scratch data of `n` bytes with `2n + 255 < 2^64`, on a device whose physical
device is in the snapshot, `allocAndFillScratchBuffer` returns and emits the calls
`CreateBuffer`, `AllocateMemory`, `BindBufferMemory`, `MapMemory`,
`FlushMappedMemoryRanges` and `UnmapMemory`; the `allocationSize` of the `AllocateMemory`
is `2n` rounded up to a multiple of 256: it is a multiple of 256, at least `2n` and less
than `2n + 256`. -/
theorem allocAndFillScratchBuffer_allocationSize (env : Env) (s : State) (sb : stateBuilder)
    (device : DeviceObject) (data usages : List Nat) (memoryTypeIndex : Nat)
    (hidx : GetScratchBufferMemoryIndex s device = some memoryTypeIndex)
    (hn : 2 * data.length + 255 < U64) :
    ∃ r info, allocAndFillScratchBuffer env s sb device data usages = some r ∧
      (∃ ppData, r.2.calls = sb.calls ++
        [.VkCreateBuffer device.VulkanHandle
            { pNext := none, flags := 0, size := data.length,
              usage := usages.foldl (fun f u => f ||| u) VK_BUFFER_USAGE_TRANSFER_SRC_BIT,
              sharingMode := 0, queueFamilyIndexCount := 0, pQueueFamilyIndices := [] } r.1.1,
          .VkAllocateMemory device.VulkanHandle info r.1.2,
          .VkBindBufferMemory device.VulkanHandle r.1.1 r.1.2 0,
          .VkMapMemory device.VulkanHandle r.1.2 0 data.length 0 ppData,
          .VkFlushMappedMemoryRanges device.VulkanHandle 1
            { memory := r.1.2, offset := 0, size := data.length },
          .VkUnmapMemory device.VulkanHandle r.1.2]) ∧
      info.allocationSize = (2 * data.length + 255) / 256 * 256 ∧
      info.allocationSize % 256 = 0 ∧ 2 * data.length ≤ info.allocationSize ∧
      info.allocationSize < 2 * data.length + 256 := by
  obtain ⟨r, hr, ppData, obs, obs', _, hemits⟩ :=
    allocAndFillScratchBuffer_emits env s device data usages memoryTypeIndex hidx
      (Emits.none sb)
  have hsize := scratchAllocSize_round_up data.length hn
  refine ⟨r, (⟨none, scratchAllocSize data.length, memoryTypeIndex⟩ : VkMemoryAllocateInfo),
    hr, ⟨ppData, ?_⟩, scratchAllocSize_eq data.length hn, hsize.1, hsize.2.1, hsize.2.2⟩
  rw [hemits.calls_eq]
  rfl

theorem allocAndFillScratchBuffer_allocationSize_witness :
    ∃ r info,
      allocAndFillScratchBuffer refEnv { PhysicalDevices := [examplePhysicalDevice] }
        (initialBuilder refFreeList) exampleDevice [1, 2, 3] [] = some r ∧
      (∃ ppData, r.2.calls = (initialBuilder refFreeList).calls ++
        [.VkCreateBuffer 3
            { pNext := none, flags := 0, size := 3, usage := 1, sharingMode := 0,
              queueFamilyIndexCount := 0, pQueueFamilyIndices := [] } r.1.1,
          .VkAllocateMemory 3 info r.1.2,
          .VkBindBufferMemory 3 r.1.1 r.1.2 0,
          .VkMapMemory 3 r.1.2 0 3 0 ppData,
          .VkFlushMappedMemoryRanges 3 1 { memory := r.1.2, offset := 0, size := 3 },
          .VkUnmapMemory 3 r.1.2]) ∧
      info.allocationSize = 256 ∧
      info.allocationSize % 256 = 0 ∧ 2 * 3 ≤ info.allocationSize ∧
      info.allocationSize < 2 * 3 + 256 :=
  allocAndFillScratchBuffer_allocationSize refEnv { PhysicalDevices := [examplePhysicalDevice] }
    (initialBuilder refFreeList) exampleDevice [1, 2, 3] [] 1 (by decide) (by decide)

theorem createDevice_emits (env : Env) {sb0 sb1 : stateBuilder} {l : List Cmd}
    (d : DeviceObject) (h : Emits sb0 sb1 l) :
    Emits sb0 (createDevice env sb1 d) (l ++
      [cb (.VkCreateDevice d.PhysicalDevice
        { queueCreateInfoCount := (deviceQueueCreateInfos env.mapOrder sb1.cmds.length d).length,
          pQueueCreateInfos := deviceQueueCreateInfos env.mapOrder sb1.cmds.length d,
          enabledLayerCount := (deviceLayers env d).length,
          ppEnabledLayerNames := deviceLayers env d,
          enabledExtensionCount := (deviceExtensions env d).length,
          ppEnabledExtensionNames := deviceExtensions env d,
          pEnabledFeatures := d.EnabledFeatures } d.VulkanHandle)]) := by
  unfold createDevice allocDevice
  dsimp only
  repeat' first
    | exact h
    | with_reducible apply Emits.afterWrite env
    | with_reducible apply Emits.afterAllocRead env
    | with_reducible apply Emits.afterAllocWrite env
    | with_reducible apply Emits.afterAllocNames env
    | with_reducible apply Emits.afterFoldlPairs env
    | (intro _ _; exact ⟨rfl, rfl⟩)

/-- C17: for a device with fewer than `2^32` queues, each with `QueueIndex + 1 < 2^32`,
and a map iteration order that is a permutation, `createDevice` emits one `CreateDevice`
whose queue create infos have distinct families, one for each family of a queue of the
device; the `queueCount` of a family is the number of queues of the device in it; its
priority array has the length `QueueIndex + 1` of one of these queues and is longer than
the index of each of them; it holds zero at the indices that no queue of the family uses,
and, when no two queues of the device have the same family and index, the priority of each
queue of the family at the index of that queue. -/
theorem createDevice_queue_create_infos (env : Env) (horder : env.mapOrder.Valid)
    (sb : stateBuilder) (d : DeviceObject)
    (hidx : ∀ q ∈ d.Queues, q.QueueIndex + 1 < U32) (hlen : d.Queues.length < U32) :
    ∃ info, (createDevice env sb d).calls =
        sb.calls ++ [.VkCreateDevice d.PhysicalDevice info d.VulkanHandle] ∧
      info.queueCreateInfoCount = info.pQueueCreateInfos.length ∧
      QueueCreateInfosOK d info.pQueueCreateInfos := by
  refine ⟨_, (createDevice_emits env d (Emits.none sb)).calls_eq, rfl, ?_⟩
  exact deviceQueueCreateInfos_ok env.mapOrder horder sb.cmds.length d hidx hlen

theorem createDevice_queue_create_infos_witness :
    ∃ info, (createDevice refEnv (initialBuilder refFreeList) exampleDevice).calls =
        (initialBuilder refFreeList).calls ++ [.VkCreateDevice 2 info 3] ∧
      info.queueCreateInfoCount = info.pQueueCreateInfos.length ∧
      QueueCreateInfosOK exampleDevice info.pQueueCreateInfos :=
  createDevice_queue_create_infos refEnv storedOrder_valid (initialBuilder refFreeList)
    exampleDevice (by decide) (by decide)

/-! ## The order of the object kinds (C12) -/

theorem foldlOption_append {α β : Type} (f : α → β → Option α) (l1 l2 : List β) :
    ∀ a, foldlOption f a (l1 ++ l2) = (foldlOption f a l1).bind (fun b => foldlOption f b l2) := by
  induction l1 with
  | nil => intro a; rfl
  | cons x l1 ih =>
    intro a
    simp only [List.cons_append, foldlOption]
    cases f a x with
    | none => rfl
    | some b => exact ih b

theorem rebuildKind_pipelines_irrelevant (env : Env) (s : State) (cps gps cps' gps' : List Nat)
    (k : ObjectKind) (hc : k ≠ .ComputePipeline) (hg : k ≠ .GraphicsPipeline)
    (sb : stateBuilder) :
    rebuildKind env s cps gps k sb = rebuildKind env s cps' gps' k sb := by
  cases k <;> first | rfl | exact absurd rfl hc | exact absurd rfl hg

theorem rebuildKinds_pipelines_irrelevant (env : Env) (s : State)
    (cps gps cps' gps' : List Nat) (kinds : List ObjectKind)
    (hc : ObjectKind.ComputePipeline ∉ kinds) (hg : ObjectKind.GraphicsPipeline ∉ kinds) :
    ∀ sb, rebuildKinds env s cps gps kinds sb = rebuildKinds env s cps' gps' kinds sb := by
  induction kinds with
  | nil => intro sb; rfl
  | cons k ks ih =>
    intro sb
    have hk1 : k ≠ .ComputePipeline := fun e => hc (e ▸ List.mem_cons_self _ _)
    have hk2 : k ≠ .GraphicsPipeline := fun e => hg (e ▸ List.mem_cons_self _ _)
    unfold rebuildKinds at ih ⊢
    simp only [foldlOption]
    rw [rebuildKind_pipelines_irrelevant env s cps gps cps' gps' k hk1 hk2 sb]
    cases rebuildKind env s cps' gps' k sb with
    | none => rfl
    | some b =>
      exact ih (fun h => hc (List.mem_cons_of_mem _ h)) (fun h => hg (List.mem_cons_of_mem _ h)) b

theorem RebuildState_kinds {env : Env} {orderC orderG : MapOrder} {fuel : Nat}
    {freeList : FreeList} {s : State} {cmds : List Cmd} {ivs : List U64Range}
    (hres : RebuildState env orderC orderG fuel freeList s = some (cmds, ivs)) :
    ∃ cps gps sb, getPipelinesInOrder orderC fuel s true = some cps ∧
      getPipelinesInOrder orderG fuel s false = some gps ∧
      rebuildKinds env s cps gps kindOrder (initialBuilder freeList) = some sb ∧
      cmds = sb.cmds ∧ ivs = sb.memoryIntervals := by
  obtain ⟨cps, gps, sb1, sb2, sb3, sb4, h1, h2, h3, h4, h5, h6, h7, h8⟩ :=
    RebuildState_phases hres
  refine ⟨cps, gps, sb4, h2, h4, ?_, h7, h8⟩
  rw [rebuildKinds_pipelines_irrelevant env s [] [] cps gps kindsBeforePipelines (by decide)
    (by decide)] at h1
  have h3' : rebuildKind env s cps gps .ComputePipeline sb1 = some sb2 := h3
  unfold kindOrder rebuildKinds
  unfold rebuildKinds at h1 h6
  rw [foldlOption_append, foldlOption_append, h1]
  simp only [Option.some_bind, foldlOption, h3', h5]
  exact h6

theorem rebuildKinds_segments (env : Env) (hp : PrimerAppends env) (s : State)
    (cps gps : List Nat) :
    ∀ (kinds : List ObjectKind) (sb sb' : stateBuilder),
      rebuildKinds env s cps gps kinds sb = some sb' →
      ∃ segs : List (List Cmd), segs.length = kinds.length ∧ sb'.cmds = sb.cmds ++ segs.flatten ∧
        ∀ i k, kinds[i]? = some k → ∃ sbi sbi',
          rebuildKinds env s cps gps (kinds.take i) sb = some sbi ∧
          rebuildKind env s cps gps k sbi = some sbi' ∧
          sbi'.cmds = sbi.cmds ++ segs.getD i [] := by
  intro kinds
  induction kinds with
  | nil =>
    intro sb sb' h
    simp only [rebuildKinds, foldlOption, Option.some.injEq] at h
    subst h
    exact ⟨[], rfl, by simp, fun i k hk => by simp at hk⟩
  | cons k ks ih =>
    intro sb sb' h
    unfold rebuildKinds at h
    simp only [foldlOption] at h
    cases hk : rebuildKind env s cps gps k sb with
    | none => rw [hk] at h; cases h
    | some a =>
      rw [hk] at h
      obtain ⟨segs, hlen, hcmds, hseg⟩ := ih a sb' h
      obtain ⟨t, ht⟩ := (rebuildKind_step env s cps gps k sb a hk).1 hp
      refine ⟨t :: segs, by simp [hlen], ?_, ?_⟩
      · rw [hcmds, ht, List.flatten_cons, List.append_assoc]
      · intro i k' hk'
        cases i with
        | zero =>
          simp only [List.getElem?_cons_zero, Option.some.injEq] at hk'
          subst hk'
          exact ⟨sb, a, rfl, hk, ht⟩
        | succ i =>
          simp only [List.getElem?_cons_succ] at hk'
          obtain ⟨sbi, sbi', h1, h2, h3⟩ := hseg i k' hk'
          refine ⟨sbi, sbi', ?_, h2, ?_⟩
          · unfold rebuildKinds at h1 ⊢
            simp only [List.take_succ_cons, foldlOption, hk]
            exact h1
          · simpa using h3

theorem refEnv_primerAppends : PrimerAppends refEnv := by
  constructor
  · intro _ sb _ _ _ _
    exact ⟨[], (List.append_nil _).symm⟩
  · intro sb
    exact ⟨[], (List.append_nil _).symm⟩

/-- C12: if the image primer only appends commands to the stream, then every stream
returned by `RebuildState` is the concatenation of 29 segments, one for each kind of
object in the order instances, physical devices, surfaces, devices, queues, swapchains,
device memories, buffers, images, samplers, fences, semaphores, events, command pools,
pipeline caches, descriptor-set layouts, pipeline layouts, render passes, shader modules,
compute pipelines, graphics pipelines, image views, buffer views, descriptor pools,
framebuffers, descriptor sets, query pools, secondary command buffers, primary command
buffers; the segment of a kind holds exactly the commands that the builder calls of the
loop of that kind append, so that each of them precedes every command of each later
kind. -/
theorem RebuildState_kind_order (env : Env) (hp : PrimerAppends env)
    (orderC orderG : MapOrder) (fuel : Nat) (freeList : FreeList) (s : State)
    (cmds : List Cmd) (ivs : List U64Range)
    (hres : RebuildState env orderC orderG fuel freeList s = some (cmds, ivs)) :
    kindOrder = [.Instance, .PhysicalDevice, .Surface, .Device, .Queue, .Swapchain,
      .DeviceMemory, .Buffer, .Image, .Sampler, .Fence, .Semaphore, .Event, .CommandPool,
      .PipelineCache, .DescriptorSetLayout, .PipelineLayout, .RenderPass, .ShaderModule,
      .ComputePipeline, .GraphicsPipeline, .ImageView, .BufferView, .DescriptorPool,
      .Framebuffer, .DescriptorSet, .QueryPool, .SecondaryCommandBuffer,
      .PrimaryCommandBuffer] ∧
    ∃ cps gps, getPipelinesInOrder orderC fuel s true = some cps ∧
      getPipelinesInOrder orderG fuel s false = some gps ∧
      ∃ segs : List (List Cmd), segs.length = kindOrder.length ∧ cmds = segs.flatten ∧
        ∀ i k, kindOrder[i]? = some k → ∃ sb sb',
          rebuildKinds env s cps gps (kindOrder.take i) (initialBuilder freeList) = some sb ∧
          rebuildKind env s cps gps k sb = some sb' ∧
          sb'.cmds = sb.cmds ++ segs.getD i [] := by
  refine ⟨rfl, ?_⟩
  obtain ⟨cps, gps, sb, h1, h2, h3, h4, _⟩ := RebuildState_kinds hres
  obtain ⟨segs, hlen, hcmds, hseg⟩ := rebuildKinds_segments env hp s cps gps kindOrder _ _ h3
  refine ⟨cps, gps, h1, h2, segs, hlen, ?_, hseg⟩
  rw [h4, hcmds]
  rfl

theorem RebuildState_kind_order_witness :
    ∃ cmds ivs,
      RebuildState refEnv storedOrder storedOrder 3 refFreeList snapshotDerivedPipeline =
        some (cmds, ivs) ∧
      ∃ segs : List (List Cmd), segs.length = kindOrder.length ∧ cmds = segs.flatten :=
  ⟨_, _, rfl,
    match (RebuildState_kind_order refEnv refEnv_primerAppends storedOrder storedOrder 3
      refFreeList snapshotDerivedPipeline _ _ rfl).2 with
    | ⟨_, _, _, _, segs, hlen, hcmds, _⟩ => ⟨segs, hlen, hcmds⟩⟩

/-! ## Dependence on the map iteration order (C11) -/

/-- C11: the stream of one snapshot differs between two map iteration orders. On the
snapshot with two instances that own one physical device each and a device with queues in
two families, the `EnumeratePhysicalDevices` calls come for the instances `1, 1, 2, 2`
under one order of the map `devices` and `2, 2, 1, 1` under the reversed order, and the
queue create infos of the `CreateDevice` call come for the families `0, 1` or `1, 0`; on
the snapshot with two compute pipelines without base pipeline, whose base relation has no
cycle, the pipelines are created in the order `1, 2` or `2, 1`. -/
theorem stream_depends_on_map_order :
    (RebuildState refEnv storedOrder storedOrder 1 refFreeList snapshotTwoInstances).map
        (fun r => (enumeratedInstances r.1, queueCreateFamilies r.1)) =
      some ([1, 1, 2, 2], [[0, 1]]) ∧
    (RebuildState refEnvReversed storedOrder storedOrder 1 refFreeList
        snapshotTwoInstances).map
        (fun r => (enumeratedInstances r.1, queueCreateFamilies r.1)) =
      some ([2, 2, 1, 1], [[1, 0]]) ∧
    (RebuildState refEnv storedOrder storedOrder 2 refFreeList snapshotTwoRoots).map
        (fun r => (r.1.map (fun c => c.call)).filterMap pipelineCreated) =
      some [(true, 1, 0), (true, 2, 0)] ∧
    (RebuildState refEnv reversedOrder reversedOrder 2 refFreeList snapshotTwoRoots).map
        (fun r => (r.1.map (fun c => c.call)).filterMap pipelineCreated) =
      some [(true, 2, 0), (true, 1, 0)] ∧
    NoBaseCycle (pipelineBases snapshotTwoRoots true) ∧
    storedOrder.Valid ∧ reversedOrder.Valid := by
  refine ⟨by decide, by decide, by decide, by decide, ?_, storedOrder_valid,
    reversedOrder_valid⟩
  refine noBaseCycle_of_rank _ id ?_
  intro a b hab
  have hps : pipelineBases snapshotTwoRoots true = [(1, 0), (2, 0)] := by decide
  obtain ⟨hm, hb⟩ := hab
  rw [hps] at hm
  simp only [List.mem_cons, List.mem_singleton, List.not_mem_nil, or_false,
    Prod.mk.injEq] at hm
  rcases hm with ⟨rfl, rfl⟩ | ⟨rfl, rfl⟩ <;> exact absurd rfl hb

/-! ## Instances, physical devices, devices and queues (C18) -/

theorem DeviceGroupsInv.add {seen : List PhysicalDeviceObject} {acc : List (Nat × List Nat)}
    (inv : DeviceGroupsInv seen acc) (v : PhysicalDeviceObject) :
    DeviceGroupsInv (seen ++ [v])
      (goMapPut acc v.Instance (goMapGet acc v.Instance [] ++ [v.VulkanHandle])) := by
  constructor
  · rw [goMapPut_keys]
    split
    · exact inv.nodup
    · rename_i hk
      exact List.Nodup.append inv.nodup (List.nodup_singleton _) (by simpa using hk)
  · intro k
    rw [goMapPut_keys]
    split
    · rename_i hk
      rw [inv.mem k]
      constructor
      · rintro ⟨pd, hpd, e⟩
        exact ⟨pd, List.mem_append_left _ hpd, e⟩
      · rintro ⟨pd, hpd, e⟩
        rcases List.mem_append.1 hpd with h1 | h1
        · exact ⟨pd, h1, e⟩
        · rw [List.mem_singleton] at h1
          subst h1
          rw [← e]
          exact (inv.mem _).1 hk
    · rw [List.mem_append, inv.mem k, List.mem_singleton]
      constructor
      · rintro (⟨pd, hpd, e⟩ | e)
        · exact ⟨pd, List.mem_append_left _ hpd, e⟩
        · exact ⟨v, List.mem_append_right _ (List.mem_singleton_self _), e.symm⟩
      · rintro ⟨pd, hpd, e⟩
        rcases List.mem_append.1 hpd with h1 | h1
        · exact Or.inl ⟨pd, h1, e⟩
        · rw [List.mem_singleton] at h1
          subst h1
          exact Or.inr e.symm
  · intro k
    rw [goMapGet_put, List.filter_append, List.map_append]
    by_cases hk : k = v.Instance
    · subst hk
      rw [if_pos rfl, inv.devices]
      simp
    · rw [if_neg hk, inv.devices]
      have : (v.Instance == k) = false := by
        simp only [beq_eq_false_iff_ne, ne_eq]
        exact fun e => hk e.symm
      simp [this]

theorem DeviceGroupsInv.after (l : List PhysicalDeviceObject) :
    ∀ (seen : List PhysicalDeviceObject) (acc : List (Nat × List Nat)),
      DeviceGroupsInv seen acc →
      DeviceGroupsInv (seen ++ l) (l.foldl (fun devices v =>
        goMapPut devices v.Instance (goMapGet devices v.Instance [] ++ [v.VulkanHandle])) acc) := by
  induction l with
  | nil => intro seen acc inv; simpa using inv
  | cons v l ih =>
    intro seen acc inv
    rw [List.foldl_cons]
    have := ih (seen ++ [v]) _ (inv.add v)
    simpa using this

theorem physicalDeviceGroups_inv (m : List PhysicalDeviceObject) :
    DeviceGroupsInv m (physicalDeviceGroups m) := by
  have := DeviceGroupsInv.after m [] []
    ⟨List.nodup_nil, fun k => by simp, fun k => by simp [goMapGet]⟩
  simpa using this

theorem Emits.foldl_calls {β : Type} (f : stateBuilder → β → stateBuilder)
    (g : β → List VkCall) (xs : List β)
    (hf : ∀ x ∈ xs, ∀ (sb0 sb1 : stateBuilder) (l : List Cmd), Emits sb0 sb1 l →
      Emits sb0 (f sb1 x) (l ++ (g x).map cb)) :
    ∀ (sb0 sb1 : stateBuilder) (l : List Cmd), Emits sb0 sb1 l →
      Emits sb0 (xs.foldl f sb1) (l ++ (xs.flatMap g).map cb) := by
  induction xs with
  | nil =>
    intro sb0 sb1 l h
    simpa using h
  | cons x xs ih =>
    intro sb0 sb1 l h
    rw [List.foldl_cons]
    have h1 := hf x (List.mem_cons_self _ _) sb0 sb1 l h
    have h2 := ih (fun y hy => hf y (List.mem_cons_of_mem _ hy)) sb0 _ _ h1
    refine h2.cast ?_
    simp [List.flatMap_cons, List.append_assoc]

theorem Emits.foldl_rel {β : Type} (f : stateBuilder → β → stateBuilder)
    (R : β → VkCall → Prop)
    (hf : ∀ x (sb0 sb1 : stateBuilder) (l : List Cmd), Emits sb0 sb1 l →
      ∃ c, R x c ∧ Emits sb0 (f sb1 x) (l ++ [cb c])) (xs : List β) :
    ∀ (sb0 sb1 : stateBuilder) (l : List Cmd), Emits sb0 sb1 l →
      ∃ cs, List.Forall₂ R xs cs ∧ Emits sb0 (xs.foldl f sb1) (l ++ cs.map cb) := by
  induction xs with
  | nil =>
    intro sb0 sb1 l h
    exact ⟨[], List.Forall₂.nil, by simpa using h⟩
  | cons x xs ih =>
    intro sb0 sb1 l h
    rw [List.foldl_cons]
    obtain ⟨c, hc, h1⟩ := hf x sb0 sb1 l h
    obtain ⟨cs, hcs, h2⟩ := ih sb0 _ _ h1
    refine ⟨c :: cs, List.Forall₂.cons hc hcs, h2.cast ?_⟩
    simp [List.append_assoc]

theorem createInstance_emits (env : Env) {sb0 sb1 : stateBuilder} {l : List Cmd}
    (inst : InstanceObject) (h : Emits sb0 sb1 l) :
    Emits sb0 (createInstance env sb1 inst) (l ++
      [cb (.VkCreateInstance
        { enabledLayerCount := inst.EnabledLayers.length,
          ppEnabledLayerNames := instanceLayers env inst,
          enabledExtensionCount := inst.EnabledExtensions.length,
          ppEnabledExtensionNames := instanceExtensions env inst } inst.VulkanHandle)]) := by
  unfold createInstance allocInstance
  dsimp only
  repeat' first
    | exact h
    | with_reducible apply Emits.afterWrite env
    | with_reducible apply Emits.afterAllocRead env
    | with_reducible apply Emits.afterAllocWrite env
    | with_reducible apply Emits.afterAllocNames env

theorem createQueue_emits (env : Env) {sb0 sb1 : stateBuilder} {l : List Cmd}
    (q : QueueObject) (h : Emits sb0 sb1 l) :
    Emits sb0 (createQueue env sb1 q) (l ++ [cb (expectedQueueCall q)]) := by
  unfold createQueue expectedQueueCall
  dsimp only
  repeat' first
    | exact h
    | with_reducible apply Emits.afterWrite env
    | with_reducible apply Emits.afterAllocWrite env

theorem find?_handle_of_nodup (m : List PhysicalDeviceObject)
    (hnd : (m.map (fun pd => pd.VulkanHandle)).Nodup) (pd : PhysicalDeviceObject)
    (hpd : pd ∈ m) : m.find? (fun o => o.VulkanHandle == pd.VulkanHandle) = some pd := by
  induction m with
  | nil => cases hpd
  | cons x m ih =>
    rw [List.map_cons, List.nodup_cons] at hnd
    rcases List.mem_cons.1 hpd with h1 | h1
    · subst h1
      simp
    · have hne : x.VulkanHandle ≠ pd.VulkanHandle := by
        intro e
        exact hnd.1 (e ▸ List.mem_map.2 ⟨pd, h1, rfl⟩)
      have : (x.VulkanHandle == pd.VulkanHandle) = false := by simpa using hne
      simp only [List.find?_cons, this]
      exact ih hnd.2 h1

theorem physicalDeviceStep_emits (env : Env) (m : List PhysicalDeviceObject)
    (hnd : (m.map (fun pd => pd.VulkanHandle)).Nodup) (pd : PhysicalDeviceObject)
    (hpd : pd ∈ m) {sb0 sb1 : stateBuilder} {l : List Cmd} (h : Emits sb0 sb1 l) :
    Emits sb0 (physicalDeviceStep env m sb1 pd.VulkanHandle)
      (l ++ (expectedPhysicalDeviceCalls pd).map cb) := by
  unfold physicalDeviceStep
  rw [find?_handle_of_nodup m hnd pd hpd]
  dsimp only
  apply Emits.cast
  · repeat' first
      | exact h
      | with_reducible apply Emits.afterWrite env
      | with_reducible apply Emits.afterAllocRead env
      | with_reducible apply Emits.afterAllocWrite env
  · simp [expectedPhysicalDeviceCalls, List.append_assoc]

theorem physicalDeviceGroupStep_emits (env : Env) (m : List PhysicalDeviceObject)
    (hnd : (m.map (fun pd => pd.VulkanHandle)).Nodup) (g : Nat × List PhysicalDeviceObject)
    (hg : ∀ pd ∈ g.2, pd ∈ m) {sb0 sb1 : stateBuilder} {l : List Cmd} (h : Emits sb0 sb1 l) :
    Emits sb0
      (physicalDeviceGroupStep env m sb1 (g.1, g.2.map (fun pd => pd.VulkanHandle)))
      (l ++ (expectedInstanceGroupCalls g).map cb) := by
  unfold physicalDeviceGroupStep
  dsimp only
  rw [List.foldl_map]
  apply Emits.cast
  · apply Emits.foldl_calls (fun sb pd => physicalDeviceStep env m sb pd.VulkanHandle)
      expectedPhysicalDeviceCalls g.2
    · intro pd hpd sb0 sb1 l h
      exact physicalDeviceStep_emits env m hnd pd (hg pd hpd) h
    · repeat' first
        | exact h
        | with_reducible apply Emits.afterWrite env
        | with_reducible apply Emits.afterAllocRead env
        | with_reducible apply Emits.afterAllocWrite env
  · simp [expectedInstanceGroupCalls, List.append_assoc]

theorem createPhysicalDevices_emits (env : Env) (horder : env.mapOrder.Valid)
    (m : List PhysicalDeviceObject) (hnd : (m.map (fun pd => pd.VulkanHandle)).Nodup)
    {sb0 sb1 : stateBuilder} {l : List Cmd} (h : Emits sb0 sb1 l) :
    ∃ groups, InstanceGroupsOK m groups ∧
      Emits sb0 (createPhysicalDevices env sb1 m)
        (l ++ (groups.flatMap expectedInstanceGroupCalls).map cb) := by
  unfold createPhysicalDevices
  have inv := physicalDeviceGroups_inv m
  have hperm := goMapRange_perm env.mapOrder horder sb1.cmds.length (physicalDeviceGroups m)
  generalize goMapRange env.mapOrder sb1.cmds.length (physicalDeviceGroups m) = hgs at hperm
  have hmem : ∀ hg ∈ hgs, hg = (hg.1,
      (m.filter (fun pd => pd.Instance == hg.1)).map (fun pd => pd.VulkanHandle)) := by
    intro hg hhg
    have h1 : hg ∈ physicalDeviceGroups m := hperm.mem_iff.1 hhg
    have h2 := goMapGet_of_mem _ inv.nodup hg.1 hg.2 [] h1
    rw [inv.devices] at h2
    rw [h2]
  refine ⟨hgs.map (fun hg => (hg.1, m.filter (fun pd => pd.Instance == hg.1))), ?_, ?_⟩
  · constructor
    · rw [List.map_map]
      exact (hperm.map Prod.fst).nodup_iff.2 inv.nodup
    · intro i
      rw [List.map_map]
      have : (Prod.fst ∘ fun hg : Nat × List Nat =>
          (hg.1, m.filter (fun pd => pd.Instance == hg.1))) = Prod.fst := rfl
      rw [this, (hperm.map Prod.fst).mem_iff]
      exact inv.mem i
    · intro g hg
      obtain ⟨hg', _, rfl⟩ := List.mem_map.1 hg
      rfl
  · have := Emits.foldl_calls (physicalDeviceGroupStep env m)
      (fun hg => expectedInstanceGroupCalls (hg.1, m.filter (fun pd => pd.Instance == hg.1)))
      hgs (by
        intro hg hhg sb0 sb1 l h
        have e := hmem hg hhg
        have := physicalDeviceGroupStep_emits env m hnd
          (hg.1, m.filter (fun pd => pd.Instance == hg.1))
          (fun pd hpd => (List.mem_filter.1 hpd).1) h
        dsimp only at this
        rw [← e] at this
        exact this) sb0 sb1 l h
    refine this.cast ?_
    rw [List.flatMap_map]

theorem deviceQueueCreateInfos_perm (order : MapOrder) (horder : order.Valid) (n : Nat)
    (d : DeviceObject) :
    (deviceQueueCreateInfos order n d).Perm (deviceQueueCreateInfos storedOrder 0 d) := by
  unfold deviceQueueCreateInfos
  dsimp only
  exact ((goMapRange_perm order horder n _).trans
    (goMapRange_perm storedOrder storedOrder_valid 0 _).symm).map _

theorem createDevice_emits_expected (env : Env) (horder : env.mapOrder.Valid)
    (d : DeviceObject) (sb0 sb1 : stateBuilder) (l : List Cmd) (h : Emits sb0 sb1 l) :
    ∃ c, ExpectedDeviceCall d c ∧ Emits sb0 (createDevice env sb1 d) (l ++ [cb c]) :=
  ⟨_, ⟨_, _, _, deviceQueueCreateInfos_perm env.mapOrder horder sb1.cmds.length d,
      goRange_perm env.mapOrder horder _ d.EnabledLayers,
      goRange_perm env.mapOrder horder _ d.EnabledExtensions, rfl⟩,
    createDevice_emits env d h⟩

theorem createInstance_emits_expected (env : Env) (horder : env.mapOrder.Valid)
    (inst : InstanceObject) (sb0 sb1 : stateBuilder) (l : List Cmd) (h : Emits sb0 sb1 l) :
    ∃ c, ExpectedInstanceCall inst c ∧
      Emits sb0 (createInstance env sb1 inst) (l ++ [cb c]) := by
  have hl := goRange_perm env.mapOrder horder (rangeId 360 inst.VulkanHandle)
    inst.EnabledLayers
  have he := goRange_perm env.mapOrder horder (rangeId 364 inst.VulkanHandle)
    inst.EnabledExtensions
  refine ⟨_, ⟨_, _, hl, he, rfl⟩, ?_⟩
  rw [hl.length_eq, he.length_eq]
  exact createInstance_emits env inst h

theorem getPipelinesInOrder_empty (order : MapOrder) (fuel : Nat) (s : State) (compute : Bool)
    (h : pipelineBases s compute = []) :
    getPipelinesInOrder order (fuel + 1) s compute = some [] := by
  unfold getPipelinesInOrder pipelinesInOrder
  rw [h]
  rfl

theorem RebuildState_snapshotOfDevices (env : Env) (orderC orderG : MapOrder) (fuel : Nat)
    (freeList : FreeList) (is : List InstanceObject) (pds : List PhysicalDeviceObject)
    (ds : List DeviceObject) (qs : List QueueObject) :
    RebuildState env orderC orderG (fuel + 1) freeList (snapshotOfDevices is pds ds qs) =
      some ((env.primerFree (qs.foldl (createQueue env) (ds.foldl (createDevice env)
          (createPhysicalDevices env (is.foldl (createInstance env) (initialBuilder freeList))
            pds)))).cmds,
        (env.primerFree (qs.foldl (createQueue env) (ds.foldl (createDevice env)
          (createPhysicalDevices env (is.foldl (createInstance env) (initialBuilder freeList))
            pds)))).memoryIntervals) := by
  unfold RebuildState
  rw [getPipelinesInOrder_empty orderC fuel (snapshotOfDevices is pds ds qs) true rfl,
    getPipelinesInOrder_empty orderG fuel (snapshotOfDevices is pds ds qs) false rfl]
  rfl

theorem flatMap_single {α β : Type} (f : α → β) (l : List α) :
    l.flatMap (fun x => [f x]) = l.map f := by
  induction l with
  | nil => rfl
  | cons x l ih => simp only [List.flatMap_cons, List.map_cons, ih, List.singleton_append]

theorem map_call_map_cb (l : List VkCall) : (l.map cb).map (fun c => c.call) = l := by
  induction l with
  | nil => rfl
  | cons x l ih => simp only [List.map_cons, ih]; rfl

/-- C18: for every snapshot that holds only instances, physical devices (with distinct
handles), devices and queues, if the map iteration order is a permutation and the release
of the image primer, which has primed no image, emits no command, then `RebuildState`
returns and the calls of the stream are: `CreateInstance` for each instance (its layer
and extension names in some order, as the `range` over the Go maps yields them); then, for
each instance that owns physical devices, once and in some order of these instances, two
`EnumeratePhysicalDevices` followed for each physical device of the instance by
`GetPhysicalDeviceProperties`, `GetPhysicalDeviceMemoryProperties` and two
`GetPhysicalDeviceQueueFamilyProperties`; then one `CreateDevice` for each device (its
queue create infos and its names each in some order); then `GetDeviceQueue(family, index)`
for each queue. On the snapshot with one instance, one
physical device, one device and one queue of family `0`, index `0` and priority `1.0`
(`1065353216` as bits) these are the nine calls of scenario S2, the `CreateDevice` with
the single queue create info of family `0`, count `1` and priorities `[1.0]`. -/
theorem RebuildState_devices_stream :
    (∀ (env : Env), env.mapOrder.Valid → (∀ sb, (env.primerFree sb).cmds = sb.cmds) →
      ∀ (orderC orderG : MapOrder) (fuel : Nat) (freeList : FreeList)
        (is : List InstanceObject) (pds : List PhysicalDeviceObject) (ds : List DeviceObject)
        (qs : List QueueObject), (pds.map (fun pd => pd.VulkanHandle)).Nodup →
      ∃ cmds ivs instanceCalls groups deviceCalls,
        RebuildState env orderC orderG (fuel + 1) freeList (snapshotOfDevices is pds ds qs) =
          some (cmds, ivs) ∧
        List.Forall₂ ExpectedInstanceCall is instanceCalls ∧
        InstanceGroupsOK pds groups ∧ List.Forall₂ ExpectedDeviceCall ds deviceCalls ∧
        cmds.map (fun c => c.call) =
          instanceCalls ++ groups.flatMap expectedInstanceGroupCalls ++
            deviceCalls ++ qs.map expectedQueueCall) ∧
    (RebuildState refEnv storedOrder storedOrder 1 refFreeList snapshotOneQueue).map
        (fun r => r.1.map (fun c => c.call)) =
      some [.VkCreateInstance ⟨0, [], 0, []⟩ 1,
        .VkEnumeratePhysicalDevices 1 1 none,
        .VkEnumeratePhysicalDevices 1 1 (some [2]),
        .VkGetPhysicalDeviceProperties 2 [],
        .VkGetPhysicalDeviceMemoryProperties 2 examplePhysicalDevice.MemoryProperties,
        .VkGetPhysicalDeviceQueueFamilyProperties 2 1 none,
        .VkGetPhysicalDeviceQueueFamilyProperties 2 1
          (some examplePhysicalDevice.QueueFamilyProperties),
        .VkCreateDevice 2 ⟨1, [⟨0, 1, [1065353216]⟩], 0, [], 0, [], []⟩ 3,
        .VkGetDeviceQueue 3 0 0 4] := by
  refine ⟨?_, by decide⟩
  intro env horder hfree orderC orderG fuel freeList is pds ds qs hnd
  obtain ⟨ics, hi, h1⟩ := Emits.foldl_rel (createInstance env) ExpectedInstanceCall
    (createInstance_emits_expected env horder) is _ _ _
    (Emits.none (initialBuilder freeList))
  obtain ⟨groups, hg, h2⟩ := createPhysicalDevices_emits env horder pds hnd h1
  obtain ⟨dcs, hd, h3⟩ := Emits.foldl_rel (createDevice env) ExpectedDeviceCall
    (createDevice_emits_expected env horder) ds _ _ _ h2
  have h4 := Emits.foldl_calls (createQueue env) (fun q => [expectedQueueCall q]) qs
    (fun x _ sb0 sb1 l h => createQueue_emits env x h) _ _ _ h3
  refine ⟨_, _, ics, groups, dcs, RebuildState_snapshotOfDevices env orderC orderG fuel
    freeList is pds ds qs, hi, hg, hd, ?_⟩
  rw [hfree]
  have h5 := h4.calls_eq
  unfold stateBuilder.calls at h5
  rw [h5]
  simp only [initialBuilder, List.map_nil, List.nil_append, List.map_append, map_call_map_cb,
    flatMap_single]

theorem RebuildState_devices_stream_witness :
    ∃ cmds ivs instanceCalls groups deviceCalls,
      RebuildState refEnv storedOrder storedOrder 1 refFreeList
          (snapshotOfDevices [{ VulkanHandle := 1 }] [examplePhysicalDevice] [exampleDevice]
            [⟨4, 3, 0, 0⟩]) =
        some (cmds, ivs) ∧
      List.Forall₂ ExpectedInstanceCall [{ VulkanHandle := 1 }] instanceCalls ∧
      InstanceGroupsOK [examplePhysicalDevice] groups ∧
      List.Forall₂ ExpectedDeviceCall [exampleDevice] deviceCalls ∧
      cmds.map (fun c => c.call) =
        instanceCalls ++ groups.flatMap expectedInstanceGroupCalls ++ deviceCalls ++
          [⟨4, 3, 0, 0⟩].map expectedQueueCall :=
  RebuildState_devices_stream.1 refEnv storedOrder_valid (fun _ => rfl) storedOrder
    storedOrder 0 refFreeList [{ VulkanHandle := 1 }] [examplePhysicalDevice] [exampleDevice]
    [⟨4, 3, 0, 0⟩] (by decide)

/-! ## Dense buffers (C19) -/

theorem getCommandBuffer_emits (env : Env) (s : State) {sb0 sb1 : stateBuilder}
    {l : List Cmd} (queue : QueueObject) (h : Emits sb0 sb1 l) :
    Emits sb0 (getCommandBuffer env s sb1 queue).2 (l ++
      [cb (.VkCreateCommandPool queue.Device 0 queue.Family
          (getCommandBuffer env s sb1 queue).1.2),
        cb (.VkAllocateCommandBuffers queue.Device (getCommandBuffer env s sb1 queue).1.2 0 1
          (getCommandBuffer env s sb1 queue).1.1),
        cb (.VkBeginCommandBuffer (getCommandBuffer env s sb1 queue).1.1 0 none)]) := by
  unfold getCommandBuffer
  dsimp only
  apply Emits.cast
  · repeat' first
      | exact h
      | with_reducible apply Emits.afterWrite env
      | with_reducible apply Emits.afterAllocRead env
      | with_reducible apply Emits.afterAllocWrite env
  · simp only [List.append_assoc, List.singleton_append, List.cons_append, List.nil_append]

theorem getCommandBuffer_ids (env : Env) (s : State) (sb sb' : stateBuilder)
    (queue : QueueObject) :
    (getCommandBuffer env s sb queue).1 = (getCommandBuffer env s sb' queue).1 := rfl

theorem writeBufferBarrier_emits (env : Env) {sb0 sb1 : stateBuilder} {l : List Cmd}
    (commandBuffer : Nat) (b : VkBufferMemoryBarrier) (h : Emits sb0 sb1 l) :
    Emits sb0 (writeBufferBarrier env sb1 commandBuffer b) (l ++
      [cb (.VkCmdPipelineBarrier commandBuffer VK_PIPELINE_STAGE_ALL_COMMANDS_BIT
        VK_PIPELINE_STAGE_ALL_COMMANDS_BIT 0 [b] [])]) := by
  unfold writeBufferBarrier
  dsimp only
  repeat' first
    | exact h
    | with_reducible apply Emits.afterWrite env
    | with_reducible apply Emits.afterAllocRead env

theorem endSubmitAndDestroyCommandBuffer_emits (env : Env) {sb0 sb1 : stateBuilder}
    {l : List Cmd} (queue : QueueObject) (commandBuffer commandPool : Nat)
    (h : Emits sb0 sb1 l) :
    Emits sb0 (endSubmitAndDestroyCommandBuffer env sb1 queue commandBuffer commandPool) (l ++
      [cb (.VkEndCommandBuffer commandBuffer),
        cb (.VkQueueSubmit queue.VulkanHandle 1
          { commandBufferCount := 1, pCommandBuffers := [commandBuffer],
            signalSemaphoreCount := 0, pSignalSemaphores := [] } 0),
        cb (.VkQueueWaitIdle queue.VulkanHandle),
        cb (.VkDestroyCommandPool queue.Device commandPool)]) := by
  unfold endSubmitAndDestroyCommandBuffer
  dsimp only
  apply Emits.cast
  · repeat' first
      | exact h
      | with_reducible apply Emits.afterWrite env
      | with_reducible apply Emits.afterAllocRead env
  · simp only [List.append_assoc, List.singleton_append, List.cons_append, List.nil_append]

theorem freeScratchBuffer_emits (env : Env) {sb0 sb1 : stateBuilder} {l : List Cmd}
    (device : DeviceObject) (buffer mem : Nat) (h : Emits sb0 sb1 l) :
    Emits sb0 (freeScratchBuffer env sb1 device buffer mem) (l ++
      [cb (.VkDestroyBuffer device.VulkanHandle buffer),
        cb (.VkFreeMemory device.VulkanHandle mem)]) := by
  unfold freeScratchBuffer
  dsimp only
  apply Emits.cast
  · repeat' first
      | exact h
      | with_reducible apply Emits.afterWrite env
  · simp only [List.append_assoc, List.singleton_append, List.cons_append, List.nil_append]

theorem createBufferAndMemory_emits (env : Env) {sb0 sb1 : stateBuilder} {l : List Cmd}
    (buffer : BufferObject) (memory : DeviceMemoryObject)
    (hmem : buffer.Memory = some memory) (hb : buffer.Info.DedicatedAllocationNV = none)
    (hm : memory.DedicatedAllocationNV = none) (h : Emits sb0 sb1 l) :
    Emits sb0 (createBufferAndMemory env sb1 buffer) (l ++
      [cb (.VkCreateBuffer buffer.Device
          { pNext := none, flags := buffer.Info.CreateFlags, size := buffer.Info.Size,
            usage := (buffer.Info.Usage % U32) ||| VK_BUFFER_USAGE_TRANSFER_DST_BIT,
            sharingMode := buffer.Info.SharingMode,
            queueFamilyIndexCount := buffer.Info.QueueFamilyIndices.length,
            pQueueFamilyIndices := buffer.Info.QueueFamilyIndices } buffer.VulkanHandle),
        cb (.VkGetBufferMemoryRequirements buffer.Device buffer.VulkanHandle
          buffer.MemoryRequirements)]) := by
  unfold createBufferAndMemory allocBuffer
  simp only [hmem, hb, hm, Option.isSome_none, Bool.or_self, Bool.false_eq_true, if_false]
  apply Emits.cast
  · repeat' first
      | exact h
      | with_reducible apply Emits.afterWrite env
      | with_reducible apply Emits.afterAllocRead env
      | with_reducible apply Emits.afterAllocWrite env
  · simp only [List.append_assoc, List.singleton_append, List.cons_append, List.nil_append]

theorem Slice_length (data : List Nat) (a b : Nat) : (Slice data a b).length = b - a := by
  unfold Slice
  rw [List.length_map, List.length_range]

theorem fillBuffer_emits (env : Env) (s : State) {sb0 sb1 : stateBuilder} {l : List Cmd}
    (buffer : BufferObject) (device : DeviceObject) (queue : QueueObject)
    (contents : List Nat) (copies : List VkBufferCopy) (memoryTypeIndex : Nat)
    (hdev : s.Device buffer.Device = some device)
    (hidx : GetScratchBufferMemoryIndex s device = some memoryTypeIndex)
    (h : Emits sb0 sb1 l) :
    ∃ sb', fillBuffer env s sb1 buffer (some queue) contents copies none = some sb' ∧
      ∃ (L : List Cmd) (scratchBuffer scratchMemory commandBuffer commandPool ppData : Nat),
        Emits sb0 sb' (l ++ L) ∧
        L.map (fun c => c.call) =
          [.VkCreateBuffer device.VulkanHandle
              { pNext := none, flags := 0, size := contents.length,
                usage := VK_BUFFER_USAGE_TRANSFER_SRC_BIT, sharingMode := 0,
                queueFamilyIndexCount := 0, pQueueFamilyIndices := [] } scratchBuffer,
            .VkAllocateMemory device.VulkanHandle
              { pNext := none, allocationSize := scratchAllocSize contents.length,
                memoryTypeIndex := memoryTypeIndex } scratchMemory,
            .VkBindBufferMemory device.VulkanHandle scratchBuffer scratchMemory 0,
            .VkMapMemory device.VulkanHandle scratchMemory 0 contents.length 0 ppData,
            .VkFlushMappedMemoryRanges device.VulkanHandle 1
              { memory := scratchMemory, offset := 0, size := contents.length },
            .VkUnmapMemory device.VulkanHandle scratchMemory,
            .VkCreateCommandPool queue.Device 0 queue.Family commandPool,
            .VkAllocateCommandBuffers queue.Device commandPool 0 1 commandBuffer,
            .VkBeginCommandBuffer commandBuffer 0 none,
            .VkCmdPipelineBarrier commandBuffer VK_PIPELINE_STAGE_ALL_COMMANDS_BIT
              VK_PIPELINE_STAGE_ALL_COMMANDS_BIT 0
              [bufferBarrier 0 0 scratchBuffer contents.length] [],
            .VkCmdCopyBuffer commandBuffer scratchBuffer buffer.VulkanHandle copies.length
              copies,
            .VkCmdPipelineBarrier commandBuffer VK_PIPELINE_STAGE_ALL_COMMANDS_BIT
              VK_PIPELINE_STAGE_ALL_COMMANDS_BIT 0
              [bufferBarrier 0 0 buffer.VulkanHandle contents.length] [],
            .VkEndCommandBuffer commandBuffer,
            .VkQueueSubmit queue.VulkanHandle 1
              { commandBufferCount := 1, pCommandBuffers := [commandBuffer],
                signalSemaphoreCount := 0, pSignalSemaphores := [] } 0,
            .VkQueueWaitIdle queue.VulkanHandle,
            .VkDestroyCommandPool queue.Device commandPool,
            .VkDestroyBuffer device.VulkanHandle scratchBuffer,
            .VkFreeMemory device.VulkanHandle scratchMemory] ∧
        ∀ c ∈ L, ∀ dev n r, c.call = .VkFlushMappedMemoryRanges dev n r →
          ∃ o ∈ c.Reads, o.Data = .bytes contents := by
  unfold fillBuffer
  rw [hdev]
  dsimp only
  obtain ⟨r, hr, ppData, obs, obs', hobs, hem⟩ :=
    allocAndFillScratchBuffer_emits env s device contents [VK_BUFFER_USAGE_TRANSFER_SRC_BIT]
      memoryTypeIndex hidx h
  rw [hr]
  dsimp only
  refine ⟨_, rfl, ?_⟩
  refine ⟨?L, ?_, ?_, ?_, ?_, ?_, ?emits, ?calls, ?flush⟩
  case emits =>
    apply Emits.cast
    · repeat' first
        | exact hem
        | with_reducible apply Emits.afterWrite env
        | with_reducible apply Emits.afterAllocRead env
        | with_reducible apply writeBufferBarrier_emits env
        | with_reducible apply endSubmitAndDestroyCommandBuffer_emits env
        | with_reducible apply freeScratchBuffer_emits env
        | with_reducible apply getCommandBuffer_emits env s
    · simp only [List.append_assoc, List.singleton_append, List.cons_append, List.nil_append]
      exact rfl
  case calls =>
    exact rfl
  case flush =>
    intro c hc dev n rr hcall
    simp only [List.mem_cons, List.mem_singleton, List.not_mem_nil, or_false] at hc
    rcases hc with rfl | rfl | rfl | rfl | rfl | rfl | rfl | rfl | rfl | rfl | rfl | rfl | rfl |
      rfl | rfl | rfl | rfl | rfl
    all_goals first
      | exact ⟨obs, List.mem_singleton_self _, hobs⟩
      | (exfalso; cases hcall)

theorem createBuffer_dense_eq (env : Env) (s : State) (sb : stateBuilder)
    (buffer : BufferObject) (memory : DeviceMemoryObject) (queue : QueueObject)
    (hmem : buffer.Memory = some memory) (hsparse : buffer.SparseMemoryBindings = [])
    (hqueue : getQueueFor env.mapOrder (rangeId 1023 buffer.VulkanHandle) s
      buffer.LastBoundQueue buffer.Device (some buffer.Info.QueueFamilyIndices) = some queue) :
    createBuffer env s sb buffer =
      fillBuffer env s
        (write env (createBufferAndMemory env sb buffer)
          (cb (.VkBindBufferMemory buffer.Device buffer.VulkanHandle memory.VulkanHandle
            buffer.MemoryOffset)))
        buffer (some queue)
        (Slice memory.Data buffer.MemoryOffset ((buffer.MemoryOffset + buffer.Info.Size) % U64))
        [{ srcOffset := 0, dstOffset := 0, size := buffer.Info.Size }] none := by
  unfold createBuffer bindAndFillBuffer bufferDensePath
  simp only [hmem, hsparse, hqueue, Option.isSome_some, List.length_nil, gt_iff_lt,
    lt_self_iff_false, decide_False, Bool.not_true, Bool.not_false, Bool.and_true,
    Bool.false_and, Bool.false_eq_true, if_false]

/-- C19: for a buffer bound to a memory, where neither the buffer nor the memory has
dedicated allocation info, without sparse bindings, for which `getQueueFor` finds a queue,
whose device and the physical device of it are in the snapshot, and with
`memoryOffset + size < 2^64`, `createBuffer` returns and appends to the stream exactly the
21 commands `CreateBuffer` (usage with `TRANSFER_DST` added),
`GetBufferMemoryRequirements`, `BindBufferMemory` (at the memory offset of the buffer),
`CreateBuffer` (the scratch buffer), `AllocateMemory`, `BindBufferMemory` (offset `0`),
`MapMemory`, `FlushMappedMemoryRanges`, `UnmapMemory`, `CreateCommandPool`,
`AllocateCommandBuffers`, `BeginCommandBuffer`, `CmdPipelineBarrier`, `CmdCopyBuffer`,
`CmdPipelineBarrier`, `EndCommandBuffer`, `QueueSubmit`, `QueueWaitIdle`,
`DestroyCommandPool`, `DestroyBuffer`, `FreeMemory`; the copy has the single region of
source offset `0`, destination offset `0` and the size of the buffer, and the flush has a
read observation that holds the bytes `[memoryOffset, memoryOffset + size)` of the memory
of the snapshot. -/
theorem createBuffer_dense (env : Env) (s : State) (sb : stateBuilder)
    (buffer : BufferObject) (memory : DeviceMemoryObject) (device : DeviceObject)
    (queue : QueueObject) (memoryTypeIndex : Nat)
    (hmem : buffer.Memory = some memory) (hb : buffer.Info.DedicatedAllocationNV = none)
    (hm : memory.DedicatedAllocationNV = none) (hsparse : buffer.SparseMemoryBindings = [])
    (hqueue : getQueueFor env.mapOrder (rangeId 1023 buffer.VulkanHandle) s
      buffer.LastBoundQueue buffer.Device (some buffer.Info.QueueFamilyIndices) = some queue)
    (hdev : s.Device buffer.Device = some device)
    (hidx : GetScratchBufferMemoryIndex s device = some memoryTypeIndex)
    (hsize : buffer.MemoryOffset + buffer.Info.Size < U64) :
    ∃ sb' t scratchBuffer scratchMemory commandBuffer commandPool ppData,
      createBuffer env s sb buffer = some sb' ∧ sb'.cmds = sb.cmds ++ t ∧
      t.map (fun c => c.call) = expectedDenseBufferCalls buffer memory device queue
        memoryTypeIndex scratchBuffer scratchMemory commandBuffer commandPool ppData ∧
      ∀ c ∈ t, ∀ dev n r, c.call = .VkFlushMappedMemoryRanges dev n r →
        ∃ o ∈ c.Reads, o.Data = .bytes
          (Slice memory.Data buffer.MemoryOffset (buffer.MemoryOffset + buffer.Info.Size)) := by
  rw [createBuffer_dense_eq env s sb buffer memory queue hmem hsparse hqueue,
    Nat.mod_eq_of_lt hsize]
  have h1 := (createBufferAndMemory_emits env buffer memory hmem hb hm (Emits.none sb)).afterWrite
    env (cb (.VkBindBufferMemory buffer.Device buffer.VulkanHandle memory.VulkanHandle
      buffer.MemoryOffset))
  obtain ⟨sb', hsb', L, scratchBuffer, scratchMemory, commandBuffer, commandPool, ppData,
    hem, hcalls, hflush⟩ := fillBuffer_emits env s buffer device queue
      (Slice memory.Data buffer.MemoryOffset (buffer.MemoryOffset + buffer.Info.Size))
      [{ srcOffset := 0, dstOffset := 0, size := buffer.Info.Size }] memoryTypeIndex hdev hidx h1
  have hlen : (Slice memory.Data buffer.MemoryOffset
      (buffer.MemoryOffset + buffer.Info.Size)).length = buffer.Info.Size := by
    rw [Slice_length]
    omega
  rw [hlen] at hcalls
  obtain ⟨t, ht, htcalls, htmem⟩ := hem.extends
  refine ⟨sb', t, scratchBuffer, scratchMemory, commandBuffer, commandPool, ppData, hsb', ht,
    ?_, ?_⟩
  · rw [htcalls]
    simp only [List.map_append, List.nil_append, List.map_cons, List.map_nil, hcalls]
    rfl
  · intro c' hc' dev n r hcall
    obtain ⟨c, hc, hcall', rr, hreads⟩ := htmem c' hc'
    rw [hcall'] at hcall
    simp only [List.nil_append, List.append_assoc, List.mem_append, List.mem_cons,
      List.mem_singleton, List.not_mem_nil, or_false] at hc
    rcases hc with (rfl | rfl) | rfl | hc
    · cases hcall
    · cases hcall
    · cases hcall
    · obtain ⟨o, ho, hdata⟩ := hflush c hc dev n r hcall
      exact ⟨o, by rw [hreads]; exact List.mem_append_left _ ho, hdata⟩

theorem createBuffer_dense_witness :
    ∃ sb' t scratchBuffer scratchMemory commandBuffer commandPool ppData,
      createBuffer refEnv snapshotDenseBuffer (initialBuilder refFreeList) exampleBuffer =
        some sb' ∧
      sb'.cmds = (initialBuilder refFreeList).cmds ++ t ∧
      t.map (fun c => c.call) = expectedDenseBufferCalls exampleBuffer exampleMemory
        exampleDevice ⟨4, 3, 0, 0⟩ 1 scratchBuffer scratchMemory commandBuffer commandPool
        ppData ∧
      ∀ c ∈ t, ∀ dev n r, c.call = .VkFlushMappedMemoryRanges dev n r →
        ∃ o ∈ c.Reads, o.Data = .bytes (Slice (List.range 64) 0 (0 + 64)) :=
  createBuffer_dense refEnv snapshotDenseBuffer (initialBuilder refFreeList) exampleBuffer
    exampleMemory exampleDevice ⟨4, 3, 0, 0⟩ 1 rfl rfl rfl rfl (by decide) (by decide)
    (by decide) (by decide)

/-! ## The priming mode of an image (C20) -/

theorem primingMode_cases (usage : Nat) :
    (primingMode usage = some .primeByBufferCopy ↔
      usage &&& VK_IMAGE_USAGE_TRANSFER_DST_BIT ≠ 0) ∧
    (primingMode usage = some .primeByRendering ↔
      usage &&& VK_IMAGE_USAGE_TRANSFER_DST_BIT = 0 ∧
      usage &&& (VK_IMAGE_USAGE_COLOR_ATTACHMENT_BIT |||
        VK_IMAGE_USAGE_DEPTH_STENCIL_ATTACHMENT_BIT) ≠ 0) ∧
    (primingMode usage = some .primeByImageStore ↔
      usage &&& VK_IMAGE_USAGE_TRANSFER_DST_BIT = 0 ∧
      usage &&& (VK_IMAGE_USAGE_COLOR_ATTACHMENT_BIT |||
        VK_IMAGE_USAGE_DEPTH_STENCIL_ATTACHMENT_BIT) = 0 ∧
      usage &&& VK_IMAGE_USAGE_STORAGE_BIT ≠ 0) ∧
    (primingMode usage = none ↔
      usage &&& VK_IMAGE_USAGE_TRANSFER_DST_BIT = 0 ∧
      usage &&& (VK_IMAGE_USAGE_COLOR_ATTACHMENT_BIT |||
        VK_IMAGE_USAGE_DEPTH_STENCIL_ATTACHMENT_BIT) = 0 ∧
      usage &&& VK_IMAGE_USAGE_STORAGE_BIT = 0) := by
  unfold primingMode
  dsimp only
  by_cases h1 : usage &&& VK_IMAGE_USAGE_TRANSFER_DST_BIT = 0 <;>
  by_cases h2 : usage &&& (VK_IMAGE_USAGE_COLOR_ATTACHMENT_BIT |||
      VK_IMAGE_USAGE_DEPTH_STENCIL_ATTACHMENT_BIT) = 0 <;>
  by_cases h3 : usage &&& VK_IMAGE_USAGE_STORAGE_BIT = 0 <;>
  simp [h1, h2, h3]

theorem imagePath_dense (env : Env) (s : State) (sb : stateBuilder) (img : ImageObject)
    (memory : DeviceMemoryObject) (hmem : img.BoundMemory = some memory)
    (hopq : img.OpaqueSparseMemoryBindings = [])
    (himage : img.SparseImageMemoryBindings = []) :
    imagePath env s sb img =
      some (.bound
        (vkBindImageMemory env sb img.Device img.VulkanHandle memory.VulkanHandle
          img.BoundMemoryOffset)
        none [[img.ImageAspect, 0, img.Info.MipLevels, 0, img.Info.ArrayLayers]]) := by
  unfold imagePath imageDensePath
  simp [hmem, hopq, himage]

theorem imagePath_bound (env : Env) (s : State) (sb sbB : stateBuilder) (img : ImageObject)
    (sq : Option QueueObject) (ranges : List (List Nat))
    (hpath : imagePath env s sb img = some (.bound sbB sq ranges)) :
    (!img.BoundMemory.isSome &&
      !(decide (img.SparseImageMemoryBindings.length > 0) ||
        decide (img.OpaqueSparseMemoryBindings.length > 0))) = false := by
  cases hm : img.BoundMemory with
  | some m => simp
  | none =>
    by_cases h1 : img.SparseImageMemoryBindings.length > 0
    · simp [h1]
    · by_cases h2 : img.OpaqueSparseMemoryBindings.length > 0
      · simp [h2]
      · exfalso
        unfold imagePath imageDensePath at hpath
        simp [hm, h1, h2] at hpath

/-- C20: for an image that `createImage` builds (it is not a swapchain image), whose
layout is not `UNDEFINED` and whose sample count is 1, and that the dense or the sparse
branch of `createImage` has bound (which the dense branch does for every image with bound
memory and without sparse bindings), `createImage` returns and invokes the priming method
selected from the usage of the image, once, on the builder after the binding, with the
image, the opaque ranges, the queue and the sparse queue, and it invokes no priming method
if none is selected. The method selected is `primeByBufferCopy` exactly when `TRANSFER_DST` is set,
`primeByRendering` exactly when `TRANSFER_DST` is clear and a colour-attachment or
depth/stencil-attachment bit is set, `primeByImageStore` exactly when these are clear and
`STORAGE` is set, and none exactly when all of them are clear. -/
theorem createImage_priming_mode (env : Env) (s : State) (sb : stateBuilder)
    (img : ImageObject) (hswap : img.IsSwapchainImage = false)
    (hlayout : img.Info.Layout ≠ VK_IMAGE_LAYOUT_UNDEFINED)
    (hsamples : img.Info.Samples = VK_SAMPLE_COUNT_1_BIT) :
    (∀ memory, img.BoundMemory = some memory → img.OpaqueSparseMemoryBindings = [] →
      img.SparseImageMemoryBindings = [] →
      imagePath env s (createImageAndMemory env sb img) img =
        some (.bound
          (vkBindImageMemory env (createImageAndMemory env sb img) img.Device img.VulkanHandle
            memory.VulkanHandle img.BoundMemoryOffset)
          none [[img.ImageAspect, 0, img.Info.MipLevels, 0, img.Info.ArrayLayers]])) ∧
    (∀ sbB sq ranges,
      imagePath env s (createImageAndMemory env sb img) img = some (.bound sbB sq ranges) →
      (∀ mode, primingMode img.Info.Usage = some mode →
        createImage env s sb img = some (env.prime mode sbB img ranges
          (getQueueFor env.mapOrder (rangeId 1349 img.VulkanHandle) s img.LastBoundQueue
            img.Device (some img.Info.QueueFamilyIndices))
          sq)) ∧
      (primingMode img.Info.Usage = none → createImage env s sb img = some sbB)) ∧
    (primingMode img.Info.Usage = some .primeByBufferCopy ↔
      img.Info.Usage &&& VK_IMAGE_USAGE_TRANSFER_DST_BIT ≠ 0) ∧
    (primingMode img.Info.Usage = some .primeByRendering ↔
      img.Info.Usage &&& VK_IMAGE_USAGE_TRANSFER_DST_BIT = 0 ∧
      img.Info.Usage &&& (VK_IMAGE_USAGE_COLOR_ATTACHMENT_BIT |||
        VK_IMAGE_USAGE_DEPTH_STENCIL_ATTACHMENT_BIT) ≠ 0) ∧
    (primingMode img.Info.Usage = some .primeByImageStore ↔
      img.Info.Usage &&& VK_IMAGE_USAGE_TRANSFER_DST_BIT = 0 ∧
      img.Info.Usage &&& (VK_IMAGE_USAGE_COLOR_ATTACHMENT_BIT |||
        VK_IMAGE_USAGE_DEPTH_STENCIL_ATTACHMENT_BIT) = 0 ∧
      img.Info.Usage &&& VK_IMAGE_USAGE_STORAGE_BIT ≠ 0) ∧
    (primingMode img.Info.Usage = none ↔
      img.Info.Usage &&& VK_IMAGE_USAGE_TRANSFER_DST_BIT = 0 ∧
      img.Info.Usage &&& (VK_IMAGE_USAGE_COLOR_ATTACHMENT_BIT |||
        VK_IMAGE_USAGE_DEPTH_STENCIL_ATTACHMENT_BIT) = 0 ∧
      img.Info.Usage &&& VK_IMAGE_USAGE_STORAGE_BIT = 0) := by
  refine ⟨fun memory hmem ho hi => imagePath_dense env s _ img memory hmem ho hi, ?_,
    primingMode_cases img.Info.Usage⟩
  intro sbB sq ranges hpath
  have hbound := imagePath_bound env s _ sbB img sq ranges hpath
  have key : createImage env s sb img =
      match primingMode img.Info.Usage with
      | some mode => some (env.prime mode sbB img ranges
          (getQueueFor env.mapOrder (rangeId 1349 img.VulkanHandle) s img.LastBoundQueue
            img.Device (some img.Info.QueueFamilyIndices)) sq)
      | none => some sbB := by
    unfold createImage
    rw [hswap]
    simp only [Bool.false_eq_true, if_false, hbound]
    unfold bindAndPrimeImage
    rw [hpath]
    simp only [primeImage, if_neg hlayout, hsamples, ne_eq, not_true_eq_false, if_false]
    try (cases primingMode img.Info.Usage <;> rfl)
  constructor
  · intro mode hmode
    rw [key, hmode]
  · intro hnone
    rw [key, hnone]

theorem createImage_priming_mode_witness :
    createImage markingEnv snapshotOneQueue (initialBuilder refFreeList) exampleDenseImage =
      some (markingEnv.prime .primeByBufferCopy
        (vkBindImageMemory markingEnv
          (createImageAndMemory markingEnv (initialBuilder refFreeList) exampleDenseImage) 3 7 5
          0)
        exampleDenseImage [[1, 0, 1, 0, 1]] (some ⟨4, 3, 0, 0⟩) none) :=
  ((createImage_priming_mode markingEnv snapshotOneQueue (initialBuilder refFreeList)
    exampleDenseImage rfl (by decide) rfl).2.1 _ _ _
    ((createImage_priming_mode markingEnv snapshotOneQueue (initialBuilder refFreeList)
      exampleDenseImage rfl (by decide) rfl).1 exampleMemory rfl rfl rfl)).1
    .primeByBufferCopy (by decide)

/-! ## `IsFullyBound`: soundness and conditional completeness (C27, C28) -/

theorem inSomeBinding_iff_key (m : SparseBindMap) (hwf : WF m) (a : Nat) :
    InSomeBinding m a ↔ ∃ k ∈ Keys m, k ≤ a ∧ a < k + (Get m k).Size := by
  constructor
  · rintro ⟨e, he, h1, h2⟩
    refine ⟨e.1, List.mem_map.2 ⟨e, he, rfl⟩, h1, ?_⟩
    rw [SparseBindMap.get_of_mem m hwf e he]
    exact h2
  · rintro ⟨k, hk, h1, h2⟩
    obtain ⟨e, he, rfl⟩ := List.mem_map.1 hk
    rw [SparseBindMap.get_of_mem m hwf e he] at h2
    exact ⟨e, he, h1, h2⟩

/-- C27: for a binding map with ascending keys and `offset + size` below `2^64`, if
`IsFullyBound(offset, size, bindings)` returns true, then every address `a` with
`offset <= a < offset + size` lies in the range of a binding:
`k <= a < k + bindings[k].size` for some key `k` (whether or not a sum
`k + bindings[k].size` overflows). -/
theorem IsFullyBound_true_covers (offset size : Nat) (m : SparseBindMap) (hwf : WF m)
    (hE : offset + size < U64) (h : IsFullyBound offset size m = true) :
    ∀ a, offset ≤ a → a < offset + size →
      ∃ k ∈ Keys m, k ≤ a ∧ a < k + (Get m k).Size := by
  intro a h1 h2
  exact (inSomeBinding_iff_key m hwf a).1 (IsFullyBound_sound offset size m hE h a h1 h2)

theorem IsFullyBound_true_covers_witness :
    ∃ k ∈ Keys [bind 0 50, bind 50 50, bind 200 1], k ≤ 70 ∧
      70 < k + (Get [bind 0 50, bind 50 50, bind 200 1] k).Size :=
  IsFullyBound_true_covers 0 100 [bind 0 50, bind 50 50, bind 200 1] (by decide) (by decide)
    (by decide) 70 (by decide) (by decide)

/-- C28: for a binding map with ascending keys, if `size > 0`, neither `offset + size` nor
a sum `k + bindings[k].size` overflows 64 bits, all bindings have positive size and
pairwise disjoint ranges, some key is strictly greater than `offset + size`, and every
address of `[offset, offset + size)` lies in the range of a binding, then
`IsFullyBound(offset, size, bindings)` returns true. -/
theorem IsFullyBound_of_covered (offset size : Nat) (m : SparseBindMap) (hwf : WF m)
    (hE : offset + size < U64) (hsize : 0 < size) (hno : NoOverflow m)
    (hpos : PositiveSizes m) (hdis : DisjointRanges m)
    (hkey : ∃ k ∈ Keys m, offset + size < k)
    (hcov : ∀ a, offset ≤ a → a < offset + size →
      ∃ k ∈ Keys m, k ≤ a ∧ a < k + (Get m k).Size) :
    IsFullyBound offset size m = true :=
  IsFullyBound_complete offset size m hwf hE hsize hno hpos hdis hkey
    (fun a h1 h2 => (inSomeBinding_iff_key m hwf a).2 (hcov a h1 h2))

theorem IsFullyBound_of_covered_witness :
    IsFullyBound 10 80 [bind 0 50, bind 50 50, bind 200 1] = true :=
  IsFullyBound_of_covered 10 80 [bind 0 50, bind 50 50, bind 200 1] (by decide) (by decide)
    (by decide) (by decide) (by decide) disjoint_example ⟨200, by decide, by decide⟩
    (by
      intro a h1 h2
      by_cases h : a < 50
      · exact ⟨0, by decide, Nat.zero_le _, by
          have : (Get [bind 0 50, bind 50 50, bind 200 1] 0).Size = 50 := by decide
          omega⟩
      · exact ⟨50, by decide, by omega, by
          have : (Get [bind 0 50, bind 50 50, bind 200 1] 50).Size = 50 := by decide
          omega⟩)

/-! ## The end of `createImage` (C21) -/

theorem createImageAndMemory_emits (env : Env) {sb0 sb1 : stateBuilder} {l : List Cmd}
    (img : ImageObject) (memory : DeviceMemoryObject)
    (hmem : img.BoundMemory = some memory) (hi : img.Info.DedicatedAllocationNV = none)
    (hm : memory.DedicatedAllocationNV = none) (h : Emits sb0 sb1 l) :
    Emits sb0 (createImageAndMemory env sb1 img) (l ++
      [cb (.VkCreateImage img.Device img.Info img.VulkanHandle),
        cb (.VkGetImageMemoryRequirements img.Device img.VulkanHandle
          img.MemoryRequirements)]) := by
  unfold createImageAndMemory vkGetImageMemoryRequirements vkCreateImage
  simp only [hmem, hi, hm, Option.isSome_none, Bool.or_self, Bool.false_eq_true, if_false]
  apply Emits.cast
  · repeat' first
      | exact h
      | with_reducible apply Emits.afterWrite env
      | with_reducible apply Emits.afterAllocRead env
      | with_reducible apply Emits.afterAllocWrite env
  · simp only [List.append_assoc, List.singleton_append, List.cons_append, List.nil_append]

/-- C21 fails in the code: for an image that is not a swapchain image, is bound to a memory
(neither with dedicated allocation info), has no sparse bindings, one sample, a layout other
than `UNDEFINED` and a usage with none of `TRANSFER_DST`, the attachment bits and `STORAGE`,
`createImage` returns after exactly the calls `CreateImage`, `GetImageMemoryRequirements`
and `BindImageMemory`: it invokes neither `transitionImage` nor a priming method, so that the
stream holds no pipeline barrier and no layout transition for the image. -/
theorem createImage_no_final_transition (env : Env) (s : State) (sb : stateBuilder)
    (img : ImageObject) (memory : DeviceMemoryObject)
    (hswap : img.IsSwapchainImage = false) (hmem : img.BoundMemory = some memory)
    (hopq : img.OpaqueSparseMemoryBindings = []) (himage : img.SparseImageMemoryBindings = [])
    (hi : img.Info.DedicatedAllocationNV = none) (hm : memory.DedicatedAllocationNV = none)
    (hlayout : img.Info.Layout ≠ VK_IMAGE_LAYOUT_UNDEFINED)
    (hsamples : img.Info.Samples = VK_SAMPLE_COUNT_1_BIT)
    (husage : img.Info.Usage &&& VK_IMAGE_USAGE_TRANSFER_DST_BIT = 0 ∧
      img.Info.Usage &&& (VK_IMAGE_USAGE_COLOR_ATTACHMENT_BIT |||
        VK_IMAGE_USAGE_DEPTH_STENCIL_ATTACHMENT_BIT) = 0 ∧
      img.Info.Usage &&& VK_IMAGE_USAGE_STORAGE_BIT = 0) :
    ∃ sb', createImage env s sb img = some sb' ∧
      sb'.calls = sb.calls ++
        [.VkCreateImage img.Device img.Info img.VulkanHandle,
          .VkGetImageMemoryRequirements img.Device img.VulkanHandle img.MemoryRequirements,
          .VkBindImageMemory img.Device img.VulkanHandle memory.VulkanHandle
            img.BoundMemoryOffset] := by
  have hmode : primingMode img.Info.Usage = none :=
    (primingMode_cases img.Info.Usage).2.2.2.2 husage
  have hpath :=
    imagePath_dense env s (createImageAndMemory env sb img) img memory hmem hopq himage
  refine ⟨vkBindImageMemory env (createImageAndMemory env sb img) img.Device img.VulkanHandle
    memory.VulkanHandle img.BoundMemoryOffset, ?_, ?_⟩
  · unfold createImage
    rw [hswap]
    simp only [Bool.false_eq_true, if_false, hmem, Option.isSome_some, Bool.not_true,
      Bool.false_and]
    unfold bindAndPrimeImage
    rw [hpath]
    simp only [primeImage, if_neg hlayout, hsamples, ne_eq, not_true_eq_false, if_false, hmode]
  · have h1 := createImageAndMemory_emits env img memory hmem hi hm (Emits.none sb)
    have h2 : Emits sb (vkBindImageMemory env (createImageAndMemory env sb img) img.Device
        img.VulkanHandle memory.VulkanHandle img.BoundMemoryOffset) _ :=
      Emits.afterWrite env _ h1
    rw [h2.calls_eq]
    rfl

theorem createImage_no_final_transition_witness :
    ∃ sb', createImage refEnv snapshotOneQueue (initialBuilder refFreeList)
        exampleSampledImage = some sb' ∧
      sb'.calls = (initialBuilder refFreeList).calls ++
        [.VkCreateImage 3 exampleSampledImage.Info 7,
          .VkGetImageMemoryRequirements 3 7 exampleSampledImage.MemoryRequirements,
          .VkBindImageMemory 3 7 5 0] :=
  createImage_no_final_transition refEnv snapshotOneQueue (initialBuilder refFreeList)
    exampleSampledImage exampleMemory rfl rfl rfl rfl rfl rfl (by decide) rfl
    ⟨by decide, by decide, by decide⟩

/-! ## The temporary objects of `createComputePipeline` (C24, C25) -/

theorem createShaderModule_emits (env : Env) {sb0 sb1 : stateBuilder} {l : List Cmd}
    (sm : ShaderModuleObject) (h : Emits sb0 sb1 l) :
    Emits sb0 (createShaderModule env sb1 sm) (l ++
      [cb (.VkCreateShaderModule sm.Device
        { codeSize := sm.Words.length * 4, pCode := sm.Words } sm.VulkanHandle)]) :=
  Emits.afterWrite env _ (h.afterSilent (allocShaderModule_silent env sb1 sm))

theorem createComputePipeline_emits (env : Env) (sb : stateBuilder)
    (cp : ComputePipelineObject) :
    Emits sb (createComputePipeline env sb cp)
      (if Contains sb.newState.ShaderModules cp.Stage.Module.VulkanHandle then
        [cb (computePipelineCall cp
          (resolveBasePipeline sb.newState.ComputePipelines cp.BasePipeline))]
      else
        [cb (.VkCreateShaderModule cp.Stage.Module.Device
            { codeSize := cp.Stage.Module.Words.length * 4, pCode := cp.Stage.Module.Words }
            cp.Stage.Module.VulkanHandle),
          cb (computePipelineCall cp
            (resolveBasePipeline sb.newState.ComputePipelines cp.BasePipeline)),
          cb (.VkDestroyShaderModule cp.Stage.Module.Device cp.Stage.Module.VulkanHandle)]) := by
  unfold createComputePipeline
  cases ht : Contains sb.newState.ShaderModules cp.Stage.Module.VulkanHandle with
  | true =>
    simp only [Bool.not_true, Bool.false_eq_true, if_false, if_true]
    exact Emits.afterWrite env _
      ((Emits.none sb).afterSilent (allocComputePipeline_silent env sb cp _))
  | false =>
    simp only [Bool.not_false, if_true, Bool.false_eq_true, if_false]
    exact Emits.afterWrite env _ (Emits.afterWrite env _
      ((createShaderModule_emits env cp.Stage.Module (Emits.none sb)).afterSilent
        (allocComputePipeline_silent env _ cp _)))

/-- C24: when the new state does not contain the shader module of a compute pipeline at the
start of `createComputePipeline`, the method appends exactly `CreateShaderModule` for that
module, `CreateComputePipelines` and `DestroyShaderModule` for that module, in this order;
when the new state contains the module it appends only `CreateComputePipelines`. -/
theorem createComputePipeline_temporary_module (env : Env) (sb : stateBuilder)
    (cp : ComputePipelineObject) :
    (Contains sb.newState.ShaderModules cp.Stage.Module.VulkanHandle = false →
      (createComputePipeline env sb cp).calls = sb.calls ++
        [.VkCreateShaderModule cp.Stage.Module.Device
            { codeSize := cp.Stage.Module.Words.length * 4, pCode := cp.Stage.Module.Words }
            cp.Stage.Module.VulkanHandle,
          computePipelineCall cp
            (resolveBasePipeline sb.newState.ComputePipelines cp.BasePipeline),
          .VkDestroyShaderModule cp.Stage.Module.Device cp.Stage.Module.VulkanHandle]) ∧
    (Contains sb.newState.ShaderModules cp.Stage.Module.VulkanHandle = true →
      (createComputePipeline env sb cp).calls = sb.calls ++
        [computePipelineCall cp
          (resolveBasePipeline sb.newState.ComputePipelines cp.BasePipeline)]) := by
  have h := (createComputePipeline_emits env sb cp).calls_eq
  constructor
  · intro ht
    rw [h, ht]
    rfl
  · intro ht
    rw [h, ht]
    rfl

theorem createComputePipeline_temporary_module_witness :
    (createComputePipeline refEnv (initialBuilder refFreeList)
        (exampleComputePipeline 1 0)).calls =
      (initialBuilder refFreeList).calls ++
        [.VkCreateShaderModule 1 { codeSize := 0, pCode := [] } 8,
          computePipelineCall (exampleComputePipeline 1 0) 0,
          .VkDestroyShaderModule 1 8] ∧
    (createComputePipeline refEnv
        (createShaderModule refEnv (initialBuilder refFreeList)
          (exampleComputePipeline 1 0).Stage.Module)
        (exampleComputePipeline 1 0)).calls =
      (createShaderModule refEnv (initialBuilder refFreeList)
          (exampleComputePipeline 1 0).Stage.Module).calls ++
        [computePipelineCall (exampleComputePipeline 1 0) 0] :=
  ⟨(createComputePipeline_temporary_module refEnv (initialBuilder refFreeList)
      (exampleComputePipeline 1 0)).1 rfl,
    (createComputePipeline_temporary_module refEnv
      (createShaderModule refEnv (initialBuilder refFreeList)
        (exampleComputePipeline 1 0).Stage.Module)
      (exampleComputePipeline 1 0)).2 (by decide)⟩

/-- C25 fails in the code for the pipeline layout of a compute pipeline: whether or not the
new state contains the pipeline layout that the pipeline references, `createComputePipeline`
appends nothing but `CreateComputePipelines` with that layout, between `CreateShaderModule`
and `DestroyShaderModule` if the new state lacks the shader module. For the compute pipeline
`1` with the layout `4` and the empty new state, which contains no pipeline layout, the
stream is `CreateShaderModule`, `CreateComputePipelines`, `DestroyShaderModule`: no
`CreatePipelineLayout` precedes the create call and no `DestroyPipelineLayout` follows
it. -/
theorem createComputePipeline_missing_layout :
    (∀ (env : Env) (sb : stateBuilder) (cp : ComputePipelineObject),
      (createComputePipeline env sb cp).calls = sb.calls ++
          [.VkCreateShaderModule cp.Stage.Module.Device
              { codeSize := cp.Stage.Module.Words.length * 4,
                pCode := cp.Stage.Module.Words }
              cp.Stage.Module.VulkanHandle,
            .VkCreateComputePipelines cp.Device (cacheHandle cp.PipelineCache) 1
              { flags := cp.Flags,
                stage := { stage := cp.Stage.Stage, module := cp.Stage.Module.VulkanHandle,
                           pName := cp.Stage.EntryPoint,
                           pSpecializationInfo := cp.Stage.Specialization },
                layout := cp.PipelineLayout.VulkanHandle,
                basePipelineHandle :=
                  resolveBasePipeline sb.newState.ComputePipelines cp.BasePipeline,
                basePipelineIndex := -1 } cp.VulkanHandle,
            .VkDestroyShaderModule cp.Stage.Module.Device cp.Stage.Module.VulkanHandle] ∨
        (createComputePipeline env sb cp).calls = sb.calls ++
          [.VkCreateComputePipelines cp.Device (cacheHandle cp.PipelineCache) 1
            { flags := cp.Flags,
              stage := { stage := cp.Stage.Stage, module := cp.Stage.Module.VulkanHandle,
                         pName := cp.Stage.EntryPoint,
                         pSpecializationInfo := cp.Stage.Specialization },
              layout := cp.PipelineLayout.VulkanHandle,
              basePipelineHandle :=
                resolveBasePipeline sb.newState.ComputePipelines cp.BasePipeline,
              basePipelineIndex := -1 } cp.VulkanHandle]) ∧
    Contains (initialBuilder refFreeList).newState.PipelineLayouts
      (exampleComputePipeline 1 0).PipelineLayout.VulkanHandle = false ∧
    (createComputePipeline refEnv (initialBuilder refFreeList)
        (exampleComputePipeline 1 0)).calls =
      [.VkCreateShaderModule 1 { codeSize := 0, pCode := [] } 8,
        .VkCreateComputePipelines 1 0 1
          { flags := 0,
            stage := { stage := 32, module := 8, pName := "main",
                       pSpecializationInfo := none },
            layout := 4, basePipelineHandle := 0, basePipelineIndex := -1 } 1,
        .VkDestroyShaderModule 1 8] := by
  refine ⟨?_, rfl, by decide⟩
  intro env sb cp
  have h := (createComputePipeline_emits env sb cp).calls_eq
  cases ht : Contains sb.newState.ShaderModules cp.Stage.Module.VulkanHandle with
  | true =>
    right
    rw [h, ht]
    rfl
  | false =>
    left
    rw [h, ht]
    rfl

/-! ## The stream of `createCommandBuffer` (C23) -/

theorem write_calls (env : Env) (sb : stateBuilder) (cmd : Cmd) :
    (write env sb cmd).calls = sb.calls ++ [cmd.call] := by
  unfold stateBuilder.calls
  rw [write_cmds, List.map_append, List.map_singleton, attachPending_call]

theorem recordCommands_spec (env : Env) (commandBuffer : Nat) (refs : List CommandReference) :
    ∀ sb : stateBuilder, ∃ cmds : List RecordedCommand,
      cmds.length ≤ refs.length ∧
      (recordCommands env commandBuffer sb refs).1.calls =
        sb.calls ++ cmds.map (fun cmd => VkCall.Recorded commandBuffer cmd) ∧
      (recordCommands env commandBuffer sb refs).2 = decide (cmds.length < refs.length) ∧
      ∀ i r, refs[i]? = some r → i ≤ cmds.length →
        ∃ sbi : stateBuilder,
          sbi.calls = sb.calls ++
            (cmds.take i).map (fun cmd => VkCall.Recorded commandBuffer cmd) ∧
          env.addCommand sbi.newState commandBuffer r = cmds[i]? := by
  induction refs with
  | nil =>
    intro sb
    refine ⟨[], Nat.le_refl _, ?_, rfl, ?_⟩
    · simp [recordCommands]
    · intro i r h
      simp at h
  | cons r rest ih =>
    intro sb
    cases hadd : env.addCommand sb.newState commandBuffer r with
    | none =>
      refine ⟨[], Nat.zero_le _, ?_, ?_, ?_⟩
      · simp [recordCommands, hadd]
      · simp [recordCommands, hadd]
      · intro i r' hr hi
        have hi0 : i = 0 := Nat.le_zero.1 hi
        subst hi0
        simp only [List.getElem?_cons_zero, Option.some.injEq] at hr
        subst hr
        exact ⟨sb, by simp, by simpa using hadd⟩
    | some cmd =>
      obtain ⟨cmds, hlen, hcalls, hflag, htr⟩ :=
        ih (write env sb (cb (.Recorded commandBuffer cmd)))
      refine ⟨cmd :: cmds, ?_, ?_, ?_, ?_⟩
      · simpa using hlen
      · simp only [recordCommands, hadd]
        rw [hcalls, write_calls]
        simp [cb]
      · simp only [recordCommands, hadd]
        rw [hflag]
        simp
      · intro i r' hr hi
        cases i with
        | zero =>
          simp only [List.getElem?_cons_zero, Option.some.injEq] at hr
          subst hr
          exact ⟨sb, by simp, by simpa using hadd⟩
        | succ k =>
          simp only [List.getElem?_cons_succ] at hr
          obtain ⟨sbi, h1, h2⟩ := htr k r' hr (by simpa using hi)
          refine ⟨sbi, ?_, ?_⟩
          · rw [h1, write_calls]
            simp [cb]
          · simpa using h2

theorem beginCommandBuffer_emits (env : Env) {sb0 sb1 : stateBuilder} {l : List Cmd}
    (c : CommandBufferObject) (h : Emits sb0 sb1 l) :
    Emits sb0 (beginCommandBuffer env sb1 c) (l ++
      [cb (.VkBeginCommandBuffer c.VulkanHandle c.BeginInfo.Flags
        (if c.BeginInfo.Inherited then
          some [c.BeginInfo.InheritedRenderPass, c.BeginInfo.InheritedSubpass,
            c.BeginInfo.InheritedFramebuffer, c.BeginInfo.InheritedOcclusionQuery,
            c.BeginInfo.InheritedQueryFlags, c.BeginInfo.InheritedPipelineStatsFlags]
        else none))]) := by
  unfold beginCommandBuffer
  dsimp only
  apply Emits.afterWrite env
  apply Emits.afterAllocRead env
  split
  · exact Emits.afterAllocRead env _ h
  · exact h

/-- C23: `createCommandBuffer` returns the builder unchanged for a command buffer of another
level. For a command buffer of the requested level it appends only
`AllocateCommandBuffers` when the recording state is `NOT_STARTED`; otherwise it appends
`AllocateCommandBuffers`, `BeginCommandBuffer`, the translations `cmds` of the first `j`
command references in recorded order, where each reference up to index `j` is translated in
the new state reached after the commands before it, the translation of reference `j` fails
when `j` is less than the number `n` of references, and `EndCommandBuffer` follows exactly
when `j = n` and the recording state is `COMPLETED`. -/
theorem createCommandBuffer_stream (env : Env) (sb : stateBuilder) (c : CommandBufferObject)
    (level : Nat) :
    (c.Level ≠ level → createCommandBuffer env sb c level = sb) ∧
    (c.Level = level → c.Recording = .NOT_STARTED →
      (createCommandBuffer env sb c level).calls = sb.calls ++
        [.VkAllocateCommandBuffers c.Device c.Pool c.Level 1 c.VulkanHandle]) ∧
    (c.Level = level → c.Recording ≠ .NOT_STARTED →
      ∃ cmds : List RecordedCommand,
        cmds.length ≤ c.CommandReferences.length ∧
        (∀ i r, c.CommandReferences[i]? = some r → i ≤ cmds.length →
          ∃ sbi : stateBuilder,
            sbi.calls = sb.calls ++
              [.VkAllocateCommandBuffers c.Device c.Pool c.Level 1 c.VulkanHandle,
                .VkBeginCommandBuffer c.VulkanHandle c.BeginInfo.Flags
                  (if c.BeginInfo.Inherited then
                    some [c.BeginInfo.InheritedRenderPass, c.BeginInfo.InheritedSubpass,
                      c.BeginInfo.InheritedFramebuffer, c.BeginInfo.InheritedOcclusionQuery,
                      c.BeginInfo.InheritedQueryFlags,
                      c.BeginInfo.InheritedPipelineStatsFlags]
                  else none)] ++
              (cmds.take i).map (fun cmd => VkCall.Recorded c.VulkanHandle cmd) ∧
            env.addCommand sbi.newState c.VulkanHandle r = cmds[i]?) ∧
        (createCommandBuffer env sb c level).calls = sb.calls ++
          [.VkAllocateCommandBuffers c.Device c.Pool c.Level 1 c.VulkanHandle,
            .VkBeginCommandBuffer c.VulkanHandle c.BeginInfo.Flags
              (if c.BeginInfo.Inherited then
                some [c.BeginInfo.InheritedRenderPass, c.BeginInfo.InheritedSubpass,
                  c.BeginInfo.InheritedFramebuffer, c.BeginInfo.InheritedOcclusionQuery,
                  c.BeginInfo.InheritedQueryFlags, c.BeginInfo.InheritedPipelineStatsFlags]
              else none)] ++
          cmds.map (fun cmd => VkCall.Recorded c.VulkanHandle cmd) ++
          (if cmds.length = c.CommandReferences.length ∧ c.Recording = .COMPLETED then
            [.VkEndCommandBuffer c.VulkanHandle]
          else [])) := by
  have halloc : Emits sb
      (write env
        (MustAllocWriteData env
          (MustAllocReadData env sb
            (.record "VkCommandBufferAllocateInfo" [40, 0, c.Pool, c.Level, 1])).2
          (.handle c.VulkanHandle)).2
        (cb (.VkAllocateCommandBuffers c.Device c.Pool c.Level 1 c.VulkanHandle)))
      ([] ++ [cb (.VkAllocateCommandBuffers c.Device c.Pool c.Level 1 c.VulkanHandle)]) :=
    Emits.afterWrite env _
      (Emits.afterAllocWrite env _ (Emits.afterAllocRead env _ (Emits.none sb)))
  refine ⟨?_, ?_, ?_⟩
  · intro hl
    unfold createCommandBuffer
    rw [if_pos hl]
  · intro hl hrec
    unfold createCommandBuffer
    rw [if_neg (not_not.2 hl)]
    simp only [hrec, if_true]
    rw [halloc.calls_eq]
    rfl
  · intro hl hrec
    have hbegin := (beginCommandBuffer_emits env c halloc).calls_eq
    obtain ⟨cmds, hlen, hcalls, hflag, htr⟩ := recordCommands_spec env c.VulkanHandle
      c.CommandReferences (beginCommandBuffer env
        (write env
          (MustAllocWriteData env
            (MustAllocReadData env sb
              (.record "VkCommandBufferAllocateInfo" [40, 0, c.Pool, c.Level, 1])).2
            (.handle c.VulkanHandle)).2
          (cb (.VkAllocateCommandBuffers c.Device c.Pool c.Level 1 c.VulkanHandle))) c)
    rw [hbegin] at hcalls
    refine ⟨cmds, hlen, ?_, ?_⟩
    · intro i r hr hi
      obtain ⟨sbi, h1, h2⟩ := htr i r hr hi
      refine ⟨sbi, ?_, h2⟩
      rw [h1, hbegin]
      simp [cb]
    · unfold createCommandBuffer
      rw [if_neg (not_not.2 hl)]
      simp only [hrec, if_false]
      rw [hflag]
      by_cases hj : cmds.length < c.CommandReferences.length
      · have hne : ¬(cmds.length = c.CommandReferences.length ∧ c.Recording = .COMPLETED) :=
          fun h => Nat.ne_of_lt hj h.1
        simp only [hj, decide_True, if_true]
        rw [hcalls, if_neg hne]
        simp [cb]
      · have hje : cmds.length = c.CommandReferences.length :=
          Nat.le_antisymm hlen (Nat.le_of_not_lt hj)
        simp only [hj, decide_False, Bool.false_eq_true, if_false]
        by_cases hc : c.Recording = .COMPLETED
        · have hyes : cmds.length = c.CommandReferences.length ∧ c.Recording = .COMPLETED :=
            ⟨hje, hc⟩
          rw [if_pos hc, if_pos hyes, write_calls, hcalls]
          simp [cb]
        · have hne : ¬(cmds.length = c.CommandReferences.length ∧ c.Recording = .COMPLETED) :=
            fun h => hc h.2
          rw [if_neg hc, if_neg hne, hcalls]
          simp [cb]

theorem createCommandBuffer_stream_witness :
    ∃ cmds : List RecordedCommand,
      cmds.length ≤ exampleCommandBuffer.CommandReferences.length ∧
      (∀ i r, exampleCommandBuffer.CommandReferences[i]? = some r → i ≤ cmds.length →
        ∃ sbi : stateBuilder,
          sbi.calls = (initialBuilder refFreeList).calls ++
            [.VkAllocateCommandBuffers 3 11 0 1 12,
              .VkBeginCommandBuffer 12 0
                (if exampleCommandBuffer.BeginInfo.Inherited then some [0, 0, 0, 0, 0, 0]
                else none)] ++
            (cmds.take i).map (fun cmd => VkCall.Recorded 12 cmd) ∧
          failingEnv.addCommand sbi.newState 12 r = cmds[i]?) ∧
      (createCommandBuffer failingEnv (initialBuilder refFreeList) exampleCommandBuffer 0).calls =
        (initialBuilder refFreeList).calls ++
          [.VkAllocateCommandBuffers 3 11 0 1 12,
            .VkBeginCommandBuffer 12 0
              (if exampleCommandBuffer.BeginInfo.Inherited then some [0, 0, 0, 0, 0, 0]
              else none)] ++
          cmds.map (fun cmd => VkCall.Recorded 12 cmd) ++
          (if cmds.length = exampleCommandBuffer.CommandReferences.length ∧
              exampleCommandBuffer.Recording = .COMPLETED then
            [.VkEndCommandBuffer 12]
          else []) :=
  (createCommandBuffer_stream failingEnv (initialBuilder refFreeList) exampleCommandBuffer
    0).2.2 rfl (by decide)

theorem createCommandBuffer_failing_example :
    (createCommandBuffer failingEnv (initialBuilder refFreeList) exampleCommandBuffer 0).calls =
      [.VkAllocateCommandBuffers 3 11 0 1 12, .VkBeginCommandBuffer 12 0 none,
        .Recorded 12 { name := "vkCmd", args := [7, 0] },
        .Recorded 12 { name := "vkCmd", args := [9, 0] }] ∧
    (createCommandBuffer refEnv (initialBuilder refFreeList) exampleCommandBuffer 0).calls =
      [.VkAllocateCommandBuffers 3 11 0 1 12, .VkBeginCommandBuffer 12 0 none,
        .Recorded 12 { name := "vkCmd", args := [7, 0] },
        .Recorded 12 { name := "vkCmd", args := [9, 0] },
        .Recorded 12 { name := "vkCmd", args := [0, 0] },
        .Recorded 12 { name := "vkCmd", args := [7, 1] },
        .VkEndCommandBuffer 12] := by
  constructor <;> decide

/-! ## The image writes of `createDescriptorSet` (C22) -/

theorem imageDescriptorValid_eq (ns : Mirror) (t : Nat) (im : VkDescriptorImageInfo) :
    imageDescriptorValid ns t im = expectedImageElementValid ns t im := by
  unfold imageDescriptorValid expectedImageElementValid
  by_cases ht : t = 1 <;> by_cases hs : im.Sampler = 0 <;> by_cases hv : im.ImageView = 0 <;>
    cases h1 : Contains ns.Samplers im.Sampler <;>
    cases h2 : Contains ns.ImageViews im.ImageView <;>
    simp [ht, hs, hv, h1, h2]

theorem flatten_map_ite {α β : Type} (p : α → Bool) (w : α → β) (l : List α) :
    (l.map (fun e => if p e then [w e] else [])).flatten =
      l.filterMap (fun e => if p e then some (w e) else none) := by
  induction l with
  | nil => rfl
  | cons x l ih =>
    rw [List.map_cons, List.flatten_cons, ih, List.filterMap_cons]
    cases p x <;> simp

theorem bindingWrites_image (ns : Mirror) (ds : DescriptorSetObject)
    (kb : Nat × DescriptorBinding)
    (ht : kb.2.BindingType = 0 ∨ kb.2.BindingType = 1 ∨ kb.2.BindingType = 2 ∨
      kb.2.BindingType = 3 ∨ kb.2.BindingType = 10) :
    bindingWrites ns ds kb = expectedImageWrites ns ds kb.1 kb.2 := by
  unfold bindingWrites expectedImageWrites
  simp only [if_pos ht, imageDescriptorValid_eq]
  exact flatten_map_ite (fun e => expectedImageElementValid ns kb.2.BindingType e.2)
    (fun e =>
      ({ dstSet := ds.VulkanHandle, dstBinding := kb.1, dstArrayElement := e.1,
         descriptorCount := 1, descriptorType := kb.2.BindingType, pImageInfo := some e.2,
         pBufferInfo := none, pTexelBufferView := none } : VkWriteDescriptorSet))
    kb.2.ImageBinding.enum

theorem foldl_descriptorWrites {β : Type} (f : DescriptorWrites → β → DescriptorWrites)
    (g : β → List VkWriteDescriptorSet)
    (hf : ∀ acc x, (f acc x).writes = acc.writes ++ g x) (l : List β) :
    ∀ acc, (l.foldl f acc).writes = acc.writes ++ (l.map g).flatten := by
  induction l with
  | nil => intro acc; simp
  | cons x l ih =>
    intro acc
    rw [List.foldl_cons, ih, hf, List.map_cons, List.flatten_cons, List.append_assoc]

theorem descriptorBindingStep_writes (env : Env) (ns : Mirror) (ds : DescriptorSetObject)
    (acc : DescriptorWrites) (kb : Nat × DescriptorBinding) :
    (descriptorBindingStep env ns ds acc kb).writes = acc.writes ++ bindingWrites ns ds kb := by
  unfold descriptorBindingStep bindingWrites
  dsimp only
  split
  · apply foldl_descriptorWrites
    intro acc e
    split
    · rfl
    · simp
  · split
    · apply foldl_descriptorWrites
      intro acc e
      split
      · simp
      · split
        · simp
        · rfl
    · split
      · apply foldl_descriptorWrites
        intro acc e
        split
        · simp
        · split
          · simp
          · rfl
      · simp

theorem descriptorBindings_silent (env : Env) (ns : Mirror) (ds : DescriptorSetObject)
    (l : List (Nat × DescriptorBinding)) (acc : DescriptorWrites) :
    Silent acc.sb (l.foldl (descriptorBindingStep env ns ds) acc).sb :=
  foldl_descriptorWrites_silent _ (descriptorBindingStep_silent env ns ds) l acc

/-- C22: for a descriptor set whose pool is in the new state, `createDescriptorSet` appends
`AllocateDescriptorSets` and one `UpdateDescriptorSets` whose writes are the writes of the
bindings in key order. For a binding of an image type (sampler `0`, combined image sampler
`1`, sampled image `2`, storage image `3`, input attachment `10`) these are the writes of
`expectedImageWrites`: one write for each array element that is valid in the new state
after `AllocateDescriptorSets`, in element order, each for that binding and that element
with `descriptorCount` 1; an element of a combined image sampler is valid when sampler and
image view are both non-zero and both in the new state, an element of another type when
one of them is non-zero and every non-zero one is in the new state. -/
theorem createDescriptorSet_image_writes (env : Env) (sb : stateBuilder)
    (ds : DescriptorSetObject)
    (hpool : Contains sb.newState.DescriptorPools ds.DescriptorPool = true) :
    ∃ (allocate : Cmd) (pieces : List (List VkWriteDescriptorSet)),
      allocate.call =
        .VkAllocateDescriptorSets ds.Device ds.DescriptorPool ds.Layout ds.VulkanHandle ∧
      (createDescriptorSet env sb ds).cmds[sb.cmds.length]? = some allocate ∧
      (createDescriptorSet env sb ds).calls = sb.calls ++
        [allocate.call,
          .VkUpdateDescriptorSets ds.Device pieces.flatten.length pieces.flatten] ∧
      List.Forall₂ (fun kb piece =>
          (kb.2.BindingType = 0 ∨ kb.2.BindingType = 1 ∨ kb.2.BindingType = 2 ∨
            kb.2.BindingType = 3 ∨ kb.2.BindingType = 10) →
          piece = expectedImageWrites (env.mutate allocate sb.newState).1 ds kb.1 kb.2)
        ds.Bindings pieces := by
  unfold createDescriptorSet
  simp only [hpool, Bool.not_true, Bool.false_eq_true, if_false]
  generalize hA : (MustAllocWriteData env _ (Value.handle ds.VulkanHandle)).2 = sb3
  have hcmds3 : sb3.cmds = sb.cmds := by rw [← hA]; rfl
  have hns3 : sb3.newState = sb.newState := by rw [← hA]; rfl
  have hsilent := descriptorBindings_silent env
    (write env sb3 (cb (.VkAllocateDescriptorSets ds.Device ds.DescriptorPool ds.Layout
      ds.VulkanHandle))).newState ds ds.Bindings
    { rows := [], writes := []
      sb := write env sb3 (cb (.VkAllocateDescriptorSets ds.Device ds.DescriptorPool
        ds.Layout ds.VulkanHandle)) }
  have hwrites := foldl_descriptorWrites _ _
    (descriptorBindingStep_writes env
      (write env sb3 (cb (.VkAllocateDescriptorSets ds.Device ds.DescriptorPool ds.Layout
        ds.VulkanHandle))).newState ds) ds.Bindings
    { rows := [], writes := []
      sb := write env sb3 (cb (.VkAllocateDescriptorSets ds.Device ds.DescriptorPool
        ds.Layout ds.VulkanHandle)) }
  simp only [List.nil_append] at hwrites
  have hcmds : ∀ (sbx : stateBuilder) (v : Value),
      (MustAllocReadData env sbx v).2.cmds = sbx.cmds := fun _ _ => rfl
  refine ⟨attachPending sb3
      (cb (.VkAllocateDescriptorSets ds.Device ds.DescriptorPool ds.Layout ds.VulkanHandle)),
    ds.Bindings.map (bindingWrites
      (write env sb3 (cb (.VkAllocateDescriptorSets ds.Device ds.DescriptorPool ds.Layout
        ds.VulkanHandle))).newState ds),
    attachPending_call _ _, ?_, ?_, ?_⟩
  · rw [write_cmds, hcmds, hsilent.1, write_cmds, hcmds3,
      List.getElem?_append_left (by simp), List.getElem?_concat_length]
  · unfold stateBuilder.calls
    rw [write_cmds, hcmds, hsilent.1, write_cmds, hcmds3, hwrites]
    simp only [List.map_append, List.map_singleton, List.map_cons, List.map_nil,
      attachPending_call, List.append_assoc, List.singleton_append]
    rfl
  · rw [write_newState, hns3]
    generalize (env.mutate _ sb.newState).1 = ns
    induction ds.Bindings with
    | nil => exact List.Forall₂.nil
    | cons kb l ih =>
      exact List.Forall₂.cons (fun ht => bindingWrites_image ns ds kb ht) ih

theorem createDescriptorSet_image_writes_witness :
    ∃ (allocate : Cmd) (pieces : List (List VkWriteDescriptorSet)),
      allocate.call = .VkAllocateDescriptorSets 3 30 32 31 ∧
      (createDescriptorSet refEnv builderWithPool exampleDescriptorSet).cmds[
        builderWithPool.cmds.length]? = some allocate ∧
      (createDescriptorSet refEnv builderWithPool exampleDescriptorSet).calls =
        builderWithPool.calls ++
          [allocate.call, .VkUpdateDescriptorSets 3 pieces.flatten.length pieces.flatten] ∧
      List.Forall₂ (fun kb piece =>
          (kb.2.BindingType = 0 ∨ kb.2.BindingType = 1 ∨ kb.2.BindingType = 2 ∨
            kb.2.BindingType = 3 ∨ kb.2.BindingType = 10) →
          piece = expectedImageWrites (refEnv.mutate allocate builderWithPool.newState).1
            exampleDescriptorSet kb.1 kb.2)
        exampleDescriptorSet.Bindings pieces :=
  createDescriptorSet_image_writes refEnv builderWithPool exampleDescriptorSet (by decide)

theorem createDescriptorSet_example :
    (createDescriptorSet refEnv builderWithPool exampleDescriptorSet).calls =
      [.VkAllocateDescriptorSets 3 30 32 31,
        .VkUpdateDescriptorSets 3 3
          [{ dstSet := 31, dstBinding := 0, dstArrayElement := 0, descriptorCount := 1,
             descriptorType := 1, pImageInfo := some ⟨20, 21, 5⟩, pBufferInfo := none,
             pTexelBufferView := none },
           { dstSet := 31, dstBinding := 2, dstArrayElement := 0, descriptorCount := 1,
             descriptorType := 2, pImageInfo := some ⟨0, 21, 5⟩, pBufferInfo := none,
             pTexelBufferView := none },
           { dstSet := 31, dstBinding := 2, dstArrayElement := 2, descriptorCount := 1,
             descriptorType := 2, pImageInfo := some ⟨20, 0, 5⟩, pBufferInfo := none,
             pTexelBufferView := none }]] := by
  decide

/-! ## Sparse resources without a sparse-capable queue (C26) -/

theorem createBuffer_nil_sparse_queue (env : Env) (s : State) (sb : stateBuilder)
    (buffer : BufferObject) (q : QueueObject)
    (hsparse : buffer.SparseMemoryBindings.length > 0)
    (hq : getQueueFor env.mapOrder (rangeId 1023 buffer.VulkanHandle) s
      buffer.LastBoundQueue buffer.Device (some buffer.Info.QueueFamilyIndices) = some q)
    (hsq : getSparseQueueFor env.mapOrder (rangeId 1034 buffer.VulkanHandle) s
      buffer.LastBoundQueue buffer.Device (some buffer.Info.QueueFamilyIndices) =
        some none) :
    createBuffer env s sb buffer = none := by
  unfold createBuffer bindAndFillBuffer bufferSparsePath
  simp [hsparse, hq, hsq]

theorem createImage_nil_sparse_queue (env : Env) (s : State) (sb : stateBuilder)
    (img : ImageObject) (q : QueueObject) (hswap : img.IsSwapchainImage = false)
    (hsparse : img.OpaqueSparseMemoryBindings.length > 0)
    (hq : getQueueFor env.mapOrder (rangeId 1349 img.VulkanHandle) s img.LastBoundQueue
      img.Device (some img.Info.QueueFamilyIndices) = some q)
    (hsq : getSparseQueueFor env.mapOrder (rangeId 1359 img.VulkanHandle) s
      img.LastBoundQueue img.Device (some img.Info.QueueFamilyIndices) = some none) :
    createImage env s sb img = none := by
  have hpath : imagePath env s (createImageAndMemory env sb img) img = none := by
    unfold imagePath imageSparsePath
    simp only [hsparse, hq, hsq, decide_True, Bool.true_or, if_true]
    cases createBoundMemories env s _ [] (createImageAndMemory env sb img) <;> rfl
  unfold createImage bindAndPrimeImage
  simp only [hswap, Bool.false_eq_true, if_false, hpath, hsparse, decide_True, Bool.or_true,
    Bool.not_true, Bool.and_false]

theorem getQueueFor_snapshotDenseBuffer (order : MapOrder) (n : Nat) (horder : order.Valid) :
    getQueueFor order n snapshotDenseBuffer none 3 (some []) = some ⟨4, 3, 0, 0⟩ := by
  unfold getQueueFor
  simp only [show snapshotDenseBuffer.Queues = [⟨4, 3, 0, 0⟩] from rfl,
    goRange_singleton order horder]
  decide

theorem getSparseQueueFor_snapshotDenseBuffer (order : MapOrder) (n : Nat)
    (horder : order.Valid) :
    getSparseQueueFor order n snapshotDenseBuffer none 3 (some []) = some none ∧
    getSparseQueueFor order n snapshotDenseBuffer (some ⟨4, 3, 0, 0⟩) 3 (some []) =
      some (some ⟨4, 3, 0, 0⟩) := by
  unfold getSparseQueueFor
  simp only [show snapshotDenseBuffer.Queues = [⟨4, 3, 0, 0⟩] from rfl,
    goRange_singleton order horder]
  constructor <;> decide

set_option maxRecDepth 20000 in
theorem createBuffer_non_sparse_queue_example :
    (createBuffer refEnv snapshotDenseBuffer (initialBuilder refFreeList)
        (exampleSparseBuffer (some ⟨4, 3, 0, 0⟩))).map (fun sb => sb.calls) =
      some
        [.VkCreateBuffer 3
            { pNext := none, flags := 3, size := 64, usage := 130, sharingMode := 0,
              queueFamilyIndexCount := 0, pQueueFamilyIndices := [] } 6,
          .VkGetBufferMemoryRequirements 3 6 { Size := 64, Alignment := 1, MemoryTypeBits := 3 },
          .VkQueueBindSparse 4 1
            { bufferBindCount := 1,
              pBufferBinds := some
                { resource := 6, bindCount := 1,
                  pBinds := [{ ResourceOffset := 0, Size := 64, Memory := 5, MemoryOffset := 0,
                               Flags := 0 }] },
              imageOpaqueBindCount := 0, pImageOpaqueBinds := none,
              imageBindCount := 0, pImageBinds := none } 0,
          .VkCreateBuffer 3
            { pNext := none, flags := 0, size := 64, usage := 1, sharingMode := 0,
              queueFamilyIndexCount := 0, pQueueFamilyIndices := [] } 1000,
          .VkAllocateMemory 3 { pNext := none, allocationSize := 256, memoryTypeIndex := 1 }
            1000,
          .VkBindBufferMemory 3 1000 1000 0,
          .VkMapMemory 3 1000 0 64 0 4096,
          .VkFlushMappedMemoryRanges 3 1 { memory := 1000, offset := 0, size := 64 },
          .VkUnmapMemory 3 1000,
          .VkCreateCommandPool 3 0 0 1000,
          .VkAllocateCommandBuffers 3 1000 0 1 1000,
          .VkBeginCommandBuffer 1000 0 none,
          .VkCmdPipelineBarrier 1000 65536 65536 0 [bufferBarrier 0 0 1000 64] [],
          .VkCmdCopyBuffer 1000 1000 6 1 [{ srcOffset := 0, dstOffset := 0, size := 64 }],
          .VkCmdPipelineBarrier 1000 65536 65536 0 [bufferBarrier 0 0 6 64] [],
          .VkEndCommandBuffer 1000,
          .VkQueueSubmit 4 1
            { commandBufferCount := 1, pCommandBuffers := [1000], signalSemaphoreCount := 0,
              pSignalSemaphores := [] } 0,
          .VkQueueWaitIdle 4,
          .VkDestroyCommandPool 3 1000,
          .VkDestroyBuffer 3 1000,
          .VkFreeMemory 3 1000] := by
  decide

/-- C26 fails in the code. When `getQueueFor` yields a queue and `getSparseQueueFor` yields
the nil queue, `createBuffer` and `createImage` call an accessor of the nil queue for a
resource with sparse bindings: the builder fails. For the snapshot `snapshotDenseBuffer`,
whose only queue `4` is of a family without `SPARSE_BINDING`, this happens for the buffer
and the image that were never bound to a queue; for the buffer and the image last bound to
the queue `4`, `getSparseQueueFor` yields the queue `4`, and the builders emit
`QueueBindSparse` on it and prime the resource: the buffer by a staging buffer, a copy and
a submit, the image by the method of the image primer (which appends `QueueWaitIdle(0)` in
`markingEnv`). -/
theorem sparse_resource_without_sparse_queue :
    (∀ (env : Env) (s : State) (sb : stateBuilder) (buffer : BufferObject) (q : QueueObject),
      buffer.SparseMemoryBindings.length > 0 →
      getQueueFor env.mapOrder (rangeId 1023 buffer.VulkanHandle) s buffer.LastBoundQueue
        buffer.Device (some buffer.Info.QueueFamilyIndices) = some q →
      getSparseQueueFor env.mapOrder (rangeId 1034 buffer.VulkanHandle) s
        buffer.LastBoundQueue buffer.Device (some buffer.Info.QueueFamilyIndices) =
          some none →
      createBuffer env s sb buffer = none) ∧
    (∀ (env : Env) (s : State) (sb : stateBuilder) (img : ImageObject) (q : QueueObject),
      img.IsSwapchainImage = false → img.OpaqueSparseMemoryBindings.length > 0 →
      getQueueFor env.mapOrder (rangeId 1349 img.VulkanHandle) s img.LastBoundQueue
        img.Device (some img.Info.QueueFamilyIndices) = some q →
      getSparseQueueFor env.mapOrder (rangeId 1359 img.VulkanHandle) s img.LastBoundQueue
        img.Device (some img.Info.QueueFamilyIndices) = some none →
      createImage env s sb img = none) ∧
    deviceQueueProperties snapshotDenseBuffer 3 = some [(0, { QueueFlags := 7 })] ∧
    hasSparseBinding [(0, { QueueFlags := 7 })] 0 = false ∧
    (∀ (order : MapOrder) (n : Nat), order.Valid →
      getQueueFor order n snapshotDenseBuffer none 3 (some []) = some ⟨4, 3, 0, 0⟩) ∧
    (∀ (order : MapOrder) (n : Nat), order.Valid →
      getSparseQueueFor order n snapshotDenseBuffer none 3 (some []) = some none) ∧
    createBuffer refEnv snapshotDenseBuffer (initialBuilder refFreeList)
      (exampleSparseBuffer none) = none ∧
    createImage refEnv snapshotDenseBuffer (initialBuilder refFreeList)
      (exampleSparseImageOn none) = none ∧
    (∀ (order : MapOrder) (n : Nat), order.Valid →
      getSparseQueueFor order n snapshotDenseBuffer (some ⟨4, 3, 0, 0⟩) 3 (some []) =
        some (some ⟨4, 3, 0, 0⟩)) ∧
    (createBuffer refEnv snapshotDenseBuffer (initialBuilder refFreeList)
        (exampleSparseBuffer (some ⟨4, 3, 0, 0⟩))).map (fun sb => sb.calls) =
      some
        [.VkCreateBuffer 3
            { pNext := none, flags := 3, size := 64, usage := 130, sharingMode := 0,
              queueFamilyIndexCount := 0, pQueueFamilyIndices := [] } 6,
          .VkGetBufferMemoryRequirements 3 6 { Size := 64, Alignment := 1, MemoryTypeBits := 3 },
          .VkQueueBindSparse 4 1
            { bufferBindCount := 1,
              pBufferBinds := some
                { resource := 6, bindCount := 1,
                  pBinds := [{ ResourceOffset := 0, Size := 64, Memory := 5, MemoryOffset := 0,
                               Flags := 0 }] },
              imageOpaqueBindCount := 0, pImageOpaqueBinds := none,
              imageBindCount := 0, pImageBinds := none } 0,
          .VkCreateBuffer 3
            { pNext := none, flags := 0, size := 64, usage := 1, sharingMode := 0,
              queueFamilyIndexCount := 0, pQueueFamilyIndices := [] } 1000,
          .VkAllocateMemory 3 { pNext := none, allocationSize := 256, memoryTypeIndex := 1 }
            1000,
          .VkBindBufferMemory 3 1000 1000 0,
          .VkMapMemory 3 1000 0 64 0 4096,
          .VkFlushMappedMemoryRanges 3 1 { memory := 1000, offset := 0, size := 64 },
          .VkUnmapMemory 3 1000,
          .VkCreateCommandPool 3 0 0 1000,
          .VkAllocateCommandBuffers 3 1000 0 1 1000,
          .VkBeginCommandBuffer 1000 0 none,
          .VkCmdPipelineBarrier 1000 65536 65536 0 [bufferBarrier 0 0 1000 64] [],
          .VkCmdCopyBuffer 1000 1000 6 1 [{ srcOffset := 0, dstOffset := 0, size := 64 }],
          .VkCmdPipelineBarrier 1000 65536 65536 0 [bufferBarrier 0 0 6 64] [],
          .VkEndCommandBuffer 1000,
          .VkQueueSubmit 4 1
            { commandBufferCount := 1, pCommandBuffers := [1000], signalSemaphoreCount := 0,
              pSignalSemaphores := [] } 0,
          .VkQueueWaitIdle 4,
          .VkDestroyCommandPool 3 1000,
          .VkDestroyBuffer 3 1000,
          .VkFreeMemory 3 1000] ∧
    (createImage markingEnv snapshotDenseBuffer (initialBuilder refFreeList)
        (exampleSparseImageOn (some ⟨4, 3, 0, 0⟩))).map (fun sb => sb.calls) =
      some
        [.VkCreateImage 3 (exampleSparseImageOn (some ⟨4, 3, 0, 0⟩)).Info 8,
          .VkGetImageMemoryRequirements 3 8 {},
          .VkQueueBindSparse 4 1
            { bufferBindCount := 0, pBufferBinds := none, imageOpaqueBindCount := 1,
              pImageOpaqueBinds := some
                { resource := 8, bindCount := 1,
                  pBinds := [{ ResourceOffset := 0, Size := 64, Memory := 5, MemoryOffset := 0,
                               Flags := 0 }] },
              imageBindCount := 0,
              pImageBinds := some { image := 8, bindCount := 0, pBinds := [] } } 0,
          .VkQueueWaitIdle 0] := by
  refine ⟨createBuffer_nil_sparse_queue, createImage_nil_sparse_queue, by decide, by decide,
    getQueueFor_snapshotDenseBuffer,
    fun order n horder => (getSparseQueueFor_snapshotDenseBuffer order n horder).1, ?_, ?_,
    fun order n horder => (getSparseQueueFor_snapshotDenseBuffer order n horder).2,
    createBuffer_non_sparse_queue_example, by decide⟩
  · exact createBuffer_nil_sparse_queue refEnv snapshotDenseBuffer _ (exampleSparseBuffer none)
      ⟨4, 3, 0, 0⟩ (by decide) (by decide) (by decide)
  · exact createImage_nil_sparse_queue refEnv snapshotDenseBuffer _ (exampleSparseImageOn none)
      ⟨4, 3, 0, 0⟩ rfl (by decide) (by decide) (by decide)

/-! ## The copy regions of the sparse path of `createBuffer` (C30) -/

theorem nextMultipleOf8_eq (v : Nat) (h : v + 7 < U64) : nextMultipleOf8 v = (v + 7) / 8 * 8 := by
  unfold nextMultipleOf8
  unfold U64 at *
  rw [Nat.mod_eq_of_lt h]
  have := and_clear_low_bits (v + 7) 3 h (by decide)
  rw [show (2:Nat) ^ 64 - 1 - 7 = 2 ^ 64 - 2 ^ 3 from by decide, this,
    show (2:Nat) ^ 3 = 8 from by decide]

theorem sparseBindingSteps_two (s : State) (b1 b2 : VkSparseMemoryBind)
    (m1 m2 : DeviceMemoryObject) (h1 : s.DeviceMemory b1.Memory = some m1)
    (h2 : s.DeviceMemory b2.Memory = some m2) :
    foldlOption (sparseBindingStep s) { contents := [], copies := [], offset := 0 } [b1, b2] =
      some
        { contents :=
            Slice m1.Data b1.MemoryOffset ((b1.MemoryOffset + b1.Size) % U64) ++
              Slice m2.Data b2.MemoryOffset ((b2.MemoryOffset + b2.Size) % U64)
          copies :=
            [{ srcOffset := 0, dstOffset := b1.ResourceOffset, size := b1.Size },
              { srcOffset := nextMultipleOf8 ((0 + b1.Size) % U64),
                dstOffset := b2.ResourceOffset, size := b2.Size }]
          offset :=
            nextMultipleOf8 ((nextMultipleOf8 ((0 + b1.Size) % U64) + b2.Size) % U64) } := by
  simp [foldlOption, sparseBindingStep, h1, h2]

/-- C30 fails in the code: the loop of the sparse path of `createBuffer` appends the bytes
of each binding to `contents` without padding, but rounds the source offset of the next
copy region up to a multiple of 8. For two bindings whose memories are in the snapshot,
without overflow, the first of a size that is not a multiple of 8, the loop records the
second copy region at the source offset `nextMultipleOf8(size1)`, which is greater than
`size1`, where the bytes of the second binding start in `contents`, and the source range of
the second region ends after the end of `contents`:
`srcOffset + size > len(contents)`. -/
theorem sparse_copy_source_outside_contents (s : State) (b1 b2 : VkSparseMemoryBind)
    (m1 m2 : DeviceMemoryObject) (h1 : s.DeviceMemory b1.Memory = some m1)
    (h2 : s.DeviceMemory b2.Memory = some m2) (hsize : b1.Size + 7 < U64)
    (hr1 : b1.MemoryOffset + b1.Size < U64) (hr2 : b2.MemoryOffset + b2.Size < U64)
    (hodd : b1.Size % 8 ≠ 0) :
    ∃ r, foldlOption (sparseBindingStep s) { contents := [], copies := [], offset := 0 }
        [b1, b2] = some r ∧
      r.contents = Slice m1.Data b1.MemoryOffset (b1.MemoryOffset + b1.Size) ++
        Slice m2.Data b2.MemoryOffset (b2.MemoryOffset + b2.Size) ∧
      r.contents.length = b1.Size + b2.Size ∧
      r.copies =
        [{ srcOffset := 0, dstOffset := b1.ResourceOffset, size := b1.Size },
          { srcOffset := nextMultipleOf8 b1.Size, dstOffset := b2.ResourceOffset,
            size := b2.Size }] ∧
      b1.Size < nextMultipleOf8 b1.Size ∧
      r.contents.length < nextMultipleOf8 b1.Size + b2.Size := by
  have hlt : b1.Size < U64 := by omega
  have hnext : b1.Size < nextMultipleOf8 b1.Size := by
    rw [nextMultipleOf8_eq _ hsize]
    omega
  refine ⟨_, sparseBindingSteps_two s b1 b2 m1 m2 h1 h2, ?_, ?_, ?_, hnext, ?_⟩
  · simp only [Nat.mod_eq_of_lt hr1, Nat.mod_eq_of_lt hr2]
  · simp only [Nat.mod_eq_of_lt hr1, Nat.mod_eq_of_lt hr2, List.length_append, Slice_length]
    omega
  · simp only [Nat.zero_add, Nat.mod_eq_of_lt hlt]
  · simp only [Nat.mod_eq_of_lt hr1, Nat.mod_eq_of_lt hr2, List.length_append, Slice_length]
    omega

theorem sparse_copy_source_outside_contents_witness :
    ∃ r, foldlOption (sparseBindingStep snapshotSparseCapable)
        { contents := [], copies := [], offset := 0 }
        [{ ResourceOffset := 0, Size := 3, Memory := 5, MemoryOffset := 0, Flags := 0 },
          { ResourceOffset := 8, Size := 5, Memory := 5, MemoryOffset := 32, Flags := 0 }] =
        some r ∧
      r.contents = Slice exampleMemory.Data 0 (0 + 3) ++ Slice exampleMemory.Data 32 (32 + 5) ∧
      r.contents.length = 3 + 5 ∧
      r.copies =
        [{ srcOffset := 0, dstOffset := 0, size := 3 },
          { srcOffset := nextMultipleOf8 3, dstOffset := 8, size := 5 }] ∧
      3 < nextMultipleOf8 3 ∧
      r.contents.length < nextMultipleOf8 3 + 5 :=
  sparse_copy_source_outside_contents snapshotSparseCapable
    { ResourceOffset := 0, Size := 3, Memory := 5, MemoryOffset := 0, Flags := 0 }
    { ResourceOffset := 8, Size := 5, Memory := 5, MemoryOffset := 32, Flags := 0 }
    exampleMemory exampleMemory rfl rfl (by decide) (by decide) (by decide) (by decide)

set_option maxRecDepth 20000 in
theorem createBuffer_two_bindings_example :
    ∃ calls, (createBuffer refEnv snapshotSparseCapable (initialBuilder refFreeList)
        exampleTwoBindingsBuffer).map (fun sb => sb.calls) = some calls ∧
      VkCall.VkCreateBuffer 3
        { pNext := none, flags := 0, size := 8, usage := 1, sharingMode := 0,
          queueFamilyIndexCount := 0, pQueueFamilyIndices := [] } 1000 ∈ calls ∧
      VkCall.VkCmdCopyBuffer 1000 1000 6 2
        [{ srcOffset := 0, dstOffset := 0, size := 3 },
          { srcOffset := 8, dstOffset := 8, size := 5 }] ∈ calls :=
  ⟨_, rfl, by decide, by decide⟩

/-! ## Memories that are allocated twice (C29) -/

theorem allocatedMemories_append (a b : List VkCall) :
    allocatedMemories (a ++ b) = allocatedMemories a ++ allocatedMemories b := by
  unfold allocatedMemories
  rw [List.filterMap_append]

theorem createDeviceMemory_emits (env : Env) {sb0 sb1 : stateBuilder} {l : List Cmd}
    (mem : DeviceMemoryObject) (allowDedicatedNV : Bool)
    (hm : mem.DedicatedAllocationNV = none) (h : Emits sb0 sb1 l) :
    Emits sb0 (createDeviceMemory env sb1 mem allowDedicatedNV) (l ++
      (cb (.VkAllocateMemory mem.Device
          { pNext := none, allocationSize := mem.AllocationSize,
            memoryTypeIndex := mem.MemoryTypeIndex } mem.VulkanHandle) ::
        if mem.MappedLocation ≠ 0 then
          [cb (.VkMapMemory mem.Device mem.VulkanHandle mem.MappedOffset mem.MappedSize 0
            mem.MappedLocation)]
        else [])) := by
  unfold createDeviceMemory
  simp only [hm, Option.isSome_none, Bool.and_false, Bool.false_eq_true, if_false]
  have h1 : Emits sb0
      (write env
        (MustAllocWriteData env
          (MustAllocReadData env sb1
            (.record "VkMemoryAllocateInfo" [5, 0, mem.AllocationSize, mem.MemoryTypeIndex])).2
          (.handle mem.VulkanHandle)).2
        (cb (.VkAllocateMemory mem.Device
          { pNext := none, allocationSize := mem.AllocationSize,
            memoryTypeIndex := mem.MemoryTypeIndex } mem.VulkanHandle)))
      (l ++ [cb (.VkAllocateMemory mem.Device
          { pNext := none, allocationSize := mem.AllocationSize,
            memoryTypeIndex := mem.MemoryTypeIndex } mem.VulkanHandle)]) :=
    Emits.afterWrite env _ (Emits.afterAllocWrite env _ (Emits.afterAllocRead env _ h))
  by_cases hmap : mem.MappedLocation ≠ 0
  · simp only [if_pos hmap]
    apply Emits.cast (Emits.afterWrite env _ (Emits.afterAllocWrite env _ h1))
    simp
  · simp only [if_neg hmap]
    exact h1

theorem allocatedMemories_createDeviceMemory (env : Env) (sb : stateBuilder)
    (mem : DeviceMemoryObject) (allowDedicatedNV : Bool)
    (hm : mem.DedicatedAllocationNV = none) :
    allocatedMemories (createDeviceMemory env sb mem allowDedicatedNV).calls =
      allocatedMemories sb.calls ++ [mem.VulkanHandle] := by
  rw [(createDeviceMemory_emits env mem allowDedicatedNV hm (Emits.none sb)).calls_eq,
    allocatedMemories_append]
  congr 1
  by_cases hmap : mem.MappedLocation ≠ 0
  · simp only [List.nil_append, if_pos hmap]
    rfl
  · simp only [List.nil_append, if_neg hmap]
    rfl

theorem allocatedMemories_createBufferAndMemory (env : Env) (sb : stateBuilder)
    (buffer : BufferObject) (memory : DeviceMemoryObject) (d : Nat)
    (hmem : buffer.Memory = some memory) (hb : buffer.Info.DedicatedAllocationNV = some d)
    (hm : memory.DedicatedAllocationNV = none) :
    allocatedMemories (createBufferAndMemory env sb buffer).calls =
      allocatedMemories sb.calls ++ [memory.VulkanHandle] := by
  unfold createBufferAndMemory
  simp only [hmem, hb, Option.isSome_some, Bool.true_or, if_true]
  have h0 : ∀ (sbx : stateBuilder) (v : Value),
      (MustAllocWriteData env sbx v).2.calls = sbx.calls := fun _ _ => rfl
  have h1 : (allocBuffer env sb buffer).calls = sb.calls := by
    unfold allocBuffer
    rw [hb]
    rfl
  rw [allocatedMemories_createDeviceMemory env _ memory true hm, write_calls, h0, write_calls,
    h1, allocatedMemories_append, allocatedMemories_append]
  simp [allocatedMemories, cb]

set_option maxRecDepth 40000 in
theorem RebuildState_allocations_example :
    (RebuildState refEnv storedOrder storedOrder 1 refFreeList snapshotDedicatedBuffer).map
        (fun r => allocatedMemories (r.1.map (fun c => c.call))) = some [5, 5, 1000] ∧
    (RebuildState refEnv storedOrder storedOrder 1 refFreeList snapshotDedicatedImage).map
        (fun r => allocatedMemories (r.1.map (fun c => c.call))) = some [5, 5] ∧
    (RebuildState refEnv storedOrder storedOrder 1 refFreeList
        snapshotDedicatedSparseBuffer).map
        (fun r => allocatedMemories (r.1.map (fun c => c.call))) = some [5, 5, 1000] ∧
    (RebuildState refEnv storedOrder storedOrder 1 refFreeList snapshotDenseBuffer).map
        (fun r => allocatedMemories (r.1.map (fun c => c.call))) = some [5, 1000] := by
  refine ⟨by decide, by decide, by decide, by decide⟩

/-- C29 fails in the code: a memory without dedicated allocation info is allocated by the
pass over the device memories (`createDeviceMemory` with `allowDedicatedNV` false) and
again by `createBuffer` when the info of its buffer carries dedicated allocation info
(the same holds for `createImage`, and for the memories of the sparse bindings of a buffer
with dedicated allocation info). In the streams of `RebuildState` for the snapshots
`snapshotDedicatedBuffer`, `snapshotDedicatedImage` and `snapshotDedicatedSparseBuffer` the
memory `5` is the target of two `AllocateMemory` calls (`1000` is the memory of the staging
buffer), while it is the target of one in the stream for `snapshotDenseBuffer`. -/
theorem memory_allocated_twice :
    (∀ (env : Env) (sb sb1 : stateBuilder) (buffer : BufferObject)
        (memory : DeviceMemoryObject) (d : Nat),
      buffer.Memory = some memory → buffer.Info.DedicatedAllocationNV = some d →
      memory.DedicatedAllocationNV = none →
      allocatedMemories (createDeviceMemory env sb memory false).calls =
          allocatedMemories sb.calls ++ [memory.VulkanHandle] ∧
        allocatedMemories (createBufferAndMemory env sb1 buffer).calls =
          allocatedMemories sb1.calls ++ [memory.VulkanHandle]) ∧
    (RebuildState refEnv storedOrder storedOrder 1 refFreeList snapshotDedicatedBuffer).map
        (fun r => allocatedMemories (r.1.map (fun c => c.call))) = some [5, 5, 1000] ∧
    (RebuildState refEnv storedOrder storedOrder 1 refFreeList snapshotDedicatedImage).map
        (fun r => allocatedMemories (r.1.map (fun c => c.call))) = some [5, 5] ∧
    (RebuildState refEnv storedOrder storedOrder 1 refFreeList
        snapshotDedicatedSparseBuffer).map
        (fun r => allocatedMemories (r.1.map (fun c => c.call))) = some [5, 5, 1000] ∧
    (RebuildState refEnv storedOrder storedOrder 1 refFreeList snapshotDenseBuffer).map
        (fun r => allocatedMemories (r.1.map (fun c => c.call))) = some [5, 1000] := by
  refine ⟨?_, RebuildState_allocations_example⟩
  intro env sb sb1 buffer memory d hmem hb hm
  exact ⟨allocatedMemories_createDeviceMemory env sb memory false hm,
    allocatedMemories_createBufferAndMemory env sb1 buffer memory d hmem hb hm⟩

end Vulkan
